import Mathlib

/-!
Verification of the chained-BFT SMR core specification against the repository.

The repository sources available here are the end-to-end SMR test harness
(`consensus/src/chained_bft/chained_bft_smr_test.rs`) and the swarm launcher
(`libra_swarm/src/swarm.rs`).  The consensus core itself (block tree, safety
rules, pacemaker, event processor, retrieval/state-sync) is exercised by the
tests but its implementation is not part of the sources; it is therefore
modelled here from the specification (sections 3 to 7), and the end-to-end
scenarios S1-S7 are replayed as deterministic schedules of the modelled
protocol.  `wait_for_connectivity` and `check_connectivity` are embedded
directly from `libra_swarm/src/swarm.rs`.
-/

namespace ChainedBFT

/-- Modelled from the spec: an author is an opaque validator identifier
(spec section 3, "Author"); validators are numbered 0..n-1 in the order the
test harness creates them (`ValidatorSigner::from_int(smr_id)`). -/
abbrev Author := Nat

/-- Modelled from the spec: block ids are content hashes,
`id = H(round, parent_id, author, payload, qc)` (spec section 3, "Block").
Hashing is modelled by a constructor keyed on the block's round, author,
payload and the certified round of its quorum certificate.  In every
schedule replayed here the remaining hashed fields (`parent_id` and the
rest of the QC) are uniquely determined by this key - a proposer never
produces two blocks for one round - so distinct blocks of a run receive
distinct ids, as an injective content hash would give them. -/
inductive BlockId where
  | genesisId : BlockId
  | contentHash (round : Nat) (author : Option Author)
      (payload : Nat) (qcCertifiedRound : Nat) : BlockId
deriving DecidableEq, Repr

/-- Modelled from the spec: the ledger info carried by votes and quorum
certificates, designating the committable ancestor (possibly none)
(spec section 3, "Quorum Certificate", "Vote"). -/
structure LedgerInfo where
  consensus_block_id : Option BlockId
  commit_round : Nat
deriving DecidableEq, Repr

/-- Modelled from the spec: a signature over a ledger info.  Cryptographic
signing is modelled by recording the signer and the signed content; a
signature verifies iff the recorded content matches and the signer belongs
to the epoch's validator set (spec section 2, "Crypto proxies"). -/
structure Signature where
  signer : Author
  signed_ledger_info : LedgerInfo
deriving DecidableEq, Repr

/-- Modelled from the spec: a quorum certificate: certified block id, round
and height, the round of the certified block's parent (used by the safety
rules' `preferred_round` update), the embedded ledger info for the
committable ancestor, and the signature set (spec section 3). -/
structure QuorumCert where
  certified_block_id : BlockId
  certified_block_round : Nat
  certified_block_height : Nat
  certified_parent_round : Nat
  ledger_info : LedgerInfo
  signatures : List Signature
deriving DecidableEq, Repr

/-- Modelled from the spec: a block of the chain (spec section 3, "Block").
The payload is an opaque sequence of transactions of which only the size is
observable in the scenarios; it is modelled by its transaction count, zero
for NIL blocks.  `author` is `none` for NIL blocks. -/
structure Block where
  id : BlockId
  round : Nat
  height : Nat
  parent_id : BlockId
  author : Option Author
  payload : Nat
  quorum_cert : QuorumCert
deriving DecidableEq, Repr

/-- Modelled from the spec: a vote message: voted block id, round, the
executed-state summary (modelled by the block height and parent data needed
to assemble a QC) and the ledger info the voter proposes to commit
(spec section 3, "Vote"). -/
structure VoteMsg where
  author : Author
  block_id : BlockId
  round : Nat
  height : Nat
  parent_block_id : BlockId
  parent_round : Nat
  ledger_info : LedgerInfo
deriving DecidableEq, Repr

/-- Modelled from the spec: the sync-info bundle attached to most messages
(spec section 3, "SyncInfo"). -/
structure SyncInfo where
  highest_quorum_cert : QuorumCert
  highest_commit_cert : QuorumCert
deriving DecidableEq, Repr

/-- Modelled from the spec: a timeout message: round, the sender, an
optional piggybacked vote for the current round, and the sender's sync info
(spec section 3, "TimeoutMessage"). -/
structure TimeoutMsg where
  author : Author
  round : Nat
  piggyback_vote : Option VoteMsg
  sync_info : SyncInfo
deriving DecidableEq, Repr

/-- Modelled from the spec: a committed ledger info together with the
signature set proving finality (the test harness type
`LedgerInfoWithSignatures`). -/
structure LedgerInfoWithSignatures where
  ledger_info : LedgerInfo
  signatures : List Signature
deriving DecidableEq, Repr

/-- Modelled from the spec: typed network messages (spec section 6,
"Network"). -/
inductive Msg where
  | proposal (block : Block) (sync_info : SyncInfo) : Msg
  | vote (v : VoteMsg) : Msg
  | timeout (t : TimeoutMsg) : Msg
  | retrievalReq (block_id : BlockId) (num_blocks : Nat) : Msg
  | retrievalResp (blocks : List Block) : Msg
deriving DecidableEq, Repr

/-- The proposer election variants recognized by the configuration
(`config::ConsensusProposerType` in the test harness imports). -/
inductive ConsensusProposerType where
  | FixedProposer : ConsensusProposerType
  | RotatingProposer : ConsensusProposerType
  | MultipleOrderedProposers : ConsensusProposerType
deriving DecidableEq, Repr

/-- The SMR configuration used by the test harness (`ChainedBftSMRConfig`):
the tests run with `contiguous_rounds = 2` and `max_block_size = 50`. -/
structure Config where
  num_nodes : Nat
  quorum_size : Nat
  proposer_type : ConsensusProposerType
  contiguous_rounds : Nat
  max_block_size : Nat
deriving DecidableEq, Repr

/-- The epoch's validator set: authors `0..n-1`
(spec section 3, "Epoch / validator-set manager"). -/
def validators (cfg : Config) : List Author :=
  List.range cfg.num_nodes

/-- Signature verification under the epoch's validator verifier: the
recorded signer must be the claimed author, the signed content must be the
ledger info being checked, and the author must belong to the validator set
(test harness `verify_finality_proof`, spec section 2 "Crypto proxies"). -/
def verify_signature (cfg : Config) (author : Author) (li : LedgerInfo)
    (sig : Signature) : Bool :=
  decide (sig.signer = author) && decide (sig.signed_ledger_info = li) &&
    decide (author ∈ validators cfg)

/-- The check performed by the test harness `verify_finality_proof`: every
`(author, signature)` pair of a committed `LedgerInfoWithSignatures`
verifies against its ledger info under the epoch's validator verifier. -/
def verify_finality_proof (cfg : Config) (l : LedgerInfoWithSignatures) : Bool :=
  l.signatures.all (fun sig => verify_signature cfg sig.signer l.ledger_info sig)

/-- Modelled from the spec: deterministic proposer election
`leaders(round) -> ordered list of authors` (spec section 4.4).  `Fixed`
always elects validator 0 (the harness passes `vec![peers[0]]`); `Rotating`
is round-robin with a streak of `contiguous_rounds`; `MultipleOrdered`
elects a primary and one ordered secondary, rotating per round. -/
def leaders (cfg : Config) (round : Nat) : List Author :=
  match cfg.proposer_type with
  | ConsensusProposerType.FixedProposer => [0]
  | ConsensusProposerType.RotatingProposer =>
      [(round / cfg.contiguous_rounds) % cfg.num_nodes]
  | ConsensusProposerType.MultipleOrderedProposers =>
      [round % cfg.num_nodes, (round + 1) % cfg.num_nodes]

/-- The primary proposer of a round (head of the ordered leader list). -/
def primary (cfg : Config) (round : Nat) : Author :=
  (leaders cfg round).headD 0

/-- The genesis ledger info sentinel (spec section 3: the QC ledger info is
"possibly the genesis sentinel"). -/
def genesisLedgerInfo : LedgerInfo :=
  { consensus_block_id := some BlockId.genesisId, commit_round := 0 }

/-- The genesis quorum certificate: certifies genesis at round 0 with an
empty signature set. -/
def genesisQC : QuorumCert :=
  { certified_block_id := BlockId.genesisId
    certified_block_round := 0
    certified_block_height := 0
    certified_parent_round := 0
    ledger_info := genesisLedgerInfo
    signatures := [] }

/-- The genesis block: round 0, height 0, its own parent. -/
def genesisBlock : Block :=
  { id := BlockId.genesisId
    round := 0
    height := 0
    parent_id := BlockId.genesisId
    author := none
    payload := 0
    quorum_cert := genesisQC }

/-- Modelled from the spec: content hashing of a block
(spec section 3: `id = H(round, parent_id, author, payload, qc)`). -/
def mkBlockId (round : Nat) (author : Option Author)
    (payload : Nat) (qc : QuorumCert) : BlockId :=
  BlockId.contentHash round author payload qc.certified_block_round

/-- Modelled from the spec: assembling a block on top of a parent certified
by `qc` (spec section 3: `height = parent.height + 1`). -/
def mkBlock (parent : Block) (round : Nat) (author : Option Author)
    (payload : Nat) (qc : QuorumCert) : Block :=
  { id := mkBlockId round author payload qc
    round := round
    height := parent.height + 1
    parent_id := parent.id
    author := author
    payload := payload
    quorum_cert := qc }

/-- Modelled from the spec: the bookkeeping of an in-flight block retrieval
or state sync (spec section 4.6): the requested ancestor id, the sync
target certificate when the gap is long (none for a plain retrieval), the
suspended proposal to resume once blocks arrive, and the remaining peers to
query in priority order on retry. -/
structure PendingFetch where
  target_id : BlockId
  num_blocks : Nat
  sync_cert : Option QuorumCert
  suspended : Option (Block × SyncInfo)
  peers : List Author
deriving DecidableEq, Repr

/-- Modelled from the spec: the whole consensus state owned by one
replica's event loop: the block tree rooted at the last committed block
(section 4.1), the pacemaker round state (section 4.3), the durable safety
state (sections 3 and 4.2), vote/timeout aggregation (section 4.5),
retrieval state (section 4.6), and the executor/mempool observation
channels of the test harness (commit callbacks and committed
transactions). -/
structure NodeState where
  author : Author
  blocks : List Block
  root_id : BlockId
  highest_quorum_cert : QuorumCert
  highest_commit_cert : QuorumCert
  current_round : Nat
  last_voted_round : Nat
  preferred_round : Nat
  last_vote : Option VoteMsg
  pending_votes : List VoteMsg
  pending_timeouts : List (Nat × Author)
  highest_tc_round : Nat
  pending_secondary : Option (Block × SyncInfo)
  pending_fetch : Option PendingFetch
  commits : List LedgerInfoWithSignatures
  committed_txns : Nat
deriving DecidableEq, Repr

/-- `get_block` of the block tree (spec section 4.1). -/
def get_block (st : NodeState) (id : BlockId) : Option Block :=
  st.blocks.find? (fun b => b.id = id)

/-- The root of the block tree (the last committed block). -/
def rootBlock (st : NodeState) : Block :=
  (get_block st st.root_id).getD genesisBlock

/-- The block certified by the replica's highest quorum certificate
(`highest_certified_block()` of spec section 4.1). -/
def highest_certified_block (st : NodeState) : Block :=
  (get_block st st.highest_quorum_cert.certified_block_id).getD genesisBlock

/-- The ancestor chain of `id`, newest first, walking parent links for at
most `fuel` steps and stopping at genesis or at a missing parent.  This is
`path_from_root` read downward (spec section 4.1). -/
def chainDown (blocks : List Block) : Nat → BlockId → List Block
  | 0, _ => []
  | Nat.succ fuel, id =>
    match blocks.find? (fun b => b.id = id) with
    | none => []
    | some b =>
      if b.parent_id = b.id then [b]
      else b :: chainDown blocks fuel b.parent_id

/-- Whether `anc` occurs on the ancestor chain of `id` (including `id`
itself). -/
def isAncestor (blocks : List Block) (anc : BlockId) (id : BlockId) : Bool :=
  (chainDown blocks blocks.length id).any (fun b => b.id = anc)

/-- Modelled from the spec: the error kinds of `insert_block`
(spec section 4.1). -/
inductive InsertError where
  | MissingParent : InsertError
  | StaleBlock : InsertError
  | Duplicate : InsertError
deriving DecidableEq, Repr

/-- Modelled from the spec: `insert_block` requires the parent present,
`block.round > parent.round`, the certified block of the block's QC
present, and the block not already inserted (spec section 4.1). -/
def insert_block (st : NodeState) (b : Block) : Except InsertError NodeState :=
  match get_block st b.parent_id with
  | none => Except.error InsertError.MissingParent
  | some parent =>
    if b.round ≤ parent.round then Except.error InsertError.StaleBlock
    else if (get_block st b.id).isSome then Except.error InsertError.Duplicate
    else if (get_block st b.quorum_cert.certified_block_id).isNone then
      Except.error InsertError.MissingParent
    else Except.ok { st with blocks := st.blocks ++ [b] }

/-- `insert_block`, ignoring a failed insertion (used when re-admitting
retrieved blocks that may already be present). -/
def insertBlockIfOk (st : NodeState) (b : Block) : NodeState :=
  match insert_block st b with
  | Except.ok st1 => st1
  | Except.error _ => st

/-- Modelled from the spec: the commit step of the block tree
(spec sections 3 "Lifecycle" and 4.1 "Commit"): when an inserted QC's
embedded ledger info points at a present block above the root, that block
becomes the new root, one commit event carrying the QC's ledger info and
signatures is emitted, the mempool is notified of the payloads on the path
from the old root, and every branch not through the new root is pruned. -/
def commitIfNeeded (st : NodeState) (qc : QuorumCert) : NodeState :=
  match qc.ledger_info.consensus_block_id with
  | none => st
  | some bid =>
    match get_block st bid with
    | none => st
    | some b =>
      if b.round ≤ (rootBlock st).round then st
      else
        let path := chainDown st.blocks st.blocks.length b.id
        let newlyCommitted := path.takeWhile (fun c => st.root_id ≠ c.id)
        { st with
          root_id := b.id
          blocks := st.blocks.filter (fun c => isAncestor st.blocks b.id c.id)
          highest_commit_cert := qc
          commits := st.commits ++ [{ ledger_info := qc.ledger_info
                                      signatures := qc.signatures }]
          committed_txns :=
            st.committed_txns + (newlyCommitted.map Block.payload).foldl Nat.add 0 }

/-- Modelled from the spec: `insert_qc` requires the certified block to be
present; it updates `highest_quorum_cert` iff the new QC certifies a
strictly higher round, and may advance `highest_commit_cert` and commit via
the QC's embedded ledger info (spec section 4.1). -/
def insert_qc (st : NodeState) (qc : QuorumCert) : NodeState :=
  if (get_block st qc.certified_block_id).isNone then st
  else
    let st1 :=
      if st.highest_quorum_cert.certified_block_round < qc.certified_block_round
      then { st with highest_quorum_cert := qc }
      else st
    commitIfNeeded st1 qc

/-- Modelled from the spec: the ledger info a voter embeds in its vote: it
designates the voted block's grandparent when the three rounds are
consecutive (grandparent, parent, block), i.e. when certifying the block
completes a three-chain, and no block otherwise (spec section 3
"Lifecycle", section 4.1 "Insert QC"). -/
def voteLedgerInfo (st : NodeState) (b : Block) : LedgerInfo :=
  match get_block st b.parent_id with
  | none => { consensus_block_id := none, commit_round := 0 }
  | some parent =>
    match get_block st parent.parent_id with
    | none => { consensus_block_id := none, commit_round := 0 }
    | some grand =>
      if b.round = parent.round + 1 && parent.round = grand.round + 1 then
        { consensus_block_id := some grand.id, commit_round := grand.round }
      else { consensus_block_id := none, commit_round := 0 }

/-- Modelled from the spec: the signed vote for a block (spec section 3,
"Vote"): it carries the block id, round, height, parent data for QC
assembly and the ledger info to commit. -/
def mkVote (st : NodeState) (b : Block) : VoteMsg :=
  { author := st.author
    block_id := b.id
    round := b.round
    height := b.height
    parent_block_id := b.parent_id
    parent_round := b.quorum_cert.certified_block_round
    ledger_info := voteLedgerInfo st b }

/-- Modelled from the spec: the safety-rules voting rule (spec section 4.2):
vote for `B` iff `B.round > last_voted_round`,
`B.qc.certified_round >= preferred_round`, and `B`'s parent is present in
the tree (the tree only contains descendants of the last committed
block). -/
def safeToVote (st : NodeState) (b : Block) : Bool :=
  decide (st.last_voted_round < b.round) &&
    decide (st.preferred_round ≤ b.quorum_cert.certified_block_round) &&
    (get_block st b.parent_id).isSome

/-- Modelled from the spec: the safety-rules state update on accepting a
vote: persist `last_voted_round <- B.round` and raise `preferred_round` to
`B.qc.parent_round` (the round of `B`'s grandparent) if higher
(spec section 4.2). -/
def recordVote (st : NodeState) (b : Block) (v : VoteMsg) : NodeState :=
  { st with
    last_voted_round := b.round
    preferred_round := max st.preferred_round b.quorum_cert.certified_parent_round
    last_vote := some v }

/-- The sync info a replica attaches to its outbound messages. -/
def mkSyncInfo (st : NodeState) : SyncInfo :=
  { highest_quorum_cert := st.highest_quorum_cert
    highest_commit_cert := st.highest_commit_cert }

/-- Modelled from the spec: the mempool contract `pull(max_size)` returns
at most `max_block_size` transactions (spec section 6, "Mempool"); the mock
mempool of the harness always supplies a full payload of `max_block_size`
transactions. -/
def mempoolPull (cfg : Config) : Nat :=
  cfg.max_block_size

/-- Modelled from the spec: the proposal generator assembles a new block
from the mempool payload on top of the highest certified block, carrying
the highest QC (spec section 2, "Proposal generator"). -/
def mkProposalBlock (cfg : Config) (st : NodeState) : Block :=
  mkBlock (highest_certified_block st) st.current_round (some st.author)
    (mempoolPull cfg) st.highest_quorum_cert

/-- Modelled from the spec: a NIL block constructed on timeout on top of
the highest QC: no author, empty payload (spec section 4.3, "Deadline
reached"; glossary "NIL block"). -/
def mkNilBlock (st : NodeState) : Block :=
  mkBlock (highest_certified_block st) st.current_round none 0
    st.highest_quorum_cert

/-- An outbound message: recipient and payload.  A broadcast is expanded to
one entry per validator, the sender included (the network layer loops a
replica's broadcast back to its own event processor). -/
abbrev Out := Author × Msg

/-- Expansion of a broadcast to every validator (spec section 6,
"Network": `broadcast(msg)`). -/
def broadcastAll (cfg : Config) (m : Msg) : List Out :=
  (validators cfg).map (fun a => (a, m))

/-- Modelled from the spec: entering a round resets the per-round vote
state, and every leader of the new round (primary and ordered secondaries)
generates and broadcasts a proposal (spec sections 4.3 and 4.4). -/
def enterRound (cfg : Config) (st : NodeState) (r : Nat) : NodeState × List Out :=
  let st1 := { st with current_round := r, last_vote := none,
                       pending_secondary := none }
  if st1.author ∈ leaders cfg r then
    (st1, broadcastAll cfg (Msg.proposal (mkProposalBlock cfg st1) (mkSyncInfo st1)))
  else (st1, [])

/-- Modelled from the spec: the pacemaker round transitions: a QC for round
`q >= current_round` or a TC for round `t >= current_round` advances the
round to the certificate round plus one (spec section 4.3). -/
def maybeAdvance (cfg : Config) (st : NodeState) : NodeState × List Out :=
  let target := max st.highest_quorum_cert.certified_block_round st.highest_tc_round + 1
  if st.current_round < target then enterRound cfg st target else (st, [])

/-- Absorbing a quorum certificate that is newer than the replica's highest
QC and whose certified block is present: insert it (which may commit) and
let the pacemaker advance (spec sections 4.1, 4.3, 4.5). -/
def processNewCertificates (cfg : Config) (st : NodeState) (qc : QuorumCert) :
    NodeState × List Out :=
  if (get_block st qc.certified_block_id).isSome &&
      decide (st.highest_quorum_cert.certified_block_round < qc.certified_block_round)
  then maybeAdvance cfg (insert_qc st qc)
  else (st, [])

/-- Votes are aggregated by `(round, block_id, ledger_info_digest)`
(spec section 4.5, "VoteReceived"). -/
def sameVoteKey (v w : VoteMsg) : Bool :=
  decide (w.block_id = v.block_id) && decide (w.round = v.round) &&
    decide (w.ledger_info = v.ledger_info)

/-- Modelled from the spec: assembling a quorum certificate from a quorum
of votes sharing the same key: each vote contributes its author's signature
over the shared ledger info (spec sections 3 and 4.5). -/
def formQC (matching : List VoteMsg) (v : VoteMsg) : QuorumCert :=
  { certified_block_id := v.block_id
    certified_block_round := v.round
    certified_block_height := v.height
    certified_parent_round := v.parent_round
    ledger_info := v.ledger_info
    signatures := matching.map (fun w =>
      { signer := w.author, signed_ledger_info := w.ledger_info }) }

/-- Modelled from the spec: vote aggregation (spec section 4.5,
"VoteReceived"): a directly received vote is only meaningful to a leader of
`V.round + 1`; a timeout-piggybacked vote is aggregated by every replica.
On reaching quorum the QC is formed and absorbed. -/
def addVote (cfg : Config) (st : NodeState) (v : VoteMsg) (direct : Bool) :
    NodeState × List Out :=
  if direct && decide (st.author ∉ leaders cfg (v.round + 1)) then (st, [])
  else if st.pending_votes.contains v then (st, [])
  else
    let st1 := { st with pending_votes := st.pending_votes ++ [v] }
    let matching := st1.pending_votes.filter (sameVoteKey v)
    if matching.length = cfg.quorum_size then
      processNewCertificates cfg st1 (formQC matching v)
    else (st1, [])

/-- Modelled from the spec: running the safety rules on a block and, on
acceptance, inserting it, persisting the safety state and producing the
signed vote (spec section 4.2). -/
def tryVoteBlock (_cfg : Config) (st : NodeState) (b : Block) :
    NodeState × Option VoteMsg :=
  if safeToVote st b then
    match insert_block st b with
    | Except.error _ => (st, none)
    | Except.ok st1 =>
      let v := mkVote st1 b
      (recordVote st1 b v, some v)
  else (st, none)

/-- Modelled from the spec: the post-sync part of `ProposalReceived`
(spec sections 4.4 and 4.5): reject a proposal whose round is not the
current round or whose author is not a leader of that round; vote for a
primary proposal, sending the vote to the leaders of the next round; stash
a qualifying secondary proposal for the timeout decision. -/
def processProposalReady (cfg : Config) (st : NodeState) (b : Block)
    (si : SyncInfo) : NodeState × List Out :=
  if b.round ≠ st.current_round then (st, [])
  else
    match b.author with
    | none => (st, [])
    | some a =>
      if a ∉ leaders cfg b.round then (st, [])
      else if a = primary cfg b.round then
        let (st1, voted) := tryVoteBlock cfg st b
        match voted with
        | some v => (st1, (leaders cfg (b.round + 1)).map (fun l => (l, Msg.vote v)))
        | none => (st1, [])
      else ({ st with pending_secondary := some (b, si) }, [])

/-- Modelled from the spec: starting a block retrieval or state sync when a
proposal references a missing ancestor (spec section 4.6): a short gap
(commit certificate not past the local root) issues a block-retrieval RPC
to the sender for the missing ancestors; a long gap (the sender's commit
certificate is past the local committed state) targets the committed
block's window for a state sync.  Other validators follow in priority
order on retry. -/
def startFetch (cfg : Config) (st : NodeState) (sender : Author) (b : Block)
    (si : SyncInfo) : NodeState × List Out :=
  let hcc := si.highest_commit_cert
  let longGap := decide ((rootBlock st).round < hcc.ledger_info.commit_round)
  let target := if longGap then hcc.certified_block_id
                else si.highest_quorum_cert.certified_block_id
  let num := if longGap then
               hcc.certified_block_round - hcc.ledger_info.commit_round + 1
             else
               si.highest_quorum_cert.certified_block_round - (rootBlock st).round
  let others := (validators cfg).filter
    (fun a => decide (a ≠ sender) && decide (a ≠ st.author))
  let pf : PendingFetch :=
    { target_id := target
      num_blocks := num
      sync_cert := if longGap then some hcc else none
      suspended := some (b, si)
      peers := others ++ [sender] }
  ({ st with pending_fetch := some pf }, [(sender, Msg.retrievalReq target num)])

/-- Modelled from the spec: `ProposalReceived` (spec section 4.5): absorb
the proposal's sync info first; if the certified ancestor is missing,
suspend the proposal and request retrieval; otherwise run the checks and
the safety rules. -/
def processProposal (cfg : Config) (st : NodeState) (sender : Author)
    (b : Block) (si : SyncInfo) : NodeState × List Out :=
  if (get_block st b.quorum_cert.certified_block_id).isSome then
    let (st1, outs1) := processNewCertificates cfg st si.highest_quorum_cert
    let (st2, outs2) := processProposalReady cfg st1 b si
    (st2, outs1 ++ outs2)
  else startFetch cfg st sender b si

/-- Modelled from the spec: the long-gap completion (spec section 4.6):
state-sync to the commit certificate's ledger info, emit its commit event,
discard the in-memory tree except the new root and the fetched window, and
restart the pacemaker at the round above the new root. -/
def applySync (st : NodeState) (cert : QuorumCert) (fetched : List Block) :
    NodeState :=
  match cert.ledger_info.consensus_block_id with
  | none => st
  | some rootId =>
    match fetched.find? (fun c => c.id = rootId) with
    | none => st
    | some newRoot =>
      { st with
        blocks := fetched
        root_id := rootId
        highest_quorum_cert :=
          ((fetched.head?).map Block.quorum_cert).getD st.highest_quorum_cert
        highest_commit_cert := cert
        current_round := max st.current_round (newRoot.round + 1)
        commits := st.commits ++ [{ ledger_info := cert.ledger_info
                                    signatures := cert.signatures }] }

/-- Modelled from the spec: handling a block-retrieval response
(spec section 4.6): admit the fetched blocks (deepest first) for a short
gap, or complete the state sync for a long gap, then resume the suspended
proposal. -/
def processRetrievalResp (cfg : Config) (st : NodeState) (sender : Author)
    (fetched : List Block) : NodeState × List Out :=
  match st.pending_fetch with
  | none => (st, [])
  | some pf =>
    let st0 := { st with pending_fetch := none }
    let st1 :=
      match pf.sync_cert with
      | some cert => applySync st0 cert fetched
      | none => fetched.reverse.foldl insertBlockIfOk st0
    match pf.suspended with
    | some (b, si) => processProposal cfg st1 sender b si
    | none => (st1, [])

/-- Modelled from the spec: `BlockRetrievalRequest(id, n)` returns up to
`n` ancestors along the chain from `id` toward the local root
(spec section 4.5). -/
def processRetrievalReq (st : NodeState) (sender : Author) (id : BlockId)
    (num : Nat) : NodeState × List Out :=
  (st, [(sender, Msg.retrievalResp ((chainDown st.blocks st.blocks.length id).take num))])

/-- Modelled from the spec: aggregation of a timeout attestation
(spec sections 4.3 and 4.5): record the sender's attestation for its round;
a quorum of attestations for a round above the highest known TC forms a
timeout certificate and lets the pacemaker advance. -/
def processTimeoutAggregate (cfg : Config) (st : NodeState) (t : TimeoutMsg) :
    NodeState × List Out :=
  let st3 :=
    if (t.round, t.author) ∈ st.pending_timeouts then st
    else { st with pending_timeouts := st.pending_timeouts ++ [(t.round, t.author)] }
  let cnt := (st3.pending_timeouts.filter (fun p => p.1 = t.round)).length
  if cnt = cfg.quorum_size && decide (st3.highest_tc_round < t.round) then
    maybeAdvance cfg { st3 with highest_tc_round := t.round }
  else (st3, [])

/-- Modelled from the spec: `TimeoutReceived` (spec section 4.5): absorb
the sync info, treat the piggybacked vote as a received vote so a QC may be
assembled from the timeout round, and aggregate the timeout attestation
into a TC on quorum. -/
def processTimeoutMsg (cfg : Config) (st : NodeState) (t : TimeoutMsg) :
    NodeState × List Out :=
  let (st1, outs1) := processNewCertificates cfg st t.sync_info.highest_quorum_cert
  let (st2, outs2) :=
    match t.piggyback_vote with
    | some v => addVote cfg st1 v false
    | none => (st1, [])
  let (st4, outs4) := processTimeoutAggregate cfg st2 t
  (st4, outs1 ++ outs2 ++ outs4)

/-- Retrying an in-flight retrieval on the round deadline: re-issue the
request to the next peer in priority order (spec section 4.6). -/
def retryFetch (st : NodeState) : NodeState × List Out :=
  match st.pending_fetch with
  | none => (st, [])
  | some pf =>
    match pf.peers with
    | [] => (st, [])
    | p :: rest =>
      ({ st with pending_fetch := some { pf with peers := rest ++ [p] } },
       [(p, Msg.retrievalReq pf.target_id pf.num_blocks)])

/-- Modelled from the spec: the round deadline (spec section 4.3, "Deadline
reached"): broadcast a timeout message for the current round with the
piggybacked vote.  The timeout counts as signing the round:
`last_voted_round` is raised to the current round first (spec section 4.2,
timeout rule), and a pending retrieval is retried. -/
def timeoutBroadcast (cfg : Config) (st1 : NodeState) (piggy : Option VoteMsg) :
    NodeState × List Out :=
  let st2 := { st1 with
               last_voted_round := max st1.last_voted_round st1.current_round }
  let (st3, fetchOuts) := retryFetch st2
  let tmsg := Msg.timeout
    { author := st3.author
      round := st3.current_round
      piggyback_vote := piggy
      sync_info := mkSyncInfo st3 }
  (st3, fetchOuts ++ broadcastAll cfg tmsg)

/-- Modelled from the spec: the round deadline, continued: the vote to
piggyback is the replica's own vote if it already voted, otherwise a vote
for the first valid pending secondary proposal, otherwise a vote for a
freshly constructed NIL block on top of the highest QC (spec sections 4.3
and 4.4). -/
def processLocalTimeout (cfg : Config) (st : NodeState) : NodeState × List Out :=
  let (st1, piggy) :=
    match st.last_vote with
    | some v => (st, some v)
    | none =>
      match st.pending_secondary with
      | some (b, _) => tryVoteBlock cfg st b
      | none => tryVoteBlock cfg st (mkNilBlock st)
  timeoutBroadcast cfg st1 piggy

/-- Modelled from the spec: the event-processor dispatch over inbound
network messages (spec section 4.5). -/
def processMsg (cfg : Config) (st : NodeState) (sender : Author) (m : Msg) :
    NodeState × List Out :=
  match m with
  | Msg.proposal b si => processProposal cfg st sender b si
  | Msg.vote v => addVote cfg st v true
  | Msg.timeout t => processTimeoutMsg cfg st t
  | Msg.retrievalReq id num => processRetrievalReq st sender id num
  | Msg.retrievalResp blocks => processRetrievalResp cfg st sender blocks

/-- The initial consensus state of a validator: the tree holds only
genesis, the highest certificates are the genesis QC, nothing is voted and
nothing pending (the harness `MockStorage::start_for_testing` recovery
data). -/
def initNode (a : Author) : NodeState :=
  { author := a
    blocks := [genesisBlock]
    root_id := BlockId.genesisId
    highest_quorum_cert := genesisQC
    highest_commit_cert := genesisQC
    current_round := 0
    last_voted_round := 0
    preferred_round := 0
    last_vote := none
    pending_votes := []
    pending_timeouts := []
    highest_tc_round := 0
    pending_secondary := none
    pending_fetch := none
    commits := []
    committed_txns := 0 }

/-- Modelled from the spec: recovery from the durable log (spec section
4.7): the tree root, the blocks and QCs above it, `last_voted_round`,
`preferred_round` and the highest committed ledger info are reconstructed
(they are exactly the persisted mirror of the pruned in-memory tree), the
volatile aggregation state is dropped, and the event processor resumes at
round `max(last_voted_round, highest_qc.round) + 1`.  The commit-callback
and mempool channels of the harness are recreated empty on restart. -/
def recoverNode (cfg : Config) (st : NodeState) : NodeState × List Out :=
  let st1 : NodeState :=
    { author := st.author
      blocks := st.blocks
      root_id := st.root_id
      highest_quorum_cert := st.highest_quorum_cert
      highest_commit_cert := st.highest_commit_cert
      current_round := 0
      last_voted_round := st.last_voted_round
      preferred_round := st.preferred_round
      last_vote := none
      pending_votes := []
      pending_timeouts := []
      highest_tc_round := 0
      pending_secondary := none
      pending_fetch := none
      commits := []
      committed_txns := 0 }
  enterRound cfg st1
    (max st.last_voted_round st.highest_quorum_cert.certified_block_round + 1)

/-- An in-flight network message: sender, recipient, payload. -/
abbrev Wire := Author × Author × Msg

/-- The fields of a proposal message recorded by the playground's
observation log. -/
structure ProposalDigest where
  round : Nat
  height : Nat
  id : BlockId
  parent_id : BlockId
  qc_certified_block_id : BlockId
deriving DecidableEq, Repr

/-- The fields of a vote message recorded by the playground's observation
log. -/
structure VoteDigest where
  round : Nat
  block_id : BlockId
deriving DecidableEq, Repr

/-- The fields of a timeout message recorded by the playground's
observation log. -/
structure TimeoutDigest where
  round : Nat
  piggyback_block_id : Option BlockId
deriving DecidableEq, Repr

/-- A network message as recorded by the playground's observation log: the
fields of delivered proposals, votes and timeout messages inspected by the
test harness. -/
inductive MsgDigest where
  | proposalD (p : ProposalDigest) : MsgDigest
  | voteD (v : VoteDigest) : MsgDigest
  | timeoutD (t : TimeoutDigest) : MsgDigest
  | otherD : MsgDigest
deriving DecidableEq, Repr

/-- The observation-log view of a message. -/
def msgDigest : Msg → MsgDigest
  | Msg.proposal b _ =>
    MsgDigest.proposalD
      { round := b.round
        height := b.height
        id := b.id
        parent_id := b.parent_id
        qc_certified_block_id := b.quorum_cert.certified_block_id }
  | Msg.vote v => MsgDigest.voteD { round := v.round, block_id := v.block_id }
  | Msg.timeout t =>
    MsgDigest.timeoutD
      { round := t.round
        piggyback_block_id := t.piggyback_vote.map (fun v => v.block_id) }
  | Msg.retrievalReq _ _ => MsgDigest.otherD
  | Msg.retrievalResp _ => MsgDigest.otherD

/-- The simulated cluster: the per-validator consensus states, the
in-flight messages (FIFO per sender/recipient pair), the active drop rules
of the network playground, and the log of messages delivered across the
network (self-deliveries are invisible to the playground and are not
logged). -/
structure World where
  cfg : Config
  nodes : List NodeState
  inflight : List Wire
  drops : List (Author × Author)
  log : List MsgDigest
deriving DecidableEq

/-- The scheduled events driving a scenario: deliver the oldest in-flight
message of a sender/recipient pair, fire a local round deadline, install or
remove a drop rule (messages matching an active rule are discarded, as the
playground's `drop_message_for` does), restart a node from its persistent
storage, or discard all in-flight messages (the harness recreating the
playground). -/
inductive Cmd where
  | deliver (sender recipient : Author) : Cmd
  | timeout (node : Author) : Cmd
  | drop (sender recipient : Author) : Cmd
  | stopDrop (sender recipient : Author) : Cmd
  | restart (node : Author) : Cmd
  | clearNetwork : Cmd
deriving DecidableEq, Repr

/-- Look up a validator's state by author. -/
def getNode (w : World) (a : Author) : Option NodeState :=
  w.nodes.find? (fun st => st.author = a)

/-- Replace a validator's state. -/
def setNode (w : World) (st : NodeState) : World :=
  { w with nodes := w.nodes.map (fun st0 => if st0.author = st.author then st else st0) }

/-- Enqueue the outbound messages of `sender`, discarding those matching an
active drop rule. -/
def sendOuts (w : World) (sender : Author) (outs : List Out) : World :=
  { w with inflight := w.inflight ++ outs.filterMap (fun o =>
      if (sender, o.1) ∈ w.drops then none else some (sender, o.1, o.2)) }

/-- Remove the oldest in-flight message from `s` to `r`, if any. -/
def takeFirstWire (l : List Wire) (s r : Author) : Option (Msg × List Wire) :=
  match l with
  | [] => none
  | e :: rest =>
    if e.1 = s ∧ e.2.1 = r then some (e.2.2, rest)
    else
      match takeFirstWire rest s r with
      | none => none
      | some (m, rest1) => some (m, e :: rest1)

/-- One scheduled event of the simulated cluster. -/
def step (w : World) (c : Cmd) : World :=
  match c with
  | Cmd.deliver s r =>
    match takeFirstWire w.inflight s r with
    | none => w
    | some (m, rest) =>
      match getNode w r with
      | none => { w with inflight := rest }
      | some st =>
        let (st1, outs) := processMsg w.cfg st s m
        let w1 := setNode { w with inflight := rest } st1
        let w2 := { w1 with log := w1.log ++ if s ≠ r then [msgDigest m] else [] }
        sendOuts w2 r outs
  | Cmd.timeout a =>
    match getNode w a with
    | none => w
    | some st =>
      let (st1, outs) := processLocalTimeout w.cfg st
      sendOuts (setNode w st1) a outs
  | Cmd.drop s r =>
    { w with drops := (s, r) :: w.drops
             inflight := w.inflight.filter (fun e => ¬(e.1 = s ∧ e.2.1 = r)) }
  | Cmd.stopDrop s r =>
    { w with drops := w.drops.filter (fun d => d ≠ (s, r)) }
  | Cmd.restart a =>
    match getNode w a with
    | none => w
    | some st =>
      let (st1, outs) := recoverNode w.cfg st
      sendOuts (setNode w st1) a outs
  | Cmd.clearNetwork => { w with inflight := [] }

/-- One validator entering round 1 at startup: the leaders of round 1
broadcast their proposals. -/
def startupStep (cfg : Config) (w : World) (a : Author) : World :=
  match getNode w a with
  | none => w
  | some st =>
    let (st1, outs) := enterRound cfg st 1
    sendOuts (setNode w st1) a outs

/-- The cluster right after `SMRNode::start_num_nodes`: every validator
starts at round 1, and the leaders of round 1 broadcast their proposals. -/
def startup (cfg : Config) : World :=
  (validators cfg).foldl (startupStep cfg)
    { cfg := cfg
      nodes := (validators cfg).map initNode
      inflight := []
      drops := []
      log := [] }

/-- Run a schedule from a world. -/
def runFrom (w : World) (cmds : List Cmd) : World :=
  cmds.foldl step w

/-- Run a schedule from startup. -/
def run (cfg : Config) (cmds : List Cmd) : World :=
  runFrom (startup cfg) cmds

/-- The proposals observed on the network so far, in delivery order (the
playground's `proposals_only` view). -/
def observedProposals (w : World) : List ProposalDigest :=
  w.log.filterMap (fun e =>
    match e with
    | MsgDigest.proposalD p => some p
    | _ => none)

/-- The votes observed on the network so far, in delivery order (the
playground's `votes_only` view). -/
def observedVotes (w : World) : List VoteDigest :=
  w.log.filterMap (fun e =>
    match e with
    | MsgDigest.voteD v => some v
    | _ => none)

/-- The timeout messages observed on the network so far, in delivery order
(the playground's `timeout_msg_only` view). -/
def observedTimeouts (w : World) : List TimeoutDigest :=
  w.log.filterMap (fun e =>
    match e with
    | MsgDigest.timeoutD t => some t
    | _ => none)

/-- Configuration of scenarios S1 and S3: two validators, quorum two,
rotating proposer, `contiguous_rounds = 2`, `max_block_size = 50`. -/
def cfg2Rot : Config := ⟨2, 2, ConsensusProposerType.RotatingProposer, 2, 50⟩

/-- Configuration of scenario S2: two validators, quorum two, fixed
proposer. -/
def cfg2Fix : Config := ⟨2, 2, ConsensusProposerType.FixedProposer, 2, 50⟩

/-- Configuration of scenarios S4 to S7: three validators, quorum two,
fixed proposer. -/
def cfg3Fix : Config := ⟨3, 2, ConsensusProposerType.FixedProposer, 2, 50⟩

/-- Configuration of the secondary-proposer scenario: three validators,
quorum two, multiple ordered proposers. -/
def cfg3Multi : Config := ⟨3, 2, ConsensusProposerType.MultipleOrderedProposers, 2, 50⟩

/-- Scenario S1 (`basic_start_test`): after startup, deliver the round-1
leader's proposal across the network. -/
def s1cmds : List Cmd := [Cmd.deliver 0 1]

/-- Scenario S2 (`basic_full_round_test`): the first proposal is delivered
and voted by both participants, the QC forms at the fixed leader, and the
next proposal goes out. -/
def s2cmds : List Cmd :=
  [Cmd.deliver 0 0, Cmd.deliver 0 1, Cmd.deliver 0 0, Cmd.deliver 1 0,
   Cmd.deliver 0 1]

/-- One full round of the two-validator rotating-proposer system: the
round-`r` leader's proposal reaches both replicas, and both votes reach the
leader of round `r + 1`. -/
def rotRound (r : Nat) : List Cmd :=
  [Cmd.deliver (primary cfg2Rot r) 0, Cmd.deliver (primary cfg2Rot r) 1,
   Cmd.deliver 0 (primary cfg2Rot (r + 1)), Cmd.deliver 1 (primary cfg2Rot (r + 1))]

/-- Consecutive full rounds `r .. r + n - 1`. -/
def rotRounds (r n : Nat) : List Cmd :=
  ((List.range n).map (fun i => rotRound (r + i))).flatten

/-- Scenario S3 (`basic_commit_and_restart`), rounds 1-2. -/
def c3chunkA : List Cmd := rotRounds 1 2

/-- Scenario S3, rounds 3-4. -/
def c3chunkB : List Cmd := rotRounds 3 2

/-- Scenario S3, rounds 5-6. -/
def c3chunkC : List Cmd := rotRounds 5 2

/-- Scenario S3, rounds 7-8. -/
def c3chunkD : List Cmd := rotRounds 7 2

/-- Scenario S3, rounds 9-10, then the round-11 proposal is delivered to
both replicas so that the quorum certificate for round 10 (and the commit
of round 8) reaches both. -/
def c3chunkE : List Cmd :=
  rotRounds 9 2 ++
    [Cmd.deliver (primary cfg2Rot 11) 0, Cmd.deliver (primary cfg2Rot 11) 1]

/-- Scenario S3 first phase (`basic_commit_and_restart`): ten full rounds
plus the delivery of the round-11 proposal. -/
def c3phase1 : List Cmd :=
  c3chunkA ++ (c3chunkB ++ (c3chunkC ++ (c3chunkD ++ c3chunkE)))

/-- Scenario S3 second phase, first part: the playground is recreated (all
in-flight messages disappear), both nodes restart from their persistent
storage, and rounds 12-13 are driven. -/
def c3chunkF : List Cmd :=
  [Cmd.clearNetwork, Cmd.restart 0, Cmd.restart 1] ++ rotRounds 12 2

/-- Scenario S3, rounds 14-15. -/
def c3chunkG : List Cmd := rotRounds 14 2

/-- Scenario S3, rounds 16-17. -/
def c3chunkH : List Cmd := rotRounds 16 2

/-- Scenario S3, rounds 18-19. -/
def c3chunkI : List Cmd := rotRounds 18 2

/-- Scenario S3, rounds 20-21. -/
def c3chunkJ : List Cmd := rotRounds 20 2

/-- Scenario S3 second phase: restart both nodes and drive ten more
rounds. -/
def c3phase2 : List Cmd :=
  c3chunkF ++ (c3chunkG ++ (c3chunkH ++ (c3chunkI ++ c3chunkJ)))

/-- Scenario S6 (`aggregate_timeout_votes`): votes to the fixed leader are
dropped, the leader's proposal reaches replicas 1 and 2, the leader is then
cut off, both replicas time out for round 1 and exchange their timeout
messages carrying their piggybacked votes for the first proposal. -/
def c4cmds : List Cmd :=
  [Cmd.drop 1 0, Cmd.drop 2 0,
   Cmd.deliver 0 1, Cmd.deliver 0 2, Cmd.deliver 0 0, Cmd.deliver 0 0,
   Cmd.drop 0 1, Cmd.drop 0 2,
   Cmd.timeout 1, Cmd.timeout 2,
   Cmd.deliver 1 1, Cmd.deliver 2 2, Cmd.deliver 1 2, Cmd.deliver 2 1]

/-- One full round of the three-validator fixed-proposer system with all
three replicas participating. -/
def fix3Round : List Cmd :=
  [Cmd.deliver 0 0, Cmd.deliver 0 1, Cmd.deliver 0 2,
   Cmd.deliver 0 0, Cmd.deliver 1 0, Cmd.deliver 2 0]

/-- A local-timeout wave of scenario S7: replicas 1 and 2 time out, process
their own timeout broadcasts and exchange them. -/
def timeoutWave : List Cmd :=
  [Cmd.timeout 1, Cmd.timeout 2,
   Cmd.deliver 1 1, Cmd.deliver 2 2, Cmd.deliver 1 2, Cmd.deliver 2 1]

/-- Scenario S7 (`chain_with_nil_blocks`), rounds 1-2. -/
def c5chunkA : List Cmd := fix3Round ++ fix3Round

/-- Scenario S7, round 3, the leader's disconnection, and the first timeout
wave, which re-forms the round-3 QC at replicas 1 and 2 from the
piggybacked votes. -/
def c5chunkB : List Cmd :=
  fix3Round ++ [Cmd.drop 0 1, Cmd.drop 0 2] ++ timeoutWave

/-- Scenario S7, the second and third timeout waves: the NIL blocks of
rounds 4 and 5 are voted and certified. -/
def c5chunkC : List Cmd := timeoutWave ++ timeoutWave

/-- Scenario S7 (`chain_with_nil_blocks`): three successful proposals, the
leader is disconnected, and three timeout waves extend the chain with NIL
blocks. -/
def c5cmds : List Cmd := c5chunkA ++ (c5chunkB ++ c5chunkC)

/-- One round of the three-validator fixed-proposer system with replica 2
cut off: the proposal reaches replicas 0 and 1 whose votes form the QC. -/
def fix3Round01 : List Cmd :=
  [Cmd.deliver 0 0, Cmd.deliver 0 1, Cmd.deliver 0 0, Cmd.deliver 1 0]

/-- The last cut-off round of the retrieval/state-sync scenarios: the drop
rule is lifted just before the QC forms, so the following proposal reaches
replica 2 as well. -/
def fix3RoundReopen : List Cmd :=
  [Cmd.deliver 0 0, Cmd.deliver 0 1, Cmd.deliver 0 0, Cmd.stopDrop 0 2,
   Cmd.deliver 1 0]

/-- Scenarios S4/S4b: replica 2 misses the first two proposals; the drop
rule is lifted while round 2 completes, so the round-3 proposal goes out to
everyone. -/
def c6chunkA : List Cmd := [Cmd.drop 0 2] ++ fix3Round01 ++ fix3RoundReopen

/-- Scenario S4 (`basic_block_retrieval`), retrieval part: the round-3
proposal reaches replica 2, which retrieves the two missing blocks from the
leader and votes; the votes then form the round-3 QC whose commit
certificate reaches replica 2 with the round-4 proposal. -/
def c6chunkB : List Cmd :=
  [Cmd.deliver 0 1, Cmd.deliver 0 2, Cmd.deliver 0 0, Cmd.drop 1 0,
   Cmd.deliver 2 0, Cmd.deliver 0 2, Cmd.stopDrop 1 0,
   Cmd.deliver 0 0, Cmd.deliver 2 0, Cmd.deliver 0 2]

/-- Scenario S4 (`basic_block_retrieval`). -/
def c6acmds : List Cmd := c6chunkA ++ c6chunkB

/-- Scenario S4 with a blocked retrieval RPC
(`block_retrieval_with_timeout`): the RPC to the leader is dropped until a
round timeout at replica 2, whose retry then reaches replica 1. -/
def c6chunkT : List Cmd :=
  [Cmd.deliver 0 1, Cmd.drop 1 0, Cmd.drop 2 0, Cmd.deliver 0 2,
   Cmd.deliver 0 0, Cmd.timeout 2,
   Cmd.deliver 2 1, Cmd.deliver 2 1, Cmd.stopDrop 2 0, Cmd.deliver 1 2,
   Cmd.stopDrop 1 0]

/-- Scenario S4b, the catch-up part: the round-3 votes of replicas 0 and 2
form the QC at the leader, whose round-4 proposal carries the commit of the
first proposal back to replica 2. -/
def c6chunkU : List Cmd := [Cmd.deliver 0 0, Cmd.deliver 2 0, Cmd.deliver 0 2]

/-- Scenario S4b (`block_retrieval_with_timeout`). -/
def c6bcmds : List Cmd := c6chunkA ++ (c6chunkT ++ c6chunkU)

/-- Scenario S5 (`basic_state_sync`), rounds 1-2 with replica 2 cut
off. -/
def c7chunkA : List Cmd := [Cmd.drop 0 2] ++ fix3Round01 ++ fix3Round01

/-- Scenario S5, rounds 3-4. -/
def c7chunkB : List Cmd := fix3Round01 ++ fix3Round01

/-- Scenario S5, rounds 5-6. -/
def c7chunkC : List Cmd := fix3Round01 ++ fix3Round01

/-- Scenario S5, rounds 7-8. -/
def c7chunkD : List Cmd := fix3Round01 ++ fix3Round01

/-- Scenario S5, rounds 9-10; the drop rule is lifted while round 10
completes, so the round-11 proposal goes out to everyone. -/
def c7chunkE : List Cmd := fix3Round01 ++ fix3RoundReopen

/-- Scenario S5, the sync part: the round-11 proposal reaches replica 2,
which fetches the three-block window from the leader and state-syncs to the
eighth proposal. -/
def c7chunkF : List Cmd := [Cmd.deliver 0 2, Cmd.deliver 2 0, Cmd.deliver 0 2]

/-- Scenario S5 first phase (`basic_state_sync`). -/
def c7phase1 : List Cmd :=
  c7chunkA ++ (c7chunkB ++ (c7chunkC ++ (c7chunkD ++ (c7chunkE ++ c7chunkF))))

/-- Scenario S5 second phase: replica 2 votes for the round-11 proposal,
the QC forms, and the next proposal's certificate lets replica 2 commit the
next block, notifying its mempool of the committed payload. -/
def c7phase2 : List Cmd :=
  [Cmd.deliver 0 0, Cmd.deliver 0 1, Cmd.deliver 2 0, Cmd.deliver 0 0,
   Cmd.deliver 0 2]

/-- The secondary-proposer scenario, round 1: node 0's outbound links are
dropped; node 1's primary proposal and node 2's secondary proposal are
delivered. -/
def c8chunkA : List Cmd :=
  [Cmd.drop 0 1, Cmd.drop 0 2,
   Cmd.deliver 1 1, Cmd.deliver 1 2, Cmd.deliver 1 0,
   Cmd.deliver 2 1, Cmd.deliver 2 2, Cmd.deliver 2 0]

/-- The secondary-proposer scenario, round-1 votes: the QC for the primary
proposal forms at nodes 2 and 0. -/
def c8chunkB : List Cmd :=
  [Cmd.deliver 1 2, Cmd.deliver 2 2, Cmd.deliver 1 0, Cmd.deliver 0 0]

/-- The secondary-proposer scenario, round 2 deliveries and votes at node
1. -/
def c8chunkC : List Cmd :=
  [Cmd.deliver 2 0, Cmd.deliver 2 0, Cmd.deliver 2 1, Cmd.deliver 2 2,
   Cmd.deliver 1 1, Cmd.deliver 2 1]

/-- The secondary-proposer scenario, round-2 completion at node 0 and the
delivery of node 1's secondary proposal for round 3 (node 0's primary
proposal for round 3 is dropped). -/
def c8chunkD : List Cmd :=
  [Cmd.deliver 0 0, Cmd.deliver 0 0, Cmd.deliver 1 0,
   Cmd.deliver 1 2, Cmd.deliver 1 1, Cmd.deliver 1 0]

/-- The secondary-proposer scenario, the round-3 timeouts: nodes 1 and 2
vote for the stashed secondary proposal, attach the votes to their timeout
messages, and the QC for the secondary proposal forms from them. -/
def c8chunkE : List Cmd :=
  [Cmd.timeout 1, Cmd.timeout 2,
   Cmd.deliver 1 1, Cmd.deliver 2 2,
   Cmd.deliver 2 1, Cmd.deliver 1 2, Cmd.deliver 1 0,
   Cmd.deliver 2 0, Cmd.deliver 2 0]

/-- The secondary-proposer scenario, first phase. -/
def c8phase1 : List Cmd :=
  c8chunkA ++ (c8chunkB ++ (c8chunkC ++ (c8chunkD ++ c8chunkE)))

/-- The secondary-proposer scenario, second phase: the chain continues on
top of the secondary proposal until the round-5 QC commits it at node 1. -/
def c8phase2 : List Cmd :=
  [Cmd.deliver 1 1, Cmd.deliver 1 2, Cmd.deliver 2 2,
   Cmd.deliver 1 2, Cmd.deliver 2 2] ++
  [Cmd.deliver 2 1, Cmd.deliver 2 1, Cmd.deliver 2 2,
   Cmd.deliver 1 1, Cmd.deliver 2 1]

/-- Checkpoint of the simulated cluster (see the scenario schedule definitions). -/
def c3w1 : World :=
⟨{ num_nodes := 2, quorum_size := 2, proposer_type := ChainedBFT.ConsensusProposerType.RotatingProposer, contiguous_rounds := 2, max_block_size := 50 }, [{ author := 0, blocks := [{ id := ChainedBFT.BlockId.genesisId, round := 0, height := 0, parent_id := ChainedBFT.BlockId.genesisId, author := none, payload := 0, quorum_cert := { certified_block_id := ChainedBFT.BlockId.genesisId, certified_block_round := 0, certified_block_height := 0, certified_parent_round := 0, ledger_info := { consensus_block_id := some (ChainedBFT.BlockId.genesisId), commit_round := 0 }, signatures := [] } }, { id := ChainedBFT.BlockId.contentHash 1 (some 0) 50 0, round := 1, height := 1, parent_id := ChainedBFT.BlockId.genesisId, author := some 0, payload := 50, quorum_cert := { certified_block_id := ChainedBFT.BlockId.genesisId, certified_block_round := 0, certified_block_height := 0, certified_parent_round := 0, ledger_info := { consensus_block_id := some (ChainedBFT.BlockId.genesisId), commit_round := 0 }, signatures := [] } }, { id := ChainedBFT.BlockId.contentHash 2 (some 1) 50 1, round := 2, height := 2, parent_id := ChainedBFT.BlockId.contentHash 1 (some 0) 50 0, author := some 1, payload := 50, quorum_cert := { certified_block_id := ChainedBFT.BlockId.contentHash 1 (some 0) 50 0, certified_block_round := 1, certified_block_height := 1, certified_parent_round := 0, ledger_info := { consensus_block_id := none, commit_round := 0 }, signatures := [{ signer := 0, signed_ledger_info := { consensus_block_id := none, commit_round := 0 } }, { signer := 1, signed_ledger_info := { consensus_block_id := none, commit_round := 0 } }] } }], root_id := ChainedBFT.BlockId.genesisId, highest_quorum_cert := { certified_block_id := ChainedBFT.BlockId.contentHash 1 (some 0) 50 0, certified_block_round := 1, certified_block_height := 1, certified_parent_round := 0, ledger_info := { consensus_block_id := none, commit_round := 0 }, signatures := [{ signer := 0, signed_ledger_info := { consensus_block_id := none, commit_round := 0 } }, { signer := 1, signed_ledger_info := { consensus_block_id := none, commit_round := 0 } }] }, highest_commit_cert := { certified_block_id := ChainedBFT.BlockId.genesisId, certified_block_round := 0, certified_block_height := 0, certified_parent_round := 0, ledger_info := { consensus_block_id := some (ChainedBFT.BlockId.genesisId), commit_round := 0 }, signatures := [] }, current_round := 2, last_voted_round := 2, preferred_round := 0, last_vote := some { author := 0, block_id := ChainedBFT.BlockId.contentHash 2 (some 1) 50 1, round := 2, height := 2, parent_block_id := ChainedBFT.BlockId.contentHash 1 (some 0) 50 0, parent_round := 1, ledger_info := { consensus_block_id := some (ChainedBFT.BlockId.genesisId), commit_round := 0 } }, pending_votes := [], pending_timeouts := [], highest_tc_round := 0, pending_secondary := none, pending_fetch := none, commits := [], committed_txns := 0 }, { author := 1, blocks := [{ id := ChainedBFT.BlockId.genesisId, round := 0, height := 0, parent_id := ChainedBFT.BlockId.genesisId, author := none, payload := 0, quorum_cert := { certified_block_id := ChainedBFT.BlockId.genesisId, certified_block_round := 0, certified_block_height := 0, certified_parent_round := 0, ledger_info := { consensus_block_id := some (ChainedBFT.BlockId.genesisId), commit_round := 0 }, signatures := [] } }, { id := ChainedBFT.BlockId.contentHash 1 (some 0) 50 0, round := 1, height := 1, parent_id := ChainedBFT.BlockId.genesisId, author := some 0, payload := 50, quorum_cert := { certified_block_id := ChainedBFT.BlockId.genesisId, certified_block_round := 0, certified_block_height := 0, certified_parent_round := 0, ledger_info := { consensus_block_id := some (ChainedBFT.BlockId.genesisId), commit_round := 0 }, signatures := [] } }, { id := ChainedBFT.BlockId.contentHash 2 (some 1) 50 1, round := 2, height := 2, parent_id := ChainedBFT.BlockId.contentHash 1 (some 0) 50 0, author := some 1, payload := 50, quorum_cert := { certified_block_id := ChainedBFT.BlockId.contentHash 1 (some 0) 50 0, certified_block_round := 1, certified_block_height := 1, certified_parent_round := 0, ledger_info := { consensus_block_id := none, commit_round := 0 }, signatures := [{ signer := 0, signed_ledger_info := { consensus_block_id := none, commit_round := 0 } }, { signer := 1, signed_ledger_info := { consensus_block_id := none, commit_round := 0 } }] } }], root_id := ChainedBFT.BlockId.genesisId, highest_quorum_cert := { certified_block_id := ChainedBFT.BlockId.contentHash 2 (some 1) 50 1, certified_block_round := 2, certified_block_height := 2, certified_parent_round := 1, ledger_info := { consensus_block_id := some (ChainedBFT.BlockId.genesisId), commit_round := 0 }, signatures := [{ signer := 0, signed_ledger_info := { consensus_block_id := some (ChainedBFT.BlockId.genesisId), commit_round := 0 } }, { signer := 1, signed_ledger_info := { consensus_block_id := some (ChainedBFT.BlockId.genesisId), commit_round := 0 } }] }, highest_commit_cert := { certified_block_id := ChainedBFT.BlockId.genesisId, certified_block_round := 0, certified_block_height := 0, certified_parent_round := 0, ledger_info := { consensus_block_id := some (ChainedBFT.BlockId.genesisId), commit_round := 0 }, signatures := [] }, current_round := 3, last_voted_round := 2, preferred_round := 0, last_vote := none, pending_votes := [{ author := 0, block_id := ChainedBFT.BlockId.contentHash 1 (some 0) 50 0, round := 1, height := 1, parent_block_id := ChainedBFT.BlockId.genesisId, parent_round := 0, ledger_info := { consensus_block_id := none, commit_round := 0 } }, { author := 1, block_id := ChainedBFT.BlockId.contentHash 1 (some 0) 50 0, round := 1, height := 1, parent_block_id := ChainedBFT.BlockId.genesisId, parent_round := 0, ledger_info := { consensus_block_id := none, commit_round := 0 } }, { author := 0, block_id := ChainedBFT.BlockId.contentHash 2 (some 1) 50 1, round := 2, height := 2, parent_block_id := ChainedBFT.BlockId.contentHash 1 (some 0) 50 0, parent_round := 1, ledger_info := { consensus_block_id := some (ChainedBFT.BlockId.genesisId), commit_round := 0 } }, { author := 1, block_id := ChainedBFT.BlockId.contentHash 2 (some 1) 50 1, round := 2, height := 2, parent_block_id := ChainedBFT.BlockId.contentHash 1 (some 0) 50 0, parent_round := 1, ledger_info := { consensus_block_id := some (ChainedBFT.BlockId.genesisId), commit_round := 0 } }], pending_timeouts := [], highest_tc_round := 0, pending_secondary := none, pending_fetch := none, commits := [], committed_txns := 0 }], [(1, 0, ChainedBFT.Msg.proposal { id := ChainedBFT.BlockId.contentHash 3 (some 1) 50 2, round := 3, height := 3, parent_id := ChainedBFT.BlockId.contentHash 2 (some 1) 50 1, author := some 1, payload := 50, quorum_cert := { certified_block_id := ChainedBFT.BlockId.contentHash 2 (some 1) 50 1, certified_block_round := 2, certified_block_height := 2, certified_parent_round := 1, ledger_info := { consensus_block_id := some (ChainedBFT.BlockId.genesisId), commit_round := 0 }, signatures := [{ signer := 0, signed_ledger_info := { consensus_block_id := some (ChainedBFT.BlockId.genesisId), commit_round := 0 } }, { signer := 1, signed_ledger_info := { consensus_block_id := some (ChainedBFT.BlockId.genesisId), commit_round := 0 } }] } } { highest_quorum_cert := { certified_block_id := ChainedBFT.BlockId.contentHash 2 (some 1) 50 1, certified_block_round := 2, certified_block_height := 2, certified_parent_round := 1, ledger_info := { consensus_block_id := some (ChainedBFT.BlockId.genesisId), commit_round := 0 }, signatures := [{ signer := 0, signed_ledger_info := { consensus_block_id := some (ChainedBFT.BlockId.genesisId), commit_round := 0 } }, { signer := 1, signed_ledger_info := { consensus_block_id := some (ChainedBFT.BlockId.genesisId), commit_round := 0 } }] }, highest_commit_cert := { certified_block_id := ChainedBFT.BlockId.genesisId, certified_block_round := 0, certified_block_height := 0, certified_parent_round := 0, ledger_info := { consensus_block_id := some (ChainedBFT.BlockId.genesisId), commit_round := 0 }, signatures := [] } }), (1, 1, ChainedBFT.Msg.proposal { id := ChainedBFT.BlockId.contentHash 3 (some 1) 50 2, round := 3, height := 3, parent_id := ChainedBFT.BlockId.contentHash 2 (some 1) 50 1, author := some 1, payload := 50, quorum_cert := { certified_block_id := ChainedBFT.BlockId.contentHash 2 (some 1) 50 1, certified_block_round := 2, certified_block_height := 2, certified_parent_round := 1, ledger_info := { consensus_block_id := some (ChainedBFT.BlockId.genesisId), commit_round := 0 }, signatures := [{ signer := 0, signed_ledger_info := { consensus_block_id := some (ChainedBFT.BlockId.genesisId), commit_round := 0 } }, { signer := 1, signed_ledger_info := { consensus_block_id := some (ChainedBFT.BlockId.genesisId), commit_round := 0 } }] } } { highest_quorum_cert := { certified_block_id := ChainedBFT.BlockId.contentHash 2 (some 1) 50 1, certified_block_round := 2, certified_block_height := 2, certified_parent_round := 1, ledger_info := { consensus_block_id := some (ChainedBFT.BlockId.genesisId), commit_round := 0 }, signatures := [{ signer := 0, signed_ledger_info := { consensus_block_id := some (ChainedBFT.BlockId.genesisId), commit_round := 0 } }, { signer := 1, signed_ledger_info := { consensus_block_id := some (ChainedBFT.BlockId.genesisId), commit_round := 0 } }] }, highest_commit_cert := { certified_block_id := ChainedBFT.BlockId.genesisId, certified_block_round := 0, certified_block_height := 0, certified_parent_round := 0, ledger_info := { consensus_block_id := some (ChainedBFT.BlockId.genesisId), commit_round := 0 }, signatures := [] } })], [], [ChainedBFT.MsgDigest.proposalD { round := 1, height := 1, id := ChainedBFT.BlockId.contentHash 1 (some 0) 50 0, parent_id := ChainedBFT.BlockId.genesisId, qc_certified_block_id := ChainedBFT.BlockId.genesisId }, ChainedBFT.MsgDigest.voteD { round := 1, block_id := ChainedBFT.BlockId.contentHash 1 (some 0) 50 0 }, ChainedBFT.MsgDigest.proposalD { round := 2, height := 2, id := ChainedBFT.BlockId.contentHash 2 (some 1) 50 1, parent_id := ChainedBFT.BlockId.contentHash 1 (some 0) 50 0, qc_certified_block_id := ChainedBFT.BlockId.contentHash 1 (some 0) 50 0 }, ChainedBFT.MsgDigest.voteD { round := 2, block_id := ChainedBFT.BlockId.contentHash 2 (some 1) 50 1 }]⟩

/-- Checkpoint of the simulated cluster (see the scenario schedule definitions). -/
def c3w2 : World :=
⟨{ num_nodes := 2, quorum_size := 2, proposer_type := ChainedBFT.ConsensusProposerType.RotatingProposer, contiguous_rounds := 2, max_block_size := 50 }, [{ author := 0, blocks := [{ id := ChainedBFT.BlockId.contentHash 2 (some 1) 50 1, round := 2, height := 2, parent_id := ChainedBFT.BlockId.contentHash 1 (some 0) 50 0, author := some 1, payload := 50, quorum_cert := { certified_block_id := ChainedBFT.BlockId.contentHash 1 (some 0) 50 0, certified_block_round := 1, certified_block_height := 1, certified_parent_round := 0, ledger_info := { consensus_block_id := none, commit_round := 0 }, signatures := [{ signer := 0, signed_ledger_info := { consensus_block_id := none, commit_round := 0 } }, { signer := 1, signed_ledger_info := { consensus_block_id := none, commit_round := 0 } }] } }, { id := ChainedBFT.BlockId.contentHash 3 (some 1) 50 2, round := 3, height := 3, parent_id := ChainedBFT.BlockId.contentHash 2 (some 1) 50 1, author := some 1, payload := 50, quorum_cert := { certified_block_id := ChainedBFT.BlockId.contentHash 2 (some 1) 50 1, certified_block_round := 2, certified_block_height := 2, certified_parent_round := 1, ledger_info := { consensus_block_id := some (ChainedBFT.BlockId.genesisId), commit_round := 0 }, signatures := [{ signer := 0, signed_ledger_info := { consensus_block_id := some (ChainedBFT.BlockId.genesisId), commit_round := 0 } }, { signer := 1, signed_ledger_info := { consensus_block_id := some (ChainedBFT.BlockId.genesisId), commit_round := 0 } }] } }, { id := ChainedBFT.BlockId.contentHash 4 (some 0) 50 3, round := 4, height := 4, parent_id := ChainedBFT.BlockId.contentHash 3 (some 1) 50 2, author := some 0, payload := 50, quorum_cert := { certified_block_id := ChainedBFT.BlockId.contentHash 3 (some 1) 50 2, certified_block_round := 3, certified_block_height := 3, certified_parent_round := 2, ledger_info := { consensus_block_id := some (ChainedBFT.BlockId.contentHash 1 (some 0) 50 0), commit_round := 1 }, signatures := [{ signer := 0, signed_ledger_info := { consensus_block_id := some (ChainedBFT.BlockId.contentHash 1 (some 0) 50 0), commit_round := 1 } }, { signer := 1, signed_ledger_info := { consensus_block_id := some (ChainedBFT.BlockId.contentHash 1 (some 0) 50 0), commit_round := 1 } }] } }], root_id := ChainedBFT.BlockId.contentHash 2 (some 1) 50 1, highest_quorum_cert := { certified_block_id := ChainedBFT.BlockId.contentHash 4 (some 0) 50 3, certified_block_round := 4, certified_block_height := 4, certified_parent_round := 3, ledger_info := { consensus_block_id := some (ChainedBFT.BlockId.contentHash 2 (some 1) 50 1), commit_round := 2 }, signatures := [{ signer := 0, signed_ledger_info := { consensus_block_id := some (ChainedBFT.BlockId.contentHash 2 (some 1) 50 1), commit_round := 2 } }, { signer := 1, signed_ledger_info := { consensus_block_id := some (ChainedBFT.BlockId.contentHash 2 (some 1) 50 1), commit_round := 2 } }] }, highest_commit_cert := { certified_block_id := ChainedBFT.BlockId.contentHash 4 (some 0) 50 3, certified_block_round := 4, certified_block_height := 4, certified_parent_round := 3, ledger_info := { consensus_block_id := some (ChainedBFT.BlockId.contentHash 2 (some 1) 50 1), commit_round := 2 }, signatures := [{ signer := 0, signed_ledger_info := { consensus_block_id := some (ChainedBFT.BlockId.contentHash 2 (some 1) 50 1), commit_round := 2 } }, { signer := 1, signed_ledger_info := { consensus_block_id := some (ChainedBFT.BlockId.contentHash 2 (some 1) 50 1), commit_round := 2 } }] }, current_round := 5, last_voted_round := 4, preferred_round := 2, last_vote := none, pending_votes := [{ author := 0, block_id := ChainedBFT.BlockId.contentHash 3 (some 1) 50 2, round := 3, height := 3, parent_block_id := ChainedBFT.BlockId.contentHash 2 (some 1) 50 1, parent_round := 2, ledger_info := { consensus_block_id := some (ChainedBFT.BlockId.contentHash 1 (some 0) 50 0), commit_round := 1 } }, { author := 1, block_id := ChainedBFT.BlockId.contentHash 3 (some 1) 50 2, round := 3, height := 3, parent_block_id := ChainedBFT.BlockId.contentHash 2 (some 1) 50 1, parent_round := 2, ledger_info := { consensus_block_id := some (ChainedBFT.BlockId.contentHash 1 (some 0) 50 0), commit_round := 1 } }, { author := 0, block_id := ChainedBFT.BlockId.contentHash 4 (some 0) 50 3, round := 4, height := 4, parent_block_id := ChainedBFT.BlockId.contentHash 3 (some 1) 50 2, parent_round := 3, ledger_info := { consensus_block_id := some (ChainedBFT.BlockId.contentHash 2 (some 1) 50 1), commit_round := 2 } }, { author := 1, block_id := ChainedBFT.BlockId.contentHash 4 (some 0) 50 3, round := 4, height := 4, parent_block_id := ChainedBFT.BlockId.contentHash 3 (some 1) 50 2, parent_round := 3, ledger_info := { consensus_block_id := some (ChainedBFT.BlockId.contentHash 2 (some 1) 50 1), commit_round := 2 } }], pending_timeouts := [], highest_tc_round := 0, pending_secondary := none, pending_fetch := none, commits := [{ ledger_info := { consensus_block_id := some (ChainedBFT.BlockId.contentHash 1 (some 0) 50 0), commit_round := 1 }, signatures := [{ signer := 0, signed_ledger_info := { consensus_block_id := some (ChainedBFT.BlockId.contentHash 1 (some 0) 50 0), commit_round := 1 } }, { signer := 1, signed_ledger_info := { consensus_block_id := some (ChainedBFT.BlockId.contentHash 1 (some 0) 50 0), commit_round := 1 } }] }, { ledger_info := { consensus_block_id := some (ChainedBFT.BlockId.contentHash 2 (some 1) 50 1), commit_round := 2 }, signatures := [{ signer := 0, signed_ledger_info := { consensus_block_id := some (ChainedBFT.BlockId.contentHash 2 (some 1) 50 1), commit_round := 2 } }, { signer := 1, signed_ledger_info := { consensus_block_id := some (ChainedBFT.BlockId.contentHash 2 (some 1) 50 1), commit_round := 2 } }] }], committed_txns := 100 }, { author := 1, blocks := [{ id := ChainedBFT.BlockId.contentHash 1 (some 0) 50 0, round := 1, height := 1, parent_id := ChainedBFT.BlockId.genesisId, author := some 0, payload := 50, quorum_cert := { certified_block_id := ChainedBFT.BlockId.genesisId, certified_block_round := 0, certified_block_height := 0, certified_parent_round := 0, ledger_info := { consensus_block_id := some (ChainedBFT.BlockId.genesisId), commit_round := 0 }, signatures := [] } }, { id := ChainedBFT.BlockId.contentHash 2 (some 1) 50 1, round := 2, height := 2, parent_id := ChainedBFT.BlockId.contentHash 1 (some 0) 50 0, author := some 1, payload := 50, quorum_cert := { certified_block_id := ChainedBFT.BlockId.contentHash 1 (some 0) 50 0, certified_block_round := 1, certified_block_height := 1, certified_parent_round := 0, ledger_info := { consensus_block_id := none, commit_round := 0 }, signatures := [{ signer := 0, signed_ledger_info := { consensus_block_id := none, commit_round := 0 } }, { signer := 1, signed_ledger_info := { consensus_block_id := none, commit_round := 0 } }] } }, { id := ChainedBFT.BlockId.contentHash 3 (some 1) 50 2, round := 3, height := 3, parent_id := ChainedBFT.BlockId.contentHash 2 (some 1) 50 1, author := some 1, payload := 50, quorum_cert := { certified_block_id := ChainedBFT.BlockId.contentHash 2 (some 1) 50 1, certified_block_round := 2, certified_block_height := 2, certified_parent_round := 1, ledger_info := { consensus_block_id := some (ChainedBFT.BlockId.genesisId), commit_round := 0 }, signatures := [{ signer := 0, signed_ledger_info := { consensus_block_id := some (ChainedBFT.BlockId.genesisId), commit_round := 0 } }, { signer := 1, signed_ledger_info := { consensus_block_id := some (ChainedBFT.BlockId.genesisId), commit_round := 0 } }] } }, { id := ChainedBFT.BlockId.contentHash 4 (some 0) 50 3, round := 4, height := 4, parent_id := ChainedBFT.BlockId.contentHash 3 (some 1) 50 2, author := some 0, payload := 50, quorum_cert := { certified_block_id := ChainedBFT.BlockId.contentHash 3 (some 1) 50 2, certified_block_round := 3, certified_block_height := 3, certified_parent_round := 2, ledger_info := { consensus_block_id := some (ChainedBFT.BlockId.contentHash 1 (some 0) 50 0), commit_round := 1 }, signatures := [{ signer := 0, signed_ledger_info := { consensus_block_id := some (ChainedBFT.BlockId.contentHash 1 (some 0) 50 0), commit_round := 1 } }, { signer := 1, signed_ledger_info := { consensus_block_id := some (ChainedBFT.BlockId.contentHash 1 (some 0) 50 0), commit_round := 1 } }] } }], root_id := ChainedBFT.BlockId.contentHash 1 (some 0) 50 0, highest_quorum_cert := { certified_block_id := ChainedBFT.BlockId.contentHash 3 (some 1) 50 2, certified_block_round := 3, certified_block_height := 3, certified_parent_round := 2, ledger_info := { consensus_block_id := some (ChainedBFT.BlockId.contentHash 1 (some 0) 50 0), commit_round := 1 }, signatures := [{ signer := 0, signed_ledger_info := { consensus_block_id := some (ChainedBFT.BlockId.contentHash 1 (some 0) 50 0), commit_round := 1 } }, { signer := 1, signed_ledger_info := { consensus_block_id := some (ChainedBFT.BlockId.contentHash 1 (some 0) 50 0), commit_round := 1 } }] }, highest_commit_cert := { certified_block_id := ChainedBFT.BlockId.contentHash 3 (some 1) 50 2, certified_block_round := 3, certified_block_height := 3, certified_parent_round := 2, ledger_info := { consensus_block_id := some (ChainedBFT.BlockId.contentHash 1 (some 0) 50 0), commit_round := 1 }, signatures := [{ signer := 0, signed_ledger_info := { consensus_block_id := some (ChainedBFT.BlockId.contentHash 1 (some 0) 50 0), commit_round := 1 } }, { signer := 1, signed_ledger_info := { consensus_block_id := some (ChainedBFT.BlockId.contentHash 1 (some 0) 50 0), commit_round := 1 } }] }, current_round := 4, last_voted_round := 4, preferred_round := 2, last_vote := some { author := 1, block_id := ChainedBFT.BlockId.contentHash 4 (some 0) 50 3, round := 4, height := 4, parent_block_id := ChainedBFT.BlockId.contentHash 3 (some 1) 50 2, parent_round := 3, ledger_info := { consensus_block_id := some (ChainedBFT.BlockId.contentHash 2 (some 1) 50 1), commit_round := 2 } }, pending_votes := [{ author := 0, block_id := ChainedBFT.BlockId.contentHash 1 (some 0) 50 0, round := 1, height := 1, parent_block_id := ChainedBFT.BlockId.genesisId, parent_round := 0, ledger_info := { consensus_block_id := none, commit_round := 0 } }, { author := 1, block_id := ChainedBFT.BlockId.contentHash 1 (some 0) 50 0, round := 1, height := 1, parent_block_id := ChainedBFT.BlockId.genesisId, parent_round := 0, ledger_info := { consensus_block_id := none, commit_round := 0 } }, { author := 0, block_id := ChainedBFT.BlockId.contentHash 2 (some 1) 50 1, round := 2, height := 2, parent_block_id := ChainedBFT.BlockId.contentHash 1 (some 0) 50 0, parent_round := 1, ledger_info := { consensus_block_id := some (ChainedBFT.BlockId.genesisId), commit_round := 0 } }, { author := 1, block_id := ChainedBFT.BlockId.contentHash 2 (some 1) 50 1, round := 2, height := 2, parent_block_id := ChainedBFT.BlockId.contentHash 1 (some 0) 50 0, parent_round := 1, ledger_info := { consensus_block_id := some (ChainedBFT.BlockId.genesisId), commit_round := 0 } }], pending_timeouts := [], highest_tc_round := 0, pending_secondary := none, pending_fetch := none, commits := [{ ledger_info := { consensus_block_id := some (ChainedBFT.BlockId.contentHash 1 (some 0) 50 0), commit_round := 1 }, signatures := [{ signer := 0, signed_ledger_info := { consensus_block_id := some (ChainedBFT.BlockId.contentHash 1 (some 0) 50 0), commit_round := 1 } }, { signer := 1, signed_ledger_info := { consensus_block_id := some (ChainedBFT.BlockId.contentHash 1 (some 0) 50 0), commit_round := 1 } }] }], committed_txns := 50 }], [(0, 0, ChainedBFT.Msg.proposal { id := ChainedBFT.BlockId.contentHash 5 (some 0) 50 4, round := 5, height := 5, parent_id := ChainedBFT.BlockId.contentHash 4 (some 0) 50 3, author := some 0, payload := 50, quorum_cert := { certified_block_id := ChainedBFT.BlockId.contentHash 4 (some 0) 50 3, certified_block_round := 4, certified_block_height := 4, certified_parent_round := 3, ledger_info := { consensus_block_id := some (ChainedBFT.BlockId.contentHash 2 (some 1) 50 1), commit_round := 2 }, signatures := [{ signer := 0, signed_ledger_info := { consensus_block_id := some (ChainedBFT.BlockId.contentHash 2 (some 1) 50 1), commit_round := 2 } }, { signer := 1, signed_ledger_info := { consensus_block_id := some (ChainedBFT.BlockId.contentHash 2 (some 1) 50 1), commit_round := 2 } }] } } { highest_quorum_cert := { certified_block_id := ChainedBFT.BlockId.contentHash 4 (some 0) 50 3, certified_block_round := 4, certified_block_height := 4, certified_parent_round := 3, ledger_info := { consensus_block_id := some (ChainedBFT.BlockId.contentHash 2 (some 1) 50 1), commit_round := 2 }, signatures := [{ signer := 0, signed_ledger_info := { consensus_block_id := some (ChainedBFT.BlockId.contentHash 2 (some 1) 50 1), commit_round := 2 } }, { signer := 1, signed_ledger_info := { consensus_block_id := some (ChainedBFT.BlockId.contentHash 2 (some 1) 50 1), commit_round := 2 } }] }, highest_commit_cert := { certified_block_id := ChainedBFT.BlockId.contentHash 4 (some 0) 50 3, certified_block_round := 4, certified_block_height := 4, certified_parent_round := 3, ledger_info := { consensus_block_id := some (ChainedBFT.BlockId.contentHash 2 (some 1) 50 1), commit_round := 2 }, signatures := [{ signer := 0, signed_ledger_info := { consensus_block_id := some (ChainedBFT.BlockId.contentHash 2 (some 1) 50 1), commit_round := 2 } }, { signer := 1, signed_ledger_info := { consensus_block_id := some (ChainedBFT.BlockId.contentHash 2 (some 1) 50 1), commit_round := 2 } }] } }), (0, 1, ChainedBFT.Msg.proposal { id := ChainedBFT.BlockId.contentHash 5 (some 0) 50 4, round := 5, height := 5, parent_id := ChainedBFT.BlockId.contentHash 4 (some 0) 50 3, author := some 0, payload := 50, quorum_cert := { certified_block_id := ChainedBFT.BlockId.contentHash 4 (some 0) 50 3, certified_block_round := 4, certified_block_height := 4, certified_parent_round := 3, ledger_info := { consensus_block_id := some (ChainedBFT.BlockId.contentHash 2 (some 1) 50 1), commit_round := 2 }, signatures := [{ signer := 0, signed_ledger_info := { consensus_block_id := some (ChainedBFT.BlockId.contentHash 2 (some 1) 50 1), commit_round := 2 } }, { signer := 1, signed_ledger_info := { consensus_block_id := some (ChainedBFT.BlockId.contentHash 2 (some 1) 50 1), commit_round := 2 } }] } } { highest_quorum_cert := { certified_block_id := ChainedBFT.BlockId.contentHash 4 (some 0) 50 3, certified_block_round := 4, certified_block_height := 4, certified_parent_round := 3, ledger_info := { consensus_block_id := some (ChainedBFT.BlockId.contentHash 2 (some 1) 50 1), commit_round := 2 }, signatures := [{ signer := 0, signed_ledger_info := { consensus_block_id := some (ChainedBFT.BlockId.contentHash 2 (some 1) 50 1), commit_round := 2 } }, { signer := 1, signed_ledger_info := { consensus_block_id := some (ChainedBFT.BlockId.contentHash 2 (some 1) 50 1), commit_round := 2 } }] }, highest_commit_cert := { certified_block_id := ChainedBFT.BlockId.contentHash 4 (some 0) 50 3, certified_block_round := 4, certified_block_height := 4, certified_parent_round := 3, ledger_info := { consensus_block_id := some (ChainedBFT.BlockId.contentHash 2 (some 1) 50 1), commit_round := 2 }, signatures := [{ signer := 0, signed_ledger_info := { consensus_block_id := some (ChainedBFT.BlockId.contentHash 2 (some 1) 50 1), commit_round := 2 } }, { signer := 1, signed_ledger_info := { consensus_block_id := some (ChainedBFT.BlockId.contentHash 2 (some 1) 50 1), commit_round := 2 } }] } })], [], [ChainedBFT.MsgDigest.proposalD { round := 1, height := 1, id := ChainedBFT.BlockId.contentHash 1 (some 0) 50 0, parent_id := ChainedBFT.BlockId.genesisId, qc_certified_block_id := ChainedBFT.BlockId.genesisId }, ChainedBFT.MsgDigest.voteD { round := 1, block_id := ChainedBFT.BlockId.contentHash 1 (some 0) 50 0 }, ChainedBFT.MsgDigest.proposalD { round := 2, height := 2, id := ChainedBFT.BlockId.contentHash 2 (some 1) 50 1, parent_id := ChainedBFT.BlockId.contentHash 1 (some 0) 50 0, qc_certified_block_id := ChainedBFT.BlockId.contentHash 1 (some 0) 50 0 }, ChainedBFT.MsgDigest.voteD { round := 2, block_id := ChainedBFT.BlockId.contentHash 2 (some 1) 50 1 }, ChainedBFT.MsgDigest.proposalD { round := 3, height := 3, id := ChainedBFT.BlockId.contentHash 3 (some 1) 50 2, parent_id := ChainedBFT.BlockId.contentHash 2 (some 1) 50 1, qc_certified_block_id := ChainedBFT.BlockId.contentHash 2 (some 1) 50 1 }, ChainedBFT.MsgDigest.voteD { round := 3, block_id := ChainedBFT.BlockId.contentHash 3 (some 1) 50 2 }, ChainedBFT.MsgDigest.proposalD { round := 4, height := 4, id := ChainedBFT.BlockId.contentHash 4 (some 0) 50 3, parent_id := ChainedBFT.BlockId.contentHash 3 (some 1) 50 2, qc_certified_block_id := ChainedBFT.BlockId.contentHash 3 (some 1) 50 2 }, ChainedBFT.MsgDigest.voteD { round := 4, block_id := ChainedBFT.BlockId.contentHash 4 (some 0) 50 3 }]⟩

/-- Checkpoint of the simulated cluster (see the scenario schedule definitions). -/
def c3w3 : World :=
⟨{ num_nodes := 2, quorum_size := 2, proposer_type := ChainedBFT.ConsensusProposerType.RotatingProposer, contiguous_rounds := 2, max_block_size := 50 }, [{ author := 0, blocks := [{ id := ChainedBFT.BlockId.contentHash 3 (some 1) 50 2, round := 3, height := 3, parent_id := ChainedBFT.BlockId.contentHash 2 (some 1) 50 1, author := some 1, payload := 50, quorum_cert := { certified_block_id := ChainedBFT.BlockId.contentHash 2 (some 1) 50 1, certified_block_round := 2, certified_block_height := 2, certified_parent_round := 1, ledger_info := { consensus_block_id := some (ChainedBFT.BlockId.genesisId), commit_round := 0 }, signatures := [{ signer := 0, signed_ledger_info := { consensus_block_id := some (ChainedBFT.BlockId.genesisId), commit_round := 0 } }, { signer := 1, signed_ledger_info := { consensus_block_id := some (ChainedBFT.BlockId.genesisId), commit_round := 0 } }] } }, { id := ChainedBFT.BlockId.contentHash 4 (some 0) 50 3, round := 4, height := 4, parent_id := ChainedBFT.BlockId.contentHash 3 (some 1) 50 2, author := some 0, payload := 50, quorum_cert := { certified_block_id := ChainedBFT.BlockId.contentHash 3 (some 1) 50 2, certified_block_round := 3, certified_block_height := 3, certified_parent_round := 2, ledger_info := { consensus_block_id := some (ChainedBFT.BlockId.contentHash 1 (some 0) 50 0), commit_round := 1 }, signatures := [{ signer := 0, signed_ledger_info := { consensus_block_id := some (ChainedBFT.BlockId.contentHash 1 (some 0) 50 0), commit_round := 1 } }, { signer := 1, signed_ledger_info := { consensus_block_id := some (ChainedBFT.BlockId.contentHash 1 (some 0) 50 0), commit_round := 1 } }] } }, { id := ChainedBFT.BlockId.contentHash 5 (some 0) 50 4, round := 5, height := 5, parent_id := ChainedBFT.BlockId.contentHash 4 (some 0) 50 3, author := some 0, payload := 50, quorum_cert := { certified_block_id := ChainedBFT.BlockId.contentHash 4 (some 0) 50 3, certified_block_round := 4, certified_block_height := 4, certified_parent_round := 3, ledger_info := { consensus_block_id := some (ChainedBFT.BlockId.contentHash 2 (some 1) 50 1), commit_round := 2 }, signatures := [{ signer := 0, signed_ledger_info := { consensus_block_id := some (ChainedBFT.BlockId.contentHash 2 (some 1) 50 1), commit_round := 2 } }, { signer := 1, signed_ledger_info := { consensus_block_id := some (ChainedBFT.BlockId.contentHash 2 (some 1) 50 1), commit_round := 2 } }] } }, { id := ChainedBFT.BlockId.contentHash 6 (some 1) 50 5, round := 6, height := 6, parent_id := ChainedBFT.BlockId.contentHash 5 (some 0) 50 4, author := some 1, payload := 50, quorum_cert := { certified_block_id := ChainedBFT.BlockId.contentHash 5 (some 0) 50 4, certified_block_round := 5, certified_block_height := 5, certified_parent_round := 4, ledger_info := { consensus_block_id := some (ChainedBFT.BlockId.contentHash 3 (some 1) 50 2), commit_round := 3 }, signatures := [{ signer := 0, signed_ledger_info := { consensus_block_id := some (ChainedBFT.BlockId.contentHash 3 (some 1) 50 2), commit_round := 3 } }, { signer := 1, signed_ledger_info := { consensus_block_id := some (ChainedBFT.BlockId.contentHash 3 (some 1) 50 2), commit_round := 3 } }] } }], root_id := ChainedBFT.BlockId.contentHash 3 (some 1) 50 2, highest_quorum_cert := { certified_block_id := ChainedBFT.BlockId.contentHash 5 (some 0) 50 4, certified_block_round := 5, certified_block_height := 5, certified_parent_round := 4, ledger_info := { consensus_block_id := some (ChainedBFT.BlockId.contentHash 3 (some 1) 50 2), commit_round := 3 }, signatures := [{ signer := 0, signed_ledger_info := { consensus_block_id := some (ChainedBFT.BlockId.contentHash 3 (some 1) 50 2), commit_round := 3 } }, { signer := 1, signed_ledger_info := { consensus_block_id := some (ChainedBFT.BlockId.contentHash 3 (some 1) 50 2), commit_round := 3 } }] }, highest_commit_cert := { certified_block_id := ChainedBFT.BlockId.contentHash 5 (some 0) 50 4, certified_block_round := 5, certified_block_height := 5, certified_parent_round := 4, ledger_info := { consensus_block_id := some (ChainedBFT.BlockId.contentHash 3 (some 1) 50 2), commit_round := 3 }, signatures := [{ signer := 0, signed_ledger_info := { consensus_block_id := some (ChainedBFT.BlockId.contentHash 3 (some 1) 50 2), commit_round := 3 } }, { signer := 1, signed_ledger_info := { consensus_block_id := some (ChainedBFT.BlockId.contentHash 3 (some 1) 50 2), commit_round := 3 } }] }, current_round := 6, last_voted_round := 6, preferred_round := 4, last_vote := some { author := 0, block_id := ChainedBFT.BlockId.contentHash 6 (some 1) 50 5, round := 6, height := 6, parent_block_id := ChainedBFT.BlockId.contentHash 5 (some 0) 50 4, parent_round := 5, ledger_info := { consensus_block_id := some (ChainedBFT.BlockId.contentHash 4 (some 0) 50 3), commit_round := 4 } }, pending_votes := [{ author := 0, block_id := ChainedBFT.BlockId.contentHash 3 (some 1) 50 2, round := 3, height := 3, parent_block_id := ChainedBFT.BlockId.contentHash 2 (some 1) 50 1, parent_round := 2, ledger_info := { consensus_block_id := some (ChainedBFT.BlockId.contentHash 1 (some 0) 50 0), commit_round := 1 } }, { author := 1, block_id := ChainedBFT.BlockId.contentHash 3 (some 1) 50 2, round := 3, height := 3, parent_block_id := ChainedBFT.BlockId.contentHash 2 (some 1) 50 1, parent_round := 2, ledger_info := { consensus_block_id := some (ChainedBFT.BlockId.contentHash 1 (some 0) 50 0), commit_round := 1 } }, { author := 0, block_id := ChainedBFT.BlockId.contentHash 4 (some 0) 50 3, round := 4, height := 4, parent_block_id := ChainedBFT.BlockId.contentHash 3 (some 1) 50 2, parent_round := 3, ledger_info := { consensus_block_id := some (ChainedBFT.BlockId.contentHash 2 (some 1) 50 1), commit_round := 2 } }, { author := 1, block_id := ChainedBFT.BlockId.contentHash 4 (some 0) 50 3, round := 4, height := 4, parent_block_id := ChainedBFT.BlockId.contentHash 3 (some 1) 50 2, parent_round := 3, ledger_info := { consensus_block_id := some (ChainedBFT.BlockId.contentHash 2 (some 1) 50 1), commit_round := 2 } }], pending_timeouts := [], highest_tc_round := 0, pending_secondary := none, pending_fetch := none, commits := [{ ledger_info := { consensus_block_id := some (ChainedBFT.BlockId.contentHash 1 (some 0) 50 0), commit_round := 1 }, signatures := [{ signer := 0, signed_ledger_info := { consensus_block_id := some (ChainedBFT.BlockId.contentHash 1 (some 0) 50 0), commit_round := 1 } }, { signer := 1, signed_ledger_info := { consensus_block_id := some (ChainedBFT.BlockId.contentHash 1 (some 0) 50 0), commit_round := 1 } }] }, { ledger_info := { consensus_block_id := some (ChainedBFT.BlockId.contentHash 2 (some 1) 50 1), commit_round := 2 }, signatures := [{ signer := 0, signed_ledger_info := { consensus_block_id := some (ChainedBFT.BlockId.contentHash 2 (some 1) 50 1), commit_round := 2 } }, { signer := 1, signed_ledger_info := { consensus_block_id := some (ChainedBFT.BlockId.contentHash 2 (some 1) 50 1), commit_round := 2 } }] }, { ledger_info := { consensus_block_id := some (ChainedBFT.BlockId.contentHash 3 (some 1) 50 2), commit_round := 3 }, signatures := [{ signer := 0, signed_ledger_info := { consensus_block_id := some (ChainedBFT.BlockId.contentHash 3 (some 1) 50 2), commit_round := 3 } }, { signer := 1, signed_ledger_info := { consensus_block_id := some (ChainedBFT.BlockId.contentHash 3 (some 1) 50 2), commit_round := 3 } }] }], committed_txns := 150 }, { author := 1, blocks := [{ id := ChainedBFT.BlockId.contentHash 4 (some 0) 50 3, round := 4, height := 4, parent_id := ChainedBFT.BlockId.contentHash 3 (some 1) 50 2, author := some 0, payload := 50, quorum_cert := { certified_block_id := ChainedBFT.BlockId.contentHash 3 (some 1) 50 2, certified_block_round := 3, certified_block_height := 3, certified_parent_round := 2, ledger_info := { consensus_block_id := some (ChainedBFT.BlockId.contentHash 1 (some 0) 50 0), commit_round := 1 }, signatures := [{ signer := 0, signed_ledger_info := { consensus_block_id := some (ChainedBFT.BlockId.contentHash 1 (some 0) 50 0), commit_round := 1 } }, { signer := 1, signed_ledger_info := { consensus_block_id := some (ChainedBFT.BlockId.contentHash 1 (some 0) 50 0), commit_round := 1 } }] } }, { id := ChainedBFT.BlockId.contentHash 5 (some 0) 50 4, round := 5, height := 5, parent_id := ChainedBFT.BlockId.contentHash 4 (some 0) 50 3, author := some 0, payload := 50, quorum_cert := { certified_block_id := ChainedBFT.BlockId.contentHash 4 (some 0) 50 3, certified_block_round := 4, certified_block_height := 4, certified_parent_round := 3, ledger_info := { consensus_block_id := some (ChainedBFT.BlockId.contentHash 2 (some 1) 50 1), commit_round := 2 }, signatures := [{ signer := 0, signed_ledger_info := { consensus_block_id := some (ChainedBFT.BlockId.contentHash 2 (some 1) 50 1), commit_round := 2 } }, { signer := 1, signed_ledger_info := { consensus_block_id := some (ChainedBFT.BlockId.contentHash 2 (some 1) 50 1), commit_round := 2 } }] } }, { id := ChainedBFT.BlockId.contentHash 6 (some 1) 50 5, round := 6, height := 6, parent_id := ChainedBFT.BlockId.contentHash 5 (some 0) 50 4, author := some 1, payload := 50, quorum_cert := { certified_block_id := ChainedBFT.BlockId.contentHash 5 (some 0) 50 4, certified_block_round := 5, certified_block_height := 5, certified_parent_round := 4, ledger_info := { consensus_block_id := some (ChainedBFT.BlockId.contentHash 3 (some 1) 50 2), commit_round := 3 }, signatures := [{ signer := 0, signed_ledger_info := { consensus_block_id := some (ChainedBFT.BlockId.contentHash 3 (some 1) 50 2), commit_round := 3 } }, { signer := 1, signed_ledger_info := { consensus_block_id := some (ChainedBFT.BlockId.contentHash 3 (some 1) 50 2), commit_round := 3 } }] } }], root_id := ChainedBFT.BlockId.contentHash 4 (some 0) 50 3, highest_quorum_cert := { certified_block_id := ChainedBFT.BlockId.contentHash 6 (some 1) 50 5, certified_block_round := 6, certified_block_height := 6, certified_parent_round := 5, ledger_info := { consensus_block_id := some (ChainedBFT.BlockId.contentHash 4 (some 0) 50 3), commit_round := 4 }, signatures := [{ signer := 0, signed_ledger_info := { consensus_block_id := some (ChainedBFT.BlockId.contentHash 4 (some 0) 50 3), commit_round := 4 } }, { signer := 1, signed_ledger_info := { consensus_block_id := some (ChainedBFT.BlockId.contentHash 4 (some 0) 50 3), commit_round := 4 } }] }, highest_commit_cert := { certified_block_id := ChainedBFT.BlockId.contentHash 6 (some 1) 50 5, certified_block_round := 6, certified_block_height := 6, certified_parent_round := 5, ledger_info := { consensus_block_id := some (ChainedBFT.BlockId.contentHash 4 (some 0) 50 3), commit_round := 4 }, signatures := [{ signer := 0, signed_ledger_info := { consensus_block_id := some (ChainedBFT.BlockId.contentHash 4 (some 0) 50 3), commit_round := 4 } }, { signer := 1, signed_ledger_info := { consensus_block_id := some (ChainedBFT.BlockId.contentHash 4 (some 0) 50 3), commit_round := 4 } }] }, current_round := 7, last_voted_round := 6, preferred_round := 4, last_vote := none, pending_votes := [{ author := 0, block_id := ChainedBFT.BlockId.contentHash 1 (some 0) 50 0, round := 1, height := 1, parent_block_id := ChainedBFT.BlockId.genesisId, parent_round := 0, ledger_info := { consensus_block_id := none, commit_round := 0 } }, { author := 1, block_id := ChainedBFT.BlockId.contentHash 1 (some 0) 50 0, round := 1, height := 1, parent_block_id := ChainedBFT.BlockId.genesisId, parent_round := 0, ledger_info := { consensus_block_id := none, commit_round := 0 } }, { author := 0, block_id := ChainedBFT.BlockId.contentHash 2 (some 1) 50 1, round := 2, height := 2, parent_block_id := ChainedBFT.BlockId.contentHash 1 (some 0) 50 0, parent_round := 1, ledger_info := { consensus_block_id := some (ChainedBFT.BlockId.genesisId), commit_round := 0 } }, { author := 1, block_id := ChainedBFT.BlockId.contentHash 2 (some 1) 50 1, round := 2, height := 2, parent_block_id := ChainedBFT.BlockId.contentHash 1 (some 0) 50 0, parent_round := 1, ledger_info := { consensus_block_id := some (ChainedBFT.BlockId.genesisId), commit_round := 0 } }, { author := 0, block_id := ChainedBFT.BlockId.contentHash 5 (some 0) 50 4, round := 5, height := 5, parent_block_id := ChainedBFT.BlockId.contentHash 4 (some 0) 50 3, parent_round := 4, ledger_info := { consensus_block_id := some (ChainedBFT.BlockId.contentHash 3 (some 1) 50 2), commit_round := 3 } }, { author := 1, block_id := ChainedBFT.BlockId.contentHash 5 (some 0) 50 4, round := 5, height := 5, parent_block_id := ChainedBFT.BlockId.contentHash 4 (some 0) 50 3, parent_round := 4, ledger_info := { consensus_block_id := some (ChainedBFT.BlockId.contentHash 3 (some 1) 50 2), commit_round := 3 } }, { author := 0, block_id := ChainedBFT.BlockId.contentHash 6 (some 1) 50 5, round := 6, height := 6, parent_block_id := ChainedBFT.BlockId.contentHash 5 (some 0) 50 4, parent_round := 5, ledger_info := { consensus_block_id := some (ChainedBFT.BlockId.contentHash 4 (some 0) 50 3), commit_round := 4 } }, { author := 1, block_id := ChainedBFT.BlockId.contentHash 6 (some 1) 50 5, round := 6, height := 6, parent_block_id := ChainedBFT.BlockId.contentHash 5 (some 0) 50 4, parent_round := 5, ledger_info := { consensus_block_id := some (ChainedBFT.BlockId.contentHash 4 (some 0) 50 3), commit_round := 4 } }], pending_timeouts := [], highest_tc_round := 0, pending_secondary := none, pending_fetch := none, commits := [{ ledger_info := { consensus_block_id := some (ChainedBFT.BlockId.contentHash 1 (some 0) 50 0), commit_round := 1 }, signatures := [{ signer := 0, signed_ledger_info := { consensus_block_id := some (ChainedBFT.BlockId.contentHash 1 (some 0) 50 0), commit_round := 1 } }, { signer := 1, signed_ledger_info := { consensus_block_id := some (ChainedBFT.BlockId.contentHash 1 (some 0) 50 0), commit_round := 1 } }] }, { ledger_info := { consensus_block_id := some (ChainedBFT.BlockId.contentHash 2 (some 1) 50 1), commit_round := 2 }, signatures := [{ signer := 0, signed_ledger_info := { consensus_block_id := some (ChainedBFT.BlockId.contentHash 2 (some 1) 50 1), commit_round := 2 } }, { signer := 1, signed_ledger_info := { consensus_block_id := some (ChainedBFT.BlockId.contentHash 2 (some 1) 50 1), commit_round := 2 } }] }, { ledger_info := { consensus_block_id := some (ChainedBFT.BlockId.contentHash 3 (some 1) 50 2), commit_round := 3 }, signatures := [{ signer := 0, signed_ledger_info := { consensus_block_id := some (ChainedBFT.BlockId.contentHash 3 (some 1) 50 2), commit_round := 3 } }, { signer := 1, signed_ledger_info := { consensus_block_id := some (ChainedBFT.BlockId.contentHash 3 (some 1) 50 2), commit_round := 3 } }] }, { ledger_info := { consensus_block_id := some (ChainedBFT.BlockId.contentHash 4 (some 0) 50 3), commit_round := 4 }, signatures := [{ signer := 0, signed_ledger_info := { consensus_block_id := some (ChainedBFT.BlockId.contentHash 4 (some 0) 50 3), commit_round := 4 } }, { signer := 1, signed_ledger_info := { consensus_block_id := some (ChainedBFT.BlockId.contentHash 4 (some 0) 50 3), commit_round := 4 } }] }], committed_txns := 200 }], [(1, 0, ChainedBFT.Msg.proposal { id := ChainedBFT.BlockId.contentHash 7 (some 1) 50 6, round := 7, height := 7, parent_id := ChainedBFT.BlockId.contentHash 6 (some 1) 50 5, author := some 1, payload := 50, quorum_cert := { certified_block_id := ChainedBFT.BlockId.contentHash 6 (some 1) 50 5, certified_block_round := 6, certified_block_height := 6, certified_parent_round := 5, ledger_info := { consensus_block_id := some (ChainedBFT.BlockId.contentHash 4 (some 0) 50 3), commit_round := 4 }, signatures := [{ signer := 0, signed_ledger_info := { consensus_block_id := some (ChainedBFT.BlockId.contentHash 4 (some 0) 50 3), commit_round := 4 } }, { signer := 1, signed_ledger_info := { consensus_block_id := some (ChainedBFT.BlockId.contentHash 4 (some 0) 50 3), commit_round := 4 } }] } } { highest_quorum_cert := { certified_block_id := ChainedBFT.BlockId.contentHash 6 (some 1) 50 5, certified_block_round := 6, certified_block_height := 6, certified_parent_round := 5, ledger_info := { consensus_block_id := some (ChainedBFT.BlockId.contentHash 4 (some 0) 50 3), commit_round := 4 }, signatures := [{ signer := 0, signed_ledger_info := { consensus_block_id := some (ChainedBFT.BlockId.contentHash 4 (some 0) 50 3), commit_round := 4 } }, { signer := 1, signed_ledger_info := { consensus_block_id := some (ChainedBFT.BlockId.contentHash 4 (some 0) 50 3), commit_round := 4 } }] }, highest_commit_cert := { certified_block_id := ChainedBFT.BlockId.contentHash 6 (some 1) 50 5, certified_block_round := 6, certified_block_height := 6, certified_parent_round := 5, ledger_info := { consensus_block_id := some (ChainedBFT.BlockId.contentHash 4 (some 0) 50 3), commit_round := 4 }, signatures := [{ signer := 0, signed_ledger_info := { consensus_block_id := some (ChainedBFT.BlockId.contentHash 4 (some 0) 50 3), commit_round := 4 } }, { signer := 1, signed_ledger_info := { consensus_block_id := some (ChainedBFT.BlockId.contentHash 4 (some 0) 50 3), commit_round := 4 } }] } }), (1, 1, ChainedBFT.Msg.proposal { id := ChainedBFT.BlockId.contentHash 7 (some 1) 50 6, round := 7, height := 7, parent_id := ChainedBFT.BlockId.contentHash 6 (some 1) 50 5, author := some 1, payload := 50, quorum_cert := { certified_block_id := ChainedBFT.BlockId.contentHash 6 (some 1) 50 5, certified_block_round := 6, certified_block_height := 6, certified_parent_round := 5, ledger_info := { consensus_block_id := some (ChainedBFT.BlockId.contentHash 4 (some 0) 50 3), commit_round := 4 }, signatures := [{ signer := 0, signed_ledger_info := { consensus_block_id := some (ChainedBFT.BlockId.contentHash 4 (some 0) 50 3), commit_round := 4 } }, { signer := 1, signed_ledger_info := { consensus_block_id := some (ChainedBFT.BlockId.contentHash 4 (some 0) 50 3), commit_round := 4 } }] } } { highest_quorum_cert := { certified_block_id := ChainedBFT.BlockId.contentHash 6 (some 1) 50 5, certified_block_round := 6, certified_block_height := 6, certified_parent_round := 5, ledger_info := { consensus_block_id := some (ChainedBFT.BlockId.contentHash 4 (some 0) 50 3), commit_round := 4 }, signatures := [{ signer := 0, signed_ledger_info := { consensus_block_id := some (ChainedBFT.BlockId.contentHash 4 (some 0) 50 3), commit_round := 4 } }, { signer := 1, signed_ledger_info := { consensus_block_id := some (ChainedBFT.BlockId.contentHash 4 (some 0) 50 3), commit_round := 4 } }] }, highest_commit_cert := { certified_block_id := ChainedBFT.BlockId.contentHash 6 (some 1) 50 5, certified_block_round := 6, certified_block_height := 6, certified_parent_round := 5, ledger_info := { consensus_block_id := some (ChainedBFT.BlockId.contentHash 4 (some 0) 50 3), commit_round := 4 }, signatures := [{ signer := 0, signed_ledger_info := { consensus_block_id := some (ChainedBFT.BlockId.contentHash 4 (some 0) 50 3), commit_round := 4 } }, { signer := 1, signed_ledger_info := { consensus_block_id := some (ChainedBFT.BlockId.contentHash 4 (some 0) 50 3), commit_round := 4 } }] } })], [], [ChainedBFT.MsgDigest.proposalD { round := 1, height := 1, id := ChainedBFT.BlockId.contentHash 1 (some 0) 50 0, parent_id := ChainedBFT.BlockId.genesisId, qc_certified_block_id := ChainedBFT.BlockId.genesisId }, ChainedBFT.MsgDigest.voteD { round := 1, block_id := ChainedBFT.BlockId.contentHash 1 (some 0) 50 0 }, ChainedBFT.MsgDigest.proposalD { round := 2, height := 2, id := ChainedBFT.BlockId.contentHash 2 (some 1) 50 1, parent_id := ChainedBFT.BlockId.contentHash 1 (some 0) 50 0, qc_certified_block_id := ChainedBFT.BlockId.contentHash 1 (some 0) 50 0 }, ChainedBFT.MsgDigest.voteD { round := 2, block_id := ChainedBFT.BlockId.contentHash 2 (some 1) 50 1 }, ChainedBFT.MsgDigest.proposalD { round := 3, height := 3, id := ChainedBFT.BlockId.contentHash 3 (some 1) 50 2, parent_id := ChainedBFT.BlockId.contentHash 2 (some 1) 50 1, qc_certified_block_id := ChainedBFT.BlockId.contentHash 2 (some 1) 50 1 }, ChainedBFT.MsgDigest.voteD { round := 3, block_id := ChainedBFT.BlockId.contentHash 3 (some 1) 50 2 }, ChainedBFT.MsgDigest.proposalD { round := 4, height := 4, id := ChainedBFT.BlockId.contentHash 4 (some 0) 50 3, parent_id := ChainedBFT.BlockId.contentHash 3 (some 1) 50 2, qc_certified_block_id := ChainedBFT.BlockId.contentHash 3 (some 1) 50 2 }, ChainedBFT.MsgDigest.voteD { round := 4, block_id := ChainedBFT.BlockId.contentHash 4 (some 0) 50 3 }, ChainedBFT.MsgDigest.proposalD { round := 5, height := 5, id := ChainedBFT.BlockId.contentHash 5 (some 0) 50 4, parent_id := ChainedBFT.BlockId.contentHash 4 (some 0) 50 3, qc_certified_block_id := ChainedBFT.BlockId.contentHash 4 (some 0) 50 3 }, ChainedBFT.MsgDigest.voteD { round := 5, block_id := ChainedBFT.BlockId.contentHash 5 (some 0) 50 4 }, ChainedBFT.MsgDigest.proposalD { round := 6, height := 6, id := ChainedBFT.BlockId.contentHash 6 (some 1) 50 5, parent_id := ChainedBFT.BlockId.contentHash 5 (some 0) 50 4, qc_certified_block_id := ChainedBFT.BlockId.contentHash 5 (some 0) 50 4 }, ChainedBFT.MsgDigest.voteD { round := 6, block_id := ChainedBFT.BlockId.contentHash 6 (some 1) 50 5 }]⟩

/-- Checkpoint of the simulated cluster (see the scenario schedule definitions). -/
def c3w4 : World :=
⟨{ num_nodes := 2, quorum_size := 2, proposer_type := ChainedBFT.ConsensusProposerType.RotatingProposer, contiguous_rounds := 2, max_block_size := 50 }, [{ author := 0, blocks := [{ id := ChainedBFT.BlockId.contentHash 6 (some 1) 50 5, round := 6, height := 6, parent_id := ChainedBFT.BlockId.contentHash 5 (some 0) 50 4, author := some 1, payload := 50, quorum_cert := { certified_block_id := ChainedBFT.BlockId.contentHash 5 (some 0) 50 4, certified_block_round := 5, certified_block_height := 5, certified_parent_round := 4, ledger_info := { consensus_block_id := some (ChainedBFT.BlockId.contentHash 3 (some 1) 50 2), commit_round := 3 }, signatures := [{ signer := 0, signed_ledger_info := { consensus_block_id := some (ChainedBFT.BlockId.contentHash 3 (some 1) 50 2), commit_round := 3 } }, { signer := 1, signed_ledger_info := { consensus_block_id := some (ChainedBFT.BlockId.contentHash 3 (some 1) 50 2), commit_round := 3 } }] } }, { id := ChainedBFT.BlockId.contentHash 7 (some 1) 50 6, round := 7, height := 7, parent_id := ChainedBFT.BlockId.contentHash 6 (some 1) 50 5, author := some 1, payload := 50, quorum_cert := { certified_block_id := ChainedBFT.BlockId.contentHash 6 (some 1) 50 5, certified_block_round := 6, certified_block_height := 6, certified_parent_round := 5, ledger_info := { consensus_block_id := some (ChainedBFT.BlockId.contentHash 4 (some 0) 50 3), commit_round := 4 }, signatures := [{ signer := 0, signed_ledger_info := { consensus_block_id := some (ChainedBFT.BlockId.contentHash 4 (some 0) 50 3), commit_round := 4 } }, { signer := 1, signed_ledger_info := { consensus_block_id := some (ChainedBFT.BlockId.contentHash 4 (some 0) 50 3), commit_round := 4 } }] } }, { id := ChainedBFT.BlockId.contentHash 8 (some 0) 50 7, round := 8, height := 8, parent_id := ChainedBFT.BlockId.contentHash 7 (some 1) 50 6, author := some 0, payload := 50, quorum_cert := { certified_block_id := ChainedBFT.BlockId.contentHash 7 (some 1) 50 6, certified_block_round := 7, certified_block_height := 7, certified_parent_round := 6, ledger_info := { consensus_block_id := some (ChainedBFT.BlockId.contentHash 5 (some 0) 50 4), commit_round := 5 }, signatures := [{ signer := 0, signed_ledger_info := { consensus_block_id := some (ChainedBFT.BlockId.contentHash 5 (some 0) 50 4), commit_round := 5 } }, { signer := 1, signed_ledger_info := { consensus_block_id := some (ChainedBFT.BlockId.contentHash 5 (some 0) 50 4), commit_round := 5 } }] } }], root_id := ChainedBFT.BlockId.contentHash 6 (some 1) 50 5, highest_quorum_cert := { certified_block_id := ChainedBFT.BlockId.contentHash 8 (some 0) 50 7, certified_block_round := 8, certified_block_height := 8, certified_parent_round := 7, ledger_info := { consensus_block_id := some (ChainedBFT.BlockId.contentHash 6 (some 1) 50 5), commit_round := 6 }, signatures := [{ signer := 0, signed_ledger_info := { consensus_block_id := some (ChainedBFT.BlockId.contentHash 6 (some 1) 50 5), commit_round := 6 } }, { signer := 1, signed_ledger_info := { consensus_block_id := some (ChainedBFT.BlockId.contentHash 6 (some 1) 50 5), commit_round := 6 } }] }, highest_commit_cert := { certified_block_id := ChainedBFT.BlockId.contentHash 8 (some 0) 50 7, certified_block_round := 8, certified_block_height := 8, certified_parent_round := 7, ledger_info := { consensus_block_id := some (ChainedBFT.BlockId.contentHash 6 (some 1) 50 5), commit_round := 6 }, signatures := [{ signer := 0, signed_ledger_info := { consensus_block_id := some (ChainedBFT.BlockId.contentHash 6 (some 1) 50 5), commit_round := 6 } }, { signer := 1, signed_ledger_info := { consensus_block_id := some (ChainedBFT.BlockId.contentHash 6 (some 1) 50 5), commit_round := 6 } }] }, current_round := 9, last_voted_round := 8, preferred_round := 6, last_vote := none, pending_votes := [{ author := 0, block_id := ChainedBFT.BlockId.contentHash 3 (some 1) 50 2, round := 3, height := 3, parent_block_id := ChainedBFT.BlockId.contentHash 2 (some 1) 50 1, parent_round := 2, ledger_info := { consensus_block_id := some (ChainedBFT.BlockId.contentHash 1 (some 0) 50 0), commit_round := 1 } }, { author := 1, block_id := ChainedBFT.BlockId.contentHash 3 (some 1) 50 2, round := 3, height := 3, parent_block_id := ChainedBFT.BlockId.contentHash 2 (some 1) 50 1, parent_round := 2, ledger_info := { consensus_block_id := some (ChainedBFT.BlockId.contentHash 1 (some 0) 50 0), commit_round := 1 } }, { author := 0, block_id := ChainedBFT.BlockId.contentHash 4 (some 0) 50 3, round := 4, height := 4, parent_block_id := ChainedBFT.BlockId.contentHash 3 (some 1) 50 2, parent_round := 3, ledger_info := { consensus_block_id := some (ChainedBFT.BlockId.contentHash 2 (some 1) 50 1), commit_round := 2 } }, { author := 1, block_id := ChainedBFT.BlockId.contentHash 4 (some 0) 50 3, round := 4, height := 4, parent_block_id := ChainedBFT.BlockId.contentHash 3 (some 1) 50 2, parent_round := 3, ledger_info := { consensus_block_id := some (ChainedBFT.BlockId.contentHash 2 (some 1) 50 1), commit_round := 2 } }, { author := 0, block_id := ChainedBFT.BlockId.contentHash 7 (some 1) 50 6, round := 7, height := 7, parent_block_id := ChainedBFT.BlockId.contentHash 6 (some 1) 50 5, parent_round := 6, ledger_info := { consensus_block_id := some (ChainedBFT.BlockId.contentHash 5 (some 0) 50 4), commit_round := 5 } }, { author := 1, block_id := ChainedBFT.BlockId.contentHash 7 (some 1) 50 6, round := 7, height := 7, parent_block_id := ChainedBFT.BlockId.contentHash 6 (some 1) 50 5, parent_round := 6, ledger_info := { consensus_block_id := some (ChainedBFT.BlockId.contentHash 5 (some 0) 50 4), commit_round := 5 } }, { author := 0, block_id := ChainedBFT.BlockId.contentHash 8 (some 0) 50 7, round := 8, height := 8, parent_block_id := ChainedBFT.BlockId.contentHash 7 (some 1) 50 6, parent_round := 7, ledger_info := { consensus_block_id := some (ChainedBFT.BlockId.contentHash 6 (some 1) 50 5), commit_round := 6 } }, { author := 1, block_id := ChainedBFT.BlockId.contentHash 8 (some 0) 50 7, round := 8, height := 8, parent_block_id := ChainedBFT.BlockId.contentHash 7 (some 1) 50 6, parent_round := 7, ledger_info := { consensus_block_id := some (ChainedBFT.BlockId.contentHash 6 (some 1) 50 5), commit_round := 6 } }], pending_timeouts := [], highest_tc_round := 0, pending_secondary := none, pending_fetch := none, commits := [{ ledger_info := { consensus_block_id := some (ChainedBFT.BlockId.contentHash 1 (some 0) 50 0), commit_round := 1 }, signatures := [{ signer := 0, signed_ledger_info := { consensus_block_id := some (ChainedBFT.BlockId.contentHash 1 (some 0) 50 0), commit_round := 1 } }, { signer := 1, signed_ledger_info := { consensus_block_id := some (ChainedBFT.BlockId.contentHash 1 (some 0) 50 0), commit_round := 1 } }] }, { ledger_info := { consensus_block_id := some (ChainedBFT.BlockId.contentHash 2 (some 1) 50 1), commit_round := 2 }, signatures := [{ signer := 0, signed_ledger_info := { consensus_block_id := some (ChainedBFT.BlockId.contentHash 2 (some 1) 50 1), commit_round := 2 } }, { signer := 1, signed_ledger_info := { consensus_block_id := some (ChainedBFT.BlockId.contentHash 2 (some 1) 50 1), commit_round := 2 } }] }, { ledger_info := { consensus_block_id := some (ChainedBFT.BlockId.contentHash 3 (some 1) 50 2), commit_round := 3 }, signatures := [{ signer := 0, signed_ledger_info := { consensus_block_id := some (ChainedBFT.BlockId.contentHash 3 (some 1) 50 2), commit_round := 3 } }, { signer := 1, signed_ledger_info := { consensus_block_id := some (ChainedBFT.BlockId.contentHash 3 (some 1) 50 2), commit_round := 3 } }] }, { ledger_info := { consensus_block_id := some (ChainedBFT.BlockId.contentHash 4 (some 0) 50 3), commit_round := 4 }, signatures := [{ signer := 0, signed_ledger_info := { consensus_block_id := some (ChainedBFT.BlockId.contentHash 4 (some 0) 50 3), commit_round := 4 } }, { signer := 1, signed_ledger_info := { consensus_block_id := some (ChainedBFT.BlockId.contentHash 4 (some 0) 50 3), commit_round := 4 } }] }, { ledger_info := { consensus_block_id := some (ChainedBFT.BlockId.contentHash 5 (some 0) 50 4), commit_round := 5 }, signatures := [{ signer := 0, signed_ledger_info := { consensus_block_id := some (ChainedBFT.BlockId.contentHash 5 (some 0) 50 4), commit_round := 5 } }, { signer := 1, signed_ledger_info := { consensus_block_id := some (ChainedBFT.BlockId.contentHash 5 (some 0) 50 4), commit_round := 5 } }] }, { ledger_info := { consensus_block_id := some (ChainedBFT.BlockId.contentHash 6 (some 1) 50 5), commit_round := 6 }, signatures := [{ signer := 0, signed_ledger_info := { consensus_block_id := some (ChainedBFT.BlockId.contentHash 6 (some 1) 50 5), commit_round := 6 } }, { signer := 1, signed_ledger_info := { consensus_block_id := some (ChainedBFT.BlockId.contentHash 6 (some 1) 50 5), commit_round := 6 } }] }], committed_txns := 300 }, { author := 1, blocks := [{ id := ChainedBFT.BlockId.contentHash 5 (some 0) 50 4, round := 5, height := 5, parent_id := ChainedBFT.BlockId.contentHash 4 (some 0) 50 3, author := some 0, payload := 50, quorum_cert := { certified_block_id := ChainedBFT.BlockId.contentHash 4 (some 0) 50 3, certified_block_round := 4, certified_block_height := 4, certified_parent_round := 3, ledger_info := { consensus_block_id := some (ChainedBFT.BlockId.contentHash 2 (some 1) 50 1), commit_round := 2 }, signatures := [{ signer := 0, signed_ledger_info := { consensus_block_id := some (ChainedBFT.BlockId.contentHash 2 (some 1) 50 1), commit_round := 2 } }, { signer := 1, signed_ledger_info := { consensus_block_id := some (ChainedBFT.BlockId.contentHash 2 (some 1) 50 1), commit_round := 2 } }] } }, { id := ChainedBFT.BlockId.contentHash 6 (some 1) 50 5, round := 6, height := 6, parent_id := ChainedBFT.BlockId.contentHash 5 (some 0) 50 4, author := some 1, payload := 50, quorum_cert := { certified_block_id := ChainedBFT.BlockId.contentHash 5 (some 0) 50 4, certified_block_round := 5, certified_block_height := 5, certified_parent_round := 4, ledger_info := { consensus_block_id := some (ChainedBFT.BlockId.contentHash 3 (some 1) 50 2), commit_round := 3 }, signatures := [{ signer := 0, signed_ledger_info := { consensus_block_id := some (ChainedBFT.BlockId.contentHash 3 (some 1) 50 2), commit_round := 3 } }, { signer := 1, signed_ledger_info := { consensus_block_id := some (ChainedBFT.BlockId.contentHash 3 (some 1) 50 2), commit_round := 3 } }] } }, { id := ChainedBFT.BlockId.contentHash 7 (some 1) 50 6, round := 7, height := 7, parent_id := ChainedBFT.BlockId.contentHash 6 (some 1) 50 5, author := some 1, payload := 50, quorum_cert := { certified_block_id := ChainedBFT.BlockId.contentHash 6 (some 1) 50 5, certified_block_round := 6, certified_block_height := 6, certified_parent_round := 5, ledger_info := { consensus_block_id := some (ChainedBFT.BlockId.contentHash 4 (some 0) 50 3), commit_round := 4 }, signatures := [{ signer := 0, signed_ledger_info := { consensus_block_id := some (ChainedBFT.BlockId.contentHash 4 (some 0) 50 3), commit_round := 4 } }, { signer := 1, signed_ledger_info := { consensus_block_id := some (ChainedBFT.BlockId.contentHash 4 (some 0) 50 3), commit_round := 4 } }] } }, { id := ChainedBFT.BlockId.contentHash 8 (some 0) 50 7, round := 8, height := 8, parent_id := ChainedBFT.BlockId.contentHash 7 (some 1) 50 6, author := some 0, payload := 50, quorum_cert := { certified_block_id := ChainedBFT.BlockId.contentHash 7 (some 1) 50 6, certified_block_round := 7, certified_block_height := 7, certified_parent_round := 6, ledger_info := { consensus_block_id := some (ChainedBFT.BlockId.contentHash 5 (some 0) 50 4), commit_round := 5 }, signatures := [{ signer := 0, signed_ledger_info := { consensus_block_id := some (ChainedBFT.BlockId.contentHash 5 (some 0) 50 4), commit_round := 5 } }, { signer := 1, signed_ledger_info := { consensus_block_id := some (ChainedBFT.BlockId.contentHash 5 (some 0) 50 4), commit_round := 5 } }] } }], root_id := ChainedBFT.BlockId.contentHash 5 (some 0) 50 4, highest_quorum_cert := { certified_block_id := ChainedBFT.BlockId.contentHash 7 (some 1) 50 6, certified_block_round := 7, certified_block_height := 7, certified_parent_round := 6, ledger_info := { consensus_block_id := some (ChainedBFT.BlockId.contentHash 5 (some 0) 50 4), commit_round := 5 }, signatures := [{ signer := 0, signed_ledger_info := { consensus_block_id := some (ChainedBFT.BlockId.contentHash 5 (some 0) 50 4), commit_round := 5 } }, { signer := 1, signed_ledger_info := { consensus_block_id := some (ChainedBFT.BlockId.contentHash 5 (some 0) 50 4), commit_round := 5 } }] }, highest_commit_cert := { certified_block_id := ChainedBFT.BlockId.contentHash 7 (some 1) 50 6, certified_block_round := 7, certified_block_height := 7, certified_parent_round := 6, ledger_info := { consensus_block_id := some (ChainedBFT.BlockId.contentHash 5 (some 0) 50 4), commit_round := 5 }, signatures := [{ signer := 0, signed_ledger_info := { consensus_block_id := some (ChainedBFT.BlockId.contentHash 5 (some 0) 50 4), commit_round := 5 } }, { signer := 1, signed_ledger_info := { consensus_block_id := some (ChainedBFT.BlockId.contentHash 5 (some 0) 50 4), commit_round := 5 } }] }, current_round := 8, last_voted_round := 8, preferred_round := 6, last_vote := some { author := 1, block_id := ChainedBFT.BlockId.contentHash 8 (some 0) 50 7, round := 8, height := 8, parent_block_id := ChainedBFT.BlockId.contentHash 7 (some 1) 50 6, parent_round := 7, ledger_info := { consensus_block_id := some (ChainedBFT.BlockId.contentHash 6 (some 1) 50 5), commit_round := 6 } }, pending_votes := [{ author := 0, block_id := ChainedBFT.BlockId.contentHash 1 (some 0) 50 0, round := 1, height := 1, parent_block_id := ChainedBFT.BlockId.genesisId, parent_round := 0, ledger_info := { consensus_block_id := none, commit_round := 0 } }, { author := 1, block_id := ChainedBFT.BlockId.contentHash 1 (some 0) 50 0, round := 1, height := 1, parent_block_id := ChainedBFT.BlockId.genesisId, parent_round := 0, ledger_info := { consensus_block_id := none, commit_round := 0 } }, { author := 0, block_id := ChainedBFT.BlockId.contentHash 2 (some 1) 50 1, round := 2, height := 2, parent_block_id := ChainedBFT.BlockId.contentHash 1 (some 0) 50 0, parent_round := 1, ledger_info := { consensus_block_id := some (ChainedBFT.BlockId.genesisId), commit_round := 0 } }, { author := 1, block_id := ChainedBFT.BlockId.contentHash 2 (some 1) 50 1, round := 2, height := 2, parent_block_id := ChainedBFT.BlockId.contentHash 1 (some 0) 50 0, parent_round := 1, ledger_info := { consensus_block_id := some (ChainedBFT.BlockId.genesisId), commit_round := 0 } }, { author := 0, block_id := ChainedBFT.BlockId.contentHash 5 (some 0) 50 4, round := 5, height := 5, parent_block_id := ChainedBFT.BlockId.contentHash 4 (some 0) 50 3, parent_round := 4, ledger_info := { consensus_block_id := some (ChainedBFT.BlockId.contentHash 3 (some 1) 50 2), commit_round := 3 } }, { author := 1, block_id := ChainedBFT.BlockId.contentHash 5 (some 0) 50 4, round := 5, height := 5, parent_block_id := ChainedBFT.BlockId.contentHash 4 (some 0) 50 3, parent_round := 4, ledger_info := { consensus_block_id := some (ChainedBFT.BlockId.contentHash 3 (some 1) 50 2), commit_round := 3 } }, { author := 0, block_id := ChainedBFT.BlockId.contentHash 6 (some 1) 50 5, round := 6, height := 6, parent_block_id := ChainedBFT.BlockId.contentHash 5 (some 0) 50 4, parent_round := 5, ledger_info := { consensus_block_id := some (ChainedBFT.BlockId.contentHash 4 (some 0) 50 3), commit_round := 4 } }, { author := 1, block_id := ChainedBFT.BlockId.contentHash 6 (some 1) 50 5, round := 6, height := 6, parent_block_id := ChainedBFT.BlockId.contentHash 5 (some 0) 50 4, parent_round := 5, ledger_info := { consensus_block_id := some (ChainedBFT.BlockId.contentHash 4 (some 0) 50 3), commit_round := 4 } }], pending_timeouts := [], highest_tc_round := 0, pending_secondary := none, pending_fetch := none, commits := [{ ledger_info := { consensus_block_id := some (ChainedBFT.BlockId.contentHash 1 (some 0) 50 0), commit_round := 1 }, signatures := [{ signer := 0, signed_ledger_info := { consensus_block_id := some (ChainedBFT.BlockId.contentHash 1 (some 0) 50 0), commit_round := 1 } }, { signer := 1, signed_ledger_info := { consensus_block_id := some (ChainedBFT.BlockId.contentHash 1 (some 0) 50 0), commit_round := 1 } }] }, { ledger_info := { consensus_block_id := some (ChainedBFT.BlockId.contentHash 2 (some 1) 50 1), commit_round := 2 }, signatures := [{ signer := 0, signed_ledger_info := { consensus_block_id := some (ChainedBFT.BlockId.contentHash 2 (some 1) 50 1), commit_round := 2 } }, { signer := 1, signed_ledger_info := { consensus_block_id := some (ChainedBFT.BlockId.contentHash 2 (some 1) 50 1), commit_round := 2 } }] }, { ledger_info := { consensus_block_id := some (ChainedBFT.BlockId.contentHash 3 (some 1) 50 2), commit_round := 3 }, signatures := [{ signer := 0, signed_ledger_info := { consensus_block_id := some (ChainedBFT.BlockId.contentHash 3 (some 1) 50 2), commit_round := 3 } }, { signer := 1, signed_ledger_info := { consensus_block_id := some (ChainedBFT.BlockId.contentHash 3 (some 1) 50 2), commit_round := 3 } }] }, { ledger_info := { consensus_block_id := some (ChainedBFT.BlockId.contentHash 4 (some 0) 50 3), commit_round := 4 }, signatures := [{ signer := 0, signed_ledger_info := { consensus_block_id := some (ChainedBFT.BlockId.contentHash 4 (some 0) 50 3), commit_round := 4 } }, { signer := 1, signed_ledger_info := { consensus_block_id := some (ChainedBFT.BlockId.contentHash 4 (some 0) 50 3), commit_round := 4 } }] }, { ledger_info := { consensus_block_id := some (ChainedBFT.BlockId.contentHash 5 (some 0) 50 4), commit_round := 5 }, signatures := [{ signer := 0, signed_ledger_info := { consensus_block_id := some (ChainedBFT.BlockId.contentHash 5 (some 0) 50 4), commit_round := 5 } }, { signer := 1, signed_ledger_info := { consensus_block_id := some (ChainedBFT.BlockId.contentHash 5 (some 0) 50 4), commit_round := 5 } }] }], committed_txns := 250 }], [(0, 0, ChainedBFT.Msg.proposal { id := ChainedBFT.BlockId.contentHash 9 (some 0) 50 8, round := 9, height := 9, parent_id := ChainedBFT.BlockId.contentHash 8 (some 0) 50 7, author := some 0, payload := 50, quorum_cert := { certified_block_id := ChainedBFT.BlockId.contentHash 8 (some 0) 50 7, certified_block_round := 8, certified_block_height := 8, certified_parent_round := 7, ledger_info := { consensus_block_id := some (ChainedBFT.BlockId.contentHash 6 (some 1) 50 5), commit_round := 6 }, signatures := [{ signer := 0, signed_ledger_info := { consensus_block_id := some (ChainedBFT.BlockId.contentHash 6 (some 1) 50 5), commit_round := 6 } }, { signer := 1, signed_ledger_info := { consensus_block_id := some (ChainedBFT.BlockId.contentHash 6 (some 1) 50 5), commit_round := 6 } }] } } { highest_quorum_cert := { certified_block_id := ChainedBFT.BlockId.contentHash 8 (some 0) 50 7, certified_block_round := 8, certified_block_height := 8, certified_parent_round := 7, ledger_info := { consensus_block_id := some (ChainedBFT.BlockId.contentHash 6 (some 1) 50 5), commit_round := 6 }, signatures := [{ signer := 0, signed_ledger_info := { consensus_block_id := some (ChainedBFT.BlockId.contentHash 6 (some 1) 50 5), commit_round := 6 } }, { signer := 1, signed_ledger_info := { consensus_block_id := some (ChainedBFT.BlockId.contentHash 6 (some 1) 50 5), commit_round := 6 } }] }, highest_commit_cert := { certified_block_id := ChainedBFT.BlockId.contentHash 8 (some 0) 50 7, certified_block_round := 8, certified_block_height := 8, certified_parent_round := 7, ledger_info := { consensus_block_id := some (ChainedBFT.BlockId.contentHash 6 (some 1) 50 5), commit_round := 6 }, signatures := [{ signer := 0, signed_ledger_info := { consensus_block_id := some (ChainedBFT.BlockId.contentHash 6 (some 1) 50 5), commit_round := 6 } }, { signer := 1, signed_ledger_info := { consensus_block_id := some (ChainedBFT.BlockId.contentHash 6 (some 1) 50 5), commit_round := 6 } }] } }), (0, 1, ChainedBFT.Msg.proposal { id := ChainedBFT.BlockId.contentHash 9 (some 0) 50 8, round := 9, height := 9, parent_id := ChainedBFT.BlockId.contentHash 8 (some 0) 50 7, author := some 0, payload := 50, quorum_cert := { certified_block_id := ChainedBFT.BlockId.contentHash 8 (some 0) 50 7, certified_block_round := 8, certified_block_height := 8, certified_parent_round := 7, ledger_info := { consensus_block_id := some (ChainedBFT.BlockId.contentHash 6 (some 1) 50 5), commit_round := 6 }, signatures := [{ signer := 0, signed_ledger_info := { consensus_block_id := some (ChainedBFT.BlockId.contentHash 6 (some 1) 50 5), commit_round := 6 } }, { signer := 1, signed_ledger_info := { consensus_block_id := some (ChainedBFT.BlockId.contentHash 6 (some 1) 50 5), commit_round := 6 } }] } } { highest_quorum_cert := { certified_block_id := ChainedBFT.BlockId.contentHash 8 (some 0) 50 7, certified_block_round := 8, certified_block_height := 8, certified_parent_round := 7, ledger_info := { consensus_block_id := some (ChainedBFT.BlockId.contentHash 6 (some 1) 50 5), commit_round := 6 }, signatures := [{ signer := 0, signed_ledger_info := { consensus_block_id := some (ChainedBFT.BlockId.contentHash 6 (some 1) 50 5), commit_round := 6 } }, { signer := 1, signed_ledger_info := { consensus_block_id := some (ChainedBFT.BlockId.contentHash 6 (some 1) 50 5), commit_round := 6 } }] }, highest_commit_cert := { certified_block_id := ChainedBFT.BlockId.contentHash 8 (some 0) 50 7, certified_block_round := 8, certified_block_height := 8, certified_parent_round := 7, ledger_info := { consensus_block_id := some (ChainedBFT.BlockId.contentHash 6 (some 1) 50 5), commit_round := 6 }, signatures := [{ signer := 0, signed_ledger_info := { consensus_block_id := some (ChainedBFT.BlockId.contentHash 6 (some 1) 50 5), commit_round := 6 } }, { signer := 1, signed_ledger_info := { consensus_block_id := some (ChainedBFT.BlockId.contentHash 6 (some 1) 50 5), commit_round := 6 } }] } })], [], [ChainedBFT.MsgDigest.proposalD { round := 1, height := 1, id := ChainedBFT.BlockId.contentHash 1 (some 0) 50 0, parent_id := ChainedBFT.BlockId.genesisId, qc_certified_block_id := ChainedBFT.BlockId.genesisId }, ChainedBFT.MsgDigest.voteD { round := 1, block_id := ChainedBFT.BlockId.contentHash 1 (some 0) 50 0 }, ChainedBFT.MsgDigest.proposalD { round := 2, height := 2, id := ChainedBFT.BlockId.contentHash 2 (some 1) 50 1, parent_id := ChainedBFT.BlockId.contentHash 1 (some 0) 50 0, qc_certified_block_id := ChainedBFT.BlockId.contentHash 1 (some 0) 50 0 }, ChainedBFT.MsgDigest.voteD { round := 2, block_id := ChainedBFT.BlockId.contentHash 2 (some 1) 50 1 }, ChainedBFT.MsgDigest.proposalD { round := 3, height := 3, id := ChainedBFT.BlockId.contentHash 3 (some 1) 50 2, parent_id := ChainedBFT.BlockId.contentHash 2 (some 1) 50 1, qc_certified_block_id := ChainedBFT.BlockId.contentHash 2 (some 1) 50 1 }, ChainedBFT.MsgDigest.voteD { round := 3, block_id := ChainedBFT.BlockId.contentHash 3 (some 1) 50 2 }, ChainedBFT.MsgDigest.proposalD { round := 4, height := 4, id := ChainedBFT.BlockId.contentHash 4 (some 0) 50 3, parent_id := ChainedBFT.BlockId.contentHash 3 (some 1) 50 2, qc_certified_block_id := ChainedBFT.BlockId.contentHash 3 (some 1) 50 2 }, ChainedBFT.MsgDigest.voteD { round := 4, block_id := ChainedBFT.BlockId.contentHash 4 (some 0) 50 3 }, ChainedBFT.MsgDigest.proposalD { round := 5, height := 5, id := ChainedBFT.BlockId.contentHash 5 (some 0) 50 4, parent_id := ChainedBFT.BlockId.contentHash 4 (some 0) 50 3, qc_certified_block_id := ChainedBFT.BlockId.contentHash 4 (some 0) 50 3 }, ChainedBFT.MsgDigest.voteD { round := 5, block_id := ChainedBFT.BlockId.contentHash 5 (some 0) 50 4 }, ChainedBFT.MsgDigest.proposalD { round := 6, height := 6, id := ChainedBFT.BlockId.contentHash 6 (some 1) 50 5, parent_id := ChainedBFT.BlockId.contentHash 5 (some 0) 50 4, qc_certified_block_id := ChainedBFT.BlockId.contentHash 5 (some 0) 50 4 }, ChainedBFT.MsgDigest.voteD { round := 6, block_id := ChainedBFT.BlockId.contentHash 6 (some 1) 50 5 }, ChainedBFT.MsgDigest.proposalD { round := 7, height := 7, id := ChainedBFT.BlockId.contentHash 7 (some 1) 50 6, parent_id := ChainedBFT.BlockId.contentHash 6 (some 1) 50 5, qc_certified_block_id := ChainedBFT.BlockId.contentHash 6 (some 1) 50 5 }, ChainedBFT.MsgDigest.voteD { round := 7, block_id := ChainedBFT.BlockId.contentHash 7 (some 1) 50 6 }, ChainedBFT.MsgDigest.proposalD { round := 8, height := 8, id := ChainedBFT.BlockId.contentHash 8 (some 0) 50 7, parent_id := ChainedBFT.BlockId.contentHash 7 (some 1) 50 6, qc_certified_block_id := ChainedBFT.BlockId.contentHash 7 (some 1) 50 6 }, ChainedBFT.MsgDigest.voteD { round := 8, block_id := ChainedBFT.BlockId.contentHash 8 (some 0) 50 7 }]⟩

/-- Checkpoint of the simulated cluster (see the scenario schedule definitions). -/
def c3w5 : World :=
⟨{ num_nodes := 2, quorum_size := 2, proposer_type := ChainedBFT.ConsensusProposerType.RotatingProposer, contiguous_rounds := 2, max_block_size := 50 }, [{ author := 0, blocks := [{ id := ChainedBFT.BlockId.contentHash 8 (some 0) 50 7, round := 8, height := 8, parent_id := ChainedBFT.BlockId.contentHash 7 (some 1) 50 6, author := some 0, payload := 50, quorum_cert := { certified_block_id := ChainedBFT.BlockId.contentHash 7 (some 1) 50 6, certified_block_round := 7, certified_block_height := 7, certified_parent_round := 6, ledger_info := { consensus_block_id := some (ChainedBFT.BlockId.contentHash 5 (some 0) 50 4), commit_round := 5 }, signatures := [{ signer := 0, signed_ledger_info := { consensus_block_id := some (ChainedBFT.BlockId.contentHash 5 (some 0) 50 4), commit_round := 5 } }, { signer := 1, signed_ledger_info := { consensus_block_id := some (ChainedBFT.BlockId.contentHash 5 (some 0) 50 4), commit_round := 5 } }] } }, { id := ChainedBFT.BlockId.contentHash 9 (some 0) 50 8, round := 9, height := 9, parent_id := ChainedBFT.BlockId.contentHash 8 (some 0) 50 7, author := some 0, payload := 50, quorum_cert := { certified_block_id := ChainedBFT.BlockId.contentHash 8 (some 0) 50 7, certified_block_round := 8, certified_block_height := 8, certified_parent_round := 7, ledger_info := { consensus_block_id := some (ChainedBFT.BlockId.contentHash 6 (some 1) 50 5), commit_round := 6 }, signatures := [{ signer := 0, signed_ledger_info := { consensus_block_id := some (ChainedBFT.BlockId.contentHash 6 (some 1) 50 5), commit_round := 6 } }, { signer := 1, signed_ledger_info := { consensus_block_id := some (ChainedBFT.BlockId.contentHash 6 (some 1) 50 5), commit_round := 6 } }] } }, { id := ChainedBFT.BlockId.contentHash 10 (some 1) 50 9, round := 10, height := 10, parent_id := ChainedBFT.BlockId.contentHash 9 (some 0) 50 8, author := some 1, payload := 50, quorum_cert := { certified_block_id := ChainedBFT.BlockId.contentHash 9 (some 0) 50 8, certified_block_round := 9, certified_block_height := 9, certified_parent_round := 8, ledger_info := { consensus_block_id := some (ChainedBFT.BlockId.contentHash 7 (some 1) 50 6), commit_round := 7 }, signatures := [{ signer := 0, signed_ledger_info := { consensus_block_id := some (ChainedBFT.BlockId.contentHash 7 (some 1) 50 6), commit_round := 7 } }, { signer := 1, signed_ledger_info := { consensus_block_id := some (ChainedBFT.BlockId.contentHash 7 (some 1) 50 6), commit_round := 7 } }] } }, { id := ChainedBFT.BlockId.contentHash 11 (some 1) 50 10, round := 11, height := 11, parent_id := ChainedBFT.BlockId.contentHash 10 (some 1) 50 9, author := some 1, payload := 50, quorum_cert := { certified_block_id := ChainedBFT.BlockId.contentHash 10 (some 1) 50 9, certified_block_round := 10, certified_block_height := 10, certified_parent_round := 9, ledger_info := { consensus_block_id := some (ChainedBFT.BlockId.contentHash 8 (some 0) 50 7), commit_round := 8 }, signatures := [{ signer := 0, signed_ledger_info := { consensus_block_id := some (ChainedBFT.BlockId.contentHash 8 (some 0) 50 7), commit_round := 8 } }, { signer := 1, signed_ledger_info := { consensus_block_id := some (ChainedBFT.BlockId.contentHash 8 (some 0) 50 7), commit_round := 8 } }] } }], root_id := ChainedBFT.BlockId.contentHash 8 (some 0) 50 7, highest_quorum_cert := { certified_block_id := ChainedBFT.BlockId.contentHash 10 (some 1) 50 9, certified_block_round := 10, certified_block_height := 10, certified_parent_round := 9, ledger_info := { consensus_block_id := some (ChainedBFT.BlockId.contentHash 8 (some 0) 50 7), commit_round := 8 }, signatures := [{ signer := 0, signed_ledger_info := { consensus_block_id := some (ChainedBFT.BlockId.contentHash 8 (some 0) 50 7), commit_round := 8 } }, { signer := 1, signed_ledger_info := { consensus_block_id := some (ChainedBFT.BlockId.contentHash 8 (some 0) 50 7), commit_round := 8 } }] }, highest_commit_cert := { certified_block_id := ChainedBFT.BlockId.contentHash 10 (some 1) 50 9, certified_block_round := 10, certified_block_height := 10, certified_parent_round := 9, ledger_info := { consensus_block_id := some (ChainedBFT.BlockId.contentHash 8 (some 0) 50 7), commit_round := 8 }, signatures := [{ signer := 0, signed_ledger_info := { consensus_block_id := some (ChainedBFT.BlockId.contentHash 8 (some 0) 50 7), commit_round := 8 } }, { signer := 1, signed_ledger_info := { consensus_block_id := some (ChainedBFT.BlockId.contentHash 8 (some 0) 50 7), commit_round := 8 } }] }, current_round := 11, last_voted_round := 11, preferred_round := 9, last_vote := some { author := 0, block_id := ChainedBFT.BlockId.contentHash 11 (some 1) 50 10, round := 11, height := 11, parent_block_id := ChainedBFT.BlockId.contentHash 10 (some 1) 50 9, parent_round := 10, ledger_info := { consensus_block_id := some (ChainedBFT.BlockId.contentHash 9 (some 0) 50 8), commit_round := 9 } }, pending_votes := [{ author := 0, block_id := ChainedBFT.BlockId.contentHash 3 (some 1) 50 2, round := 3, height := 3, parent_block_id := ChainedBFT.BlockId.contentHash 2 (some 1) 50 1, parent_round := 2, ledger_info := { consensus_block_id := some (ChainedBFT.BlockId.contentHash 1 (some 0) 50 0), commit_round := 1 } }, { author := 1, block_id := ChainedBFT.BlockId.contentHash 3 (some 1) 50 2, round := 3, height := 3, parent_block_id := ChainedBFT.BlockId.contentHash 2 (some 1) 50 1, parent_round := 2, ledger_info := { consensus_block_id := some (ChainedBFT.BlockId.contentHash 1 (some 0) 50 0), commit_round := 1 } }, { author := 0, block_id := ChainedBFT.BlockId.contentHash 4 (some 0) 50 3, round := 4, height := 4, parent_block_id := ChainedBFT.BlockId.contentHash 3 (some 1) 50 2, parent_round := 3, ledger_info := { consensus_block_id := some (ChainedBFT.BlockId.contentHash 2 (some 1) 50 1), commit_round := 2 } }, { author := 1, block_id := ChainedBFT.BlockId.contentHash 4 (some 0) 50 3, round := 4, height := 4, parent_block_id := ChainedBFT.BlockId.contentHash 3 (some 1) 50 2, parent_round := 3, ledger_info := { consensus_block_id := some (ChainedBFT.BlockId.contentHash 2 (some 1) 50 1), commit_round := 2 } }, { author := 0, block_id := ChainedBFT.BlockId.contentHash 7 (some 1) 50 6, round := 7, height := 7, parent_block_id := ChainedBFT.BlockId.contentHash 6 (some 1) 50 5, parent_round := 6, ledger_info := { consensus_block_id := some (ChainedBFT.BlockId.contentHash 5 (some 0) 50 4), commit_round := 5 } }, { author := 1, block_id := ChainedBFT.BlockId.contentHash 7 (some 1) 50 6, round := 7, height := 7, parent_block_id := ChainedBFT.BlockId.contentHash 6 (some 1) 50 5, parent_round := 6, ledger_info := { consensus_block_id := some (ChainedBFT.BlockId.contentHash 5 (some 0) 50 4), commit_round := 5 } }, { author := 0, block_id := ChainedBFT.BlockId.contentHash 8 (some 0) 50 7, round := 8, height := 8, parent_block_id := ChainedBFT.BlockId.contentHash 7 (some 1) 50 6, parent_round := 7, ledger_info := { consensus_block_id := some (ChainedBFT.BlockId.contentHash 6 (some 1) 50 5), commit_round := 6 } }, { author := 1, block_id := ChainedBFT.BlockId.contentHash 8 (some 0) 50 7, round := 8, height := 8, parent_block_id := ChainedBFT.BlockId.contentHash 7 (some 1) 50 6, parent_round := 7, ledger_info := { consensus_block_id := some (ChainedBFT.BlockId.contentHash 6 (some 1) 50 5), commit_round := 6 } }], pending_timeouts := [], highest_tc_round := 0, pending_secondary := none, pending_fetch := none, commits := [{ ledger_info := { consensus_block_id := some (ChainedBFT.BlockId.contentHash 1 (some 0) 50 0), commit_round := 1 }, signatures := [{ signer := 0, signed_ledger_info := { consensus_block_id := some (ChainedBFT.BlockId.contentHash 1 (some 0) 50 0), commit_round := 1 } }, { signer := 1, signed_ledger_info := { consensus_block_id := some (ChainedBFT.BlockId.contentHash 1 (some 0) 50 0), commit_round := 1 } }] }, { ledger_info := { consensus_block_id := some (ChainedBFT.BlockId.contentHash 2 (some 1) 50 1), commit_round := 2 }, signatures := [{ signer := 0, signed_ledger_info := { consensus_block_id := some (ChainedBFT.BlockId.contentHash 2 (some 1) 50 1), commit_round := 2 } }, { signer := 1, signed_ledger_info := { consensus_block_id := some (ChainedBFT.BlockId.contentHash 2 (some 1) 50 1), commit_round := 2 } }] }, { ledger_info := { consensus_block_id := some (ChainedBFT.BlockId.contentHash 3 (some 1) 50 2), commit_round := 3 }, signatures := [{ signer := 0, signed_ledger_info := { consensus_block_id := some (ChainedBFT.BlockId.contentHash 3 (some 1) 50 2), commit_round := 3 } }, { signer := 1, signed_ledger_info := { consensus_block_id := some (ChainedBFT.BlockId.contentHash 3 (some 1) 50 2), commit_round := 3 } }] }, { ledger_info := { consensus_block_id := some (ChainedBFT.BlockId.contentHash 4 (some 0) 50 3), commit_round := 4 }, signatures := [{ signer := 0, signed_ledger_info := { consensus_block_id := some (ChainedBFT.BlockId.contentHash 4 (some 0) 50 3), commit_round := 4 } }, { signer := 1, signed_ledger_info := { consensus_block_id := some (ChainedBFT.BlockId.contentHash 4 (some 0) 50 3), commit_round := 4 } }] }, { ledger_info := { consensus_block_id := some (ChainedBFT.BlockId.contentHash 5 (some 0) 50 4), commit_round := 5 }, signatures := [{ signer := 0, signed_ledger_info := { consensus_block_id := some (ChainedBFT.BlockId.contentHash 5 (some 0) 50 4), commit_round := 5 } }, { signer := 1, signed_ledger_info := { consensus_block_id := some (ChainedBFT.BlockId.contentHash 5 (some 0) 50 4), commit_round := 5 } }] }, { ledger_info := { consensus_block_id := some (ChainedBFT.BlockId.contentHash 6 (some 1) 50 5), commit_round := 6 }, signatures := [{ signer := 0, signed_ledger_info := { consensus_block_id := some (ChainedBFT.BlockId.contentHash 6 (some 1) 50 5), commit_round := 6 } }, { signer := 1, signed_ledger_info := { consensus_block_id := some (ChainedBFT.BlockId.contentHash 6 (some 1) 50 5), commit_round := 6 } }] }, { ledger_info := { consensus_block_id := some (ChainedBFT.BlockId.contentHash 7 (some 1) 50 6), commit_round := 7 }, signatures := [{ signer := 0, signed_ledger_info := { consensus_block_id := some (ChainedBFT.BlockId.contentHash 7 (some 1) 50 6), commit_round := 7 } }, { signer := 1, signed_ledger_info := { consensus_block_id := some (ChainedBFT.BlockId.contentHash 7 (some 1) 50 6), commit_round := 7 } }] }, { ledger_info := { consensus_block_id := some (ChainedBFT.BlockId.contentHash 8 (some 0) 50 7), commit_round := 8 }, signatures := [{ signer := 0, signed_ledger_info := { consensus_block_id := some (ChainedBFT.BlockId.contentHash 8 (some 0) 50 7), commit_round := 8 } }, { signer := 1, signed_ledger_info := { consensus_block_id := some (ChainedBFT.BlockId.contentHash 8 (some 0) 50 7), commit_round := 8 } }] }], committed_txns := 400 }, { author := 1, blocks := [{ id := ChainedBFT.BlockId.contentHash 8 (some 0) 50 7, round := 8, height := 8, parent_id := ChainedBFT.BlockId.contentHash 7 (some 1) 50 6, author := some 0, payload := 50, quorum_cert := { certified_block_id := ChainedBFT.BlockId.contentHash 7 (some 1) 50 6, certified_block_round := 7, certified_block_height := 7, certified_parent_round := 6, ledger_info := { consensus_block_id := some (ChainedBFT.BlockId.contentHash 5 (some 0) 50 4), commit_round := 5 }, signatures := [{ signer := 0, signed_ledger_info := { consensus_block_id := some (ChainedBFT.BlockId.contentHash 5 (some 0) 50 4), commit_round := 5 } }, { signer := 1, signed_ledger_info := { consensus_block_id := some (ChainedBFT.BlockId.contentHash 5 (some 0) 50 4), commit_round := 5 } }] } }, { id := ChainedBFT.BlockId.contentHash 9 (some 0) 50 8, round := 9, height := 9, parent_id := ChainedBFT.BlockId.contentHash 8 (some 0) 50 7, author := some 0, payload := 50, quorum_cert := { certified_block_id := ChainedBFT.BlockId.contentHash 8 (some 0) 50 7, certified_block_round := 8, certified_block_height := 8, certified_parent_round := 7, ledger_info := { consensus_block_id := some (ChainedBFT.BlockId.contentHash 6 (some 1) 50 5), commit_round := 6 }, signatures := [{ signer := 0, signed_ledger_info := { consensus_block_id := some (ChainedBFT.BlockId.contentHash 6 (some 1) 50 5), commit_round := 6 } }, { signer := 1, signed_ledger_info := { consensus_block_id := some (ChainedBFT.BlockId.contentHash 6 (some 1) 50 5), commit_round := 6 } }] } }, { id := ChainedBFT.BlockId.contentHash 10 (some 1) 50 9, round := 10, height := 10, parent_id := ChainedBFT.BlockId.contentHash 9 (some 0) 50 8, author := some 1, payload := 50, quorum_cert := { certified_block_id := ChainedBFT.BlockId.contentHash 9 (some 0) 50 8, certified_block_round := 9, certified_block_height := 9, certified_parent_round := 8, ledger_info := { consensus_block_id := some (ChainedBFT.BlockId.contentHash 7 (some 1) 50 6), commit_round := 7 }, signatures := [{ signer := 0, signed_ledger_info := { consensus_block_id := some (ChainedBFT.BlockId.contentHash 7 (some 1) 50 6), commit_round := 7 } }, { signer := 1, signed_ledger_info := { consensus_block_id := some (ChainedBFT.BlockId.contentHash 7 (some 1) 50 6), commit_round := 7 } }] } }, { id := ChainedBFT.BlockId.contentHash 11 (some 1) 50 10, round := 11, height := 11, parent_id := ChainedBFT.BlockId.contentHash 10 (some 1) 50 9, author := some 1, payload := 50, quorum_cert := { certified_block_id := ChainedBFT.BlockId.contentHash 10 (some 1) 50 9, certified_block_round := 10, certified_block_height := 10, certified_parent_round := 9, ledger_info := { consensus_block_id := some (ChainedBFT.BlockId.contentHash 8 (some 0) 50 7), commit_round := 8 }, signatures := [{ signer := 0, signed_ledger_info := { consensus_block_id := some (ChainedBFT.BlockId.contentHash 8 (some 0) 50 7), commit_round := 8 } }, { signer := 1, signed_ledger_info := { consensus_block_id := some (ChainedBFT.BlockId.contentHash 8 (some 0) 50 7), commit_round := 8 } }] } }], root_id := ChainedBFT.BlockId.contentHash 8 (some 0) 50 7, highest_quorum_cert := { certified_block_id := ChainedBFT.BlockId.contentHash 10 (some 1) 50 9, certified_block_round := 10, certified_block_height := 10, certified_parent_round := 9, ledger_info := { consensus_block_id := some (ChainedBFT.BlockId.contentHash 8 (some 0) 50 7), commit_round := 8 }, signatures := [{ signer := 0, signed_ledger_info := { consensus_block_id := some (ChainedBFT.BlockId.contentHash 8 (some 0) 50 7), commit_round := 8 } }, { signer := 1, signed_ledger_info := { consensus_block_id := some (ChainedBFT.BlockId.contentHash 8 (some 0) 50 7), commit_round := 8 } }] }, highest_commit_cert := { certified_block_id := ChainedBFT.BlockId.contentHash 10 (some 1) 50 9, certified_block_round := 10, certified_block_height := 10, certified_parent_round := 9, ledger_info := { consensus_block_id := some (ChainedBFT.BlockId.contentHash 8 (some 0) 50 7), commit_round := 8 }, signatures := [{ signer := 0, signed_ledger_info := { consensus_block_id := some (ChainedBFT.BlockId.contentHash 8 (some 0) 50 7), commit_round := 8 } }, { signer := 1, signed_ledger_info := { consensus_block_id := some (ChainedBFT.BlockId.contentHash 8 (some 0) 50 7), commit_round := 8 } }] }, current_round := 11, last_voted_round := 11, preferred_round := 9, last_vote := some { author := 1, block_id := ChainedBFT.BlockId.contentHash 11 (some 1) 50 10, round := 11, height := 11, parent_block_id := ChainedBFT.BlockId.contentHash 10 (some 1) 50 9, parent_round := 10, ledger_info := { consensus_block_id := some (ChainedBFT.BlockId.contentHash 9 (some 0) 50 8), commit_round := 9 } }, pending_votes := [{ author := 0, block_id := ChainedBFT.BlockId.contentHash 1 (some 0) 50 0, round := 1, height := 1, parent_block_id := ChainedBFT.BlockId.genesisId, parent_round := 0, ledger_info := { consensus_block_id := none, commit_round := 0 } }, { author := 1, block_id := ChainedBFT.BlockId.contentHash 1 (some 0) 50 0, round := 1, height := 1, parent_block_id := ChainedBFT.BlockId.genesisId, parent_round := 0, ledger_info := { consensus_block_id := none, commit_round := 0 } }, { author := 0, block_id := ChainedBFT.BlockId.contentHash 2 (some 1) 50 1, round := 2, height := 2, parent_block_id := ChainedBFT.BlockId.contentHash 1 (some 0) 50 0, parent_round := 1, ledger_info := { consensus_block_id := some (ChainedBFT.BlockId.genesisId), commit_round := 0 } }, { author := 1, block_id := ChainedBFT.BlockId.contentHash 2 (some 1) 50 1, round := 2, height := 2, parent_block_id := ChainedBFT.BlockId.contentHash 1 (some 0) 50 0, parent_round := 1, ledger_info := { consensus_block_id := some (ChainedBFT.BlockId.genesisId), commit_round := 0 } }, { author := 0, block_id := ChainedBFT.BlockId.contentHash 5 (some 0) 50 4, round := 5, height := 5, parent_block_id := ChainedBFT.BlockId.contentHash 4 (some 0) 50 3, parent_round := 4, ledger_info := { consensus_block_id := some (ChainedBFT.BlockId.contentHash 3 (some 1) 50 2), commit_round := 3 } }, { author := 1, block_id := ChainedBFT.BlockId.contentHash 5 (some 0) 50 4, round := 5, height := 5, parent_block_id := ChainedBFT.BlockId.contentHash 4 (some 0) 50 3, parent_round := 4, ledger_info := { consensus_block_id := some (ChainedBFT.BlockId.contentHash 3 (some 1) 50 2), commit_round := 3 } }, { author := 0, block_id := ChainedBFT.BlockId.contentHash 6 (some 1) 50 5, round := 6, height := 6, parent_block_id := ChainedBFT.BlockId.contentHash 5 (some 0) 50 4, parent_round := 5, ledger_info := { consensus_block_id := some (ChainedBFT.BlockId.contentHash 4 (some 0) 50 3), commit_round := 4 } }, { author := 1, block_id := ChainedBFT.BlockId.contentHash 6 (some 1) 50 5, round := 6, height := 6, parent_block_id := ChainedBFT.BlockId.contentHash 5 (some 0) 50 4, parent_round := 5, ledger_info := { consensus_block_id := some (ChainedBFT.BlockId.contentHash 4 (some 0) 50 3), commit_round := 4 } }, { author := 0, block_id := ChainedBFT.BlockId.contentHash 9 (some 0) 50 8, round := 9, height := 9, parent_block_id := ChainedBFT.BlockId.contentHash 8 (some 0) 50 7, parent_round := 8, ledger_info := { consensus_block_id := some (ChainedBFT.BlockId.contentHash 7 (some 1) 50 6), commit_round := 7 } }, { author := 1, block_id := ChainedBFT.BlockId.contentHash 9 (some 0) 50 8, round := 9, height := 9, parent_block_id := ChainedBFT.BlockId.contentHash 8 (some 0) 50 7, parent_round := 8, ledger_info := { consensus_block_id := some (ChainedBFT.BlockId.contentHash 7 (some 1) 50 6), commit_round := 7 } }, { author := 0, block_id := ChainedBFT.BlockId.contentHash 10 (some 1) 50 9, round := 10, height := 10, parent_block_id := ChainedBFT.BlockId.contentHash 9 (some 0) 50 8, parent_round := 9, ledger_info := { consensus_block_id := some (ChainedBFT.BlockId.contentHash 8 (some 0) 50 7), commit_round := 8 } }, { author := 1, block_id := ChainedBFT.BlockId.contentHash 10 (some 1) 50 9, round := 10, height := 10, parent_block_id := ChainedBFT.BlockId.contentHash 9 (some 0) 50 8, parent_round := 9, ledger_info := { consensus_block_id := some (ChainedBFT.BlockId.contentHash 8 (some 0) 50 7), commit_round := 8 } }], pending_timeouts := [], highest_tc_round := 0, pending_secondary := none, pending_fetch := none, commits := [{ ledger_info := { consensus_block_id := some (ChainedBFT.BlockId.contentHash 1 (some 0) 50 0), commit_round := 1 }, signatures := [{ signer := 0, signed_ledger_info := { consensus_block_id := some (ChainedBFT.BlockId.contentHash 1 (some 0) 50 0), commit_round := 1 } }, { signer := 1, signed_ledger_info := { consensus_block_id := some (ChainedBFT.BlockId.contentHash 1 (some 0) 50 0), commit_round := 1 } }] }, { ledger_info := { consensus_block_id := some (ChainedBFT.BlockId.contentHash 2 (some 1) 50 1), commit_round := 2 }, signatures := [{ signer := 0, signed_ledger_info := { consensus_block_id := some (ChainedBFT.BlockId.contentHash 2 (some 1) 50 1), commit_round := 2 } }, { signer := 1, signed_ledger_info := { consensus_block_id := some (ChainedBFT.BlockId.contentHash 2 (some 1) 50 1), commit_round := 2 } }] }, { ledger_info := { consensus_block_id := some (ChainedBFT.BlockId.contentHash 3 (some 1) 50 2), commit_round := 3 }, signatures := [{ signer := 0, signed_ledger_info := { consensus_block_id := some (ChainedBFT.BlockId.contentHash 3 (some 1) 50 2), commit_round := 3 } }, { signer := 1, signed_ledger_info := { consensus_block_id := some (ChainedBFT.BlockId.contentHash 3 (some 1) 50 2), commit_round := 3 } }] }, { ledger_info := { consensus_block_id := some (ChainedBFT.BlockId.contentHash 4 (some 0) 50 3), commit_round := 4 }, signatures := [{ signer := 0, signed_ledger_info := { consensus_block_id := some (ChainedBFT.BlockId.contentHash 4 (some 0) 50 3), commit_round := 4 } }, { signer := 1, signed_ledger_info := { consensus_block_id := some (ChainedBFT.BlockId.contentHash 4 (some 0) 50 3), commit_round := 4 } }] }, { ledger_info := { consensus_block_id := some (ChainedBFT.BlockId.contentHash 5 (some 0) 50 4), commit_round := 5 }, signatures := [{ signer := 0, signed_ledger_info := { consensus_block_id := some (ChainedBFT.BlockId.contentHash 5 (some 0) 50 4), commit_round := 5 } }, { signer := 1, signed_ledger_info := { consensus_block_id := some (ChainedBFT.BlockId.contentHash 5 (some 0) 50 4), commit_round := 5 } }] }, { ledger_info := { consensus_block_id := some (ChainedBFT.BlockId.contentHash 6 (some 1) 50 5), commit_round := 6 }, signatures := [{ signer := 0, signed_ledger_info := { consensus_block_id := some (ChainedBFT.BlockId.contentHash 6 (some 1) 50 5), commit_round := 6 } }, { signer := 1, signed_ledger_info := { consensus_block_id := some (ChainedBFT.BlockId.contentHash 6 (some 1) 50 5), commit_round := 6 } }] }, { ledger_info := { consensus_block_id := some (ChainedBFT.BlockId.contentHash 7 (some 1) 50 6), commit_round := 7 }, signatures := [{ signer := 0, signed_ledger_info := { consensus_block_id := some (ChainedBFT.BlockId.contentHash 7 (some 1) 50 6), commit_round := 7 } }, { signer := 1, signed_ledger_info := { consensus_block_id := some (ChainedBFT.BlockId.contentHash 7 (some 1) 50 6), commit_round := 7 } }] }, { ledger_info := { consensus_block_id := some (ChainedBFT.BlockId.contentHash 8 (some 0) 50 7), commit_round := 8 }, signatures := [{ signer := 0, signed_ledger_info := { consensus_block_id := some (ChainedBFT.BlockId.contentHash 8 (some 0) 50 7), commit_round := 8 } }, { signer := 1, signed_ledger_info := { consensus_block_id := some (ChainedBFT.BlockId.contentHash 8 (some 0) 50 7), commit_round := 8 } }] }], committed_txns := 400 }], [(0, 0, ChainedBFT.Msg.vote { author := 0, block_id := ChainedBFT.BlockId.contentHash 11 (some 1) 50 10, round := 11, height := 11, parent_block_id := ChainedBFT.BlockId.contentHash 10 (some 1) 50 9, parent_round := 10, ledger_info := { consensus_block_id := some (ChainedBFT.BlockId.contentHash 9 (some 0) 50 8), commit_round := 9 } }), (1, 0, ChainedBFT.Msg.vote { author := 1, block_id := ChainedBFT.BlockId.contentHash 11 (some 1) 50 10, round := 11, height := 11, parent_block_id := ChainedBFT.BlockId.contentHash 10 (some 1) 50 9, parent_round := 10, ledger_info := { consensus_block_id := some (ChainedBFT.BlockId.contentHash 9 (some 0) 50 8), commit_round := 9 } })], [], [ChainedBFT.MsgDigest.proposalD { round := 1, height := 1, id := ChainedBFT.BlockId.contentHash 1 (some 0) 50 0, parent_id := ChainedBFT.BlockId.genesisId, qc_certified_block_id := ChainedBFT.BlockId.genesisId }, ChainedBFT.MsgDigest.voteD { round := 1, block_id := ChainedBFT.BlockId.contentHash 1 (some 0) 50 0 }, ChainedBFT.MsgDigest.proposalD { round := 2, height := 2, id := ChainedBFT.BlockId.contentHash 2 (some 1) 50 1, parent_id := ChainedBFT.BlockId.contentHash 1 (some 0) 50 0, qc_certified_block_id := ChainedBFT.BlockId.contentHash 1 (some 0) 50 0 }, ChainedBFT.MsgDigest.voteD { round := 2, block_id := ChainedBFT.BlockId.contentHash 2 (some 1) 50 1 }, ChainedBFT.MsgDigest.proposalD { round := 3, height := 3, id := ChainedBFT.BlockId.contentHash 3 (some 1) 50 2, parent_id := ChainedBFT.BlockId.contentHash 2 (some 1) 50 1, qc_certified_block_id := ChainedBFT.BlockId.contentHash 2 (some 1) 50 1 }, ChainedBFT.MsgDigest.voteD { round := 3, block_id := ChainedBFT.BlockId.contentHash 3 (some 1) 50 2 }, ChainedBFT.MsgDigest.proposalD { round := 4, height := 4, id := ChainedBFT.BlockId.contentHash 4 (some 0) 50 3, parent_id := ChainedBFT.BlockId.contentHash 3 (some 1) 50 2, qc_certified_block_id := ChainedBFT.BlockId.contentHash 3 (some 1) 50 2 }, ChainedBFT.MsgDigest.voteD { round := 4, block_id := ChainedBFT.BlockId.contentHash 4 (some 0) 50 3 }, ChainedBFT.MsgDigest.proposalD { round := 5, height := 5, id := ChainedBFT.BlockId.contentHash 5 (some 0) 50 4, parent_id := ChainedBFT.BlockId.contentHash 4 (some 0) 50 3, qc_certified_block_id := ChainedBFT.BlockId.contentHash 4 (some 0) 50 3 }, ChainedBFT.MsgDigest.voteD { round := 5, block_id := ChainedBFT.BlockId.contentHash 5 (some 0) 50 4 }, ChainedBFT.MsgDigest.proposalD { round := 6, height := 6, id := ChainedBFT.BlockId.contentHash 6 (some 1) 50 5, parent_id := ChainedBFT.BlockId.contentHash 5 (some 0) 50 4, qc_certified_block_id := ChainedBFT.BlockId.contentHash 5 (some 0) 50 4 }, ChainedBFT.MsgDigest.voteD { round := 6, block_id := ChainedBFT.BlockId.contentHash 6 (some 1) 50 5 }, ChainedBFT.MsgDigest.proposalD { round := 7, height := 7, id := ChainedBFT.BlockId.contentHash 7 (some 1) 50 6, parent_id := ChainedBFT.BlockId.contentHash 6 (some 1) 50 5, qc_certified_block_id := ChainedBFT.BlockId.contentHash 6 (some 1) 50 5 }, ChainedBFT.MsgDigest.voteD { round := 7, block_id := ChainedBFT.BlockId.contentHash 7 (some 1) 50 6 }, ChainedBFT.MsgDigest.proposalD { round := 8, height := 8, id := ChainedBFT.BlockId.contentHash 8 (some 0) 50 7, parent_id := ChainedBFT.BlockId.contentHash 7 (some 1) 50 6, qc_certified_block_id := ChainedBFT.BlockId.contentHash 7 (some 1) 50 6 }, ChainedBFT.MsgDigest.voteD { round := 8, block_id := ChainedBFT.BlockId.contentHash 8 (some 0) 50 7 }, ChainedBFT.MsgDigest.proposalD { round := 9, height := 9, id := ChainedBFT.BlockId.contentHash 9 (some 0) 50 8, parent_id := ChainedBFT.BlockId.contentHash 8 (some 0) 50 7, qc_certified_block_id := ChainedBFT.BlockId.contentHash 8 (some 0) 50 7 }, ChainedBFT.MsgDigest.voteD { round := 9, block_id := ChainedBFT.BlockId.contentHash 9 (some 0) 50 8 }, ChainedBFT.MsgDigest.proposalD { round := 10, height := 10, id := ChainedBFT.BlockId.contentHash 10 (some 1) 50 9, parent_id := ChainedBFT.BlockId.contentHash 9 (some 0) 50 8, qc_certified_block_id := ChainedBFT.BlockId.contentHash 9 (some 0) 50 8 }, ChainedBFT.MsgDigest.voteD { round := 10, block_id := ChainedBFT.BlockId.contentHash 10 (some 1) 50 9 }, ChainedBFT.MsgDigest.proposalD { round := 11, height := 11, id := ChainedBFT.BlockId.contentHash 11 (some 1) 50 10, parent_id := ChainedBFT.BlockId.contentHash 10 (some 1) 50 9, qc_certified_block_id := ChainedBFT.BlockId.contentHash 10 (some 1) 50 9 }]⟩

/-- Checkpoint of the simulated cluster (see the scenario schedule definitions). -/
def c3w6 : World :=
⟨{ num_nodes := 2, quorum_size := 2, proposer_type := ChainedBFT.ConsensusProposerType.RotatingProposer, contiguous_rounds := 2, max_block_size := 50 }, [{ author := 0, blocks := [{ id := ChainedBFT.BlockId.contentHash 8 (some 0) 50 7, round := 8, height := 8, parent_id := ChainedBFT.BlockId.contentHash 7 (some 1) 50 6, author := some 0, payload := 50, quorum_cert := { certified_block_id := ChainedBFT.BlockId.contentHash 7 (some 1) 50 6, certified_block_round := 7, certified_block_height := 7, certified_parent_round := 6, ledger_info := { consensus_block_id := some (ChainedBFT.BlockId.contentHash 5 (some 0) 50 4), commit_round := 5 }, signatures := [{ signer := 0, signed_ledger_info := { consensus_block_id := some (ChainedBFT.BlockId.contentHash 5 (some 0) 50 4), commit_round := 5 } }, { signer := 1, signed_ledger_info := { consensus_block_id := some (ChainedBFT.BlockId.contentHash 5 (some 0) 50 4), commit_round := 5 } }] } }, { id := ChainedBFT.BlockId.contentHash 9 (some 0) 50 8, round := 9, height := 9, parent_id := ChainedBFT.BlockId.contentHash 8 (some 0) 50 7, author := some 0, payload := 50, quorum_cert := { certified_block_id := ChainedBFT.BlockId.contentHash 8 (some 0) 50 7, certified_block_round := 8, certified_block_height := 8, certified_parent_round := 7, ledger_info := { consensus_block_id := some (ChainedBFT.BlockId.contentHash 6 (some 1) 50 5), commit_round := 6 }, signatures := [{ signer := 0, signed_ledger_info := { consensus_block_id := some (ChainedBFT.BlockId.contentHash 6 (some 1) 50 5), commit_round := 6 } }, { signer := 1, signed_ledger_info := { consensus_block_id := some (ChainedBFT.BlockId.contentHash 6 (some 1) 50 5), commit_round := 6 } }] } }, { id := ChainedBFT.BlockId.contentHash 10 (some 1) 50 9, round := 10, height := 10, parent_id := ChainedBFT.BlockId.contentHash 9 (some 0) 50 8, author := some 1, payload := 50, quorum_cert := { certified_block_id := ChainedBFT.BlockId.contentHash 9 (some 0) 50 8, certified_block_round := 9, certified_block_height := 9, certified_parent_round := 8, ledger_info := { consensus_block_id := some (ChainedBFT.BlockId.contentHash 7 (some 1) 50 6), commit_round := 7 }, signatures := [{ signer := 0, signed_ledger_info := { consensus_block_id := some (ChainedBFT.BlockId.contentHash 7 (some 1) 50 6), commit_round := 7 } }, { signer := 1, signed_ledger_info := { consensus_block_id := some (ChainedBFT.BlockId.contentHash 7 (some 1) 50 6), commit_round := 7 } }] } }, { id := ChainedBFT.BlockId.contentHash 11 (some 1) 50 10, round := 11, height := 11, parent_id := ChainedBFT.BlockId.contentHash 10 (some 1) 50 9, author := some 1, payload := 50, quorum_cert := { certified_block_id := ChainedBFT.BlockId.contentHash 10 (some 1) 50 9, certified_block_round := 10, certified_block_height := 10, certified_parent_round := 9, ledger_info := { consensus_block_id := some (ChainedBFT.BlockId.contentHash 8 (some 0) 50 7), commit_round := 8 }, signatures := [{ signer := 0, signed_ledger_info := { consensus_block_id := some (ChainedBFT.BlockId.contentHash 8 (some 0) 50 7), commit_round := 8 } }, { signer := 1, signed_ledger_info := { consensus_block_id := some (ChainedBFT.BlockId.contentHash 8 (some 0) 50 7), commit_round := 8 } }] } }, { id := ChainedBFT.BlockId.contentHash 12 (some 0) 50 10, round := 12, height := 11, parent_id := ChainedBFT.BlockId.contentHash 10 (some 1) 50 9, author := some 0, payload := 50, quorum_cert := { certified_block_id := ChainedBFT.BlockId.contentHash 10 (some 1) 50 9, certified_block_round := 10, certified_block_height := 10, certified_parent_round := 9, ledger_info := { consensus_block_id := some (ChainedBFT.BlockId.contentHash 8 (some 0) 50 7), commit_round := 8 }, signatures := [{ signer := 0, signed_ledger_info := { consensus_block_id := some (ChainedBFT.BlockId.contentHash 8 (some 0) 50 7), commit_round := 8 } }, { signer := 1, signed_ledger_info := { consensus_block_id := some (ChainedBFT.BlockId.contentHash 8 (some 0) 50 7), commit_round := 8 } }] } }, { id := ChainedBFT.BlockId.contentHash 13 (some 0) 50 12, round := 13, height := 12, parent_id := ChainedBFT.BlockId.contentHash 12 (some 0) 50 10, author := some 0, payload := 50, quorum_cert := { certified_block_id := ChainedBFT.BlockId.contentHash 12 (some 0) 50 10, certified_block_round := 12, certified_block_height := 11, certified_parent_round := 10, ledger_info := { consensus_block_id := none, commit_round := 0 }, signatures := [{ signer := 0, signed_ledger_info := { consensus_block_id := none, commit_round := 0 } }, { signer := 1, signed_ledger_info := { consensus_block_id := none, commit_round := 0 } }] } }], root_id := ChainedBFT.BlockId.contentHash 8 (some 0) 50 7, highest_quorum_cert := { certified_block_id := ChainedBFT.BlockId.contentHash 12 (some 0) 50 10, certified_block_round := 12, certified_block_height := 11, certified_parent_round := 10, ledger_info := { consensus_block_id := none, commit_round := 0 }, signatures := [{ signer := 0, signed_ledger_info := { consensus_block_id := none, commit_round := 0 } }, { signer := 1, signed_ledger_info := { consensus_block_id := none, commit_round := 0 } }] }, highest_commit_cert := { certified_block_id := ChainedBFT.BlockId.contentHash 10 (some 1) 50 9, certified_block_round := 10, certified_block_height := 10, certified_parent_round := 9, ledger_info := { consensus_block_id := some (ChainedBFT.BlockId.contentHash 8 (some 0) 50 7), commit_round := 8 }, signatures := [{ signer := 0, signed_ledger_info := { consensus_block_id := some (ChainedBFT.BlockId.contentHash 8 (some 0) 50 7), commit_round := 8 } }, { signer := 1, signed_ledger_info := { consensus_block_id := some (ChainedBFT.BlockId.contentHash 8 (some 0) 50 7), commit_round := 8 } }] }, current_round := 13, last_voted_round := 13, preferred_round := 10, last_vote := some { author := 0, block_id := ChainedBFT.BlockId.contentHash 13 (some 0) 50 12, round := 13, height := 12, parent_block_id := ChainedBFT.BlockId.contentHash 12 (some 0) 50 10, parent_round := 12, ledger_info := { consensus_block_id := none, commit_round := 0 } }, pending_votes := [{ author := 0, block_id := ChainedBFT.BlockId.contentHash 12 (some 0) 50 10, round := 12, height := 11, parent_block_id := ChainedBFT.BlockId.contentHash 10 (some 1) 50 9, parent_round := 10, ledger_info := { consensus_block_id := none, commit_round := 0 } }, { author := 1, block_id := ChainedBFT.BlockId.contentHash 12 (some 0) 50 10, round := 12, height := 11, parent_block_id := ChainedBFT.BlockId.contentHash 10 (some 1) 50 9, parent_round := 10, ledger_info := { consensus_block_id := none, commit_round := 0 } }], pending_timeouts := [], highest_tc_round := 0, pending_secondary := none, pending_fetch := none, commits := [], committed_txns := 0 }, { author := 1, blocks := [{ id := ChainedBFT.BlockId.contentHash 8 (some 0) 50 7, round := 8, height := 8, parent_id := ChainedBFT.BlockId.contentHash 7 (some 1) 50 6, author := some 0, payload := 50, quorum_cert := { certified_block_id := ChainedBFT.BlockId.contentHash 7 (some 1) 50 6, certified_block_round := 7, certified_block_height := 7, certified_parent_round := 6, ledger_info := { consensus_block_id := some (ChainedBFT.BlockId.contentHash 5 (some 0) 50 4), commit_round := 5 }, signatures := [{ signer := 0, signed_ledger_info := { consensus_block_id := some (ChainedBFT.BlockId.contentHash 5 (some 0) 50 4), commit_round := 5 } }, { signer := 1, signed_ledger_info := { consensus_block_id := some (ChainedBFT.BlockId.contentHash 5 (some 0) 50 4), commit_round := 5 } }] } }, { id := ChainedBFT.BlockId.contentHash 9 (some 0) 50 8, round := 9, height := 9, parent_id := ChainedBFT.BlockId.contentHash 8 (some 0) 50 7, author := some 0, payload := 50, quorum_cert := { certified_block_id := ChainedBFT.BlockId.contentHash 8 (some 0) 50 7, certified_block_round := 8, certified_block_height := 8, certified_parent_round := 7, ledger_info := { consensus_block_id := some (ChainedBFT.BlockId.contentHash 6 (some 1) 50 5), commit_round := 6 }, signatures := [{ signer := 0, signed_ledger_info := { consensus_block_id := some (ChainedBFT.BlockId.contentHash 6 (some 1) 50 5), commit_round := 6 } }, { signer := 1, signed_ledger_info := { consensus_block_id := some (ChainedBFT.BlockId.contentHash 6 (some 1) 50 5), commit_round := 6 } }] } }, { id := ChainedBFT.BlockId.contentHash 10 (some 1) 50 9, round := 10, height := 10, parent_id := ChainedBFT.BlockId.contentHash 9 (some 0) 50 8, author := some 1, payload := 50, quorum_cert := { certified_block_id := ChainedBFT.BlockId.contentHash 9 (some 0) 50 8, certified_block_round := 9, certified_block_height := 9, certified_parent_round := 8, ledger_info := { consensus_block_id := some (ChainedBFT.BlockId.contentHash 7 (some 1) 50 6), commit_round := 7 }, signatures := [{ signer := 0, signed_ledger_info := { consensus_block_id := some (ChainedBFT.BlockId.contentHash 7 (some 1) 50 6), commit_round := 7 } }, { signer := 1, signed_ledger_info := { consensus_block_id := some (ChainedBFT.BlockId.contentHash 7 (some 1) 50 6), commit_round := 7 } }] } }, { id := ChainedBFT.BlockId.contentHash 11 (some 1) 50 10, round := 11, height := 11, parent_id := ChainedBFT.BlockId.contentHash 10 (some 1) 50 9, author := some 1, payload := 50, quorum_cert := { certified_block_id := ChainedBFT.BlockId.contentHash 10 (some 1) 50 9, certified_block_round := 10, certified_block_height := 10, certified_parent_round := 9, ledger_info := { consensus_block_id := some (ChainedBFT.BlockId.contentHash 8 (some 0) 50 7), commit_round := 8 }, signatures := [{ signer := 0, signed_ledger_info := { consensus_block_id := some (ChainedBFT.BlockId.contentHash 8 (some 0) 50 7), commit_round := 8 } }, { signer := 1, signed_ledger_info := { consensus_block_id := some (ChainedBFT.BlockId.contentHash 8 (some 0) 50 7), commit_round := 8 } }] } }, { id := ChainedBFT.BlockId.contentHash 12 (some 0) 50 10, round := 12, height := 11, parent_id := ChainedBFT.BlockId.contentHash 10 (some 1) 50 9, author := some 0, payload := 50, quorum_cert := { certified_block_id := ChainedBFT.BlockId.contentHash 10 (some 1) 50 9, certified_block_round := 10, certified_block_height := 10, certified_parent_round := 9, ledger_info := { consensus_block_id := some (ChainedBFT.BlockId.contentHash 8 (some 0) 50 7), commit_round := 8 }, signatures := [{ signer := 0, signed_ledger_info := { consensus_block_id := some (ChainedBFT.BlockId.contentHash 8 (some 0) 50 7), commit_round := 8 } }, { signer := 1, signed_ledger_info := { consensus_block_id := some (ChainedBFT.BlockId.contentHash 8 (some 0) 50 7), commit_round := 8 } }] } }, { id := ChainedBFT.BlockId.contentHash 13 (some 0) 50 12, round := 13, height := 12, parent_id := ChainedBFT.BlockId.contentHash 12 (some 0) 50 10, author := some 0, payload := 50, quorum_cert := { certified_block_id := ChainedBFT.BlockId.contentHash 12 (some 0) 50 10, certified_block_round := 12, certified_block_height := 11, certified_parent_round := 10, ledger_info := { consensus_block_id := none, commit_round := 0 }, signatures := [{ signer := 0, signed_ledger_info := { consensus_block_id := none, commit_round := 0 } }, { signer := 1, signed_ledger_info := { consensus_block_id := none, commit_round := 0 } }] } }], root_id := ChainedBFT.BlockId.contentHash 8 (some 0) 50 7, highest_quorum_cert := { certified_block_id := ChainedBFT.BlockId.contentHash 13 (some 0) 50 12, certified_block_round := 13, certified_block_height := 12, certified_parent_round := 12, ledger_info := { consensus_block_id := none, commit_round := 0 }, signatures := [{ signer := 0, signed_ledger_info := { consensus_block_id := none, commit_round := 0 } }, { signer := 1, signed_ledger_info := { consensus_block_id := none, commit_round := 0 } }] }, highest_commit_cert := { certified_block_id := ChainedBFT.BlockId.contentHash 10 (some 1) 50 9, certified_block_round := 10, certified_block_height := 10, certified_parent_round := 9, ledger_info := { consensus_block_id := some (ChainedBFT.BlockId.contentHash 8 (some 0) 50 7), commit_round := 8 }, signatures := [{ signer := 0, signed_ledger_info := { consensus_block_id := some (ChainedBFT.BlockId.contentHash 8 (some 0) 50 7), commit_round := 8 } }, { signer := 1, signed_ledger_info := { consensus_block_id := some (ChainedBFT.BlockId.contentHash 8 (some 0) 50 7), commit_round := 8 } }] }, current_round := 14, last_voted_round := 13, preferred_round := 10, last_vote := none, pending_votes := [{ author := 0, block_id := ChainedBFT.BlockId.contentHash 13 (some 0) 50 12, round := 13, height := 12, parent_block_id := ChainedBFT.BlockId.contentHash 12 (some 0) 50 10, parent_round := 12, ledger_info := { consensus_block_id := none, commit_round := 0 } }, { author := 1, block_id := ChainedBFT.BlockId.contentHash 13 (some 0) 50 12, round := 13, height := 12, parent_block_id := ChainedBFT.BlockId.contentHash 12 (some 0) 50 10, parent_round := 12, ledger_info := { consensus_block_id := none, commit_round := 0 } }], pending_timeouts := [], highest_tc_round := 0, pending_secondary := none, pending_fetch := none, commits := [], committed_txns := 0 }], [(1, 0, ChainedBFT.Msg.proposal { id := ChainedBFT.BlockId.contentHash 14 (some 1) 50 13, round := 14, height := 13, parent_id := ChainedBFT.BlockId.contentHash 13 (some 0) 50 12, author := some 1, payload := 50, quorum_cert := { certified_block_id := ChainedBFT.BlockId.contentHash 13 (some 0) 50 12, certified_block_round := 13, certified_block_height := 12, certified_parent_round := 12, ledger_info := { consensus_block_id := none, commit_round := 0 }, signatures := [{ signer := 0, signed_ledger_info := { consensus_block_id := none, commit_round := 0 } }, { signer := 1, signed_ledger_info := { consensus_block_id := none, commit_round := 0 } }] } } { highest_quorum_cert := { certified_block_id := ChainedBFT.BlockId.contentHash 13 (some 0) 50 12, certified_block_round := 13, certified_block_height := 12, certified_parent_round := 12, ledger_info := { consensus_block_id := none, commit_round := 0 }, signatures := [{ signer := 0, signed_ledger_info := { consensus_block_id := none, commit_round := 0 } }, { signer := 1, signed_ledger_info := { consensus_block_id := none, commit_round := 0 } }] }, highest_commit_cert := { certified_block_id := ChainedBFT.BlockId.contentHash 10 (some 1) 50 9, certified_block_round := 10, certified_block_height := 10, certified_parent_round := 9, ledger_info := { consensus_block_id := some (ChainedBFT.BlockId.contentHash 8 (some 0) 50 7), commit_round := 8 }, signatures := [{ signer := 0, signed_ledger_info := { consensus_block_id := some (ChainedBFT.BlockId.contentHash 8 (some 0) 50 7), commit_round := 8 } }, { signer := 1, signed_ledger_info := { consensus_block_id := some (ChainedBFT.BlockId.contentHash 8 (some 0) 50 7), commit_round := 8 } }] } }), (1, 1, ChainedBFT.Msg.proposal { id := ChainedBFT.BlockId.contentHash 14 (some 1) 50 13, round := 14, height := 13, parent_id := ChainedBFT.BlockId.contentHash 13 (some 0) 50 12, author := some 1, payload := 50, quorum_cert := { certified_block_id := ChainedBFT.BlockId.contentHash 13 (some 0) 50 12, certified_block_round := 13, certified_block_height := 12, certified_parent_round := 12, ledger_info := { consensus_block_id := none, commit_round := 0 }, signatures := [{ signer := 0, signed_ledger_info := { consensus_block_id := none, commit_round := 0 } }, { signer := 1, signed_ledger_info := { consensus_block_id := none, commit_round := 0 } }] } } { highest_quorum_cert := { certified_block_id := ChainedBFT.BlockId.contentHash 13 (some 0) 50 12, certified_block_round := 13, certified_block_height := 12, certified_parent_round := 12, ledger_info := { consensus_block_id := none, commit_round := 0 }, signatures := [{ signer := 0, signed_ledger_info := { consensus_block_id := none, commit_round := 0 } }, { signer := 1, signed_ledger_info := { consensus_block_id := none, commit_round := 0 } }] }, highest_commit_cert := { certified_block_id := ChainedBFT.BlockId.contentHash 10 (some 1) 50 9, certified_block_round := 10, certified_block_height := 10, certified_parent_round := 9, ledger_info := { consensus_block_id := some (ChainedBFT.BlockId.contentHash 8 (some 0) 50 7), commit_round := 8 }, signatures := [{ signer := 0, signed_ledger_info := { consensus_block_id := some (ChainedBFT.BlockId.contentHash 8 (some 0) 50 7), commit_round := 8 } }, { signer := 1, signed_ledger_info := { consensus_block_id := some (ChainedBFT.BlockId.contentHash 8 (some 0) 50 7), commit_round := 8 } }] } })], [], [ChainedBFT.MsgDigest.proposalD { round := 1, height := 1, id := ChainedBFT.BlockId.contentHash 1 (some 0) 50 0, parent_id := ChainedBFT.BlockId.genesisId, qc_certified_block_id := ChainedBFT.BlockId.genesisId }, ChainedBFT.MsgDigest.voteD { round := 1, block_id := ChainedBFT.BlockId.contentHash 1 (some 0) 50 0 }, ChainedBFT.MsgDigest.proposalD { round := 2, height := 2, id := ChainedBFT.BlockId.contentHash 2 (some 1) 50 1, parent_id := ChainedBFT.BlockId.contentHash 1 (some 0) 50 0, qc_certified_block_id := ChainedBFT.BlockId.contentHash 1 (some 0) 50 0 }, ChainedBFT.MsgDigest.voteD { round := 2, block_id := ChainedBFT.BlockId.contentHash 2 (some 1) 50 1 }, ChainedBFT.MsgDigest.proposalD { round := 3, height := 3, id := ChainedBFT.BlockId.contentHash 3 (some 1) 50 2, parent_id := ChainedBFT.BlockId.contentHash 2 (some 1) 50 1, qc_certified_block_id := ChainedBFT.BlockId.contentHash 2 (some 1) 50 1 }, ChainedBFT.MsgDigest.voteD { round := 3, block_id := ChainedBFT.BlockId.contentHash 3 (some 1) 50 2 }, ChainedBFT.MsgDigest.proposalD { round := 4, height := 4, id := ChainedBFT.BlockId.contentHash 4 (some 0) 50 3, parent_id := ChainedBFT.BlockId.contentHash 3 (some 1) 50 2, qc_certified_block_id := ChainedBFT.BlockId.contentHash 3 (some 1) 50 2 }, ChainedBFT.MsgDigest.voteD { round := 4, block_id := ChainedBFT.BlockId.contentHash 4 (some 0) 50 3 }, ChainedBFT.MsgDigest.proposalD { round := 5, height := 5, id := ChainedBFT.BlockId.contentHash 5 (some 0) 50 4, parent_id := ChainedBFT.BlockId.contentHash 4 (some 0) 50 3, qc_certified_block_id := ChainedBFT.BlockId.contentHash 4 (some 0) 50 3 }, ChainedBFT.MsgDigest.voteD { round := 5, block_id := ChainedBFT.BlockId.contentHash 5 (some 0) 50 4 }, ChainedBFT.MsgDigest.proposalD { round := 6, height := 6, id := ChainedBFT.BlockId.contentHash 6 (some 1) 50 5, parent_id := ChainedBFT.BlockId.contentHash 5 (some 0) 50 4, qc_certified_block_id := ChainedBFT.BlockId.contentHash 5 (some 0) 50 4 }, ChainedBFT.MsgDigest.voteD { round := 6, block_id := ChainedBFT.BlockId.contentHash 6 (some 1) 50 5 }, ChainedBFT.MsgDigest.proposalD { round := 7, height := 7, id := ChainedBFT.BlockId.contentHash 7 (some 1) 50 6, parent_id := ChainedBFT.BlockId.contentHash 6 (some 1) 50 5, qc_certified_block_id := ChainedBFT.BlockId.contentHash 6 (some 1) 50 5 }, ChainedBFT.MsgDigest.voteD { round := 7, block_id := ChainedBFT.BlockId.contentHash 7 (some 1) 50 6 }, ChainedBFT.MsgDigest.proposalD { round := 8, height := 8, id := ChainedBFT.BlockId.contentHash 8 (some 0) 50 7, parent_id := ChainedBFT.BlockId.contentHash 7 (some 1) 50 6, qc_certified_block_id := ChainedBFT.BlockId.contentHash 7 (some 1) 50 6 }, ChainedBFT.MsgDigest.voteD { round := 8, block_id := ChainedBFT.BlockId.contentHash 8 (some 0) 50 7 }, ChainedBFT.MsgDigest.proposalD { round := 9, height := 9, id := ChainedBFT.BlockId.contentHash 9 (some 0) 50 8, parent_id := ChainedBFT.BlockId.contentHash 8 (some 0) 50 7, qc_certified_block_id := ChainedBFT.BlockId.contentHash 8 (some 0) 50 7 }, ChainedBFT.MsgDigest.voteD { round := 9, block_id := ChainedBFT.BlockId.contentHash 9 (some 0) 50 8 }, ChainedBFT.MsgDigest.proposalD { round := 10, height := 10, id := ChainedBFT.BlockId.contentHash 10 (some 1) 50 9, parent_id := ChainedBFT.BlockId.contentHash 9 (some 0) 50 8, qc_certified_block_id := ChainedBFT.BlockId.contentHash 9 (some 0) 50 8 }, ChainedBFT.MsgDigest.voteD { round := 10, block_id := ChainedBFT.BlockId.contentHash 10 (some 1) 50 9 }, ChainedBFT.MsgDigest.proposalD { round := 11, height := 11, id := ChainedBFT.BlockId.contentHash 11 (some 1) 50 10, parent_id := ChainedBFT.BlockId.contentHash 10 (some 1) 50 9, qc_certified_block_id := ChainedBFT.BlockId.contentHash 10 (some 1) 50 9 }, ChainedBFT.MsgDigest.proposalD { round := 12, height := 11, id := ChainedBFT.BlockId.contentHash 12 (some 0) 50 10, parent_id := ChainedBFT.BlockId.contentHash 10 (some 1) 50 9, qc_certified_block_id := ChainedBFT.BlockId.contentHash 10 (some 1) 50 9 }, ChainedBFT.MsgDigest.voteD { round := 12, block_id := ChainedBFT.BlockId.contentHash 12 (some 0) 50 10 }, ChainedBFT.MsgDigest.proposalD { round := 13, height := 12, id := ChainedBFT.BlockId.contentHash 13 (some 0) 50 12, parent_id := ChainedBFT.BlockId.contentHash 12 (some 0) 50 10, qc_certified_block_id := ChainedBFT.BlockId.contentHash 12 (some 0) 50 10 }, ChainedBFT.MsgDigest.voteD { round := 13, block_id := ChainedBFT.BlockId.contentHash 13 (some 0) 50 12 }]⟩

/-- Checkpoint of the simulated cluster (see the scenario schedule definitions). -/
def c3w7 : World :=
⟨{ num_nodes := 2, quorum_size := 2, proposer_type := ChainedBFT.ConsensusProposerType.RotatingProposer, contiguous_rounds := 2, max_block_size := 50 }, [{ author := 0, blocks := [{ id := ChainedBFT.BlockId.contentHash 13 (some 0) 50 12, round := 13, height := 12, parent_id := ChainedBFT.BlockId.contentHash 12 (some 0) 50 10, author := some 0, payload := 50, quorum_cert := { certified_block_id := ChainedBFT.BlockId.contentHash 12 (some 0) 50 10, certified_block_round := 12, certified_block_height := 11, certified_parent_round := 10, ledger_info := { consensus_block_id := none, commit_round := 0 }, signatures := [{ signer := 0, signed_ledger_info := { consensus_block_id := none, commit_round := 0 } }, { signer := 1, signed_ledger_info := { consensus_block_id := none, commit_round := 0 } }] } }, { id := ChainedBFT.BlockId.contentHash 14 (some 1) 50 13, round := 14, height := 13, parent_id := ChainedBFT.BlockId.contentHash 13 (some 0) 50 12, author := some 1, payload := 50, quorum_cert := { certified_block_id := ChainedBFT.BlockId.contentHash 13 (some 0) 50 12, certified_block_round := 13, certified_block_height := 12, certified_parent_round := 12, ledger_info := { consensus_block_id := none, commit_round := 0 }, signatures := [{ signer := 0, signed_ledger_info := { consensus_block_id := none, commit_round := 0 } }, { signer := 1, signed_ledger_info := { consensus_block_id := none, commit_round := 0 } }] } }, { id := ChainedBFT.BlockId.contentHash 15 (some 1) 50 14, round := 15, height := 14, parent_id := ChainedBFT.BlockId.contentHash 14 (some 1) 50 13, author := some 1, payload := 50, quorum_cert := { certified_block_id := ChainedBFT.BlockId.contentHash 14 (some 1) 50 13, certified_block_round := 14, certified_block_height := 13, certified_parent_round := 13, ledger_info := { consensus_block_id := some (ChainedBFT.BlockId.contentHash 12 (some 0) 50 10), commit_round := 12 }, signatures := [{ signer := 0, signed_ledger_info := { consensus_block_id := some (ChainedBFT.BlockId.contentHash 12 (some 0) 50 10), commit_round := 12 } }, { signer := 1, signed_ledger_info := { consensus_block_id := some (ChainedBFT.BlockId.contentHash 12 (some 0) 50 10), commit_round := 12 } }] } }], root_id := ChainedBFT.BlockId.contentHash 13 (some 0) 50 12, highest_quorum_cert := { certified_block_id := ChainedBFT.BlockId.contentHash 15 (some 1) 50 14, certified_block_round := 15, certified_block_height := 14, certified_parent_round := 14, ledger_info := { consensus_block_id := some (ChainedBFT.BlockId.contentHash 13 (some 0) 50 12), commit_round := 13 }, signatures := [{ signer := 0, signed_ledger_info := { consensus_block_id := some (ChainedBFT.BlockId.contentHash 13 (some 0) 50 12), commit_round := 13 } }, { signer := 1, signed_ledger_info := { consensus_block_id := some (ChainedBFT.BlockId.contentHash 13 (some 0) 50 12), commit_round := 13 } }] }, highest_commit_cert := { certified_block_id := ChainedBFT.BlockId.contentHash 15 (some 1) 50 14, certified_block_round := 15, certified_block_height := 14, certified_parent_round := 14, ledger_info := { consensus_block_id := some (ChainedBFT.BlockId.contentHash 13 (some 0) 50 12), commit_round := 13 }, signatures := [{ signer := 0, signed_ledger_info := { consensus_block_id := some (ChainedBFT.BlockId.contentHash 13 (some 0) 50 12), commit_round := 13 } }, { signer := 1, signed_ledger_info := { consensus_block_id := some (ChainedBFT.BlockId.contentHash 13 (some 0) 50 12), commit_round := 13 } }] }, current_round := 16, last_voted_round := 15, preferred_round := 13, last_vote := none, pending_votes := [{ author := 0, block_id := ChainedBFT.BlockId.contentHash 12 (some 0) 50 10, round := 12, height := 11, parent_block_id := ChainedBFT.BlockId.contentHash 10 (some 1) 50 9, parent_round := 10, ledger_info := { consensus_block_id := none, commit_round := 0 } }, { author := 1, block_id := ChainedBFT.BlockId.contentHash 12 (some 0) 50 10, round := 12, height := 11, parent_block_id := ChainedBFT.BlockId.contentHash 10 (some 1) 50 9, parent_round := 10, ledger_info := { consensus_block_id := none, commit_round := 0 } }, { author := 0, block_id := ChainedBFT.BlockId.contentHash 15 (some 1) 50 14, round := 15, height := 14, parent_block_id := ChainedBFT.BlockId.contentHash 14 (some 1) 50 13, parent_round := 14, ledger_info := { consensus_block_id := some (ChainedBFT.BlockId.contentHash 13 (some 0) 50 12), commit_round := 13 } }, { author := 1, block_id := ChainedBFT.BlockId.contentHash 15 (some 1) 50 14, round := 15, height := 14, parent_block_id := ChainedBFT.BlockId.contentHash 14 (some 1) 50 13, parent_round := 14, ledger_info := { consensus_block_id := some (ChainedBFT.BlockId.contentHash 13 (some 0) 50 12), commit_round := 13 } }], pending_timeouts := [], highest_tc_round := 0, pending_secondary := none, pending_fetch := none, commits := [{ ledger_info := { consensus_block_id := some (ChainedBFT.BlockId.contentHash 12 (some 0) 50 10), commit_round := 12 }, signatures := [{ signer := 0, signed_ledger_info := { consensus_block_id := some (ChainedBFT.BlockId.contentHash 12 (some 0) 50 10), commit_round := 12 } }, { signer := 1, signed_ledger_info := { consensus_block_id := some (ChainedBFT.BlockId.contentHash 12 (some 0) 50 10), commit_round := 12 } }] }, { ledger_info := { consensus_block_id := some (ChainedBFT.BlockId.contentHash 13 (some 0) 50 12), commit_round := 13 }, signatures := [{ signer := 0, signed_ledger_info := { consensus_block_id := some (ChainedBFT.BlockId.contentHash 13 (some 0) 50 12), commit_round := 13 } }, { signer := 1, signed_ledger_info := { consensus_block_id := some (ChainedBFT.BlockId.contentHash 13 (some 0) 50 12), commit_round := 13 } }] }], committed_txns := 200 }, { author := 1, blocks := [{ id := ChainedBFT.BlockId.contentHash 12 (some 0) 50 10, round := 12, height := 11, parent_id := ChainedBFT.BlockId.contentHash 10 (some 1) 50 9, author := some 0, payload := 50, quorum_cert := { certified_block_id := ChainedBFT.BlockId.contentHash 10 (some 1) 50 9, certified_block_round := 10, certified_block_height := 10, certified_parent_round := 9, ledger_info := { consensus_block_id := some (ChainedBFT.BlockId.contentHash 8 (some 0) 50 7), commit_round := 8 }, signatures := [{ signer := 0, signed_ledger_info := { consensus_block_id := some (ChainedBFT.BlockId.contentHash 8 (some 0) 50 7), commit_round := 8 } }, { signer := 1, signed_ledger_info := { consensus_block_id := some (ChainedBFT.BlockId.contentHash 8 (some 0) 50 7), commit_round := 8 } }] } }, { id := ChainedBFT.BlockId.contentHash 13 (some 0) 50 12, round := 13, height := 12, parent_id := ChainedBFT.BlockId.contentHash 12 (some 0) 50 10, author := some 0, payload := 50, quorum_cert := { certified_block_id := ChainedBFT.BlockId.contentHash 12 (some 0) 50 10, certified_block_round := 12, certified_block_height := 11, certified_parent_round := 10, ledger_info := { consensus_block_id := none, commit_round := 0 }, signatures := [{ signer := 0, signed_ledger_info := { consensus_block_id := none, commit_round := 0 } }, { signer := 1, signed_ledger_info := { consensus_block_id := none, commit_round := 0 } }] } }, { id := ChainedBFT.BlockId.contentHash 14 (some 1) 50 13, round := 14, height := 13, parent_id := ChainedBFT.BlockId.contentHash 13 (some 0) 50 12, author := some 1, payload := 50, quorum_cert := { certified_block_id := ChainedBFT.BlockId.contentHash 13 (some 0) 50 12, certified_block_round := 13, certified_block_height := 12, certified_parent_round := 12, ledger_info := { consensus_block_id := none, commit_round := 0 }, signatures := [{ signer := 0, signed_ledger_info := { consensus_block_id := none, commit_round := 0 } }, { signer := 1, signed_ledger_info := { consensus_block_id := none, commit_round := 0 } }] } }, { id := ChainedBFT.BlockId.contentHash 15 (some 1) 50 14, round := 15, height := 14, parent_id := ChainedBFT.BlockId.contentHash 14 (some 1) 50 13, author := some 1, payload := 50, quorum_cert := { certified_block_id := ChainedBFT.BlockId.contentHash 14 (some 1) 50 13, certified_block_round := 14, certified_block_height := 13, certified_parent_round := 13, ledger_info := { consensus_block_id := some (ChainedBFT.BlockId.contentHash 12 (some 0) 50 10), commit_round := 12 }, signatures := [{ signer := 0, signed_ledger_info := { consensus_block_id := some (ChainedBFT.BlockId.contentHash 12 (some 0) 50 10), commit_round := 12 } }, { signer := 1, signed_ledger_info := { consensus_block_id := some (ChainedBFT.BlockId.contentHash 12 (some 0) 50 10), commit_round := 12 } }] } }], root_id := ChainedBFT.BlockId.contentHash 12 (some 0) 50 10, highest_quorum_cert := { certified_block_id := ChainedBFT.BlockId.contentHash 14 (some 1) 50 13, certified_block_round := 14, certified_block_height := 13, certified_parent_round := 13, ledger_info := { consensus_block_id := some (ChainedBFT.BlockId.contentHash 12 (some 0) 50 10), commit_round := 12 }, signatures := [{ signer := 0, signed_ledger_info := { consensus_block_id := some (ChainedBFT.BlockId.contentHash 12 (some 0) 50 10), commit_round := 12 } }, { signer := 1, signed_ledger_info := { consensus_block_id := some (ChainedBFT.BlockId.contentHash 12 (some 0) 50 10), commit_round := 12 } }] }, highest_commit_cert := { certified_block_id := ChainedBFT.BlockId.contentHash 14 (some 1) 50 13, certified_block_round := 14, certified_block_height := 13, certified_parent_round := 13, ledger_info := { consensus_block_id := some (ChainedBFT.BlockId.contentHash 12 (some 0) 50 10), commit_round := 12 }, signatures := [{ signer := 0, signed_ledger_info := { consensus_block_id := some (ChainedBFT.BlockId.contentHash 12 (some 0) 50 10), commit_round := 12 } }, { signer := 1, signed_ledger_info := { consensus_block_id := some (ChainedBFT.BlockId.contentHash 12 (some 0) 50 10), commit_round := 12 } }] }, current_round := 15, last_voted_round := 15, preferred_round := 13, last_vote := some { author := 1, block_id := ChainedBFT.BlockId.contentHash 15 (some 1) 50 14, round := 15, height := 14, parent_block_id := ChainedBFT.BlockId.contentHash 14 (some 1) 50 13, parent_round := 14, ledger_info := { consensus_block_id := some (ChainedBFT.BlockId.contentHash 13 (some 0) 50 12), commit_round := 13 } }, pending_votes := [{ author := 0, block_id := ChainedBFT.BlockId.contentHash 13 (some 0) 50 12, round := 13, height := 12, parent_block_id := ChainedBFT.BlockId.contentHash 12 (some 0) 50 10, parent_round := 12, ledger_info := { consensus_block_id := none, commit_round := 0 } }, { author := 1, block_id := ChainedBFT.BlockId.contentHash 13 (some 0) 50 12, round := 13, height := 12, parent_block_id := ChainedBFT.BlockId.contentHash 12 (some 0) 50 10, parent_round := 12, ledger_info := { consensus_block_id := none, commit_round := 0 } }, { author := 0, block_id := ChainedBFT.BlockId.contentHash 14 (some 1) 50 13, round := 14, height := 13, parent_block_id := ChainedBFT.BlockId.contentHash 13 (some 0) 50 12, parent_round := 13, ledger_info := { consensus_block_id := some (ChainedBFT.BlockId.contentHash 12 (some 0) 50 10), commit_round := 12 } }, { author := 1, block_id := ChainedBFT.BlockId.contentHash 14 (some 1) 50 13, round := 14, height := 13, parent_block_id := ChainedBFT.BlockId.contentHash 13 (some 0) 50 12, parent_round := 13, ledger_info := { consensus_block_id := some (ChainedBFT.BlockId.contentHash 12 (some 0) 50 10), commit_round := 12 } }], pending_timeouts := [], highest_tc_round := 0, pending_secondary := none, pending_fetch := none, commits := [{ ledger_info := { consensus_block_id := some (ChainedBFT.BlockId.contentHash 12 (some 0) 50 10), commit_round := 12 }, signatures := [{ signer := 0, signed_ledger_info := { consensus_block_id := some (ChainedBFT.BlockId.contentHash 12 (some 0) 50 10), commit_round := 12 } }, { signer := 1, signed_ledger_info := { consensus_block_id := some (ChainedBFT.BlockId.contentHash 12 (some 0) 50 10), commit_round := 12 } }] }], committed_txns := 150 }], [(0, 0, ChainedBFT.Msg.proposal { id := ChainedBFT.BlockId.contentHash 16 (some 0) 50 15, round := 16, height := 15, parent_id := ChainedBFT.BlockId.contentHash 15 (some 1) 50 14, author := some 0, payload := 50, quorum_cert := { certified_block_id := ChainedBFT.BlockId.contentHash 15 (some 1) 50 14, certified_block_round := 15, certified_block_height := 14, certified_parent_round := 14, ledger_info := { consensus_block_id := some (ChainedBFT.BlockId.contentHash 13 (some 0) 50 12), commit_round := 13 }, signatures := [{ signer := 0, signed_ledger_info := { consensus_block_id := some (ChainedBFT.BlockId.contentHash 13 (some 0) 50 12), commit_round := 13 } }, { signer := 1, signed_ledger_info := { consensus_block_id := some (ChainedBFT.BlockId.contentHash 13 (some 0) 50 12), commit_round := 13 } }] } } { highest_quorum_cert := { certified_block_id := ChainedBFT.BlockId.contentHash 15 (some 1) 50 14, certified_block_round := 15, certified_block_height := 14, certified_parent_round := 14, ledger_info := { consensus_block_id := some (ChainedBFT.BlockId.contentHash 13 (some 0) 50 12), commit_round := 13 }, signatures := [{ signer := 0, signed_ledger_info := { consensus_block_id := some (ChainedBFT.BlockId.contentHash 13 (some 0) 50 12), commit_round := 13 } }, { signer := 1, signed_ledger_info := { consensus_block_id := some (ChainedBFT.BlockId.contentHash 13 (some 0) 50 12), commit_round := 13 } }] }, highest_commit_cert := { certified_block_id := ChainedBFT.BlockId.contentHash 15 (some 1) 50 14, certified_block_round := 15, certified_block_height := 14, certified_parent_round := 14, ledger_info := { consensus_block_id := some (ChainedBFT.BlockId.contentHash 13 (some 0) 50 12), commit_round := 13 }, signatures := [{ signer := 0, signed_ledger_info := { consensus_block_id := some (ChainedBFT.BlockId.contentHash 13 (some 0) 50 12), commit_round := 13 } }, { signer := 1, signed_ledger_info := { consensus_block_id := some (ChainedBFT.BlockId.contentHash 13 (some 0) 50 12), commit_round := 13 } }] } }), (0, 1, ChainedBFT.Msg.proposal { id := ChainedBFT.BlockId.contentHash 16 (some 0) 50 15, round := 16, height := 15, parent_id := ChainedBFT.BlockId.contentHash 15 (some 1) 50 14, author := some 0, payload := 50, quorum_cert := { certified_block_id := ChainedBFT.BlockId.contentHash 15 (some 1) 50 14, certified_block_round := 15, certified_block_height := 14, certified_parent_round := 14, ledger_info := { consensus_block_id := some (ChainedBFT.BlockId.contentHash 13 (some 0) 50 12), commit_round := 13 }, signatures := [{ signer := 0, signed_ledger_info := { consensus_block_id := some (ChainedBFT.BlockId.contentHash 13 (some 0) 50 12), commit_round := 13 } }, { signer := 1, signed_ledger_info := { consensus_block_id := some (ChainedBFT.BlockId.contentHash 13 (some 0) 50 12), commit_round := 13 } }] } } { highest_quorum_cert := { certified_block_id := ChainedBFT.BlockId.contentHash 15 (some 1) 50 14, certified_block_round := 15, certified_block_height := 14, certified_parent_round := 14, ledger_info := { consensus_block_id := some (ChainedBFT.BlockId.contentHash 13 (some 0) 50 12), commit_round := 13 }, signatures := [{ signer := 0, signed_ledger_info := { consensus_block_id := some (ChainedBFT.BlockId.contentHash 13 (some 0) 50 12), commit_round := 13 } }, { signer := 1, signed_ledger_info := { consensus_block_id := some (ChainedBFT.BlockId.contentHash 13 (some 0) 50 12), commit_round := 13 } }] }, highest_commit_cert := { certified_block_id := ChainedBFT.BlockId.contentHash 15 (some 1) 50 14, certified_block_round := 15, certified_block_height := 14, certified_parent_round := 14, ledger_info := { consensus_block_id := some (ChainedBFT.BlockId.contentHash 13 (some 0) 50 12), commit_round := 13 }, signatures := [{ signer := 0, signed_ledger_info := { consensus_block_id := some (ChainedBFT.BlockId.contentHash 13 (some 0) 50 12), commit_round := 13 } }, { signer := 1, signed_ledger_info := { consensus_block_id := some (ChainedBFT.BlockId.contentHash 13 (some 0) 50 12), commit_round := 13 } }] } })], [], [ChainedBFT.MsgDigest.proposalD { round := 1, height := 1, id := ChainedBFT.BlockId.contentHash 1 (some 0) 50 0, parent_id := ChainedBFT.BlockId.genesisId, qc_certified_block_id := ChainedBFT.BlockId.genesisId }, ChainedBFT.MsgDigest.voteD { round := 1, block_id := ChainedBFT.BlockId.contentHash 1 (some 0) 50 0 }, ChainedBFT.MsgDigest.proposalD { round := 2, height := 2, id := ChainedBFT.BlockId.contentHash 2 (some 1) 50 1, parent_id := ChainedBFT.BlockId.contentHash 1 (some 0) 50 0, qc_certified_block_id := ChainedBFT.BlockId.contentHash 1 (some 0) 50 0 }, ChainedBFT.MsgDigest.voteD { round := 2, block_id := ChainedBFT.BlockId.contentHash 2 (some 1) 50 1 }, ChainedBFT.MsgDigest.proposalD { round := 3, height := 3, id := ChainedBFT.BlockId.contentHash 3 (some 1) 50 2, parent_id := ChainedBFT.BlockId.contentHash 2 (some 1) 50 1, qc_certified_block_id := ChainedBFT.BlockId.contentHash 2 (some 1) 50 1 }, ChainedBFT.MsgDigest.voteD { round := 3, block_id := ChainedBFT.BlockId.contentHash 3 (some 1) 50 2 }, ChainedBFT.MsgDigest.proposalD { round := 4, height := 4, id := ChainedBFT.BlockId.contentHash 4 (some 0) 50 3, parent_id := ChainedBFT.BlockId.contentHash 3 (some 1) 50 2, qc_certified_block_id := ChainedBFT.BlockId.contentHash 3 (some 1) 50 2 }, ChainedBFT.MsgDigest.voteD { round := 4, block_id := ChainedBFT.BlockId.contentHash 4 (some 0) 50 3 }, ChainedBFT.MsgDigest.proposalD { round := 5, height := 5, id := ChainedBFT.BlockId.contentHash 5 (some 0) 50 4, parent_id := ChainedBFT.BlockId.contentHash 4 (some 0) 50 3, qc_certified_block_id := ChainedBFT.BlockId.contentHash 4 (some 0) 50 3 }, ChainedBFT.MsgDigest.voteD { round := 5, block_id := ChainedBFT.BlockId.contentHash 5 (some 0) 50 4 }, ChainedBFT.MsgDigest.proposalD { round := 6, height := 6, id := ChainedBFT.BlockId.contentHash 6 (some 1) 50 5, parent_id := ChainedBFT.BlockId.contentHash 5 (some 0) 50 4, qc_certified_block_id := ChainedBFT.BlockId.contentHash 5 (some 0) 50 4 }, ChainedBFT.MsgDigest.voteD { round := 6, block_id := ChainedBFT.BlockId.contentHash 6 (some 1) 50 5 }, ChainedBFT.MsgDigest.proposalD { round := 7, height := 7, id := ChainedBFT.BlockId.contentHash 7 (some 1) 50 6, parent_id := ChainedBFT.BlockId.contentHash 6 (some 1) 50 5, qc_certified_block_id := ChainedBFT.BlockId.contentHash 6 (some 1) 50 5 }, ChainedBFT.MsgDigest.voteD { round := 7, block_id := ChainedBFT.BlockId.contentHash 7 (some 1) 50 6 }, ChainedBFT.MsgDigest.proposalD { round := 8, height := 8, id := ChainedBFT.BlockId.contentHash 8 (some 0) 50 7, parent_id := ChainedBFT.BlockId.contentHash 7 (some 1) 50 6, qc_certified_block_id := ChainedBFT.BlockId.contentHash 7 (some 1) 50 6 }, ChainedBFT.MsgDigest.voteD { round := 8, block_id := ChainedBFT.BlockId.contentHash 8 (some 0) 50 7 }, ChainedBFT.MsgDigest.proposalD { round := 9, height := 9, id := ChainedBFT.BlockId.contentHash 9 (some 0) 50 8, parent_id := ChainedBFT.BlockId.contentHash 8 (some 0) 50 7, qc_certified_block_id := ChainedBFT.BlockId.contentHash 8 (some 0) 50 7 }, ChainedBFT.MsgDigest.voteD { round := 9, block_id := ChainedBFT.BlockId.contentHash 9 (some 0) 50 8 }, ChainedBFT.MsgDigest.proposalD { round := 10, height := 10, id := ChainedBFT.BlockId.contentHash 10 (some 1) 50 9, parent_id := ChainedBFT.BlockId.contentHash 9 (some 0) 50 8, qc_certified_block_id := ChainedBFT.BlockId.contentHash 9 (some 0) 50 8 }, ChainedBFT.MsgDigest.voteD { round := 10, block_id := ChainedBFT.BlockId.contentHash 10 (some 1) 50 9 }, ChainedBFT.MsgDigest.proposalD { round := 11, height := 11, id := ChainedBFT.BlockId.contentHash 11 (some 1) 50 10, parent_id := ChainedBFT.BlockId.contentHash 10 (some 1) 50 9, qc_certified_block_id := ChainedBFT.BlockId.contentHash 10 (some 1) 50 9 }, ChainedBFT.MsgDigest.proposalD { round := 12, height := 11, id := ChainedBFT.BlockId.contentHash 12 (some 0) 50 10, parent_id := ChainedBFT.BlockId.contentHash 10 (some 1) 50 9, qc_certified_block_id := ChainedBFT.BlockId.contentHash 10 (some 1) 50 9 }, ChainedBFT.MsgDigest.voteD { round := 12, block_id := ChainedBFT.BlockId.contentHash 12 (some 0) 50 10 }, ChainedBFT.MsgDigest.proposalD { round := 13, height := 12, id := ChainedBFT.BlockId.contentHash 13 (some 0) 50 12, parent_id := ChainedBFT.BlockId.contentHash 12 (some 0) 50 10, qc_certified_block_id := ChainedBFT.BlockId.contentHash 12 (some 0) 50 10 }, ChainedBFT.MsgDigest.voteD { round := 13, block_id := ChainedBFT.BlockId.contentHash 13 (some 0) 50 12 }, ChainedBFT.MsgDigest.proposalD { round := 14, height := 13, id := ChainedBFT.BlockId.contentHash 14 (some 1) 50 13, parent_id := ChainedBFT.BlockId.contentHash 13 (some 0) 50 12, qc_certified_block_id := ChainedBFT.BlockId.contentHash 13 (some 0) 50 12 }, ChainedBFT.MsgDigest.voteD { round := 14, block_id := ChainedBFT.BlockId.contentHash 14 (some 1) 50 13 }, ChainedBFT.MsgDigest.proposalD { round := 15, height := 14, id := ChainedBFT.BlockId.contentHash 15 (some 1) 50 14, parent_id := ChainedBFT.BlockId.contentHash 14 (some 1) 50 13, qc_certified_block_id := ChainedBFT.BlockId.contentHash 14 (some 1) 50 13 }, ChainedBFT.MsgDigest.voteD { round := 15, block_id := ChainedBFT.BlockId.contentHash 15 (some 1) 50 14 }]⟩

/-- Checkpoint of the simulated cluster (see the scenario schedule definitions). -/
def c3w8 : World :=
⟨{ num_nodes := 2, quorum_size := 2, proposer_type := ChainedBFT.ConsensusProposerType.RotatingProposer, contiguous_rounds := 2, max_block_size := 50 }, [{ author := 0, blocks := [{ id := ChainedBFT.BlockId.contentHash 14 (some 1) 50 13, round := 14, height := 13, parent_id := ChainedBFT.BlockId.contentHash 13 (some 0) 50 12, author := some 1, payload := 50, quorum_cert := { certified_block_id := ChainedBFT.BlockId.contentHash 13 (some 0) 50 12, certified_block_round := 13, certified_block_height := 12, certified_parent_round := 12, ledger_info := { consensus_block_id := none, commit_round := 0 }, signatures := [{ signer := 0, signed_ledger_info := { consensus_block_id := none, commit_round := 0 } }, { signer := 1, signed_ledger_info := { consensus_block_id := none, commit_round := 0 } }] } }, { id := ChainedBFT.BlockId.contentHash 15 (some 1) 50 14, round := 15, height := 14, parent_id := ChainedBFT.BlockId.contentHash 14 (some 1) 50 13, author := some 1, payload := 50, quorum_cert := { certified_block_id := ChainedBFT.BlockId.contentHash 14 (some 1) 50 13, certified_block_round := 14, certified_block_height := 13, certified_parent_round := 13, ledger_info := { consensus_block_id := some (ChainedBFT.BlockId.contentHash 12 (some 0) 50 10), commit_round := 12 }, signatures := [{ signer := 0, signed_ledger_info := { consensus_block_id := some (ChainedBFT.BlockId.contentHash 12 (some 0) 50 10), commit_round := 12 } }, { signer := 1, signed_ledger_info := { consensus_block_id := some (ChainedBFT.BlockId.contentHash 12 (some 0) 50 10), commit_round := 12 } }] } }, { id := ChainedBFT.BlockId.contentHash 16 (some 0) 50 15, round := 16, height := 15, parent_id := ChainedBFT.BlockId.contentHash 15 (some 1) 50 14, author := some 0, payload := 50, quorum_cert := { certified_block_id := ChainedBFT.BlockId.contentHash 15 (some 1) 50 14, certified_block_round := 15, certified_block_height := 14, certified_parent_round := 14, ledger_info := { consensus_block_id := some (ChainedBFT.BlockId.contentHash 13 (some 0) 50 12), commit_round := 13 }, signatures := [{ signer := 0, signed_ledger_info := { consensus_block_id := some (ChainedBFT.BlockId.contentHash 13 (some 0) 50 12), commit_round := 13 } }, { signer := 1, signed_ledger_info := { consensus_block_id := some (ChainedBFT.BlockId.contentHash 13 (some 0) 50 12), commit_round := 13 } }] } }, { id := ChainedBFT.BlockId.contentHash 17 (some 0) 50 16, round := 17, height := 16, parent_id := ChainedBFT.BlockId.contentHash 16 (some 0) 50 15, author := some 0, payload := 50, quorum_cert := { certified_block_id := ChainedBFT.BlockId.contentHash 16 (some 0) 50 15, certified_block_round := 16, certified_block_height := 15, certified_parent_round := 15, ledger_info := { consensus_block_id := some (ChainedBFT.BlockId.contentHash 14 (some 1) 50 13), commit_round := 14 }, signatures := [{ signer := 0, signed_ledger_info := { consensus_block_id := some (ChainedBFT.BlockId.contentHash 14 (some 1) 50 13), commit_round := 14 } }, { signer := 1, signed_ledger_info := { consensus_block_id := some (ChainedBFT.BlockId.contentHash 14 (some 1) 50 13), commit_round := 14 } }] } }], root_id := ChainedBFT.BlockId.contentHash 14 (some 1) 50 13, highest_quorum_cert := { certified_block_id := ChainedBFT.BlockId.contentHash 16 (some 0) 50 15, certified_block_round := 16, certified_block_height := 15, certified_parent_round := 15, ledger_info := { consensus_block_id := some (ChainedBFT.BlockId.contentHash 14 (some 1) 50 13), commit_round := 14 }, signatures := [{ signer := 0, signed_ledger_info := { consensus_block_id := some (ChainedBFT.BlockId.contentHash 14 (some 1) 50 13), commit_round := 14 } }, { signer := 1, signed_ledger_info := { consensus_block_id := some (ChainedBFT.BlockId.contentHash 14 (some 1) 50 13), commit_round := 14 } }] }, highest_commit_cert := { certified_block_id := ChainedBFT.BlockId.contentHash 16 (some 0) 50 15, certified_block_round := 16, certified_block_height := 15, certified_parent_round := 15, ledger_info := { consensus_block_id := some (ChainedBFT.BlockId.contentHash 14 (some 1) 50 13), commit_round := 14 }, signatures := [{ signer := 0, signed_ledger_info := { consensus_block_id := some (ChainedBFT.BlockId.contentHash 14 (some 1) 50 13), commit_round := 14 } }, { signer := 1, signed_ledger_info := { consensus_block_id := some (ChainedBFT.BlockId.contentHash 14 (some 1) 50 13), commit_round := 14 } }] }, current_round := 17, last_voted_round := 17, preferred_round := 15, last_vote := some { author := 0, block_id := ChainedBFT.BlockId.contentHash 17 (some 0) 50 16, round := 17, height := 16, parent_block_id := ChainedBFT.BlockId.contentHash 16 (some 0) 50 15, parent_round := 16, ledger_info := { consensus_block_id := some (ChainedBFT.BlockId.contentHash 15 (some 1) 50 14), commit_round := 15 } }, pending_votes := [{ author := 0, block_id := ChainedBFT.BlockId.contentHash 12 (some 0) 50 10, round := 12, height := 11, parent_block_id := ChainedBFT.BlockId.contentHash 10 (some 1) 50 9, parent_round := 10, ledger_info := { consensus_block_id := none, commit_round := 0 } }, { author := 1, block_id := ChainedBFT.BlockId.contentHash 12 (some 0) 50 10, round := 12, height := 11, parent_block_id := ChainedBFT.BlockId.contentHash 10 (some 1) 50 9, parent_round := 10, ledger_info := { consensus_block_id := none, commit_round := 0 } }, { author := 0, block_id := ChainedBFT.BlockId.contentHash 15 (some 1) 50 14, round := 15, height := 14, parent_block_id := ChainedBFT.BlockId.contentHash 14 (some 1) 50 13, parent_round := 14, ledger_info := { consensus_block_id := some (ChainedBFT.BlockId.contentHash 13 (some 0) 50 12), commit_round := 13 } }, { author := 1, block_id := ChainedBFT.BlockId.contentHash 15 (some 1) 50 14, round := 15, height := 14, parent_block_id := ChainedBFT.BlockId.contentHash 14 (some 1) 50 13, parent_round := 14, ledger_info := { consensus_block_id := some (ChainedBFT.BlockId.contentHash 13 (some 0) 50 12), commit_round := 13 } }, { author := 0, block_id := ChainedBFT.BlockId.contentHash 16 (some 0) 50 15, round := 16, height := 15, parent_block_id := ChainedBFT.BlockId.contentHash 15 (some 1) 50 14, parent_round := 15, ledger_info := { consensus_block_id := some (ChainedBFT.BlockId.contentHash 14 (some 1) 50 13), commit_round := 14 } }, { author := 1, block_id := ChainedBFT.BlockId.contentHash 16 (some 0) 50 15, round := 16, height := 15, parent_block_id := ChainedBFT.BlockId.contentHash 15 (some 1) 50 14, parent_round := 15, ledger_info := { consensus_block_id := some (ChainedBFT.BlockId.contentHash 14 (some 1) 50 13), commit_round := 14 } }], pending_timeouts := [], highest_tc_round := 0, pending_secondary := none, pending_fetch := none, commits := [{ ledger_info := { consensus_block_id := some (ChainedBFT.BlockId.contentHash 12 (some 0) 50 10), commit_round := 12 }, signatures := [{ signer := 0, signed_ledger_info := { consensus_block_id := some (ChainedBFT.BlockId.contentHash 12 (some 0) 50 10), commit_round := 12 } }, { signer := 1, signed_ledger_info := { consensus_block_id := some (ChainedBFT.BlockId.contentHash 12 (some 0) 50 10), commit_round := 12 } }] }, { ledger_info := { consensus_block_id := some (ChainedBFT.BlockId.contentHash 13 (some 0) 50 12), commit_round := 13 }, signatures := [{ signer := 0, signed_ledger_info := { consensus_block_id := some (ChainedBFT.BlockId.contentHash 13 (some 0) 50 12), commit_round := 13 } }, { signer := 1, signed_ledger_info := { consensus_block_id := some (ChainedBFT.BlockId.contentHash 13 (some 0) 50 12), commit_round := 13 } }] }, { ledger_info := { consensus_block_id := some (ChainedBFT.BlockId.contentHash 14 (some 1) 50 13), commit_round := 14 }, signatures := [{ signer := 0, signed_ledger_info := { consensus_block_id := some (ChainedBFT.BlockId.contentHash 14 (some 1) 50 13), commit_round := 14 } }, { signer := 1, signed_ledger_info := { consensus_block_id := some (ChainedBFT.BlockId.contentHash 14 (some 1) 50 13), commit_round := 14 } }] }], committed_txns := 250 }, { author := 1, blocks := [{ id := ChainedBFT.BlockId.contentHash 15 (some 1) 50 14, round := 15, height := 14, parent_id := ChainedBFT.BlockId.contentHash 14 (some 1) 50 13, author := some 1, payload := 50, quorum_cert := { certified_block_id := ChainedBFT.BlockId.contentHash 14 (some 1) 50 13, certified_block_round := 14, certified_block_height := 13, certified_parent_round := 13, ledger_info := { consensus_block_id := some (ChainedBFT.BlockId.contentHash 12 (some 0) 50 10), commit_round := 12 }, signatures := [{ signer := 0, signed_ledger_info := { consensus_block_id := some (ChainedBFT.BlockId.contentHash 12 (some 0) 50 10), commit_round := 12 } }, { signer := 1, signed_ledger_info := { consensus_block_id := some (ChainedBFT.BlockId.contentHash 12 (some 0) 50 10), commit_round := 12 } }] } }, { id := ChainedBFT.BlockId.contentHash 16 (some 0) 50 15, round := 16, height := 15, parent_id := ChainedBFT.BlockId.contentHash 15 (some 1) 50 14, author := some 0, payload := 50, quorum_cert := { certified_block_id := ChainedBFT.BlockId.contentHash 15 (some 1) 50 14, certified_block_round := 15, certified_block_height := 14, certified_parent_round := 14, ledger_info := { consensus_block_id := some (ChainedBFT.BlockId.contentHash 13 (some 0) 50 12), commit_round := 13 }, signatures := [{ signer := 0, signed_ledger_info := { consensus_block_id := some (ChainedBFT.BlockId.contentHash 13 (some 0) 50 12), commit_round := 13 } }, { signer := 1, signed_ledger_info := { consensus_block_id := some (ChainedBFT.BlockId.contentHash 13 (some 0) 50 12), commit_round := 13 } }] } }, { id := ChainedBFT.BlockId.contentHash 17 (some 0) 50 16, round := 17, height := 16, parent_id := ChainedBFT.BlockId.contentHash 16 (some 0) 50 15, author := some 0, payload := 50, quorum_cert := { certified_block_id := ChainedBFT.BlockId.contentHash 16 (some 0) 50 15, certified_block_round := 16, certified_block_height := 15, certified_parent_round := 15, ledger_info := { consensus_block_id := some (ChainedBFT.BlockId.contentHash 14 (some 1) 50 13), commit_round := 14 }, signatures := [{ signer := 0, signed_ledger_info := { consensus_block_id := some (ChainedBFT.BlockId.contentHash 14 (some 1) 50 13), commit_round := 14 } }, { signer := 1, signed_ledger_info := { consensus_block_id := some (ChainedBFT.BlockId.contentHash 14 (some 1) 50 13), commit_round := 14 } }] } }], root_id := ChainedBFT.BlockId.contentHash 15 (some 1) 50 14, highest_quorum_cert := { certified_block_id := ChainedBFT.BlockId.contentHash 17 (some 0) 50 16, certified_block_round := 17, certified_block_height := 16, certified_parent_round := 16, ledger_info := { consensus_block_id := some (ChainedBFT.BlockId.contentHash 15 (some 1) 50 14), commit_round := 15 }, signatures := [{ signer := 0, signed_ledger_info := { consensus_block_id := some (ChainedBFT.BlockId.contentHash 15 (some 1) 50 14), commit_round := 15 } }, { signer := 1, signed_ledger_info := { consensus_block_id := some (ChainedBFT.BlockId.contentHash 15 (some 1) 50 14), commit_round := 15 } }] }, highest_commit_cert := { certified_block_id := ChainedBFT.BlockId.contentHash 17 (some 0) 50 16, certified_block_round := 17, certified_block_height := 16, certified_parent_round := 16, ledger_info := { consensus_block_id := some (ChainedBFT.BlockId.contentHash 15 (some 1) 50 14), commit_round := 15 }, signatures := [{ signer := 0, signed_ledger_info := { consensus_block_id := some (ChainedBFT.BlockId.contentHash 15 (some 1) 50 14), commit_round := 15 } }, { signer := 1, signed_ledger_info := { consensus_block_id := some (ChainedBFT.BlockId.contentHash 15 (some 1) 50 14), commit_round := 15 } }] }, current_round := 18, last_voted_round := 17, preferred_round := 15, last_vote := none, pending_votes := [{ author := 0, block_id := ChainedBFT.BlockId.contentHash 13 (some 0) 50 12, round := 13, height := 12, parent_block_id := ChainedBFT.BlockId.contentHash 12 (some 0) 50 10, parent_round := 12, ledger_info := { consensus_block_id := none, commit_round := 0 } }, { author := 1, block_id := ChainedBFT.BlockId.contentHash 13 (some 0) 50 12, round := 13, height := 12, parent_block_id := ChainedBFT.BlockId.contentHash 12 (some 0) 50 10, parent_round := 12, ledger_info := { consensus_block_id := none, commit_round := 0 } }, { author := 0, block_id := ChainedBFT.BlockId.contentHash 14 (some 1) 50 13, round := 14, height := 13, parent_block_id := ChainedBFT.BlockId.contentHash 13 (some 0) 50 12, parent_round := 13, ledger_info := { consensus_block_id := some (ChainedBFT.BlockId.contentHash 12 (some 0) 50 10), commit_round := 12 } }, { author := 1, block_id := ChainedBFT.BlockId.contentHash 14 (some 1) 50 13, round := 14, height := 13, parent_block_id := ChainedBFT.BlockId.contentHash 13 (some 0) 50 12, parent_round := 13, ledger_info := { consensus_block_id := some (ChainedBFT.BlockId.contentHash 12 (some 0) 50 10), commit_round := 12 } }, { author := 0, block_id := ChainedBFT.BlockId.contentHash 17 (some 0) 50 16, round := 17, height := 16, parent_block_id := ChainedBFT.BlockId.contentHash 16 (some 0) 50 15, parent_round := 16, ledger_info := { consensus_block_id := some (ChainedBFT.BlockId.contentHash 15 (some 1) 50 14), commit_round := 15 } }, { author := 1, block_id := ChainedBFT.BlockId.contentHash 17 (some 0) 50 16, round := 17, height := 16, parent_block_id := ChainedBFT.BlockId.contentHash 16 (some 0) 50 15, parent_round := 16, ledger_info := { consensus_block_id := some (ChainedBFT.BlockId.contentHash 15 (some 1) 50 14), commit_round := 15 } }], pending_timeouts := [], highest_tc_round := 0, pending_secondary := none, pending_fetch := none, commits := [{ ledger_info := { consensus_block_id := some (ChainedBFT.BlockId.contentHash 12 (some 0) 50 10), commit_round := 12 }, signatures := [{ signer := 0, signed_ledger_info := { consensus_block_id := some (ChainedBFT.BlockId.contentHash 12 (some 0) 50 10), commit_round := 12 } }, { signer := 1, signed_ledger_info := { consensus_block_id := some (ChainedBFT.BlockId.contentHash 12 (some 0) 50 10), commit_round := 12 } }] }, { ledger_info := { consensus_block_id := some (ChainedBFT.BlockId.contentHash 13 (some 0) 50 12), commit_round := 13 }, signatures := [{ signer := 0, signed_ledger_info := { consensus_block_id := some (ChainedBFT.BlockId.contentHash 13 (some 0) 50 12), commit_round := 13 } }, { signer := 1, signed_ledger_info := { consensus_block_id := some (ChainedBFT.BlockId.contentHash 13 (some 0) 50 12), commit_round := 13 } }] }, { ledger_info := { consensus_block_id := some (ChainedBFT.BlockId.contentHash 14 (some 1) 50 13), commit_round := 14 }, signatures := [{ signer := 0, signed_ledger_info := { consensus_block_id := some (ChainedBFT.BlockId.contentHash 14 (some 1) 50 13), commit_round := 14 } }, { signer := 1, signed_ledger_info := { consensus_block_id := some (ChainedBFT.BlockId.contentHash 14 (some 1) 50 13), commit_round := 14 } }] }, { ledger_info := { consensus_block_id := some (ChainedBFT.BlockId.contentHash 15 (some 1) 50 14), commit_round := 15 }, signatures := [{ signer := 0, signed_ledger_info := { consensus_block_id := some (ChainedBFT.BlockId.contentHash 15 (some 1) 50 14), commit_round := 15 } }, { signer := 1, signed_ledger_info := { consensus_block_id := some (ChainedBFT.BlockId.contentHash 15 (some 1) 50 14), commit_round := 15 } }] }], committed_txns := 300 }], [(1, 0, ChainedBFT.Msg.proposal { id := ChainedBFT.BlockId.contentHash 18 (some 1) 50 17, round := 18, height := 17, parent_id := ChainedBFT.BlockId.contentHash 17 (some 0) 50 16, author := some 1, payload := 50, quorum_cert := { certified_block_id := ChainedBFT.BlockId.contentHash 17 (some 0) 50 16, certified_block_round := 17, certified_block_height := 16, certified_parent_round := 16, ledger_info := { consensus_block_id := some (ChainedBFT.BlockId.contentHash 15 (some 1) 50 14), commit_round := 15 }, signatures := [{ signer := 0, signed_ledger_info := { consensus_block_id := some (ChainedBFT.BlockId.contentHash 15 (some 1) 50 14), commit_round := 15 } }, { signer := 1, signed_ledger_info := { consensus_block_id := some (ChainedBFT.BlockId.contentHash 15 (some 1) 50 14), commit_round := 15 } }] } } { highest_quorum_cert := { certified_block_id := ChainedBFT.BlockId.contentHash 17 (some 0) 50 16, certified_block_round := 17, certified_block_height := 16, certified_parent_round := 16, ledger_info := { consensus_block_id := some (ChainedBFT.BlockId.contentHash 15 (some 1) 50 14), commit_round := 15 }, signatures := [{ signer := 0, signed_ledger_info := { consensus_block_id := some (ChainedBFT.BlockId.contentHash 15 (some 1) 50 14), commit_round := 15 } }, { signer := 1, signed_ledger_info := { consensus_block_id := some (ChainedBFT.BlockId.contentHash 15 (some 1) 50 14), commit_round := 15 } }] }, highest_commit_cert := { certified_block_id := ChainedBFT.BlockId.contentHash 17 (some 0) 50 16, certified_block_round := 17, certified_block_height := 16, certified_parent_round := 16, ledger_info := { consensus_block_id := some (ChainedBFT.BlockId.contentHash 15 (some 1) 50 14), commit_round := 15 }, signatures := [{ signer := 0, signed_ledger_info := { consensus_block_id := some (ChainedBFT.BlockId.contentHash 15 (some 1) 50 14), commit_round := 15 } }, { signer := 1, signed_ledger_info := { consensus_block_id := some (ChainedBFT.BlockId.contentHash 15 (some 1) 50 14), commit_round := 15 } }] } }), (1, 1, ChainedBFT.Msg.proposal { id := ChainedBFT.BlockId.contentHash 18 (some 1) 50 17, round := 18, height := 17, parent_id := ChainedBFT.BlockId.contentHash 17 (some 0) 50 16, author := some 1, payload := 50, quorum_cert := { certified_block_id := ChainedBFT.BlockId.contentHash 17 (some 0) 50 16, certified_block_round := 17, certified_block_height := 16, certified_parent_round := 16, ledger_info := { consensus_block_id := some (ChainedBFT.BlockId.contentHash 15 (some 1) 50 14), commit_round := 15 }, signatures := [{ signer := 0, signed_ledger_info := { consensus_block_id := some (ChainedBFT.BlockId.contentHash 15 (some 1) 50 14), commit_round := 15 } }, { signer := 1, signed_ledger_info := { consensus_block_id := some (ChainedBFT.BlockId.contentHash 15 (some 1) 50 14), commit_round := 15 } }] } } { highest_quorum_cert := { certified_block_id := ChainedBFT.BlockId.contentHash 17 (some 0) 50 16, certified_block_round := 17, certified_block_height := 16, certified_parent_round := 16, ledger_info := { consensus_block_id := some (ChainedBFT.BlockId.contentHash 15 (some 1) 50 14), commit_round := 15 }, signatures := [{ signer := 0, signed_ledger_info := { consensus_block_id := some (ChainedBFT.BlockId.contentHash 15 (some 1) 50 14), commit_round := 15 } }, { signer := 1, signed_ledger_info := { consensus_block_id := some (ChainedBFT.BlockId.contentHash 15 (some 1) 50 14), commit_round := 15 } }] }, highest_commit_cert := { certified_block_id := ChainedBFT.BlockId.contentHash 17 (some 0) 50 16, certified_block_round := 17, certified_block_height := 16, certified_parent_round := 16, ledger_info := { consensus_block_id := some (ChainedBFT.BlockId.contentHash 15 (some 1) 50 14), commit_round := 15 }, signatures := [{ signer := 0, signed_ledger_info := { consensus_block_id := some (ChainedBFT.BlockId.contentHash 15 (some 1) 50 14), commit_round := 15 } }, { signer := 1, signed_ledger_info := { consensus_block_id := some (ChainedBFT.BlockId.contentHash 15 (some 1) 50 14), commit_round := 15 } }] } })], [], [ChainedBFT.MsgDigest.proposalD { round := 1, height := 1, id := ChainedBFT.BlockId.contentHash 1 (some 0) 50 0, parent_id := ChainedBFT.BlockId.genesisId, qc_certified_block_id := ChainedBFT.BlockId.genesisId }, ChainedBFT.MsgDigest.voteD { round := 1, block_id := ChainedBFT.BlockId.contentHash 1 (some 0) 50 0 }, ChainedBFT.MsgDigest.proposalD { round := 2, height := 2, id := ChainedBFT.BlockId.contentHash 2 (some 1) 50 1, parent_id := ChainedBFT.BlockId.contentHash 1 (some 0) 50 0, qc_certified_block_id := ChainedBFT.BlockId.contentHash 1 (some 0) 50 0 }, ChainedBFT.MsgDigest.voteD { round := 2, block_id := ChainedBFT.BlockId.contentHash 2 (some 1) 50 1 }, ChainedBFT.MsgDigest.proposalD { round := 3, height := 3, id := ChainedBFT.BlockId.contentHash 3 (some 1) 50 2, parent_id := ChainedBFT.BlockId.contentHash 2 (some 1) 50 1, qc_certified_block_id := ChainedBFT.BlockId.contentHash 2 (some 1) 50 1 }, ChainedBFT.MsgDigest.voteD { round := 3, block_id := ChainedBFT.BlockId.contentHash 3 (some 1) 50 2 }, ChainedBFT.MsgDigest.proposalD { round := 4, height := 4, id := ChainedBFT.BlockId.contentHash 4 (some 0) 50 3, parent_id := ChainedBFT.BlockId.contentHash 3 (some 1) 50 2, qc_certified_block_id := ChainedBFT.BlockId.contentHash 3 (some 1) 50 2 }, ChainedBFT.MsgDigest.voteD { round := 4, block_id := ChainedBFT.BlockId.contentHash 4 (some 0) 50 3 }, ChainedBFT.MsgDigest.proposalD { round := 5, height := 5, id := ChainedBFT.BlockId.contentHash 5 (some 0) 50 4, parent_id := ChainedBFT.BlockId.contentHash 4 (some 0) 50 3, qc_certified_block_id := ChainedBFT.BlockId.contentHash 4 (some 0) 50 3 }, ChainedBFT.MsgDigest.voteD { round := 5, block_id := ChainedBFT.BlockId.contentHash 5 (some 0) 50 4 }, ChainedBFT.MsgDigest.proposalD { round := 6, height := 6, id := ChainedBFT.BlockId.contentHash 6 (some 1) 50 5, parent_id := ChainedBFT.BlockId.contentHash 5 (some 0) 50 4, qc_certified_block_id := ChainedBFT.BlockId.contentHash 5 (some 0) 50 4 }, ChainedBFT.MsgDigest.voteD { round := 6, block_id := ChainedBFT.BlockId.contentHash 6 (some 1) 50 5 }, ChainedBFT.MsgDigest.proposalD { round := 7, height := 7, id := ChainedBFT.BlockId.contentHash 7 (some 1) 50 6, parent_id := ChainedBFT.BlockId.contentHash 6 (some 1) 50 5, qc_certified_block_id := ChainedBFT.BlockId.contentHash 6 (some 1) 50 5 }, ChainedBFT.MsgDigest.voteD { round := 7, block_id := ChainedBFT.BlockId.contentHash 7 (some 1) 50 6 }, ChainedBFT.MsgDigest.proposalD { round := 8, height := 8, id := ChainedBFT.BlockId.contentHash 8 (some 0) 50 7, parent_id := ChainedBFT.BlockId.contentHash 7 (some 1) 50 6, qc_certified_block_id := ChainedBFT.BlockId.contentHash 7 (some 1) 50 6 }, ChainedBFT.MsgDigest.voteD { round := 8, block_id := ChainedBFT.BlockId.contentHash 8 (some 0) 50 7 }, ChainedBFT.MsgDigest.proposalD { round := 9, height := 9, id := ChainedBFT.BlockId.contentHash 9 (some 0) 50 8, parent_id := ChainedBFT.BlockId.contentHash 8 (some 0) 50 7, qc_certified_block_id := ChainedBFT.BlockId.contentHash 8 (some 0) 50 7 }, ChainedBFT.MsgDigest.voteD { round := 9, block_id := ChainedBFT.BlockId.contentHash 9 (some 0) 50 8 }, ChainedBFT.MsgDigest.proposalD { round := 10, height := 10, id := ChainedBFT.BlockId.contentHash 10 (some 1) 50 9, parent_id := ChainedBFT.BlockId.contentHash 9 (some 0) 50 8, qc_certified_block_id := ChainedBFT.BlockId.contentHash 9 (some 0) 50 8 }, ChainedBFT.MsgDigest.voteD { round := 10, block_id := ChainedBFT.BlockId.contentHash 10 (some 1) 50 9 }, ChainedBFT.MsgDigest.proposalD { round := 11, height := 11, id := ChainedBFT.BlockId.contentHash 11 (some 1) 50 10, parent_id := ChainedBFT.BlockId.contentHash 10 (some 1) 50 9, qc_certified_block_id := ChainedBFT.BlockId.contentHash 10 (some 1) 50 9 }, ChainedBFT.MsgDigest.proposalD { round := 12, height := 11, id := ChainedBFT.BlockId.contentHash 12 (some 0) 50 10, parent_id := ChainedBFT.BlockId.contentHash 10 (some 1) 50 9, qc_certified_block_id := ChainedBFT.BlockId.contentHash 10 (some 1) 50 9 }, ChainedBFT.MsgDigest.voteD { round := 12, block_id := ChainedBFT.BlockId.contentHash 12 (some 0) 50 10 }, ChainedBFT.MsgDigest.proposalD { round := 13, height := 12, id := ChainedBFT.BlockId.contentHash 13 (some 0) 50 12, parent_id := ChainedBFT.BlockId.contentHash 12 (some 0) 50 10, qc_certified_block_id := ChainedBFT.BlockId.contentHash 12 (some 0) 50 10 }, ChainedBFT.MsgDigest.voteD { round := 13, block_id := ChainedBFT.BlockId.contentHash 13 (some 0) 50 12 }, ChainedBFT.MsgDigest.proposalD { round := 14, height := 13, id := ChainedBFT.BlockId.contentHash 14 (some 1) 50 13, parent_id := ChainedBFT.BlockId.contentHash 13 (some 0) 50 12, qc_certified_block_id := ChainedBFT.BlockId.contentHash 13 (some 0) 50 12 }, ChainedBFT.MsgDigest.voteD { round := 14, block_id := ChainedBFT.BlockId.contentHash 14 (some 1) 50 13 }, ChainedBFT.MsgDigest.proposalD { round := 15, height := 14, id := ChainedBFT.BlockId.contentHash 15 (some 1) 50 14, parent_id := ChainedBFT.BlockId.contentHash 14 (some 1) 50 13, qc_certified_block_id := ChainedBFT.BlockId.contentHash 14 (some 1) 50 13 }, ChainedBFT.MsgDigest.voteD { round := 15, block_id := ChainedBFT.BlockId.contentHash 15 (some 1) 50 14 }, ChainedBFT.MsgDigest.proposalD { round := 16, height := 15, id := ChainedBFT.BlockId.contentHash 16 (some 0) 50 15, parent_id := ChainedBFT.BlockId.contentHash 15 (some 1) 50 14, qc_certified_block_id := ChainedBFT.BlockId.contentHash 15 (some 1) 50 14 }, ChainedBFT.MsgDigest.voteD { round := 16, block_id := ChainedBFT.BlockId.contentHash 16 (some 0) 50 15 }, ChainedBFT.MsgDigest.proposalD { round := 17, height := 16, id := ChainedBFT.BlockId.contentHash 17 (some 0) 50 16, parent_id := ChainedBFT.BlockId.contentHash 16 (some 0) 50 15, qc_certified_block_id := ChainedBFT.BlockId.contentHash 16 (some 0) 50 15 }, ChainedBFT.MsgDigest.voteD { round := 17, block_id := ChainedBFT.BlockId.contentHash 17 (some 0) 50 16 }]⟩

/-- Checkpoint of the simulated cluster (see the scenario schedule definitions). -/
def c3w9 : World :=
⟨{ num_nodes := 2, quorum_size := 2, proposer_type := ChainedBFT.ConsensusProposerType.RotatingProposer, contiguous_rounds := 2, max_block_size := 50 }, [{ author := 0, blocks := [{ id := ChainedBFT.BlockId.contentHash 17 (some 0) 50 16, round := 17, height := 16, parent_id := ChainedBFT.BlockId.contentHash 16 (some 0) 50 15, author := some 0, payload := 50, quorum_cert := { certified_block_id := ChainedBFT.BlockId.contentHash 16 (some 0) 50 15, certified_block_round := 16, certified_block_height := 15, certified_parent_round := 15, ledger_info := { consensus_block_id := some (ChainedBFT.BlockId.contentHash 14 (some 1) 50 13), commit_round := 14 }, signatures := [{ signer := 0, signed_ledger_info := { consensus_block_id := some (ChainedBFT.BlockId.contentHash 14 (some 1) 50 13), commit_round := 14 } }, { signer := 1, signed_ledger_info := { consensus_block_id := some (ChainedBFT.BlockId.contentHash 14 (some 1) 50 13), commit_round := 14 } }] } }, { id := ChainedBFT.BlockId.contentHash 18 (some 1) 50 17, round := 18, height := 17, parent_id := ChainedBFT.BlockId.contentHash 17 (some 0) 50 16, author := some 1, payload := 50, quorum_cert := { certified_block_id := ChainedBFT.BlockId.contentHash 17 (some 0) 50 16, certified_block_round := 17, certified_block_height := 16, certified_parent_round := 16, ledger_info := { consensus_block_id := some (ChainedBFT.BlockId.contentHash 15 (some 1) 50 14), commit_round := 15 }, signatures := [{ signer := 0, signed_ledger_info := { consensus_block_id := some (ChainedBFT.BlockId.contentHash 15 (some 1) 50 14), commit_round := 15 } }, { signer := 1, signed_ledger_info := { consensus_block_id := some (ChainedBFT.BlockId.contentHash 15 (some 1) 50 14), commit_round := 15 } }] } }, { id := ChainedBFT.BlockId.contentHash 19 (some 1) 50 18, round := 19, height := 18, parent_id := ChainedBFT.BlockId.contentHash 18 (some 1) 50 17, author := some 1, payload := 50, quorum_cert := { certified_block_id := ChainedBFT.BlockId.contentHash 18 (some 1) 50 17, certified_block_round := 18, certified_block_height := 17, certified_parent_round := 17, ledger_info := { consensus_block_id := some (ChainedBFT.BlockId.contentHash 16 (some 0) 50 15), commit_round := 16 }, signatures := [{ signer := 0, signed_ledger_info := { consensus_block_id := some (ChainedBFT.BlockId.contentHash 16 (some 0) 50 15), commit_round := 16 } }, { signer := 1, signed_ledger_info := { consensus_block_id := some (ChainedBFT.BlockId.contentHash 16 (some 0) 50 15), commit_round := 16 } }] } }], root_id := ChainedBFT.BlockId.contentHash 17 (some 0) 50 16, highest_quorum_cert := { certified_block_id := ChainedBFT.BlockId.contentHash 19 (some 1) 50 18, certified_block_round := 19, certified_block_height := 18, certified_parent_round := 18, ledger_info := { consensus_block_id := some (ChainedBFT.BlockId.contentHash 17 (some 0) 50 16), commit_round := 17 }, signatures := [{ signer := 0, signed_ledger_info := { consensus_block_id := some (ChainedBFT.BlockId.contentHash 17 (some 0) 50 16), commit_round := 17 } }, { signer := 1, signed_ledger_info := { consensus_block_id := some (ChainedBFT.BlockId.contentHash 17 (some 0) 50 16), commit_round := 17 } }] }, highest_commit_cert := { certified_block_id := ChainedBFT.BlockId.contentHash 19 (some 1) 50 18, certified_block_round := 19, certified_block_height := 18, certified_parent_round := 18, ledger_info := { consensus_block_id := some (ChainedBFT.BlockId.contentHash 17 (some 0) 50 16), commit_round := 17 }, signatures := [{ signer := 0, signed_ledger_info := { consensus_block_id := some (ChainedBFT.BlockId.contentHash 17 (some 0) 50 16), commit_round := 17 } }, { signer := 1, signed_ledger_info := { consensus_block_id := some (ChainedBFT.BlockId.contentHash 17 (some 0) 50 16), commit_round := 17 } }] }, current_round := 20, last_voted_round := 19, preferred_round := 17, last_vote := none, pending_votes := [{ author := 0, block_id := ChainedBFT.BlockId.contentHash 12 (some 0) 50 10, round := 12, height := 11, parent_block_id := ChainedBFT.BlockId.contentHash 10 (some 1) 50 9, parent_round := 10, ledger_info := { consensus_block_id := none, commit_round := 0 } }, { author := 1, block_id := ChainedBFT.BlockId.contentHash 12 (some 0) 50 10, round := 12, height := 11, parent_block_id := ChainedBFT.BlockId.contentHash 10 (some 1) 50 9, parent_round := 10, ledger_info := { consensus_block_id := none, commit_round := 0 } }, { author := 0, block_id := ChainedBFT.BlockId.contentHash 15 (some 1) 50 14, round := 15, height := 14, parent_block_id := ChainedBFT.BlockId.contentHash 14 (some 1) 50 13, parent_round := 14, ledger_info := { consensus_block_id := some (ChainedBFT.BlockId.contentHash 13 (some 0) 50 12), commit_round := 13 } }, { author := 1, block_id := ChainedBFT.BlockId.contentHash 15 (some 1) 50 14, round := 15, height := 14, parent_block_id := ChainedBFT.BlockId.contentHash 14 (some 1) 50 13, parent_round := 14, ledger_info := { consensus_block_id := some (ChainedBFT.BlockId.contentHash 13 (some 0) 50 12), commit_round := 13 } }, { author := 0, block_id := ChainedBFT.BlockId.contentHash 16 (some 0) 50 15, round := 16, height := 15, parent_block_id := ChainedBFT.BlockId.contentHash 15 (some 1) 50 14, parent_round := 15, ledger_info := { consensus_block_id := some (ChainedBFT.BlockId.contentHash 14 (some 1) 50 13), commit_round := 14 } }, { author := 1, block_id := ChainedBFT.BlockId.contentHash 16 (some 0) 50 15, round := 16, height := 15, parent_block_id := ChainedBFT.BlockId.contentHash 15 (some 1) 50 14, parent_round := 15, ledger_info := { consensus_block_id := some (ChainedBFT.BlockId.contentHash 14 (some 1) 50 13), commit_round := 14 } }, { author := 0, block_id := ChainedBFT.BlockId.contentHash 19 (some 1) 50 18, round := 19, height := 18, parent_block_id := ChainedBFT.BlockId.contentHash 18 (some 1) 50 17, parent_round := 18, ledger_info := { consensus_block_id := some (ChainedBFT.BlockId.contentHash 17 (some 0) 50 16), commit_round := 17 } }, { author := 1, block_id := ChainedBFT.BlockId.contentHash 19 (some 1) 50 18, round := 19, height := 18, parent_block_id := ChainedBFT.BlockId.contentHash 18 (some 1) 50 17, parent_round := 18, ledger_info := { consensus_block_id := some (ChainedBFT.BlockId.contentHash 17 (some 0) 50 16), commit_round := 17 } }], pending_timeouts := [], highest_tc_round := 0, pending_secondary := none, pending_fetch := none, commits := [{ ledger_info := { consensus_block_id := some (ChainedBFT.BlockId.contentHash 12 (some 0) 50 10), commit_round := 12 }, signatures := [{ signer := 0, signed_ledger_info := { consensus_block_id := some (ChainedBFT.BlockId.contentHash 12 (some 0) 50 10), commit_round := 12 } }, { signer := 1, signed_ledger_info := { consensus_block_id := some (ChainedBFT.BlockId.contentHash 12 (some 0) 50 10), commit_round := 12 } }] }, { ledger_info := { consensus_block_id := some (ChainedBFT.BlockId.contentHash 13 (some 0) 50 12), commit_round := 13 }, signatures := [{ signer := 0, signed_ledger_info := { consensus_block_id := some (ChainedBFT.BlockId.contentHash 13 (some 0) 50 12), commit_round := 13 } }, { signer := 1, signed_ledger_info := { consensus_block_id := some (ChainedBFT.BlockId.contentHash 13 (some 0) 50 12), commit_round := 13 } }] }, { ledger_info := { consensus_block_id := some (ChainedBFT.BlockId.contentHash 14 (some 1) 50 13), commit_round := 14 }, signatures := [{ signer := 0, signed_ledger_info := { consensus_block_id := some (ChainedBFT.BlockId.contentHash 14 (some 1) 50 13), commit_round := 14 } }, { signer := 1, signed_ledger_info := { consensus_block_id := some (ChainedBFT.BlockId.contentHash 14 (some 1) 50 13), commit_round := 14 } }] }, { ledger_info := { consensus_block_id := some (ChainedBFT.BlockId.contentHash 15 (some 1) 50 14), commit_round := 15 }, signatures := [{ signer := 0, signed_ledger_info := { consensus_block_id := some (ChainedBFT.BlockId.contentHash 15 (some 1) 50 14), commit_round := 15 } }, { signer := 1, signed_ledger_info := { consensus_block_id := some (ChainedBFT.BlockId.contentHash 15 (some 1) 50 14), commit_round := 15 } }] }, { ledger_info := { consensus_block_id := some (ChainedBFT.BlockId.contentHash 16 (some 0) 50 15), commit_round := 16 }, signatures := [{ signer := 0, signed_ledger_info := { consensus_block_id := some (ChainedBFT.BlockId.contentHash 16 (some 0) 50 15), commit_round := 16 } }, { signer := 1, signed_ledger_info := { consensus_block_id := some (ChainedBFT.BlockId.contentHash 16 (some 0) 50 15), commit_round := 16 } }] }, { ledger_info := { consensus_block_id := some (ChainedBFT.BlockId.contentHash 17 (some 0) 50 16), commit_round := 17 }, signatures := [{ signer := 0, signed_ledger_info := { consensus_block_id := some (ChainedBFT.BlockId.contentHash 17 (some 0) 50 16), commit_round := 17 } }, { signer := 1, signed_ledger_info := { consensus_block_id := some (ChainedBFT.BlockId.contentHash 17 (some 0) 50 16), commit_round := 17 } }] }], committed_txns := 400 }, { author := 1, blocks := [{ id := ChainedBFT.BlockId.contentHash 16 (some 0) 50 15, round := 16, height := 15, parent_id := ChainedBFT.BlockId.contentHash 15 (some 1) 50 14, author := some 0, payload := 50, quorum_cert := { certified_block_id := ChainedBFT.BlockId.contentHash 15 (some 1) 50 14, certified_block_round := 15, certified_block_height := 14, certified_parent_round := 14, ledger_info := { consensus_block_id := some (ChainedBFT.BlockId.contentHash 13 (some 0) 50 12), commit_round := 13 }, signatures := [{ signer := 0, signed_ledger_info := { consensus_block_id := some (ChainedBFT.BlockId.contentHash 13 (some 0) 50 12), commit_round := 13 } }, { signer := 1, signed_ledger_info := { consensus_block_id := some (ChainedBFT.BlockId.contentHash 13 (some 0) 50 12), commit_round := 13 } }] } }, { id := ChainedBFT.BlockId.contentHash 17 (some 0) 50 16, round := 17, height := 16, parent_id := ChainedBFT.BlockId.contentHash 16 (some 0) 50 15, author := some 0, payload := 50, quorum_cert := { certified_block_id := ChainedBFT.BlockId.contentHash 16 (some 0) 50 15, certified_block_round := 16, certified_block_height := 15, certified_parent_round := 15, ledger_info := { consensus_block_id := some (ChainedBFT.BlockId.contentHash 14 (some 1) 50 13), commit_round := 14 }, signatures := [{ signer := 0, signed_ledger_info := { consensus_block_id := some (ChainedBFT.BlockId.contentHash 14 (some 1) 50 13), commit_round := 14 } }, { signer := 1, signed_ledger_info := { consensus_block_id := some (ChainedBFT.BlockId.contentHash 14 (some 1) 50 13), commit_round := 14 } }] } }, { id := ChainedBFT.BlockId.contentHash 18 (some 1) 50 17, round := 18, height := 17, parent_id := ChainedBFT.BlockId.contentHash 17 (some 0) 50 16, author := some 1, payload := 50, quorum_cert := { certified_block_id := ChainedBFT.BlockId.contentHash 17 (some 0) 50 16, certified_block_round := 17, certified_block_height := 16, certified_parent_round := 16, ledger_info := { consensus_block_id := some (ChainedBFT.BlockId.contentHash 15 (some 1) 50 14), commit_round := 15 }, signatures := [{ signer := 0, signed_ledger_info := { consensus_block_id := some (ChainedBFT.BlockId.contentHash 15 (some 1) 50 14), commit_round := 15 } }, { signer := 1, signed_ledger_info := { consensus_block_id := some (ChainedBFT.BlockId.contentHash 15 (some 1) 50 14), commit_round := 15 } }] } }, { id := ChainedBFT.BlockId.contentHash 19 (some 1) 50 18, round := 19, height := 18, parent_id := ChainedBFT.BlockId.contentHash 18 (some 1) 50 17, author := some 1, payload := 50, quorum_cert := { certified_block_id := ChainedBFT.BlockId.contentHash 18 (some 1) 50 17, certified_block_round := 18, certified_block_height := 17, certified_parent_round := 17, ledger_info := { consensus_block_id := some (ChainedBFT.BlockId.contentHash 16 (some 0) 50 15), commit_round := 16 }, signatures := [{ signer := 0, signed_ledger_info := { consensus_block_id := some (ChainedBFT.BlockId.contentHash 16 (some 0) 50 15), commit_round := 16 } }, { signer := 1, signed_ledger_info := { consensus_block_id := some (ChainedBFT.BlockId.contentHash 16 (some 0) 50 15), commit_round := 16 } }] } }], root_id := ChainedBFT.BlockId.contentHash 16 (some 0) 50 15, highest_quorum_cert := { certified_block_id := ChainedBFT.BlockId.contentHash 18 (some 1) 50 17, certified_block_round := 18, certified_block_height := 17, certified_parent_round := 17, ledger_info := { consensus_block_id := some (ChainedBFT.BlockId.contentHash 16 (some 0) 50 15), commit_round := 16 }, signatures := [{ signer := 0, signed_ledger_info := { consensus_block_id := some (ChainedBFT.BlockId.contentHash 16 (some 0) 50 15), commit_round := 16 } }, { signer := 1, signed_ledger_info := { consensus_block_id := some (ChainedBFT.BlockId.contentHash 16 (some 0) 50 15), commit_round := 16 } }] }, highest_commit_cert := { certified_block_id := ChainedBFT.BlockId.contentHash 18 (some 1) 50 17, certified_block_round := 18, certified_block_height := 17, certified_parent_round := 17, ledger_info := { consensus_block_id := some (ChainedBFT.BlockId.contentHash 16 (some 0) 50 15), commit_round := 16 }, signatures := [{ signer := 0, signed_ledger_info := { consensus_block_id := some (ChainedBFT.BlockId.contentHash 16 (some 0) 50 15), commit_round := 16 } }, { signer := 1, signed_ledger_info := { consensus_block_id := some (ChainedBFT.BlockId.contentHash 16 (some 0) 50 15), commit_round := 16 } }] }, current_round := 19, last_voted_round := 19, preferred_round := 17, last_vote := some { author := 1, block_id := ChainedBFT.BlockId.contentHash 19 (some 1) 50 18, round := 19, height := 18, parent_block_id := ChainedBFT.BlockId.contentHash 18 (some 1) 50 17, parent_round := 18, ledger_info := { consensus_block_id := some (ChainedBFT.BlockId.contentHash 17 (some 0) 50 16), commit_round := 17 } }, pending_votes := [{ author := 0, block_id := ChainedBFT.BlockId.contentHash 13 (some 0) 50 12, round := 13, height := 12, parent_block_id := ChainedBFT.BlockId.contentHash 12 (some 0) 50 10, parent_round := 12, ledger_info := { consensus_block_id := none, commit_round := 0 } }, { author := 1, block_id := ChainedBFT.BlockId.contentHash 13 (some 0) 50 12, round := 13, height := 12, parent_block_id := ChainedBFT.BlockId.contentHash 12 (some 0) 50 10, parent_round := 12, ledger_info := { consensus_block_id := none, commit_round := 0 } }, { author := 0, block_id := ChainedBFT.BlockId.contentHash 14 (some 1) 50 13, round := 14, height := 13, parent_block_id := ChainedBFT.BlockId.contentHash 13 (some 0) 50 12, parent_round := 13, ledger_info := { consensus_block_id := some (ChainedBFT.BlockId.contentHash 12 (some 0) 50 10), commit_round := 12 } }, { author := 1, block_id := ChainedBFT.BlockId.contentHash 14 (some 1) 50 13, round := 14, height := 13, parent_block_id := ChainedBFT.BlockId.contentHash 13 (some 0) 50 12, parent_round := 13, ledger_info := { consensus_block_id := some (ChainedBFT.BlockId.contentHash 12 (some 0) 50 10), commit_round := 12 } }, { author := 0, block_id := ChainedBFT.BlockId.contentHash 17 (some 0) 50 16, round := 17, height := 16, parent_block_id := ChainedBFT.BlockId.contentHash 16 (some 0) 50 15, parent_round := 16, ledger_info := { consensus_block_id := some (ChainedBFT.BlockId.contentHash 15 (some 1) 50 14), commit_round := 15 } }, { author := 1, block_id := ChainedBFT.BlockId.contentHash 17 (some 0) 50 16, round := 17, height := 16, parent_block_id := ChainedBFT.BlockId.contentHash 16 (some 0) 50 15, parent_round := 16, ledger_info := { consensus_block_id := some (ChainedBFT.BlockId.contentHash 15 (some 1) 50 14), commit_round := 15 } }, { author := 0, block_id := ChainedBFT.BlockId.contentHash 18 (some 1) 50 17, round := 18, height := 17, parent_block_id := ChainedBFT.BlockId.contentHash 17 (some 0) 50 16, parent_round := 17, ledger_info := { consensus_block_id := some (ChainedBFT.BlockId.contentHash 16 (some 0) 50 15), commit_round := 16 } }, { author := 1, block_id := ChainedBFT.BlockId.contentHash 18 (some 1) 50 17, round := 18, height := 17, parent_block_id := ChainedBFT.BlockId.contentHash 17 (some 0) 50 16, parent_round := 17, ledger_info := { consensus_block_id := some (ChainedBFT.BlockId.contentHash 16 (some 0) 50 15), commit_round := 16 } }], pending_timeouts := [], highest_tc_round := 0, pending_secondary := none, pending_fetch := none, commits := [{ ledger_info := { consensus_block_id := some (ChainedBFT.BlockId.contentHash 12 (some 0) 50 10), commit_round := 12 }, signatures := [{ signer := 0, signed_ledger_info := { consensus_block_id := some (ChainedBFT.BlockId.contentHash 12 (some 0) 50 10), commit_round := 12 } }, { signer := 1, signed_ledger_info := { consensus_block_id := some (ChainedBFT.BlockId.contentHash 12 (some 0) 50 10), commit_round := 12 } }] }, { ledger_info := { consensus_block_id := some (ChainedBFT.BlockId.contentHash 13 (some 0) 50 12), commit_round := 13 }, signatures := [{ signer := 0, signed_ledger_info := { consensus_block_id := some (ChainedBFT.BlockId.contentHash 13 (some 0) 50 12), commit_round := 13 } }, { signer := 1, signed_ledger_info := { consensus_block_id := some (ChainedBFT.BlockId.contentHash 13 (some 0) 50 12), commit_round := 13 } }] }, { ledger_info := { consensus_block_id := some (ChainedBFT.BlockId.contentHash 14 (some 1) 50 13), commit_round := 14 }, signatures := [{ signer := 0, signed_ledger_info := { consensus_block_id := some (ChainedBFT.BlockId.contentHash 14 (some 1) 50 13), commit_round := 14 } }, { signer := 1, signed_ledger_info := { consensus_block_id := some (ChainedBFT.BlockId.contentHash 14 (some 1) 50 13), commit_round := 14 } }] }, { ledger_info := { consensus_block_id := some (ChainedBFT.BlockId.contentHash 15 (some 1) 50 14), commit_round := 15 }, signatures := [{ signer := 0, signed_ledger_info := { consensus_block_id := some (ChainedBFT.BlockId.contentHash 15 (some 1) 50 14), commit_round := 15 } }, { signer := 1, signed_ledger_info := { consensus_block_id := some (ChainedBFT.BlockId.contentHash 15 (some 1) 50 14), commit_round := 15 } }] }, { ledger_info := { consensus_block_id := some (ChainedBFT.BlockId.contentHash 16 (some 0) 50 15), commit_round := 16 }, signatures := [{ signer := 0, signed_ledger_info := { consensus_block_id := some (ChainedBFT.BlockId.contentHash 16 (some 0) 50 15), commit_round := 16 } }, { signer := 1, signed_ledger_info := { consensus_block_id := some (ChainedBFT.BlockId.contentHash 16 (some 0) 50 15), commit_round := 16 } }] }], committed_txns := 350 }], [(0, 0, ChainedBFT.Msg.proposal { id := ChainedBFT.BlockId.contentHash 20 (some 0) 50 19, round := 20, height := 19, parent_id := ChainedBFT.BlockId.contentHash 19 (some 1) 50 18, author := some 0, payload := 50, quorum_cert := { certified_block_id := ChainedBFT.BlockId.contentHash 19 (some 1) 50 18, certified_block_round := 19, certified_block_height := 18, certified_parent_round := 18, ledger_info := { consensus_block_id := some (ChainedBFT.BlockId.contentHash 17 (some 0) 50 16), commit_round := 17 }, signatures := [{ signer := 0, signed_ledger_info := { consensus_block_id := some (ChainedBFT.BlockId.contentHash 17 (some 0) 50 16), commit_round := 17 } }, { signer := 1, signed_ledger_info := { consensus_block_id := some (ChainedBFT.BlockId.contentHash 17 (some 0) 50 16), commit_round := 17 } }] } } { highest_quorum_cert := { certified_block_id := ChainedBFT.BlockId.contentHash 19 (some 1) 50 18, certified_block_round := 19, certified_block_height := 18, certified_parent_round := 18, ledger_info := { consensus_block_id := some (ChainedBFT.BlockId.contentHash 17 (some 0) 50 16), commit_round := 17 }, signatures := [{ signer := 0, signed_ledger_info := { consensus_block_id := some (ChainedBFT.BlockId.contentHash 17 (some 0) 50 16), commit_round := 17 } }, { signer := 1, signed_ledger_info := { consensus_block_id := some (ChainedBFT.BlockId.contentHash 17 (some 0) 50 16), commit_round := 17 } }] }, highest_commit_cert := { certified_block_id := ChainedBFT.BlockId.contentHash 19 (some 1) 50 18, certified_block_round := 19, certified_block_height := 18, certified_parent_round := 18, ledger_info := { consensus_block_id := some (ChainedBFT.BlockId.contentHash 17 (some 0) 50 16), commit_round := 17 }, signatures := [{ signer := 0, signed_ledger_info := { consensus_block_id := some (ChainedBFT.BlockId.contentHash 17 (some 0) 50 16), commit_round := 17 } }, { signer := 1, signed_ledger_info := { consensus_block_id := some (ChainedBFT.BlockId.contentHash 17 (some 0) 50 16), commit_round := 17 } }] } }), (0, 1, ChainedBFT.Msg.proposal { id := ChainedBFT.BlockId.contentHash 20 (some 0) 50 19, round := 20, height := 19, parent_id := ChainedBFT.BlockId.contentHash 19 (some 1) 50 18, author := some 0, payload := 50, quorum_cert := { certified_block_id := ChainedBFT.BlockId.contentHash 19 (some 1) 50 18, certified_block_round := 19, certified_block_height := 18, certified_parent_round := 18, ledger_info := { consensus_block_id := some (ChainedBFT.BlockId.contentHash 17 (some 0) 50 16), commit_round := 17 }, signatures := [{ signer := 0, signed_ledger_info := { consensus_block_id := some (ChainedBFT.BlockId.contentHash 17 (some 0) 50 16), commit_round := 17 } }, { signer := 1, signed_ledger_info := { consensus_block_id := some (ChainedBFT.BlockId.contentHash 17 (some 0) 50 16), commit_round := 17 } }] } } { highest_quorum_cert := { certified_block_id := ChainedBFT.BlockId.contentHash 19 (some 1) 50 18, certified_block_round := 19, certified_block_height := 18, certified_parent_round := 18, ledger_info := { consensus_block_id := some (ChainedBFT.BlockId.contentHash 17 (some 0) 50 16), commit_round := 17 }, signatures := [{ signer := 0, signed_ledger_info := { consensus_block_id := some (ChainedBFT.BlockId.contentHash 17 (some 0) 50 16), commit_round := 17 } }, { signer := 1, signed_ledger_info := { consensus_block_id := some (ChainedBFT.BlockId.contentHash 17 (some 0) 50 16), commit_round := 17 } }] }, highest_commit_cert := { certified_block_id := ChainedBFT.BlockId.contentHash 19 (some 1) 50 18, certified_block_round := 19, certified_block_height := 18, certified_parent_round := 18, ledger_info := { consensus_block_id := some (ChainedBFT.BlockId.contentHash 17 (some 0) 50 16), commit_round := 17 }, signatures := [{ signer := 0, signed_ledger_info := { consensus_block_id := some (ChainedBFT.BlockId.contentHash 17 (some 0) 50 16), commit_round := 17 } }, { signer := 1, signed_ledger_info := { consensus_block_id := some (ChainedBFT.BlockId.contentHash 17 (some 0) 50 16), commit_round := 17 } }] } })], [], [ChainedBFT.MsgDigest.proposalD { round := 1, height := 1, id := ChainedBFT.BlockId.contentHash 1 (some 0) 50 0, parent_id := ChainedBFT.BlockId.genesisId, qc_certified_block_id := ChainedBFT.BlockId.genesisId }, ChainedBFT.MsgDigest.voteD { round := 1, block_id := ChainedBFT.BlockId.contentHash 1 (some 0) 50 0 }, ChainedBFT.MsgDigest.proposalD { round := 2, height := 2, id := ChainedBFT.BlockId.contentHash 2 (some 1) 50 1, parent_id := ChainedBFT.BlockId.contentHash 1 (some 0) 50 0, qc_certified_block_id := ChainedBFT.BlockId.contentHash 1 (some 0) 50 0 }, ChainedBFT.MsgDigest.voteD { round := 2, block_id := ChainedBFT.BlockId.contentHash 2 (some 1) 50 1 }, ChainedBFT.MsgDigest.proposalD { round := 3, height := 3, id := ChainedBFT.BlockId.contentHash 3 (some 1) 50 2, parent_id := ChainedBFT.BlockId.contentHash 2 (some 1) 50 1, qc_certified_block_id := ChainedBFT.BlockId.contentHash 2 (some 1) 50 1 }, ChainedBFT.MsgDigest.voteD { round := 3, block_id := ChainedBFT.BlockId.contentHash 3 (some 1) 50 2 }, ChainedBFT.MsgDigest.proposalD { round := 4, height := 4, id := ChainedBFT.BlockId.contentHash 4 (some 0) 50 3, parent_id := ChainedBFT.BlockId.contentHash 3 (some 1) 50 2, qc_certified_block_id := ChainedBFT.BlockId.contentHash 3 (some 1) 50 2 }, ChainedBFT.MsgDigest.voteD { round := 4, block_id := ChainedBFT.BlockId.contentHash 4 (some 0) 50 3 }, ChainedBFT.MsgDigest.proposalD { round := 5, height := 5, id := ChainedBFT.BlockId.contentHash 5 (some 0) 50 4, parent_id := ChainedBFT.BlockId.contentHash 4 (some 0) 50 3, qc_certified_block_id := ChainedBFT.BlockId.contentHash 4 (some 0) 50 3 }, ChainedBFT.MsgDigest.voteD { round := 5, block_id := ChainedBFT.BlockId.contentHash 5 (some 0) 50 4 }, ChainedBFT.MsgDigest.proposalD { round := 6, height := 6, id := ChainedBFT.BlockId.contentHash 6 (some 1) 50 5, parent_id := ChainedBFT.BlockId.contentHash 5 (some 0) 50 4, qc_certified_block_id := ChainedBFT.BlockId.contentHash 5 (some 0) 50 4 }, ChainedBFT.MsgDigest.voteD { round := 6, block_id := ChainedBFT.BlockId.contentHash 6 (some 1) 50 5 }, ChainedBFT.MsgDigest.proposalD { round := 7, height := 7, id := ChainedBFT.BlockId.contentHash 7 (some 1) 50 6, parent_id := ChainedBFT.BlockId.contentHash 6 (some 1) 50 5, qc_certified_block_id := ChainedBFT.BlockId.contentHash 6 (some 1) 50 5 }, ChainedBFT.MsgDigest.voteD { round := 7, block_id := ChainedBFT.BlockId.contentHash 7 (some 1) 50 6 }, ChainedBFT.MsgDigest.proposalD { round := 8, height := 8, id := ChainedBFT.BlockId.contentHash 8 (some 0) 50 7, parent_id := ChainedBFT.BlockId.contentHash 7 (some 1) 50 6, qc_certified_block_id := ChainedBFT.BlockId.contentHash 7 (some 1) 50 6 }, ChainedBFT.MsgDigest.voteD { round := 8, block_id := ChainedBFT.BlockId.contentHash 8 (some 0) 50 7 }, ChainedBFT.MsgDigest.proposalD { round := 9, height := 9, id := ChainedBFT.BlockId.contentHash 9 (some 0) 50 8, parent_id := ChainedBFT.BlockId.contentHash 8 (some 0) 50 7, qc_certified_block_id := ChainedBFT.BlockId.contentHash 8 (some 0) 50 7 }, ChainedBFT.MsgDigest.voteD { round := 9, block_id := ChainedBFT.BlockId.contentHash 9 (some 0) 50 8 }, ChainedBFT.MsgDigest.proposalD { round := 10, height := 10, id := ChainedBFT.BlockId.contentHash 10 (some 1) 50 9, parent_id := ChainedBFT.BlockId.contentHash 9 (some 0) 50 8, qc_certified_block_id := ChainedBFT.BlockId.contentHash 9 (some 0) 50 8 }, ChainedBFT.MsgDigest.voteD { round := 10, block_id := ChainedBFT.BlockId.contentHash 10 (some 1) 50 9 }, ChainedBFT.MsgDigest.proposalD { round := 11, height := 11, id := ChainedBFT.BlockId.contentHash 11 (some 1) 50 10, parent_id := ChainedBFT.BlockId.contentHash 10 (some 1) 50 9, qc_certified_block_id := ChainedBFT.BlockId.contentHash 10 (some 1) 50 9 }, ChainedBFT.MsgDigest.proposalD { round := 12, height := 11, id := ChainedBFT.BlockId.contentHash 12 (some 0) 50 10, parent_id := ChainedBFT.BlockId.contentHash 10 (some 1) 50 9, qc_certified_block_id := ChainedBFT.BlockId.contentHash 10 (some 1) 50 9 }, ChainedBFT.MsgDigest.voteD { round := 12, block_id := ChainedBFT.BlockId.contentHash 12 (some 0) 50 10 }, ChainedBFT.MsgDigest.proposalD { round := 13, height := 12, id := ChainedBFT.BlockId.contentHash 13 (some 0) 50 12, parent_id := ChainedBFT.BlockId.contentHash 12 (some 0) 50 10, qc_certified_block_id := ChainedBFT.BlockId.contentHash 12 (some 0) 50 10 }, ChainedBFT.MsgDigest.voteD { round := 13, block_id := ChainedBFT.BlockId.contentHash 13 (some 0) 50 12 }, ChainedBFT.MsgDigest.proposalD { round := 14, height := 13, id := ChainedBFT.BlockId.contentHash 14 (some 1) 50 13, parent_id := ChainedBFT.BlockId.contentHash 13 (some 0) 50 12, qc_certified_block_id := ChainedBFT.BlockId.contentHash 13 (some 0) 50 12 }, ChainedBFT.MsgDigest.voteD { round := 14, block_id := ChainedBFT.BlockId.contentHash 14 (some 1) 50 13 }, ChainedBFT.MsgDigest.proposalD { round := 15, height := 14, id := ChainedBFT.BlockId.contentHash 15 (some 1) 50 14, parent_id := ChainedBFT.BlockId.contentHash 14 (some 1) 50 13, qc_certified_block_id := ChainedBFT.BlockId.contentHash 14 (some 1) 50 13 }, ChainedBFT.MsgDigest.voteD { round := 15, block_id := ChainedBFT.BlockId.contentHash 15 (some 1) 50 14 }, ChainedBFT.MsgDigest.proposalD { round := 16, height := 15, id := ChainedBFT.BlockId.contentHash 16 (some 0) 50 15, parent_id := ChainedBFT.BlockId.contentHash 15 (some 1) 50 14, qc_certified_block_id := ChainedBFT.BlockId.contentHash 15 (some 1) 50 14 }, ChainedBFT.MsgDigest.voteD { round := 16, block_id := ChainedBFT.BlockId.contentHash 16 (some 0) 50 15 }, ChainedBFT.MsgDigest.proposalD { round := 17, height := 16, id := ChainedBFT.BlockId.contentHash 17 (some 0) 50 16, parent_id := ChainedBFT.BlockId.contentHash 16 (some 0) 50 15, qc_certified_block_id := ChainedBFT.BlockId.contentHash 16 (some 0) 50 15 }, ChainedBFT.MsgDigest.voteD { round := 17, block_id := ChainedBFT.BlockId.contentHash 17 (some 0) 50 16 }, ChainedBFT.MsgDigest.proposalD { round := 18, height := 17, id := ChainedBFT.BlockId.contentHash 18 (some 1) 50 17, parent_id := ChainedBFT.BlockId.contentHash 17 (some 0) 50 16, qc_certified_block_id := ChainedBFT.BlockId.contentHash 17 (some 0) 50 16 }, ChainedBFT.MsgDigest.voteD { round := 18, block_id := ChainedBFT.BlockId.contentHash 18 (some 1) 50 17 }, ChainedBFT.MsgDigest.proposalD { round := 19, height := 18, id := ChainedBFT.BlockId.contentHash 19 (some 1) 50 18, parent_id := ChainedBFT.BlockId.contentHash 18 (some 1) 50 17, qc_certified_block_id := ChainedBFT.BlockId.contentHash 18 (some 1) 50 17 }, ChainedBFT.MsgDigest.voteD { round := 19, block_id := ChainedBFT.BlockId.contentHash 19 (some 1) 50 18 }]⟩

/-- Checkpoint of the simulated cluster (see the scenario schedule definitions). -/
def c4w1 : World :=
⟨{ num_nodes := 3, quorum_size := 2, proposer_type := ChainedBFT.ConsensusProposerType.FixedProposer, contiguous_rounds := 2, max_block_size := 50 }, [{ author := 0, blocks := [{ id := ChainedBFT.BlockId.genesisId, round := 0, height := 0, parent_id := ChainedBFT.BlockId.genesisId, author := none, payload := 0, quorum_cert := { certified_block_id := ChainedBFT.BlockId.genesisId, certified_block_round := 0, certified_block_height := 0, certified_parent_round := 0, ledger_info := { consensus_block_id := some (ChainedBFT.BlockId.genesisId), commit_round := 0 }, signatures := [] } }, { id := ChainedBFT.BlockId.contentHash 1 (some 0) 50 0, round := 1, height := 1, parent_id := ChainedBFT.BlockId.genesisId, author := some 0, payload := 50, quorum_cert := { certified_block_id := ChainedBFT.BlockId.genesisId, certified_block_round := 0, certified_block_height := 0, certified_parent_round := 0, ledger_info := { consensus_block_id := some (ChainedBFT.BlockId.genesisId), commit_round := 0 }, signatures := [] } }], root_id := ChainedBFT.BlockId.genesisId, highest_quorum_cert := { certified_block_id := ChainedBFT.BlockId.genesisId, certified_block_round := 0, certified_block_height := 0, certified_parent_round := 0, ledger_info := { consensus_block_id := some (ChainedBFT.BlockId.genesisId), commit_round := 0 }, signatures := [] }, highest_commit_cert := { certified_block_id := ChainedBFT.BlockId.genesisId, certified_block_round := 0, certified_block_height := 0, certified_parent_round := 0, ledger_info := { consensus_block_id := some (ChainedBFT.BlockId.genesisId), commit_round := 0 }, signatures := [] }, current_round := 1, last_voted_round := 1, preferred_round := 0, last_vote := some { author := 0, block_id := ChainedBFT.BlockId.contentHash 1 (some 0) 50 0, round := 1, height := 1, parent_block_id := ChainedBFT.BlockId.genesisId, parent_round := 0, ledger_info := { consensus_block_id := none, commit_round := 0 } }, pending_votes := [{ author := 0, block_id := ChainedBFT.BlockId.contentHash 1 (some 0) 50 0, round := 1, height := 1, parent_block_id := ChainedBFT.BlockId.genesisId, parent_round := 0, ledger_info := { consensus_block_id := none, commit_round := 0 } }], pending_timeouts := [], highest_tc_round := 0, pending_secondary := none, pending_fetch := none, commits := [], committed_txns := 0 }, { author := 1, blocks := [{ id := ChainedBFT.BlockId.genesisId, round := 0, height := 0, parent_id := ChainedBFT.BlockId.genesisId, author := none, payload := 0, quorum_cert := { certified_block_id := ChainedBFT.BlockId.genesisId, certified_block_round := 0, certified_block_height := 0, certified_parent_round := 0, ledger_info := { consensus_block_id := some (ChainedBFT.BlockId.genesisId), commit_round := 0 }, signatures := [] } }, { id := ChainedBFT.BlockId.contentHash 1 (some 0) 50 0, round := 1, height := 1, parent_id := ChainedBFT.BlockId.genesisId, author := some 0, payload := 50, quorum_cert := { certified_block_id := ChainedBFT.BlockId.genesisId, certified_block_round := 0, certified_block_height := 0, certified_parent_round := 0, ledger_info := { consensus_block_id := some (ChainedBFT.BlockId.genesisId), commit_round := 0 }, signatures := [] } }], root_id := ChainedBFT.BlockId.genesisId, highest_quorum_cert := { certified_block_id := ChainedBFT.BlockId.contentHash 1 (some 0) 50 0, certified_block_round := 1, certified_block_height := 1, certified_parent_round := 0, ledger_info := { consensus_block_id := none, commit_round := 0 }, signatures := [{ signer := 1, signed_ledger_info := { consensus_block_id := none, commit_round := 0 } }, { signer := 2, signed_ledger_info := { consensus_block_id := none, commit_round := 0 } }] }, highest_commit_cert := { certified_block_id := ChainedBFT.BlockId.genesisId, certified_block_round := 0, certified_block_height := 0, certified_parent_round := 0, ledger_info := { consensus_block_id := some (ChainedBFT.BlockId.genesisId), commit_round := 0 }, signatures := [] }, current_round := 2, last_voted_round := 1, preferred_round := 0, last_vote := none, pending_votes := [{ author := 1, block_id := ChainedBFT.BlockId.contentHash 1 (some 0) 50 0, round := 1, height := 1, parent_block_id := ChainedBFT.BlockId.genesisId, parent_round := 0, ledger_info := { consensus_block_id := none, commit_round := 0 } }, { author := 2, block_id := ChainedBFT.BlockId.contentHash 1 (some 0) 50 0, round := 1, height := 1, parent_block_id := ChainedBFT.BlockId.genesisId, parent_round := 0, ledger_info := { consensus_block_id := none, commit_round := 0 } }], pending_timeouts := [(1, 1), (1, 2)], highest_tc_round := 1, pending_secondary := none, pending_fetch := none, commits := [], committed_txns := 0 }, { author := 2, blocks := [{ id := ChainedBFT.BlockId.genesisId, round := 0, height := 0, parent_id := ChainedBFT.BlockId.genesisId, author := none, payload := 0, quorum_cert := { certified_block_id := ChainedBFT.BlockId.genesisId, certified_block_round := 0, certified_block_height := 0, certified_parent_round := 0, ledger_info := { consensus_block_id := some (ChainedBFT.BlockId.genesisId), commit_round := 0 }, signatures := [] } }, { id := ChainedBFT.BlockId.contentHash 1 (some 0) 50 0, round := 1, height := 1, parent_id := ChainedBFT.BlockId.genesisId, author := some 0, payload := 50, quorum_cert := { certified_block_id := ChainedBFT.BlockId.genesisId, certified_block_round := 0, certified_block_height := 0, certified_parent_round := 0, ledger_info := { consensus_block_id := some (ChainedBFT.BlockId.genesisId), commit_round := 0 }, signatures := [] } }], root_id := ChainedBFT.BlockId.genesisId, highest_quorum_cert := { certified_block_id := ChainedBFT.BlockId.contentHash 1 (some 0) 50 0, certified_block_round := 1, certified_block_height := 1, certified_parent_round := 0, ledger_info := { consensus_block_id := none, commit_round := 0 }, signatures := [{ signer := 2, signed_ledger_info := { consensus_block_id := none, commit_round := 0 } }, { signer := 1, signed_ledger_info := { consensus_block_id := none, commit_round := 0 } }] }, highest_commit_cert := { certified_block_id := ChainedBFT.BlockId.genesisId, certified_block_round := 0, certified_block_height := 0, certified_parent_round := 0, ledger_info := { consensus_block_id := some (ChainedBFT.BlockId.genesisId), commit_round := 0 }, signatures := [] }, current_round := 2, last_voted_round := 1, preferred_round := 0, last_vote := none, pending_votes := [{ author := 2, block_id := ChainedBFT.BlockId.contentHash 1 (some 0) 50 0, round := 1, height := 1, parent_block_id := ChainedBFT.BlockId.genesisId, parent_round := 0, ledger_info := { consensus_block_id := none, commit_round := 0 } }, { author := 1, block_id := ChainedBFT.BlockId.contentHash 1 (some 0) 50 0, round := 1, height := 1, parent_block_id := ChainedBFT.BlockId.genesisId, parent_round := 0, ledger_info := { consensus_block_id := none, commit_round := 0 } }], pending_timeouts := [(1, 2), (1, 1)], highest_tc_round := 1, pending_secondary := none, pending_fetch := none, commits := [], committed_txns := 0 }], [], [(0, 2), (0, 1), (2, 0), (1, 0)], [ChainedBFT.MsgDigest.proposalD { round := 1, height := 1, id := ChainedBFT.BlockId.contentHash 1 (some 0) 50 0, parent_id := ChainedBFT.BlockId.genesisId, qc_certified_block_id := ChainedBFT.BlockId.genesisId }, ChainedBFT.MsgDigest.proposalD { round := 1, height := 1, id := ChainedBFT.BlockId.contentHash 1 (some 0) 50 0, parent_id := ChainedBFT.BlockId.genesisId, qc_certified_block_id := ChainedBFT.BlockId.genesisId }, ChainedBFT.MsgDigest.timeoutD { round := 1, piggyback_block_id := some (ChainedBFT.BlockId.contentHash 1 (some 0) 50 0) }, ChainedBFT.MsgDigest.timeoutD { round := 1, piggyback_block_id := some (ChainedBFT.BlockId.contentHash 1 (some 0) 50 0) }]⟩

/-- Checkpoint of the simulated cluster (see the scenario schedule definitions). -/
def c5w1 : World :=
⟨{ num_nodes := 3, quorum_size := 2, proposer_type := ChainedBFT.ConsensusProposerType.FixedProposer, contiguous_rounds := 2, max_block_size := 50 }, [{ author := 0, blocks := [{ id := ChainedBFT.BlockId.genesisId, round := 0, height := 0, parent_id := ChainedBFT.BlockId.genesisId, author := none, payload := 0, quorum_cert := { certified_block_id := ChainedBFT.BlockId.genesisId, certified_block_round := 0, certified_block_height := 0, certified_parent_round := 0, ledger_info := { consensus_block_id := some (ChainedBFT.BlockId.genesisId), commit_round := 0 }, signatures := [] } }, { id := ChainedBFT.BlockId.contentHash 1 (some 0) 50 0, round := 1, height := 1, parent_id := ChainedBFT.BlockId.genesisId, author := some 0, payload := 50, quorum_cert := { certified_block_id := ChainedBFT.BlockId.genesisId, certified_block_round := 0, certified_block_height := 0, certified_parent_round := 0, ledger_info := { consensus_block_id := some (ChainedBFT.BlockId.genesisId), commit_round := 0 }, signatures := [] } }, { id := ChainedBFT.BlockId.contentHash 2 (some 0) 50 1, round := 2, height := 2, parent_id := ChainedBFT.BlockId.contentHash 1 (some 0) 50 0, author := some 0, payload := 50, quorum_cert := { certified_block_id := ChainedBFT.BlockId.contentHash 1 (some 0) 50 0, certified_block_round := 1, certified_block_height := 1, certified_parent_round := 0, ledger_info := { consensus_block_id := none, commit_round := 0 }, signatures := [{ signer := 0, signed_ledger_info := { consensus_block_id := none, commit_round := 0 } }, { signer := 1, signed_ledger_info := { consensus_block_id := none, commit_round := 0 } }] } }], root_id := ChainedBFT.BlockId.genesisId, highest_quorum_cert := { certified_block_id := ChainedBFT.BlockId.contentHash 2 (some 0) 50 1, certified_block_round := 2, certified_block_height := 2, certified_parent_round := 1, ledger_info := { consensus_block_id := some (ChainedBFT.BlockId.genesisId), commit_round := 0 }, signatures := [{ signer := 0, signed_ledger_info := { consensus_block_id := some (ChainedBFT.BlockId.genesisId), commit_round := 0 } }, { signer := 1, signed_ledger_info := { consensus_block_id := some (ChainedBFT.BlockId.genesisId), commit_round := 0 } }] }, highest_commit_cert := { certified_block_id := ChainedBFT.BlockId.genesisId, certified_block_round := 0, certified_block_height := 0, certified_parent_round := 0, ledger_info := { consensus_block_id := some (ChainedBFT.BlockId.genesisId), commit_round := 0 }, signatures := [] }, current_round := 3, last_voted_round := 2, preferred_round := 0, last_vote := none, pending_votes := [{ author := 0, block_id := ChainedBFT.BlockId.contentHash 1 (some 0) 50 0, round := 1, height := 1, parent_block_id := ChainedBFT.BlockId.genesisId, parent_round := 0, ledger_info := { consensus_block_id := none, commit_round := 0 } }, { author := 1, block_id := ChainedBFT.BlockId.contentHash 1 (some 0) 50 0, round := 1, height := 1, parent_block_id := ChainedBFT.BlockId.genesisId, parent_round := 0, ledger_info := { consensus_block_id := none, commit_round := 0 } }, { author := 2, block_id := ChainedBFT.BlockId.contentHash 1 (some 0) 50 0, round := 1, height := 1, parent_block_id := ChainedBFT.BlockId.genesisId, parent_round := 0, ledger_info := { consensus_block_id := none, commit_round := 0 } }, { author := 0, block_id := ChainedBFT.BlockId.contentHash 2 (some 0) 50 1, round := 2, height := 2, parent_block_id := ChainedBFT.BlockId.contentHash 1 (some 0) 50 0, parent_round := 1, ledger_info := { consensus_block_id := some (ChainedBFT.BlockId.genesisId), commit_round := 0 } }, { author := 1, block_id := ChainedBFT.BlockId.contentHash 2 (some 0) 50 1, round := 2, height := 2, parent_block_id := ChainedBFT.BlockId.contentHash 1 (some 0) 50 0, parent_round := 1, ledger_info := { consensus_block_id := some (ChainedBFT.BlockId.genesisId), commit_round := 0 } }, { author := 2, block_id := ChainedBFT.BlockId.contentHash 2 (some 0) 50 1, round := 2, height := 2, parent_block_id := ChainedBFT.BlockId.contentHash 1 (some 0) 50 0, parent_round := 1, ledger_info := { consensus_block_id := some (ChainedBFT.BlockId.genesisId), commit_round := 0 } }], pending_timeouts := [], highest_tc_round := 0, pending_secondary := none, pending_fetch := none, commits := [], committed_txns := 0 }, { author := 1, blocks := [{ id := ChainedBFT.BlockId.genesisId, round := 0, height := 0, parent_id := ChainedBFT.BlockId.genesisId, author := none, payload := 0, quorum_cert := { certified_block_id := ChainedBFT.BlockId.genesisId, certified_block_round := 0, certified_block_height := 0, certified_parent_round := 0, ledger_info := { consensus_block_id := some (ChainedBFT.BlockId.genesisId), commit_round := 0 }, signatures := [] } }, { id := ChainedBFT.BlockId.contentHash 1 (some 0) 50 0, round := 1, height := 1, parent_id := ChainedBFT.BlockId.genesisId, author := some 0, payload := 50, quorum_cert := { certified_block_id := ChainedBFT.BlockId.genesisId, certified_block_round := 0, certified_block_height := 0, certified_parent_round := 0, ledger_info := { consensus_block_id := some (ChainedBFT.BlockId.genesisId), commit_round := 0 }, signatures := [] } }, { id := ChainedBFT.BlockId.contentHash 2 (some 0) 50 1, round := 2, height := 2, parent_id := ChainedBFT.BlockId.contentHash 1 (some 0) 50 0, author := some 0, payload := 50, quorum_cert := { certified_block_id := ChainedBFT.BlockId.contentHash 1 (some 0) 50 0, certified_block_round := 1, certified_block_height := 1, certified_parent_round := 0, ledger_info := { consensus_block_id := none, commit_round := 0 }, signatures := [{ signer := 0, signed_ledger_info := { consensus_block_id := none, commit_round := 0 } }, { signer := 1, signed_ledger_info := { consensus_block_id := none, commit_round := 0 } }] } }], root_id := ChainedBFT.BlockId.genesisId, highest_quorum_cert := { certified_block_id := ChainedBFT.BlockId.contentHash 1 (some 0) 50 0, certified_block_round := 1, certified_block_height := 1, certified_parent_round := 0, ledger_info := { consensus_block_id := none, commit_round := 0 }, signatures := [{ signer := 0, signed_ledger_info := { consensus_block_id := none, commit_round := 0 } }, { signer := 1, signed_ledger_info := { consensus_block_id := none, commit_round := 0 } }] }, highest_commit_cert := { certified_block_id := ChainedBFT.BlockId.genesisId, certified_block_round := 0, certified_block_height := 0, certified_parent_round := 0, ledger_info := { consensus_block_id := some (ChainedBFT.BlockId.genesisId), commit_round := 0 }, signatures := [] }, current_round := 2, last_voted_round := 2, preferred_round := 0, last_vote := some { author := 1, block_id := ChainedBFT.BlockId.contentHash 2 (some 0) 50 1, round := 2, height := 2, parent_block_id := ChainedBFT.BlockId.contentHash 1 (some 0) 50 0, parent_round := 1, ledger_info := { consensus_block_id := some (ChainedBFT.BlockId.genesisId), commit_round := 0 } }, pending_votes := [], pending_timeouts := [], highest_tc_round := 0, pending_secondary := none, pending_fetch := none, commits := [], committed_txns := 0 }, { author := 2, blocks := [{ id := ChainedBFT.BlockId.genesisId, round := 0, height := 0, parent_id := ChainedBFT.BlockId.genesisId, author := none, payload := 0, quorum_cert := { certified_block_id := ChainedBFT.BlockId.genesisId, certified_block_round := 0, certified_block_height := 0, certified_parent_round := 0, ledger_info := { consensus_block_id := some (ChainedBFT.BlockId.genesisId), commit_round := 0 }, signatures := [] } }, { id := ChainedBFT.BlockId.contentHash 1 (some 0) 50 0, round := 1, height := 1, parent_id := ChainedBFT.BlockId.genesisId, author := some 0, payload := 50, quorum_cert := { certified_block_id := ChainedBFT.BlockId.genesisId, certified_block_round := 0, certified_block_height := 0, certified_parent_round := 0, ledger_info := { consensus_block_id := some (ChainedBFT.BlockId.genesisId), commit_round := 0 }, signatures := [] } }, { id := ChainedBFT.BlockId.contentHash 2 (some 0) 50 1, round := 2, height := 2, parent_id := ChainedBFT.BlockId.contentHash 1 (some 0) 50 0, author := some 0, payload := 50, quorum_cert := { certified_block_id := ChainedBFT.BlockId.contentHash 1 (some 0) 50 0, certified_block_round := 1, certified_block_height := 1, certified_parent_round := 0, ledger_info := { consensus_block_id := none, commit_round := 0 }, signatures := [{ signer := 0, signed_ledger_info := { consensus_block_id := none, commit_round := 0 } }, { signer := 1, signed_ledger_info := { consensus_block_id := none, commit_round := 0 } }] } }], root_id := ChainedBFT.BlockId.genesisId, highest_quorum_cert := { certified_block_id := ChainedBFT.BlockId.contentHash 1 (some 0) 50 0, certified_block_round := 1, certified_block_height := 1, certified_parent_round := 0, ledger_info := { consensus_block_id := none, commit_round := 0 }, signatures := [{ signer := 0, signed_ledger_info := { consensus_block_id := none, commit_round := 0 } }, { signer := 1, signed_ledger_info := { consensus_block_id := none, commit_round := 0 } }] }, highest_commit_cert := { certified_block_id := ChainedBFT.BlockId.genesisId, certified_block_round := 0, certified_block_height := 0, certified_parent_round := 0, ledger_info := { consensus_block_id := some (ChainedBFT.BlockId.genesisId), commit_round := 0 }, signatures := [] }, current_round := 2, last_voted_round := 2, preferred_round := 0, last_vote := some { author := 2, block_id := ChainedBFT.BlockId.contentHash 2 (some 0) 50 1, round := 2, height := 2, parent_block_id := ChainedBFT.BlockId.contentHash 1 (some 0) 50 0, parent_round := 1, ledger_info := { consensus_block_id := some (ChainedBFT.BlockId.genesisId), commit_round := 0 } }, pending_votes := [], pending_timeouts := [], highest_tc_round := 0, pending_secondary := none, pending_fetch := none, commits := [], committed_txns := 0 }], [(0, 0, ChainedBFT.Msg.proposal { id := ChainedBFT.BlockId.contentHash 3 (some 0) 50 2, round := 3, height := 3, parent_id := ChainedBFT.BlockId.contentHash 2 (some 0) 50 1, author := some 0, payload := 50, quorum_cert := { certified_block_id := ChainedBFT.BlockId.contentHash 2 (some 0) 50 1, certified_block_round := 2, certified_block_height := 2, certified_parent_round := 1, ledger_info := { consensus_block_id := some (ChainedBFT.BlockId.genesisId), commit_round := 0 }, signatures := [{ signer := 0, signed_ledger_info := { consensus_block_id := some (ChainedBFT.BlockId.genesisId), commit_round := 0 } }, { signer := 1, signed_ledger_info := { consensus_block_id := some (ChainedBFT.BlockId.genesisId), commit_round := 0 } }] } } { highest_quorum_cert := { certified_block_id := ChainedBFT.BlockId.contentHash 2 (some 0) 50 1, certified_block_round := 2, certified_block_height := 2, certified_parent_round := 1, ledger_info := { consensus_block_id := some (ChainedBFT.BlockId.genesisId), commit_round := 0 }, signatures := [{ signer := 0, signed_ledger_info := { consensus_block_id := some (ChainedBFT.BlockId.genesisId), commit_round := 0 } }, { signer := 1, signed_ledger_info := { consensus_block_id := some (ChainedBFT.BlockId.genesisId), commit_round := 0 } }] }, highest_commit_cert := { certified_block_id := ChainedBFT.BlockId.genesisId, certified_block_round := 0, certified_block_height := 0, certified_parent_round := 0, ledger_info := { consensus_block_id := some (ChainedBFT.BlockId.genesisId), commit_round := 0 }, signatures := [] } }), (0, 1, ChainedBFT.Msg.proposal { id := ChainedBFT.BlockId.contentHash 3 (some 0) 50 2, round := 3, height := 3, parent_id := ChainedBFT.BlockId.contentHash 2 (some 0) 50 1, author := some 0, payload := 50, quorum_cert := { certified_block_id := ChainedBFT.BlockId.contentHash 2 (some 0) 50 1, certified_block_round := 2, certified_block_height := 2, certified_parent_round := 1, ledger_info := { consensus_block_id := some (ChainedBFT.BlockId.genesisId), commit_round := 0 }, signatures := [{ signer := 0, signed_ledger_info := { consensus_block_id := some (ChainedBFT.BlockId.genesisId), commit_round := 0 } }, { signer := 1, signed_ledger_info := { consensus_block_id := some (ChainedBFT.BlockId.genesisId), commit_round := 0 } }] } } { highest_quorum_cert := { certified_block_id := ChainedBFT.BlockId.contentHash 2 (some 0) 50 1, certified_block_round := 2, certified_block_height := 2, certified_parent_round := 1, ledger_info := { consensus_block_id := some (ChainedBFT.BlockId.genesisId), commit_round := 0 }, signatures := [{ signer := 0, signed_ledger_info := { consensus_block_id := some (ChainedBFT.BlockId.genesisId), commit_round := 0 } }, { signer := 1, signed_ledger_info := { consensus_block_id := some (ChainedBFT.BlockId.genesisId), commit_round := 0 } }] }, highest_commit_cert := { certified_block_id := ChainedBFT.BlockId.genesisId, certified_block_round := 0, certified_block_height := 0, certified_parent_round := 0, ledger_info := { consensus_block_id := some (ChainedBFT.BlockId.genesisId), commit_round := 0 }, signatures := [] } }), (0, 2, ChainedBFT.Msg.proposal { id := ChainedBFT.BlockId.contentHash 3 (some 0) 50 2, round := 3, height := 3, parent_id := ChainedBFT.BlockId.contentHash 2 (some 0) 50 1, author := some 0, payload := 50, quorum_cert := { certified_block_id := ChainedBFT.BlockId.contentHash 2 (some 0) 50 1, certified_block_round := 2, certified_block_height := 2, certified_parent_round := 1, ledger_info := { consensus_block_id := some (ChainedBFT.BlockId.genesisId), commit_round := 0 }, signatures := [{ signer := 0, signed_ledger_info := { consensus_block_id := some (ChainedBFT.BlockId.genesisId), commit_round := 0 } }, { signer := 1, signed_ledger_info := { consensus_block_id := some (ChainedBFT.BlockId.genesisId), commit_round := 0 } }] } } { highest_quorum_cert := { certified_block_id := ChainedBFT.BlockId.contentHash 2 (some 0) 50 1, certified_block_round := 2, certified_block_height := 2, certified_parent_round := 1, ledger_info := { consensus_block_id := some (ChainedBFT.BlockId.genesisId), commit_round := 0 }, signatures := [{ signer := 0, signed_ledger_info := { consensus_block_id := some (ChainedBFT.BlockId.genesisId), commit_round := 0 } }, { signer := 1, signed_ledger_info := { consensus_block_id := some (ChainedBFT.BlockId.genesisId), commit_round := 0 } }] }, highest_commit_cert := { certified_block_id := ChainedBFT.BlockId.genesisId, certified_block_round := 0, certified_block_height := 0, certified_parent_round := 0, ledger_info := { consensus_block_id := some (ChainedBFT.BlockId.genesisId), commit_round := 0 }, signatures := [] } })], [], [ChainedBFT.MsgDigest.proposalD { round := 1, height := 1, id := ChainedBFT.BlockId.contentHash 1 (some 0) 50 0, parent_id := ChainedBFT.BlockId.genesisId, qc_certified_block_id := ChainedBFT.BlockId.genesisId }, ChainedBFT.MsgDigest.proposalD { round := 1, height := 1, id := ChainedBFT.BlockId.contentHash 1 (some 0) 50 0, parent_id := ChainedBFT.BlockId.genesisId, qc_certified_block_id := ChainedBFT.BlockId.genesisId }, ChainedBFT.MsgDigest.voteD { round := 1, block_id := ChainedBFT.BlockId.contentHash 1 (some 0) 50 0 }, ChainedBFT.MsgDigest.voteD { round := 1, block_id := ChainedBFT.BlockId.contentHash 1 (some 0) 50 0 }, ChainedBFT.MsgDigest.proposalD { round := 2, height := 2, id := ChainedBFT.BlockId.contentHash 2 (some 0) 50 1, parent_id := ChainedBFT.BlockId.contentHash 1 (some 0) 50 0, qc_certified_block_id := ChainedBFT.BlockId.contentHash 1 (some 0) 50 0 }, ChainedBFT.MsgDigest.proposalD { round := 2, height := 2, id := ChainedBFT.BlockId.contentHash 2 (some 0) 50 1, parent_id := ChainedBFT.BlockId.contentHash 1 (some 0) 50 0, qc_certified_block_id := ChainedBFT.BlockId.contentHash 1 (some 0) 50 0 }, ChainedBFT.MsgDigest.voteD { round := 2, block_id := ChainedBFT.BlockId.contentHash 2 (some 0) 50 1 }, ChainedBFT.MsgDigest.voteD { round := 2, block_id := ChainedBFT.BlockId.contentHash 2 (some 0) 50 1 }]⟩

/-- Checkpoint of the simulated cluster (see the scenario schedule definitions). -/
def c5w2 : World :=
⟨{ num_nodes := 3, quorum_size := 2, proposer_type := ChainedBFT.ConsensusProposerType.FixedProposer, contiguous_rounds := 2, max_block_size := 50 }, [{ author := 0, blocks := [{ id := ChainedBFT.BlockId.contentHash 1 (some 0) 50 0, round := 1, height := 1, parent_id := ChainedBFT.BlockId.genesisId, author := some 0, payload := 50, quorum_cert := { certified_block_id := ChainedBFT.BlockId.genesisId, certified_block_round := 0, certified_block_height := 0, certified_parent_round := 0, ledger_info := { consensus_block_id := some (ChainedBFT.BlockId.genesisId), commit_round := 0 }, signatures := [] } }, { id := ChainedBFT.BlockId.contentHash 2 (some 0) 50 1, round := 2, height := 2, parent_id := ChainedBFT.BlockId.contentHash 1 (some 0) 50 0, author := some 0, payload := 50, quorum_cert := { certified_block_id := ChainedBFT.BlockId.contentHash 1 (some 0) 50 0, certified_block_round := 1, certified_block_height := 1, certified_parent_round := 0, ledger_info := { consensus_block_id := none, commit_round := 0 }, signatures := [{ signer := 0, signed_ledger_info := { consensus_block_id := none, commit_round := 0 } }, { signer := 1, signed_ledger_info := { consensus_block_id := none, commit_round := 0 } }] } }, { id := ChainedBFT.BlockId.contentHash 3 (some 0) 50 2, round := 3, height := 3, parent_id := ChainedBFT.BlockId.contentHash 2 (some 0) 50 1, author := some 0, payload := 50, quorum_cert := { certified_block_id := ChainedBFT.BlockId.contentHash 2 (some 0) 50 1, certified_block_round := 2, certified_block_height := 2, certified_parent_round := 1, ledger_info := { consensus_block_id := some (ChainedBFT.BlockId.genesisId), commit_round := 0 }, signatures := [{ signer := 0, signed_ledger_info := { consensus_block_id := some (ChainedBFT.BlockId.genesisId), commit_round := 0 } }, { signer := 1, signed_ledger_info := { consensus_block_id := some (ChainedBFT.BlockId.genesisId), commit_round := 0 } }] } }], root_id := ChainedBFT.BlockId.contentHash 1 (some 0) 50 0, highest_quorum_cert := { certified_block_id := ChainedBFT.BlockId.contentHash 3 (some 0) 50 2, certified_block_round := 3, certified_block_height := 3, certified_parent_round := 2, ledger_info := { consensus_block_id := some (ChainedBFT.BlockId.contentHash 1 (some 0) 50 0), commit_round := 1 }, signatures := [{ signer := 0, signed_ledger_info := { consensus_block_id := some (ChainedBFT.BlockId.contentHash 1 (some 0) 50 0), commit_round := 1 } }, { signer := 1, signed_ledger_info := { consensus_block_id := some (ChainedBFT.BlockId.contentHash 1 (some 0) 50 0), commit_round := 1 } }] }, highest_commit_cert := { certified_block_id := ChainedBFT.BlockId.contentHash 3 (some 0) 50 2, certified_block_round := 3, certified_block_height := 3, certified_parent_round := 2, ledger_info := { consensus_block_id := some (ChainedBFT.BlockId.contentHash 1 (some 0) 50 0), commit_round := 1 }, signatures := [{ signer := 0, signed_ledger_info := { consensus_block_id := some (ChainedBFT.BlockId.contentHash 1 (some 0) 50 0), commit_round := 1 } }, { signer := 1, signed_ledger_info := { consensus_block_id := some (ChainedBFT.BlockId.contentHash 1 (some 0) 50 0), commit_round := 1 } }] }, current_round := 4, last_voted_round := 3, preferred_round := 1, last_vote := none, pending_votes := [{ author := 0, block_id := ChainedBFT.BlockId.contentHash 1 (some 0) 50 0, round := 1, height := 1, parent_block_id := ChainedBFT.BlockId.genesisId, parent_round := 0, ledger_info := { consensus_block_id := none, commit_round := 0 } }, { author := 1, block_id := ChainedBFT.BlockId.contentHash 1 (some 0) 50 0, round := 1, height := 1, parent_block_id := ChainedBFT.BlockId.genesisId, parent_round := 0, ledger_info := { consensus_block_id := none, commit_round := 0 } }, { author := 2, block_id := ChainedBFT.BlockId.contentHash 1 (some 0) 50 0, round := 1, height := 1, parent_block_id := ChainedBFT.BlockId.genesisId, parent_round := 0, ledger_info := { consensus_block_id := none, commit_round := 0 } }, { author := 0, block_id := ChainedBFT.BlockId.contentHash 2 (some 0) 50 1, round := 2, height := 2, parent_block_id := ChainedBFT.BlockId.contentHash 1 (some 0) 50 0, parent_round := 1, ledger_info := { consensus_block_id := some (ChainedBFT.BlockId.genesisId), commit_round := 0 } }, { author := 1, block_id := ChainedBFT.BlockId.contentHash 2 (some 0) 50 1, round := 2, height := 2, parent_block_id := ChainedBFT.BlockId.contentHash 1 (some 0) 50 0, parent_round := 1, ledger_info := { consensus_block_id := some (ChainedBFT.BlockId.genesisId), commit_round := 0 } }, { author := 2, block_id := ChainedBFT.BlockId.contentHash 2 (some 0) 50 1, round := 2, height := 2, parent_block_id := ChainedBFT.BlockId.contentHash 1 (some 0) 50 0, parent_round := 1, ledger_info := { consensus_block_id := some (ChainedBFT.BlockId.genesisId), commit_round := 0 } }, { author := 0, block_id := ChainedBFT.BlockId.contentHash 3 (some 0) 50 2, round := 3, height := 3, parent_block_id := ChainedBFT.BlockId.contentHash 2 (some 0) 50 1, parent_round := 2, ledger_info := { consensus_block_id := some (ChainedBFT.BlockId.contentHash 1 (some 0) 50 0), commit_round := 1 } }, { author := 1, block_id := ChainedBFT.BlockId.contentHash 3 (some 0) 50 2, round := 3, height := 3, parent_block_id := ChainedBFT.BlockId.contentHash 2 (some 0) 50 1, parent_round := 2, ledger_info := { consensus_block_id := some (ChainedBFT.BlockId.contentHash 1 (some 0) 50 0), commit_round := 1 } }, { author := 2, block_id := ChainedBFT.BlockId.contentHash 3 (some 0) 50 2, round := 3, height := 3, parent_block_id := ChainedBFT.BlockId.contentHash 2 (some 0) 50 1, parent_round := 2, ledger_info := { consensus_block_id := some (ChainedBFT.BlockId.contentHash 1 (some 0) 50 0), commit_round := 1 } }], pending_timeouts := [], highest_tc_round := 0, pending_secondary := none, pending_fetch := none, commits := [{ ledger_info := { consensus_block_id := some (ChainedBFT.BlockId.contentHash 1 (some 0) 50 0), commit_round := 1 }, signatures := [{ signer := 0, signed_ledger_info := { consensus_block_id := some (ChainedBFT.BlockId.contentHash 1 (some 0) 50 0), commit_round := 1 } }, { signer := 1, signed_ledger_info := { consensus_block_id := some (ChainedBFT.BlockId.contentHash 1 (some 0) 50 0), commit_round := 1 } }] }], committed_txns := 50 }, { author := 1, blocks := [{ id := ChainedBFT.BlockId.contentHash 1 (some 0) 50 0, round := 1, height := 1, parent_id := ChainedBFT.BlockId.genesisId, author := some 0, payload := 50, quorum_cert := { certified_block_id := ChainedBFT.BlockId.genesisId, certified_block_round := 0, certified_block_height := 0, certified_parent_round := 0, ledger_info := { consensus_block_id := some (ChainedBFT.BlockId.genesisId), commit_round := 0 }, signatures := [] } }, { id := ChainedBFT.BlockId.contentHash 2 (some 0) 50 1, round := 2, height := 2, parent_id := ChainedBFT.BlockId.contentHash 1 (some 0) 50 0, author := some 0, payload := 50, quorum_cert := { certified_block_id := ChainedBFT.BlockId.contentHash 1 (some 0) 50 0, certified_block_round := 1, certified_block_height := 1, certified_parent_round := 0, ledger_info := { consensus_block_id := none, commit_round := 0 }, signatures := [{ signer := 0, signed_ledger_info := { consensus_block_id := none, commit_round := 0 } }, { signer := 1, signed_ledger_info := { consensus_block_id := none, commit_round := 0 } }] } }, { id := ChainedBFT.BlockId.contentHash 3 (some 0) 50 2, round := 3, height := 3, parent_id := ChainedBFT.BlockId.contentHash 2 (some 0) 50 1, author := some 0, payload := 50, quorum_cert := { certified_block_id := ChainedBFT.BlockId.contentHash 2 (some 0) 50 1, certified_block_round := 2, certified_block_height := 2, certified_parent_round := 1, ledger_info := { consensus_block_id := some (ChainedBFT.BlockId.genesisId), commit_round := 0 }, signatures := [{ signer := 0, signed_ledger_info := { consensus_block_id := some (ChainedBFT.BlockId.genesisId), commit_round := 0 } }, { signer := 1, signed_ledger_info := { consensus_block_id := some (ChainedBFT.BlockId.genesisId), commit_round := 0 } }] } }], root_id := ChainedBFT.BlockId.contentHash 1 (some 0) 50 0, highest_quorum_cert := { certified_block_id := ChainedBFT.BlockId.contentHash 3 (some 0) 50 2, certified_block_round := 3, certified_block_height := 3, certified_parent_round := 2, ledger_info := { consensus_block_id := some (ChainedBFT.BlockId.contentHash 1 (some 0) 50 0), commit_round := 1 }, signatures := [{ signer := 1, signed_ledger_info := { consensus_block_id := some (ChainedBFT.BlockId.contentHash 1 (some 0) 50 0), commit_round := 1 } }, { signer := 2, signed_ledger_info := { consensus_block_id := some (ChainedBFT.BlockId.contentHash 1 (some 0) 50 0), commit_round := 1 } }] }, highest_commit_cert := { certified_block_id := ChainedBFT.BlockId.contentHash 3 (some 0) 50 2, certified_block_round := 3, certified_block_height := 3, certified_parent_round := 2, ledger_info := { consensus_block_id := some (ChainedBFT.BlockId.contentHash 1 (some 0) 50 0), commit_round := 1 }, signatures := [{ signer := 1, signed_ledger_info := { consensus_block_id := some (ChainedBFT.BlockId.contentHash 1 (some 0) 50 0), commit_round := 1 } }, { signer := 2, signed_ledger_info := { consensus_block_id := some (ChainedBFT.BlockId.contentHash 1 (some 0) 50 0), commit_round := 1 } }] }, current_round := 4, last_voted_round := 3, preferred_round := 1, last_vote := none, pending_votes := [{ author := 1, block_id := ChainedBFT.BlockId.contentHash 3 (some 0) 50 2, round := 3, height := 3, parent_block_id := ChainedBFT.BlockId.contentHash 2 (some 0) 50 1, parent_round := 2, ledger_info := { consensus_block_id := some (ChainedBFT.BlockId.contentHash 1 (some 0) 50 0), commit_round := 1 } }, { author := 2, block_id := ChainedBFT.BlockId.contentHash 3 (some 0) 50 2, round := 3, height := 3, parent_block_id := ChainedBFT.BlockId.contentHash 2 (some 0) 50 1, parent_round := 2, ledger_info := { consensus_block_id := some (ChainedBFT.BlockId.contentHash 1 (some 0) 50 0), commit_round := 1 } }], pending_timeouts := [(3, 1), (3, 2)], highest_tc_round := 3, pending_secondary := none, pending_fetch := none, commits := [{ ledger_info := { consensus_block_id := some (ChainedBFT.BlockId.contentHash 1 (some 0) 50 0), commit_round := 1 }, signatures := [{ signer := 1, signed_ledger_info := { consensus_block_id := some (ChainedBFT.BlockId.contentHash 1 (some 0) 50 0), commit_round := 1 } }, { signer := 2, signed_ledger_info := { consensus_block_id := some (ChainedBFT.BlockId.contentHash 1 (some 0) 50 0), commit_round := 1 } }] }], committed_txns := 50 }, { author := 2, blocks := [{ id := ChainedBFT.BlockId.contentHash 1 (some 0) 50 0, round := 1, height := 1, parent_id := ChainedBFT.BlockId.genesisId, author := some 0, payload := 50, quorum_cert := { certified_block_id := ChainedBFT.BlockId.genesisId, certified_block_round := 0, certified_block_height := 0, certified_parent_round := 0, ledger_info := { consensus_block_id := some (ChainedBFT.BlockId.genesisId), commit_round := 0 }, signatures := [] } }, { id := ChainedBFT.BlockId.contentHash 2 (some 0) 50 1, round := 2, height := 2, parent_id := ChainedBFT.BlockId.contentHash 1 (some 0) 50 0, author := some 0, payload := 50, quorum_cert := { certified_block_id := ChainedBFT.BlockId.contentHash 1 (some 0) 50 0, certified_block_round := 1, certified_block_height := 1, certified_parent_round := 0, ledger_info := { consensus_block_id := none, commit_round := 0 }, signatures := [{ signer := 0, signed_ledger_info := { consensus_block_id := none, commit_round := 0 } }, { signer := 1, signed_ledger_info := { consensus_block_id := none, commit_round := 0 } }] } }, { id := ChainedBFT.BlockId.contentHash 3 (some 0) 50 2, round := 3, height := 3, parent_id := ChainedBFT.BlockId.contentHash 2 (some 0) 50 1, author := some 0, payload := 50, quorum_cert := { certified_block_id := ChainedBFT.BlockId.contentHash 2 (some 0) 50 1, certified_block_round := 2, certified_block_height := 2, certified_parent_round := 1, ledger_info := { consensus_block_id := some (ChainedBFT.BlockId.genesisId), commit_round := 0 }, signatures := [{ signer := 0, signed_ledger_info := { consensus_block_id := some (ChainedBFT.BlockId.genesisId), commit_round := 0 } }, { signer := 1, signed_ledger_info := { consensus_block_id := some (ChainedBFT.BlockId.genesisId), commit_round := 0 } }] } }], root_id := ChainedBFT.BlockId.contentHash 1 (some 0) 50 0, highest_quorum_cert := { certified_block_id := ChainedBFT.BlockId.contentHash 3 (some 0) 50 2, certified_block_round := 3, certified_block_height := 3, certified_parent_round := 2, ledger_info := { consensus_block_id := some (ChainedBFT.BlockId.contentHash 1 (some 0) 50 0), commit_round := 1 }, signatures := [{ signer := 2, signed_ledger_info := { consensus_block_id := some (ChainedBFT.BlockId.contentHash 1 (some 0) 50 0), commit_round := 1 } }, { signer := 1, signed_ledger_info := { consensus_block_id := some (ChainedBFT.BlockId.contentHash 1 (some 0) 50 0), commit_round := 1 } }] }, highest_commit_cert := { certified_block_id := ChainedBFT.BlockId.contentHash 3 (some 0) 50 2, certified_block_round := 3, certified_block_height := 3, certified_parent_round := 2, ledger_info := { consensus_block_id := some (ChainedBFT.BlockId.contentHash 1 (some 0) 50 0), commit_round := 1 }, signatures := [{ signer := 2, signed_ledger_info := { consensus_block_id := some (ChainedBFT.BlockId.contentHash 1 (some 0) 50 0), commit_round := 1 } }, { signer := 1, signed_ledger_info := { consensus_block_id := some (ChainedBFT.BlockId.contentHash 1 (some 0) 50 0), commit_round := 1 } }] }, current_round := 4, last_voted_round := 3, preferred_round := 1, last_vote := none, pending_votes := [{ author := 2, block_id := ChainedBFT.BlockId.contentHash 3 (some 0) 50 2, round := 3, height := 3, parent_block_id := ChainedBFT.BlockId.contentHash 2 (some 0) 50 1, parent_round := 2, ledger_info := { consensus_block_id := some (ChainedBFT.BlockId.contentHash 1 (some 0) 50 0), commit_round := 1 } }, { author := 1, block_id := ChainedBFT.BlockId.contentHash 3 (some 0) 50 2, round := 3, height := 3, parent_block_id := ChainedBFT.BlockId.contentHash 2 (some 0) 50 1, parent_round := 2, ledger_info := { consensus_block_id := some (ChainedBFT.BlockId.contentHash 1 (some 0) 50 0), commit_round := 1 } }], pending_timeouts := [(3, 2), (3, 1)], highest_tc_round := 3, pending_secondary := none, pending_fetch := none, commits := [{ ledger_info := { consensus_block_id := some (ChainedBFT.BlockId.contentHash 1 (some 0) 50 0), commit_round := 1 }, signatures := [{ signer := 2, signed_ledger_info := { consensus_block_id := some (ChainedBFT.BlockId.contentHash 1 (some 0) 50 0), commit_round := 1 } }, { signer := 1, signed_ledger_info := { consensus_block_id := some (ChainedBFT.BlockId.contentHash 1 (some 0) 50 0), commit_round := 1 } }] }], committed_txns := 50 }], [(0, 0, ChainedBFT.Msg.proposal { id := ChainedBFT.BlockId.contentHash 4 (some 0) 50 3, round := 4, height := 4, parent_id := ChainedBFT.BlockId.contentHash 3 (some 0) 50 2, author := some 0, payload := 50, quorum_cert := { certified_block_id := ChainedBFT.BlockId.contentHash 3 (some 0) 50 2, certified_block_round := 3, certified_block_height := 3, certified_parent_round := 2, ledger_info := { consensus_block_id := some (ChainedBFT.BlockId.contentHash 1 (some 0) 50 0), commit_round := 1 }, signatures := [{ signer := 0, signed_ledger_info := { consensus_block_id := some (ChainedBFT.BlockId.contentHash 1 (some 0) 50 0), commit_round := 1 } }, { signer := 1, signed_ledger_info := { consensus_block_id := some (ChainedBFT.BlockId.contentHash 1 (some 0) 50 0), commit_round := 1 } }] } } { highest_quorum_cert := { certified_block_id := ChainedBFT.BlockId.contentHash 3 (some 0) 50 2, certified_block_round := 3, certified_block_height := 3, certified_parent_round := 2, ledger_info := { consensus_block_id := some (ChainedBFT.BlockId.contentHash 1 (some 0) 50 0), commit_round := 1 }, signatures := [{ signer := 0, signed_ledger_info := { consensus_block_id := some (ChainedBFT.BlockId.contentHash 1 (some 0) 50 0), commit_round := 1 } }, { signer := 1, signed_ledger_info := { consensus_block_id := some (ChainedBFT.BlockId.contentHash 1 (some 0) 50 0), commit_round := 1 } }] }, highest_commit_cert := { certified_block_id := ChainedBFT.BlockId.contentHash 3 (some 0) 50 2, certified_block_round := 3, certified_block_height := 3, certified_parent_round := 2, ledger_info := { consensus_block_id := some (ChainedBFT.BlockId.contentHash 1 (some 0) 50 0), commit_round := 1 }, signatures := [{ signer := 0, signed_ledger_info := { consensus_block_id := some (ChainedBFT.BlockId.contentHash 1 (some 0) 50 0), commit_round := 1 } }, { signer := 1, signed_ledger_info := { consensus_block_id := some (ChainedBFT.BlockId.contentHash 1 (some 0) 50 0), commit_round := 1 } }] } }), (1, 0, ChainedBFT.Msg.timeout { author := 1, round := 3, piggyback_vote := some { author := 1, block_id := ChainedBFT.BlockId.contentHash 3 (some 0) 50 2, round := 3, height := 3, parent_block_id := ChainedBFT.BlockId.contentHash 2 (some 0) 50 1, parent_round := 2, ledger_info := { consensus_block_id := some (ChainedBFT.BlockId.contentHash 1 (some 0) 50 0), commit_round := 1 } }, sync_info := { highest_quorum_cert := { certified_block_id := ChainedBFT.BlockId.contentHash 2 (some 0) 50 1, certified_block_round := 2, certified_block_height := 2, certified_parent_round := 1, ledger_info := { consensus_block_id := some (ChainedBFT.BlockId.genesisId), commit_round := 0 }, signatures := [{ signer := 0, signed_ledger_info := { consensus_block_id := some (ChainedBFT.BlockId.genesisId), commit_round := 0 } }, { signer := 1, signed_ledger_info := { consensus_block_id := some (ChainedBFT.BlockId.genesisId), commit_round := 0 } }] }, highest_commit_cert := { certified_block_id := ChainedBFT.BlockId.genesisId, certified_block_round := 0, certified_block_height := 0, certified_parent_round := 0, ledger_info := { consensus_block_id := some (ChainedBFT.BlockId.genesisId), commit_round := 0 }, signatures := [] } } }), (2, 0, ChainedBFT.Msg.timeout { author := 2, round := 3, piggyback_vote := some { author := 2, block_id := ChainedBFT.BlockId.contentHash 3 (some 0) 50 2, round := 3, height := 3, parent_block_id := ChainedBFT.BlockId.contentHash 2 (some 0) 50 1, parent_round := 2, ledger_info := { consensus_block_id := some (ChainedBFT.BlockId.contentHash 1 (some 0) 50 0), commit_round := 1 } }, sync_info := { highest_quorum_cert := { certified_block_id := ChainedBFT.BlockId.contentHash 2 (some 0) 50 1, certified_block_round := 2, certified_block_height := 2, certified_parent_round := 1, ledger_info := { consensus_block_id := some (ChainedBFT.BlockId.genesisId), commit_round := 0 }, signatures := [{ signer := 0, signed_ledger_info := { consensus_block_id := some (ChainedBFT.BlockId.genesisId), commit_round := 0 } }, { signer := 1, signed_ledger_info := { consensus_block_id := some (ChainedBFT.BlockId.genesisId), commit_round := 0 } }] }, highest_commit_cert := { certified_block_id := ChainedBFT.BlockId.genesisId, certified_block_round := 0, certified_block_height := 0, certified_parent_round := 0, ledger_info := { consensus_block_id := some (ChainedBFT.BlockId.genesisId), commit_round := 0 }, signatures := [] } } })], [(0, 2), (0, 1)], [ChainedBFT.MsgDigest.proposalD { round := 1, height := 1, id := ChainedBFT.BlockId.contentHash 1 (some 0) 50 0, parent_id := ChainedBFT.BlockId.genesisId, qc_certified_block_id := ChainedBFT.BlockId.genesisId }, ChainedBFT.MsgDigest.proposalD { round := 1, height := 1, id := ChainedBFT.BlockId.contentHash 1 (some 0) 50 0, parent_id := ChainedBFT.BlockId.genesisId, qc_certified_block_id := ChainedBFT.BlockId.genesisId }, ChainedBFT.MsgDigest.voteD { round := 1, block_id := ChainedBFT.BlockId.contentHash 1 (some 0) 50 0 }, ChainedBFT.MsgDigest.voteD { round := 1, block_id := ChainedBFT.BlockId.contentHash 1 (some 0) 50 0 }, ChainedBFT.MsgDigest.proposalD { round := 2, height := 2, id := ChainedBFT.BlockId.contentHash 2 (some 0) 50 1, parent_id := ChainedBFT.BlockId.contentHash 1 (some 0) 50 0, qc_certified_block_id := ChainedBFT.BlockId.contentHash 1 (some 0) 50 0 }, ChainedBFT.MsgDigest.proposalD { round := 2, height := 2, id := ChainedBFT.BlockId.contentHash 2 (some 0) 50 1, parent_id := ChainedBFT.BlockId.contentHash 1 (some 0) 50 0, qc_certified_block_id := ChainedBFT.BlockId.contentHash 1 (some 0) 50 0 }, ChainedBFT.MsgDigest.voteD { round := 2, block_id := ChainedBFT.BlockId.contentHash 2 (some 0) 50 1 }, ChainedBFT.MsgDigest.voteD { round := 2, block_id := ChainedBFT.BlockId.contentHash 2 (some 0) 50 1 }, ChainedBFT.MsgDigest.proposalD { round := 3, height := 3, id := ChainedBFT.BlockId.contentHash 3 (some 0) 50 2, parent_id := ChainedBFT.BlockId.contentHash 2 (some 0) 50 1, qc_certified_block_id := ChainedBFT.BlockId.contentHash 2 (some 0) 50 1 }, ChainedBFT.MsgDigest.proposalD { round := 3, height := 3, id := ChainedBFT.BlockId.contentHash 3 (some 0) 50 2, parent_id := ChainedBFT.BlockId.contentHash 2 (some 0) 50 1, qc_certified_block_id := ChainedBFT.BlockId.contentHash 2 (some 0) 50 1 }, ChainedBFT.MsgDigest.voteD { round := 3, block_id := ChainedBFT.BlockId.contentHash 3 (some 0) 50 2 }, ChainedBFT.MsgDigest.voteD { round := 3, block_id := ChainedBFT.BlockId.contentHash 3 (some 0) 50 2 }, ChainedBFT.MsgDigest.timeoutD { round := 3, piggyback_block_id := some (ChainedBFT.BlockId.contentHash 3 (some 0) 50 2) }, ChainedBFT.MsgDigest.timeoutD { round := 3, piggyback_block_id := some (ChainedBFT.BlockId.contentHash 3 (some 0) 50 2) }]⟩

/-- Checkpoint of the simulated cluster (see the scenario schedule definitions). -/
def c6w1 : World :=
⟨{ num_nodes := 3, quorum_size := 2, proposer_type := ChainedBFT.ConsensusProposerType.FixedProposer, contiguous_rounds := 2, max_block_size := 50 }, [{ author := 0, blocks := [{ id := ChainedBFT.BlockId.genesisId, round := 0, height := 0, parent_id := ChainedBFT.BlockId.genesisId, author := none, payload := 0, quorum_cert := { certified_block_id := ChainedBFT.BlockId.genesisId, certified_block_round := 0, certified_block_height := 0, certified_parent_round := 0, ledger_info := { consensus_block_id := some (ChainedBFT.BlockId.genesisId), commit_round := 0 }, signatures := [] } }, { id := ChainedBFT.BlockId.contentHash 1 (some 0) 50 0, round := 1, height := 1, parent_id := ChainedBFT.BlockId.genesisId, author := some 0, payload := 50, quorum_cert := { certified_block_id := ChainedBFT.BlockId.genesisId, certified_block_round := 0, certified_block_height := 0, certified_parent_round := 0, ledger_info := { consensus_block_id := some (ChainedBFT.BlockId.genesisId), commit_round := 0 }, signatures := [] } }, { id := ChainedBFT.BlockId.contentHash 2 (some 0) 50 1, round := 2, height := 2, parent_id := ChainedBFT.BlockId.contentHash 1 (some 0) 50 0, author := some 0, payload := 50, quorum_cert := { certified_block_id := ChainedBFT.BlockId.contentHash 1 (some 0) 50 0, certified_block_round := 1, certified_block_height := 1, certified_parent_round := 0, ledger_info := { consensus_block_id := none, commit_round := 0 }, signatures := [{ signer := 0, signed_ledger_info := { consensus_block_id := none, commit_round := 0 } }, { signer := 1, signed_ledger_info := { consensus_block_id := none, commit_round := 0 } }] } }], root_id := ChainedBFT.BlockId.genesisId, highest_quorum_cert := { certified_block_id := ChainedBFT.BlockId.contentHash 2 (some 0) 50 1, certified_block_round := 2, certified_block_height := 2, certified_parent_round := 1, ledger_info := { consensus_block_id := some (ChainedBFT.BlockId.genesisId), commit_round := 0 }, signatures := [{ signer := 0, signed_ledger_info := { consensus_block_id := some (ChainedBFT.BlockId.genesisId), commit_round := 0 } }, { signer := 1, signed_ledger_info := { consensus_block_id := some (ChainedBFT.BlockId.genesisId), commit_round := 0 } }] }, highest_commit_cert := { certified_block_id := ChainedBFT.BlockId.genesisId, certified_block_round := 0, certified_block_height := 0, certified_parent_round := 0, ledger_info := { consensus_block_id := some (ChainedBFT.BlockId.genesisId), commit_round := 0 }, signatures := [] }, current_round := 3, last_voted_round := 2, preferred_round := 0, last_vote := none, pending_votes := [{ author := 0, block_id := ChainedBFT.BlockId.contentHash 1 (some 0) 50 0, round := 1, height := 1, parent_block_id := ChainedBFT.BlockId.genesisId, parent_round := 0, ledger_info := { consensus_block_id := none, commit_round := 0 } }, { author := 1, block_id := ChainedBFT.BlockId.contentHash 1 (some 0) 50 0, round := 1, height := 1, parent_block_id := ChainedBFT.BlockId.genesisId, parent_round := 0, ledger_info := { consensus_block_id := none, commit_round := 0 } }, { author := 0, block_id := ChainedBFT.BlockId.contentHash 2 (some 0) 50 1, round := 2, height := 2, parent_block_id := ChainedBFT.BlockId.contentHash 1 (some 0) 50 0, parent_round := 1, ledger_info := { consensus_block_id := some (ChainedBFT.BlockId.genesisId), commit_round := 0 } }, { author := 1, block_id := ChainedBFT.BlockId.contentHash 2 (some 0) 50 1, round := 2, height := 2, parent_block_id := ChainedBFT.BlockId.contentHash 1 (some 0) 50 0, parent_round := 1, ledger_info := { consensus_block_id := some (ChainedBFT.BlockId.genesisId), commit_round := 0 } }], pending_timeouts := [], highest_tc_round := 0, pending_secondary := none, pending_fetch := none, commits := [], committed_txns := 0 }, { author := 1, blocks := [{ id := ChainedBFT.BlockId.genesisId, round := 0, height := 0, parent_id := ChainedBFT.BlockId.genesisId, author := none, payload := 0, quorum_cert := { certified_block_id := ChainedBFT.BlockId.genesisId, certified_block_round := 0, certified_block_height := 0, certified_parent_round := 0, ledger_info := { consensus_block_id := some (ChainedBFT.BlockId.genesisId), commit_round := 0 }, signatures := [] } }, { id := ChainedBFT.BlockId.contentHash 1 (some 0) 50 0, round := 1, height := 1, parent_id := ChainedBFT.BlockId.genesisId, author := some 0, payload := 50, quorum_cert := { certified_block_id := ChainedBFT.BlockId.genesisId, certified_block_round := 0, certified_block_height := 0, certified_parent_round := 0, ledger_info := { consensus_block_id := some (ChainedBFT.BlockId.genesisId), commit_round := 0 }, signatures := [] } }, { id := ChainedBFT.BlockId.contentHash 2 (some 0) 50 1, round := 2, height := 2, parent_id := ChainedBFT.BlockId.contentHash 1 (some 0) 50 0, author := some 0, payload := 50, quorum_cert := { certified_block_id := ChainedBFT.BlockId.contentHash 1 (some 0) 50 0, certified_block_round := 1, certified_block_height := 1, certified_parent_round := 0, ledger_info := { consensus_block_id := none, commit_round := 0 }, signatures := [{ signer := 0, signed_ledger_info := { consensus_block_id := none, commit_round := 0 } }, { signer := 1, signed_ledger_info := { consensus_block_id := none, commit_round := 0 } }] } }], root_id := ChainedBFT.BlockId.genesisId, highest_quorum_cert := { certified_block_id := ChainedBFT.BlockId.contentHash 1 (some 0) 50 0, certified_block_round := 1, certified_block_height := 1, certified_parent_round := 0, ledger_info := { consensus_block_id := none, commit_round := 0 }, signatures := [{ signer := 0, signed_ledger_info := { consensus_block_id := none, commit_round := 0 } }, { signer := 1, signed_ledger_info := { consensus_block_id := none, commit_round := 0 } }] }, highest_commit_cert := { certified_block_id := ChainedBFT.BlockId.genesisId, certified_block_round := 0, certified_block_height := 0, certified_parent_round := 0, ledger_info := { consensus_block_id := some (ChainedBFT.BlockId.genesisId), commit_round := 0 }, signatures := [] }, current_round := 2, last_voted_round := 2, preferred_round := 0, last_vote := some { author := 1, block_id := ChainedBFT.BlockId.contentHash 2 (some 0) 50 1, round := 2, height := 2, parent_block_id := ChainedBFT.BlockId.contentHash 1 (some 0) 50 0, parent_round := 1, ledger_info := { consensus_block_id := some (ChainedBFT.BlockId.genesisId), commit_round := 0 } }, pending_votes := [], pending_timeouts := [], highest_tc_round := 0, pending_secondary := none, pending_fetch := none, commits := [], committed_txns := 0 }, { author := 2, blocks := [{ id := ChainedBFT.BlockId.genesisId, round := 0, height := 0, parent_id := ChainedBFT.BlockId.genesisId, author := none, payload := 0, quorum_cert := { certified_block_id := ChainedBFT.BlockId.genesisId, certified_block_round := 0, certified_block_height := 0, certified_parent_round := 0, ledger_info := { consensus_block_id := some (ChainedBFT.BlockId.genesisId), commit_round := 0 }, signatures := [] } }], root_id := ChainedBFT.BlockId.genesisId, highest_quorum_cert := { certified_block_id := ChainedBFT.BlockId.genesisId, certified_block_round := 0, certified_block_height := 0, certified_parent_round := 0, ledger_info := { consensus_block_id := some (ChainedBFT.BlockId.genesisId), commit_round := 0 }, signatures := [] }, highest_commit_cert := { certified_block_id := ChainedBFT.BlockId.genesisId, certified_block_round := 0, certified_block_height := 0, certified_parent_round := 0, ledger_info := { consensus_block_id := some (ChainedBFT.BlockId.genesisId), commit_round := 0 }, signatures := [] }, current_round := 1, last_voted_round := 0, preferred_round := 0, last_vote := none, pending_votes := [], pending_timeouts := [], highest_tc_round := 0, pending_secondary := none, pending_fetch := none, commits := [], committed_txns := 0 }], [(0, 0, ChainedBFT.Msg.proposal { id := ChainedBFT.BlockId.contentHash 3 (some 0) 50 2, round := 3, height := 3, parent_id := ChainedBFT.BlockId.contentHash 2 (some 0) 50 1, author := some 0, payload := 50, quorum_cert := { certified_block_id := ChainedBFT.BlockId.contentHash 2 (some 0) 50 1, certified_block_round := 2, certified_block_height := 2, certified_parent_round := 1, ledger_info := { consensus_block_id := some (ChainedBFT.BlockId.genesisId), commit_round := 0 }, signatures := [{ signer := 0, signed_ledger_info := { consensus_block_id := some (ChainedBFT.BlockId.genesisId), commit_round := 0 } }, { signer := 1, signed_ledger_info := { consensus_block_id := some (ChainedBFT.BlockId.genesisId), commit_round := 0 } }] } } { highest_quorum_cert := { certified_block_id := ChainedBFT.BlockId.contentHash 2 (some 0) 50 1, certified_block_round := 2, certified_block_height := 2, certified_parent_round := 1, ledger_info := { consensus_block_id := some (ChainedBFT.BlockId.genesisId), commit_round := 0 }, signatures := [{ signer := 0, signed_ledger_info := { consensus_block_id := some (ChainedBFT.BlockId.genesisId), commit_round := 0 } }, { signer := 1, signed_ledger_info := { consensus_block_id := some (ChainedBFT.BlockId.genesisId), commit_round := 0 } }] }, highest_commit_cert := { certified_block_id := ChainedBFT.BlockId.genesisId, certified_block_round := 0, certified_block_height := 0, certified_parent_round := 0, ledger_info := { consensus_block_id := some (ChainedBFT.BlockId.genesisId), commit_round := 0 }, signatures := [] } }), (0, 1, ChainedBFT.Msg.proposal { id := ChainedBFT.BlockId.contentHash 3 (some 0) 50 2, round := 3, height := 3, parent_id := ChainedBFT.BlockId.contentHash 2 (some 0) 50 1, author := some 0, payload := 50, quorum_cert := { certified_block_id := ChainedBFT.BlockId.contentHash 2 (some 0) 50 1, certified_block_round := 2, certified_block_height := 2, certified_parent_round := 1, ledger_info := { consensus_block_id := some (ChainedBFT.BlockId.genesisId), commit_round := 0 }, signatures := [{ signer := 0, signed_ledger_info := { consensus_block_id := some (ChainedBFT.BlockId.genesisId), commit_round := 0 } }, { signer := 1, signed_ledger_info := { consensus_block_id := some (ChainedBFT.BlockId.genesisId), commit_round := 0 } }] } } { highest_quorum_cert := { certified_block_id := ChainedBFT.BlockId.contentHash 2 (some 0) 50 1, certified_block_round := 2, certified_block_height := 2, certified_parent_round := 1, ledger_info := { consensus_block_id := some (ChainedBFT.BlockId.genesisId), commit_round := 0 }, signatures := [{ signer := 0, signed_ledger_info := { consensus_block_id := some (ChainedBFT.BlockId.genesisId), commit_round := 0 } }, { signer := 1, signed_ledger_info := { consensus_block_id := some (ChainedBFT.BlockId.genesisId), commit_round := 0 } }] }, highest_commit_cert := { certified_block_id := ChainedBFT.BlockId.genesisId, certified_block_round := 0, certified_block_height := 0, certified_parent_round := 0, ledger_info := { consensus_block_id := some (ChainedBFT.BlockId.genesisId), commit_round := 0 }, signatures := [] } }), (0, 2, ChainedBFT.Msg.proposal { id := ChainedBFT.BlockId.contentHash 3 (some 0) 50 2, round := 3, height := 3, parent_id := ChainedBFT.BlockId.contentHash 2 (some 0) 50 1, author := some 0, payload := 50, quorum_cert := { certified_block_id := ChainedBFT.BlockId.contentHash 2 (some 0) 50 1, certified_block_round := 2, certified_block_height := 2, certified_parent_round := 1, ledger_info := { consensus_block_id := some (ChainedBFT.BlockId.genesisId), commit_round := 0 }, signatures := [{ signer := 0, signed_ledger_info := { consensus_block_id := some (ChainedBFT.BlockId.genesisId), commit_round := 0 } }, { signer := 1, signed_ledger_info := { consensus_block_id := some (ChainedBFT.BlockId.genesisId), commit_round := 0 } }] } } { highest_quorum_cert := { certified_block_id := ChainedBFT.BlockId.contentHash 2 (some 0) 50 1, certified_block_round := 2, certified_block_height := 2, certified_parent_round := 1, ledger_info := { consensus_block_id := some (ChainedBFT.BlockId.genesisId), commit_round := 0 }, signatures := [{ signer := 0, signed_ledger_info := { consensus_block_id := some (ChainedBFT.BlockId.genesisId), commit_round := 0 } }, { signer := 1, signed_ledger_info := { consensus_block_id := some (ChainedBFT.BlockId.genesisId), commit_round := 0 } }] }, highest_commit_cert := { certified_block_id := ChainedBFT.BlockId.genesisId, certified_block_round := 0, certified_block_height := 0, certified_parent_round := 0, ledger_info := { consensus_block_id := some (ChainedBFT.BlockId.genesisId), commit_round := 0 }, signatures := [] } })], [], [ChainedBFT.MsgDigest.proposalD { round := 1, height := 1, id := ChainedBFT.BlockId.contentHash 1 (some 0) 50 0, parent_id := ChainedBFT.BlockId.genesisId, qc_certified_block_id := ChainedBFT.BlockId.genesisId }, ChainedBFT.MsgDigest.voteD { round := 1, block_id := ChainedBFT.BlockId.contentHash 1 (some 0) 50 0 }, ChainedBFT.MsgDigest.proposalD { round := 2, height := 2, id := ChainedBFT.BlockId.contentHash 2 (some 0) 50 1, parent_id := ChainedBFT.BlockId.contentHash 1 (some 0) 50 0, qc_certified_block_id := ChainedBFT.BlockId.contentHash 1 (some 0) 50 0 }, ChainedBFT.MsgDigest.voteD { round := 2, block_id := ChainedBFT.BlockId.contentHash 2 (some 0) 50 1 }]⟩

/-- Checkpoint of the simulated cluster (see the scenario schedule definitions). -/
def c7w1 : World :=
⟨{ num_nodes := 3, quorum_size := 2, proposer_type := ChainedBFT.ConsensusProposerType.FixedProposer, contiguous_rounds := 2, max_block_size := 50 }, [{ author := 0, blocks := [{ id := ChainedBFT.BlockId.genesisId, round := 0, height := 0, parent_id := ChainedBFT.BlockId.genesisId, author := none, payload := 0, quorum_cert := { certified_block_id := ChainedBFT.BlockId.genesisId, certified_block_round := 0, certified_block_height := 0, certified_parent_round := 0, ledger_info := { consensus_block_id := some (ChainedBFT.BlockId.genesisId), commit_round := 0 }, signatures := [] } }, { id := ChainedBFT.BlockId.contentHash 1 (some 0) 50 0, round := 1, height := 1, parent_id := ChainedBFT.BlockId.genesisId, author := some 0, payload := 50, quorum_cert := { certified_block_id := ChainedBFT.BlockId.genesisId, certified_block_round := 0, certified_block_height := 0, certified_parent_round := 0, ledger_info := { consensus_block_id := some (ChainedBFT.BlockId.genesisId), commit_round := 0 }, signatures := [] } }, { id := ChainedBFT.BlockId.contentHash 2 (some 0) 50 1, round := 2, height := 2, parent_id := ChainedBFT.BlockId.contentHash 1 (some 0) 50 0, author := some 0, payload := 50, quorum_cert := { certified_block_id := ChainedBFT.BlockId.contentHash 1 (some 0) 50 0, certified_block_round := 1, certified_block_height := 1, certified_parent_round := 0, ledger_info := { consensus_block_id := none, commit_round := 0 }, signatures := [{ signer := 0, signed_ledger_info := { consensus_block_id := none, commit_round := 0 } }, { signer := 1, signed_ledger_info := { consensus_block_id := none, commit_round := 0 } }] } }], root_id := ChainedBFT.BlockId.genesisId, highest_quorum_cert := { certified_block_id := ChainedBFT.BlockId.contentHash 2 (some 0) 50 1, certified_block_round := 2, certified_block_height := 2, certified_parent_round := 1, ledger_info := { consensus_block_id := some (ChainedBFT.BlockId.genesisId), commit_round := 0 }, signatures := [{ signer := 0, signed_ledger_info := { consensus_block_id := some (ChainedBFT.BlockId.genesisId), commit_round := 0 } }, { signer := 1, signed_ledger_info := { consensus_block_id := some (ChainedBFT.BlockId.genesisId), commit_round := 0 } }] }, highest_commit_cert := { certified_block_id := ChainedBFT.BlockId.genesisId, certified_block_round := 0, certified_block_height := 0, certified_parent_round := 0, ledger_info := { consensus_block_id := some (ChainedBFT.BlockId.genesisId), commit_round := 0 }, signatures := [] }, current_round := 3, last_voted_round := 2, preferred_round := 0, last_vote := none, pending_votes := [{ author := 0, block_id := ChainedBFT.BlockId.contentHash 1 (some 0) 50 0, round := 1, height := 1, parent_block_id := ChainedBFT.BlockId.genesisId, parent_round := 0, ledger_info := { consensus_block_id := none, commit_round := 0 } }, { author := 1, block_id := ChainedBFT.BlockId.contentHash 1 (some 0) 50 0, round := 1, height := 1, parent_block_id := ChainedBFT.BlockId.genesisId, parent_round := 0, ledger_info := { consensus_block_id := none, commit_round := 0 } }, { author := 0, block_id := ChainedBFT.BlockId.contentHash 2 (some 0) 50 1, round := 2, height := 2, parent_block_id := ChainedBFT.BlockId.contentHash 1 (some 0) 50 0, parent_round := 1, ledger_info := { consensus_block_id := some (ChainedBFT.BlockId.genesisId), commit_round := 0 } }, { author := 1, block_id := ChainedBFT.BlockId.contentHash 2 (some 0) 50 1, round := 2, height := 2, parent_block_id := ChainedBFT.BlockId.contentHash 1 (some 0) 50 0, parent_round := 1, ledger_info := { consensus_block_id := some (ChainedBFT.BlockId.genesisId), commit_round := 0 } }], pending_timeouts := [], highest_tc_round := 0, pending_secondary := none, pending_fetch := none, commits := [], committed_txns := 0 }, { author := 1, blocks := [{ id := ChainedBFT.BlockId.genesisId, round := 0, height := 0, parent_id := ChainedBFT.BlockId.genesisId, author := none, payload := 0, quorum_cert := { certified_block_id := ChainedBFT.BlockId.genesisId, certified_block_round := 0, certified_block_height := 0, certified_parent_round := 0, ledger_info := { consensus_block_id := some (ChainedBFT.BlockId.genesisId), commit_round := 0 }, signatures := [] } }, { id := ChainedBFT.BlockId.contentHash 1 (some 0) 50 0, round := 1, height := 1, parent_id := ChainedBFT.BlockId.genesisId, author := some 0, payload := 50, quorum_cert := { certified_block_id := ChainedBFT.BlockId.genesisId, certified_block_round := 0, certified_block_height := 0, certified_parent_round := 0, ledger_info := { consensus_block_id := some (ChainedBFT.BlockId.genesisId), commit_round := 0 }, signatures := [] } }, { id := ChainedBFT.BlockId.contentHash 2 (some 0) 50 1, round := 2, height := 2, parent_id := ChainedBFT.BlockId.contentHash 1 (some 0) 50 0, author := some 0, payload := 50, quorum_cert := { certified_block_id := ChainedBFT.BlockId.contentHash 1 (some 0) 50 0, certified_block_round := 1, certified_block_height := 1, certified_parent_round := 0, ledger_info := { consensus_block_id := none, commit_round := 0 }, signatures := [{ signer := 0, signed_ledger_info := { consensus_block_id := none, commit_round := 0 } }, { signer := 1, signed_ledger_info := { consensus_block_id := none, commit_round := 0 } }] } }], root_id := ChainedBFT.BlockId.genesisId, highest_quorum_cert := { certified_block_id := ChainedBFT.BlockId.contentHash 1 (some 0) 50 0, certified_block_round := 1, certified_block_height := 1, certified_parent_round := 0, ledger_info := { consensus_block_id := none, commit_round := 0 }, signatures := [{ signer := 0, signed_ledger_info := { consensus_block_id := none, commit_round := 0 } }, { signer := 1, signed_ledger_info := { consensus_block_id := none, commit_round := 0 } }] }, highest_commit_cert := { certified_block_id := ChainedBFT.BlockId.genesisId, certified_block_round := 0, certified_block_height := 0, certified_parent_round := 0, ledger_info := { consensus_block_id := some (ChainedBFT.BlockId.genesisId), commit_round := 0 }, signatures := [] }, current_round := 2, last_voted_round := 2, preferred_round := 0, last_vote := some { author := 1, block_id := ChainedBFT.BlockId.contentHash 2 (some 0) 50 1, round := 2, height := 2, parent_block_id := ChainedBFT.BlockId.contentHash 1 (some 0) 50 0, parent_round := 1, ledger_info := { consensus_block_id := some (ChainedBFT.BlockId.genesisId), commit_round := 0 } }, pending_votes := [], pending_timeouts := [], highest_tc_round := 0, pending_secondary := none, pending_fetch := none, commits := [], committed_txns := 0 }, { author := 2, blocks := [{ id := ChainedBFT.BlockId.genesisId, round := 0, height := 0, parent_id := ChainedBFT.BlockId.genesisId, author := none, payload := 0, quorum_cert := { certified_block_id := ChainedBFT.BlockId.genesisId, certified_block_round := 0, certified_block_height := 0, certified_parent_round := 0, ledger_info := { consensus_block_id := some (ChainedBFT.BlockId.genesisId), commit_round := 0 }, signatures := [] } }], root_id := ChainedBFT.BlockId.genesisId, highest_quorum_cert := { certified_block_id := ChainedBFT.BlockId.genesisId, certified_block_round := 0, certified_block_height := 0, certified_parent_round := 0, ledger_info := { consensus_block_id := some (ChainedBFT.BlockId.genesisId), commit_round := 0 }, signatures := [] }, highest_commit_cert := { certified_block_id := ChainedBFT.BlockId.genesisId, certified_block_round := 0, certified_block_height := 0, certified_parent_round := 0, ledger_info := { consensus_block_id := some (ChainedBFT.BlockId.genesisId), commit_round := 0 }, signatures := [] }, current_round := 1, last_voted_round := 0, preferred_round := 0, last_vote := none, pending_votes := [], pending_timeouts := [], highest_tc_round := 0, pending_secondary := none, pending_fetch := none, commits := [], committed_txns := 0 }], [(0, 0, ChainedBFT.Msg.proposal { id := ChainedBFT.BlockId.contentHash 3 (some 0) 50 2, round := 3, height := 3, parent_id := ChainedBFT.BlockId.contentHash 2 (some 0) 50 1, author := some 0, payload := 50, quorum_cert := { certified_block_id := ChainedBFT.BlockId.contentHash 2 (some 0) 50 1, certified_block_round := 2, certified_block_height := 2, certified_parent_round := 1, ledger_info := { consensus_block_id := some (ChainedBFT.BlockId.genesisId), commit_round := 0 }, signatures := [{ signer := 0, signed_ledger_info := { consensus_block_id := some (ChainedBFT.BlockId.genesisId), commit_round := 0 } }, { signer := 1, signed_ledger_info := { consensus_block_id := some (ChainedBFT.BlockId.genesisId), commit_round := 0 } }] } } { highest_quorum_cert := { certified_block_id := ChainedBFT.BlockId.contentHash 2 (some 0) 50 1, certified_block_round := 2, certified_block_height := 2, certified_parent_round := 1, ledger_info := { consensus_block_id := some (ChainedBFT.BlockId.genesisId), commit_round := 0 }, signatures := [{ signer := 0, signed_ledger_info := { consensus_block_id := some (ChainedBFT.BlockId.genesisId), commit_round := 0 } }, { signer := 1, signed_ledger_info := { consensus_block_id := some (ChainedBFT.BlockId.genesisId), commit_round := 0 } }] }, highest_commit_cert := { certified_block_id := ChainedBFT.BlockId.genesisId, certified_block_round := 0, certified_block_height := 0, certified_parent_round := 0, ledger_info := { consensus_block_id := some (ChainedBFT.BlockId.genesisId), commit_round := 0 }, signatures := [] } }), (0, 1, ChainedBFT.Msg.proposal { id := ChainedBFT.BlockId.contentHash 3 (some 0) 50 2, round := 3, height := 3, parent_id := ChainedBFT.BlockId.contentHash 2 (some 0) 50 1, author := some 0, payload := 50, quorum_cert := { certified_block_id := ChainedBFT.BlockId.contentHash 2 (some 0) 50 1, certified_block_round := 2, certified_block_height := 2, certified_parent_round := 1, ledger_info := { consensus_block_id := some (ChainedBFT.BlockId.genesisId), commit_round := 0 }, signatures := [{ signer := 0, signed_ledger_info := { consensus_block_id := some (ChainedBFT.BlockId.genesisId), commit_round := 0 } }, { signer := 1, signed_ledger_info := { consensus_block_id := some (ChainedBFT.BlockId.genesisId), commit_round := 0 } }] } } { highest_quorum_cert := { certified_block_id := ChainedBFT.BlockId.contentHash 2 (some 0) 50 1, certified_block_round := 2, certified_block_height := 2, certified_parent_round := 1, ledger_info := { consensus_block_id := some (ChainedBFT.BlockId.genesisId), commit_round := 0 }, signatures := [{ signer := 0, signed_ledger_info := { consensus_block_id := some (ChainedBFT.BlockId.genesisId), commit_round := 0 } }, { signer := 1, signed_ledger_info := { consensus_block_id := some (ChainedBFT.BlockId.genesisId), commit_round := 0 } }] }, highest_commit_cert := { certified_block_id := ChainedBFT.BlockId.genesisId, certified_block_round := 0, certified_block_height := 0, certified_parent_round := 0, ledger_info := { consensus_block_id := some (ChainedBFT.BlockId.genesisId), commit_round := 0 }, signatures := [] } })], [(0, 2)], [ChainedBFT.MsgDigest.proposalD { round := 1, height := 1, id := ChainedBFT.BlockId.contentHash 1 (some 0) 50 0, parent_id := ChainedBFT.BlockId.genesisId, qc_certified_block_id := ChainedBFT.BlockId.genesisId }, ChainedBFT.MsgDigest.voteD { round := 1, block_id := ChainedBFT.BlockId.contentHash 1 (some 0) 50 0 }, ChainedBFT.MsgDigest.proposalD { round := 2, height := 2, id := ChainedBFT.BlockId.contentHash 2 (some 0) 50 1, parent_id := ChainedBFT.BlockId.contentHash 1 (some 0) 50 0, qc_certified_block_id := ChainedBFT.BlockId.contentHash 1 (some 0) 50 0 }, ChainedBFT.MsgDigest.voteD { round := 2, block_id := ChainedBFT.BlockId.contentHash 2 (some 0) 50 1 }]⟩

/-- Checkpoint of the simulated cluster (see the scenario schedule definitions). -/
def c7w2 : World :=
⟨{ num_nodes := 3, quorum_size := 2, proposer_type := ChainedBFT.ConsensusProposerType.FixedProposer, contiguous_rounds := 2, max_block_size := 50 }, [{ author := 0, blocks := [{ id := ChainedBFT.BlockId.contentHash 2 (some 0) 50 1, round := 2, height := 2, parent_id := ChainedBFT.BlockId.contentHash 1 (some 0) 50 0, author := some 0, payload := 50, quorum_cert := { certified_block_id := ChainedBFT.BlockId.contentHash 1 (some 0) 50 0, certified_block_round := 1, certified_block_height := 1, certified_parent_round := 0, ledger_info := { consensus_block_id := none, commit_round := 0 }, signatures := [{ signer := 0, signed_ledger_info := { consensus_block_id := none, commit_round := 0 } }, { signer := 1, signed_ledger_info := { consensus_block_id := none, commit_round := 0 } }] } }, { id := ChainedBFT.BlockId.contentHash 3 (some 0) 50 2, round := 3, height := 3, parent_id := ChainedBFT.BlockId.contentHash 2 (some 0) 50 1, author := some 0, payload := 50, quorum_cert := { certified_block_id := ChainedBFT.BlockId.contentHash 2 (some 0) 50 1, certified_block_round := 2, certified_block_height := 2, certified_parent_round := 1, ledger_info := { consensus_block_id := some (ChainedBFT.BlockId.genesisId), commit_round := 0 }, signatures := [{ signer := 0, signed_ledger_info := { consensus_block_id := some (ChainedBFT.BlockId.genesisId), commit_round := 0 } }, { signer := 1, signed_ledger_info := { consensus_block_id := some (ChainedBFT.BlockId.genesisId), commit_round := 0 } }] } }, { id := ChainedBFT.BlockId.contentHash 4 (some 0) 50 3, round := 4, height := 4, parent_id := ChainedBFT.BlockId.contentHash 3 (some 0) 50 2, author := some 0, payload := 50, quorum_cert := { certified_block_id := ChainedBFT.BlockId.contentHash 3 (some 0) 50 2, certified_block_round := 3, certified_block_height := 3, certified_parent_round := 2, ledger_info := { consensus_block_id := some (ChainedBFT.BlockId.contentHash 1 (some 0) 50 0), commit_round := 1 }, signatures := [{ signer := 0, signed_ledger_info := { consensus_block_id := some (ChainedBFT.BlockId.contentHash 1 (some 0) 50 0), commit_round := 1 } }, { signer := 1, signed_ledger_info := { consensus_block_id := some (ChainedBFT.BlockId.contentHash 1 (some 0) 50 0), commit_round := 1 } }] } }], root_id := ChainedBFT.BlockId.contentHash 2 (some 0) 50 1, highest_quorum_cert := { certified_block_id := ChainedBFT.BlockId.contentHash 4 (some 0) 50 3, certified_block_round := 4, certified_block_height := 4, certified_parent_round := 3, ledger_info := { consensus_block_id := some (ChainedBFT.BlockId.contentHash 2 (some 0) 50 1), commit_round := 2 }, signatures := [{ signer := 0, signed_ledger_info := { consensus_block_id := some (ChainedBFT.BlockId.contentHash 2 (some 0) 50 1), commit_round := 2 } }, { signer := 1, signed_ledger_info := { consensus_block_id := some (ChainedBFT.BlockId.contentHash 2 (some 0) 50 1), commit_round := 2 } }] }, highest_commit_cert := { certified_block_id := ChainedBFT.BlockId.contentHash 4 (some 0) 50 3, certified_block_round := 4, certified_block_height := 4, certified_parent_round := 3, ledger_info := { consensus_block_id := some (ChainedBFT.BlockId.contentHash 2 (some 0) 50 1), commit_round := 2 }, signatures := [{ signer := 0, signed_ledger_info := { consensus_block_id := some (ChainedBFT.BlockId.contentHash 2 (some 0) 50 1), commit_round := 2 } }, { signer := 1, signed_ledger_info := { consensus_block_id := some (ChainedBFT.BlockId.contentHash 2 (some 0) 50 1), commit_round := 2 } }] }, current_round := 5, last_voted_round := 4, preferred_round := 2, last_vote := none, pending_votes := [{ author := 0, block_id := ChainedBFT.BlockId.contentHash 1 (some 0) 50 0, round := 1, height := 1, parent_block_id := ChainedBFT.BlockId.genesisId, parent_round := 0, ledger_info := { consensus_block_id := none, commit_round := 0 } }, { author := 1, block_id := ChainedBFT.BlockId.contentHash 1 (some 0) 50 0, round := 1, height := 1, parent_block_id := ChainedBFT.BlockId.genesisId, parent_round := 0, ledger_info := { consensus_block_id := none, commit_round := 0 } }, { author := 0, block_id := ChainedBFT.BlockId.contentHash 2 (some 0) 50 1, round := 2, height := 2, parent_block_id := ChainedBFT.BlockId.contentHash 1 (some 0) 50 0, parent_round := 1, ledger_info := { consensus_block_id := some (ChainedBFT.BlockId.genesisId), commit_round := 0 } }, { author := 1, block_id := ChainedBFT.BlockId.contentHash 2 (some 0) 50 1, round := 2, height := 2, parent_block_id := ChainedBFT.BlockId.contentHash 1 (some 0) 50 0, parent_round := 1, ledger_info := { consensus_block_id := some (ChainedBFT.BlockId.genesisId), commit_round := 0 } }, { author := 0, block_id := ChainedBFT.BlockId.contentHash 3 (some 0) 50 2, round := 3, height := 3, parent_block_id := ChainedBFT.BlockId.contentHash 2 (some 0) 50 1, parent_round := 2, ledger_info := { consensus_block_id := some (ChainedBFT.BlockId.contentHash 1 (some 0) 50 0), commit_round := 1 } }, { author := 1, block_id := ChainedBFT.BlockId.contentHash 3 (some 0) 50 2, round := 3, height := 3, parent_block_id := ChainedBFT.BlockId.contentHash 2 (some 0) 50 1, parent_round := 2, ledger_info := { consensus_block_id := some (ChainedBFT.BlockId.contentHash 1 (some 0) 50 0), commit_round := 1 } }, { author := 0, block_id := ChainedBFT.BlockId.contentHash 4 (some 0) 50 3, round := 4, height := 4, parent_block_id := ChainedBFT.BlockId.contentHash 3 (some 0) 50 2, parent_round := 3, ledger_info := { consensus_block_id := some (ChainedBFT.BlockId.contentHash 2 (some 0) 50 1), commit_round := 2 } }, { author := 1, block_id := ChainedBFT.BlockId.contentHash 4 (some 0) 50 3, round := 4, height := 4, parent_block_id := ChainedBFT.BlockId.contentHash 3 (some 0) 50 2, parent_round := 3, ledger_info := { consensus_block_id := some (ChainedBFT.BlockId.contentHash 2 (some 0) 50 1), commit_round := 2 } }], pending_timeouts := [], highest_tc_round := 0, pending_secondary := none, pending_fetch := none, commits := [{ ledger_info := { consensus_block_id := some (ChainedBFT.BlockId.contentHash 1 (some 0) 50 0), commit_round := 1 }, signatures := [{ signer := 0, signed_ledger_info := { consensus_block_id := some (ChainedBFT.BlockId.contentHash 1 (some 0) 50 0), commit_round := 1 } }, { signer := 1, signed_ledger_info := { consensus_block_id := some (ChainedBFT.BlockId.contentHash 1 (some 0) 50 0), commit_round := 1 } }] }, { ledger_info := { consensus_block_id := some (ChainedBFT.BlockId.contentHash 2 (some 0) 50 1), commit_round := 2 }, signatures := [{ signer := 0, signed_ledger_info := { consensus_block_id := some (ChainedBFT.BlockId.contentHash 2 (some 0) 50 1), commit_round := 2 } }, { signer := 1, signed_ledger_info := { consensus_block_id := some (ChainedBFT.BlockId.contentHash 2 (some 0) 50 1), commit_round := 2 } }] }], committed_txns := 100 }, { author := 1, blocks := [{ id := ChainedBFT.BlockId.contentHash 1 (some 0) 50 0, round := 1, height := 1, parent_id := ChainedBFT.BlockId.genesisId, author := some 0, payload := 50, quorum_cert := { certified_block_id := ChainedBFT.BlockId.genesisId, certified_block_round := 0, certified_block_height := 0, certified_parent_round := 0, ledger_info := { consensus_block_id := some (ChainedBFT.BlockId.genesisId), commit_round := 0 }, signatures := [] } }, { id := ChainedBFT.BlockId.contentHash 2 (some 0) 50 1, round := 2, height := 2, parent_id := ChainedBFT.BlockId.contentHash 1 (some 0) 50 0, author := some 0, payload := 50, quorum_cert := { certified_block_id := ChainedBFT.BlockId.contentHash 1 (some 0) 50 0, certified_block_round := 1, certified_block_height := 1, certified_parent_round := 0, ledger_info := { consensus_block_id := none, commit_round := 0 }, signatures := [{ signer := 0, signed_ledger_info := { consensus_block_id := none, commit_round := 0 } }, { signer := 1, signed_ledger_info := { consensus_block_id := none, commit_round := 0 } }] } }, { id := ChainedBFT.BlockId.contentHash 3 (some 0) 50 2, round := 3, height := 3, parent_id := ChainedBFT.BlockId.contentHash 2 (some 0) 50 1, author := some 0, payload := 50, quorum_cert := { certified_block_id := ChainedBFT.BlockId.contentHash 2 (some 0) 50 1, certified_block_round := 2, certified_block_height := 2, certified_parent_round := 1, ledger_info := { consensus_block_id := some (ChainedBFT.BlockId.genesisId), commit_round := 0 }, signatures := [{ signer := 0, signed_ledger_info := { consensus_block_id := some (ChainedBFT.BlockId.genesisId), commit_round := 0 } }, { signer := 1, signed_ledger_info := { consensus_block_id := some (ChainedBFT.BlockId.genesisId), commit_round := 0 } }] } }, { id := ChainedBFT.BlockId.contentHash 4 (some 0) 50 3, round := 4, height := 4, parent_id := ChainedBFT.BlockId.contentHash 3 (some 0) 50 2, author := some 0, payload := 50, quorum_cert := { certified_block_id := ChainedBFT.BlockId.contentHash 3 (some 0) 50 2, certified_block_round := 3, certified_block_height := 3, certified_parent_round := 2, ledger_info := { consensus_block_id := some (ChainedBFT.BlockId.contentHash 1 (some 0) 50 0), commit_round := 1 }, signatures := [{ signer := 0, signed_ledger_info := { consensus_block_id := some (ChainedBFT.BlockId.contentHash 1 (some 0) 50 0), commit_round := 1 } }, { signer := 1, signed_ledger_info := { consensus_block_id := some (ChainedBFT.BlockId.contentHash 1 (some 0) 50 0), commit_round := 1 } }] } }], root_id := ChainedBFT.BlockId.contentHash 1 (some 0) 50 0, highest_quorum_cert := { certified_block_id := ChainedBFT.BlockId.contentHash 3 (some 0) 50 2, certified_block_round := 3, certified_block_height := 3, certified_parent_round := 2, ledger_info := { consensus_block_id := some (ChainedBFT.BlockId.contentHash 1 (some 0) 50 0), commit_round := 1 }, signatures := [{ signer := 0, signed_ledger_info := { consensus_block_id := some (ChainedBFT.BlockId.contentHash 1 (some 0) 50 0), commit_round := 1 } }, { signer := 1, signed_ledger_info := { consensus_block_id := some (ChainedBFT.BlockId.contentHash 1 (some 0) 50 0), commit_round := 1 } }] }, highest_commit_cert := { certified_block_id := ChainedBFT.BlockId.contentHash 3 (some 0) 50 2, certified_block_round := 3, certified_block_height := 3, certified_parent_round := 2, ledger_info := { consensus_block_id := some (ChainedBFT.BlockId.contentHash 1 (some 0) 50 0), commit_round := 1 }, signatures := [{ signer := 0, signed_ledger_info := { consensus_block_id := some (ChainedBFT.BlockId.contentHash 1 (some 0) 50 0), commit_round := 1 } }, { signer := 1, signed_ledger_info := { consensus_block_id := some (ChainedBFT.BlockId.contentHash 1 (some 0) 50 0), commit_round := 1 } }] }, current_round := 4, last_voted_round := 4, preferred_round := 2, last_vote := some { author := 1, block_id := ChainedBFT.BlockId.contentHash 4 (some 0) 50 3, round := 4, height := 4, parent_block_id := ChainedBFT.BlockId.contentHash 3 (some 0) 50 2, parent_round := 3, ledger_info := { consensus_block_id := some (ChainedBFT.BlockId.contentHash 2 (some 0) 50 1), commit_round := 2 } }, pending_votes := [], pending_timeouts := [], highest_tc_round := 0, pending_secondary := none, pending_fetch := none, commits := [{ ledger_info := { consensus_block_id := some (ChainedBFT.BlockId.contentHash 1 (some 0) 50 0), commit_round := 1 }, signatures := [{ signer := 0, signed_ledger_info := { consensus_block_id := some (ChainedBFT.BlockId.contentHash 1 (some 0) 50 0), commit_round := 1 } }, { signer := 1, signed_ledger_info := { consensus_block_id := some (ChainedBFT.BlockId.contentHash 1 (some 0) 50 0), commit_round := 1 } }] }], committed_txns := 50 }, { author := 2, blocks := [{ id := ChainedBFT.BlockId.genesisId, round := 0, height := 0, parent_id := ChainedBFT.BlockId.genesisId, author := none, payload := 0, quorum_cert := { certified_block_id := ChainedBFT.BlockId.genesisId, certified_block_round := 0, certified_block_height := 0, certified_parent_round := 0, ledger_info := { consensus_block_id := some (ChainedBFT.BlockId.genesisId), commit_round := 0 }, signatures := [] } }], root_id := ChainedBFT.BlockId.genesisId, highest_quorum_cert := { certified_block_id := ChainedBFT.BlockId.genesisId, certified_block_round := 0, certified_block_height := 0, certified_parent_round := 0, ledger_info := { consensus_block_id := some (ChainedBFT.BlockId.genesisId), commit_round := 0 }, signatures := [] }, highest_commit_cert := { certified_block_id := ChainedBFT.BlockId.genesisId, certified_block_round := 0, certified_block_height := 0, certified_parent_round := 0, ledger_info := { consensus_block_id := some (ChainedBFT.BlockId.genesisId), commit_round := 0 }, signatures := [] }, current_round := 1, last_voted_round := 0, preferred_round := 0, last_vote := none, pending_votes := [], pending_timeouts := [], highest_tc_round := 0, pending_secondary := none, pending_fetch := none, commits := [], committed_txns := 0 }], [(0, 0, ChainedBFT.Msg.proposal { id := ChainedBFT.BlockId.contentHash 5 (some 0) 50 4, round := 5, height := 5, parent_id := ChainedBFT.BlockId.contentHash 4 (some 0) 50 3, author := some 0, payload := 50, quorum_cert := { certified_block_id := ChainedBFT.BlockId.contentHash 4 (some 0) 50 3, certified_block_round := 4, certified_block_height := 4, certified_parent_round := 3, ledger_info := { consensus_block_id := some (ChainedBFT.BlockId.contentHash 2 (some 0) 50 1), commit_round := 2 }, signatures := [{ signer := 0, signed_ledger_info := { consensus_block_id := some (ChainedBFT.BlockId.contentHash 2 (some 0) 50 1), commit_round := 2 } }, { signer := 1, signed_ledger_info := { consensus_block_id := some (ChainedBFT.BlockId.contentHash 2 (some 0) 50 1), commit_round := 2 } }] } } { highest_quorum_cert := { certified_block_id := ChainedBFT.BlockId.contentHash 4 (some 0) 50 3, certified_block_round := 4, certified_block_height := 4, certified_parent_round := 3, ledger_info := { consensus_block_id := some (ChainedBFT.BlockId.contentHash 2 (some 0) 50 1), commit_round := 2 }, signatures := [{ signer := 0, signed_ledger_info := { consensus_block_id := some (ChainedBFT.BlockId.contentHash 2 (some 0) 50 1), commit_round := 2 } }, { signer := 1, signed_ledger_info := { consensus_block_id := some (ChainedBFT.BlockId.contentHash 2 (some 0) 50 1), commit_round := 2 } }] }, highest_commit_cert := { certified_block_id := ChainedBFT.BlockId.contentHash 4 (some 0) 50 3, certified_block_round := 4, certified_block_height := 4, certified_parent_round := 3, ledger_info := { consensus_block_id := some (ChainedBFT.BlockId.contentHash 2 (some 0) 50 1), commit_round := 2 }, signatures := [{ signer := 0, signed_ledger_info := { consensus_block_id := some (ChainedBFT.BlockId.contentHash 2 (some 0) 50 1), commit_round := 2 } }, { signer := 1, signed_ledger_info := { consensus_block_id := some (ChainedBFT.BlockId.contentHash 2 (some 0) 50 1), commit_round := 2 } }] } }), (0, 1, ChainedBFT.Msg.proposal { id := ChainedBFT.BlockId.contentHash 5 (some 0) 50 4, round := 5, height := 5, parent_id := ChainedBFT.BlockId.contentHash 4 (some 0) 50 3, author := some 0, payload := 50, quorum_cert := { certified_block_id := ChainedBFT.BlockId.contentHash 4 (some 0) 50 3, certified_block_round := 4, certified_block_height := 4, certified_parent_round := 3, ledger_info := { consensus_block_id := some (ChainedBFT.BlockId.contentHash 2 (some 0) 50 1), commit_round := 2 }, signatures := [{ signer := 0, signed_ledger_info := { consensus_block_id := some (ChainedBFT.BlockId.contentHash 2 (some 0) 50 1), commit_round := 2 } }, { signer := 1, signed_ledger_info := { consensus_block_id := some (ChainedBFT.BlockId.contentHash 2 (some 0) 50 1), commit_round := 2 } }] } } { highest_quorum_cert := { certified_block_id := ChainedBFT.BlockId.contentHash 4 (some 0) 50 3, certified_block_round := 4, certified_block_height := 4, certified_parent_round := 3, ledger_info := { consensus_block_id := some (ChainedBFT.BlockId.contentHash 2 (some 0) 50 1), commit_round := 2 }, signatures := [{ signer := 0, signed_ledger_info := { consensus_block_id := some (ChainedBFT.BlockId.contentHash 2 (some 0) 50 1), commit_round := 2 } }, { signer := 1, signed_ledger_info := { consensus_block_id := some (ChainedBFT.BlockId.contentHash 2 (some 0) 50 1), commit_round := 2 } }] }, highest_commit_cert := { certified_block_id := ChainedBFT.BlockId.contentHash 4 (some 0) 50 3, certified_block_round := 4, certified_block_height := 4, certified_parent_round := 3, ledger_info := { consensus_block_id := some (ChainedBFT.BlockId.contentHash 2 (some 0) 50 1), commit_round := 2 }, signatures := [{ signer := 0, signed_ledger_info := { consensus_block_id := some (ChainedBFT.BlockId.contentHash 2 (some 0) 50 1), commit_round := 2 } }, { signer := 1, signed_ledger_info := { consensus_block_id := some (ChainedBFT.BlockId.contentHash 2 (some 0) 50 1), commit_round := 2 } }] } })], [(0, 2)], [ChainedBFT.MsgDigest.proposalD { round := 1, height := 1, id := ChainedBFT.BlockId.contentHash 1 (some 0) 50 0, parent_id := ChainedBFT.BlockId.genesisId, qc_certified_block_id := ChainedBFT.BlockId.genesisId }, ChainedBFT.MsgDigest.voteD { round := 1, block_id := ChainedBFT.BlockId.contentHash 1 (some 0) 50 0 }, ChainedBFT.MsgDigest.proposalD { round := 2, height := 2, id := ChainedBFT.BlockId.contentHash 2 (some 0) 50 1, parent_id := ChainedBFT.BlockId.contentHash 1 (some 0) 50 0, qc_certified_block_id := ChainedBFT.BlockId.contentHash 1 (some 0) 50 0 }, ChainedBFT.MsgDigest.voteD { round := 2, block_id := ChainedBFT.BlockId.contentHash 2 (some 0) 50 1 }, ChainedBFT.MsgDigest.proposalD { round := 3, height := 3, id := ChainedBFT.BlockId.contentHash 3 (some 0) 50 2, parent_id := ChainedBFT.BlockId.contentHash 2 (some 0) 50 1, qc_certified_block_id := ChainedBFT.BlockId.contentHash 2 (some 0) 50 1 }, ChainedBFT.MsgDigest.voteD { round := 3, block_id := ChainedBFT.BlockId.contentHash 3 (some 0) 50 2 }, ChainedBFT.MsgDigest.proposalD { round := 4, height := 4, id := ChainedBFT.BlockId.contentHash 4 (some 0) 50 3, parent_id := ChainedBFT.BlockId.contentHash 3 (some 0) 50 2, qc_certified_block_id := ChainedBFT.BlockId.contentHash 3 (some 0) 50 2 }, ChainedBFT.MsgDigest.voteD { round := 4, block_id := ChainedBFT.BlockId.contentHash 4 (some 0) 50 3 }]⟩

/-- Checkpoint of the simulated cluster (see the scenario schedule definitions). -/
def c7w3 : World :=
⟨{ num_nodes := 3, quorum_size := 2, proposer_type := ChainedBFT.ConsensusProposerType.FixedProposer, contiguous_rounds := 2, max_block_size := 50 }, [{ author := 0, blocks := [{ id := ChainedBFT.BlockId.contentHash 4 (some 0) 50 3, round := 4, height := 4, parent_id := ChainedBFT.BlockId.contentHash 3 (some 0) 50 2, author := some 0, payload := 50, quorum_cert := { certified_block_id := ChainedBFT.BlockId.contentHash 3 (some 0) 50 2, certified_block_round := 3, certified_block_height := 3, certified_parent_round := 2, ledger_info := { consensus_block_id := some (ChainedBFT.BlockId.contentHash 1 (some 0) 50 0), commit_round := 1 }, signatures := [{ signer := 0, signed_ledger_info := { consensus_block_id := some (ChainedBFT.BlockId.contentHash 1 (some 0) 50 0), commit_round := 1 } }, { signer := 1, signed_ledger_info := { consensus_block_id := some (ChainedBFT.BlockId.contentHash 1 (some 0) 50 0), commit_round := 1 } }] } }, { id := ChainedBFT.BlockId.contentHash 5 (some 0) 50 4, round := 5, height := 5, parent_id := ChainedBFT.BlockId.contentHash 4 (some 0) 50 3, author := some 0, payload := 50, quorum_cert := { certified_block_id := ChainedBFT.BlockId.contentHash 4 (some 0) 50 3, certified_block_round := 4, certified_block_height := 4, certified_parent_round := 3, ledger_info := { consensus_block_id := some (ChainedBFT.BlockId.contentHash 2 (some 0) 50 1), commit_round := 2 }, signatures := [{ signer := 0, signed_ledger_info := { consensus_block_id := some (ChainedBFT.BlockId.contentHash 2 (some 0) 50 1), commit_round := 2 } }, { signer := 1, signed_ledger_info := { consensus_block_id := some (ChainedBFT.BlockId.contentHash 2 (some 0) 50 1), commit_round := 2 } }] } }, { id := ChainedBFT.BlockId.contentHash 6 (some 0) 50 5, round := 6, height := 6, parent_id := ChainedBFT.BlockId.contentHash 5 (some 0) 50 4, author := some 0, payload := 50, quorum_cert := { certified_block_id := ChainedBFT.BlockId.contentHash 5 (some 0) 50 4, certified_block_round := 5, certified_block_height := 5, certified_parent_round := 4, ledger_info := { consensus_block_id := some (ChainedBFT.BlockId.contentHash 3 (some 0) 50 2), commit_round := 3 }, signatures := [{ signer := 0, signed_ledger_info := { consensus_block_id := some (ChainedBFT.BlockId.contentHash 3 (some 0) 50 2), commit_round := 3 } }, { signer := 1, signed_ledger_info := { consensus_block_id := some (ChainedBFT.BlockId.contentHash 3 (some 0) 50 2), commit_round := 3 } }] } }], root_id := ChainedBFT.BlockId.contentHash 4 (some 0) 50 3, highest_quorum_cert := { certified_block_id := ChainedBFT.BlockId.contentHash 6 (some 0) 50 5, certified_block_round := 6, certified_block_height := 6, certified_parent_round := 5, ledger_info := { consensus_block_id := some (ChainedBFT.BlockId.contentHash 4 (some 0) 50 3), commit_round := 4 }, signatures := [{ signer := 0, signed_ledger_info := { consensus_block_id := some (ChainedBFT.BlockId.contentHash 4 (some 0) 50 3), commit_round := 4 } }, { signer := 1, signed_ledger_info := { consensus_block_id := some (ChainedBFT.BlockId.contentHash 4 (some 0) 50 3), commit_round := 4 } }] }, highest_commit_cert := { certified_block_id := ChainedBFT.BlockId.contentHash 6 (some 0) 50 5, certified_block_round := 6, certified_block_height := 6, certified_parent_round := 5, ledger_info := { consensus_block_id := some (ChainedBFT.BlockId.contentHash 4 (some 0) 50 3), commit_round := 4 }, signatures := [{ signer := 0, signed_ledger_info := { consensus_block_id := some (ChainedBFT.BlockId.contentHash 4 (some 0) 50 3), commit_round := 4 } }, { signer := 1, signed_ledger_info := { consensus_block_id := some (ChainedBFT.BlockId.contentHash 4 (some 0) 50 3), commit_round := 4 } }] }, current_round := 7, last_voted_round := 6, preferred_round := 4, last_vote := none, pending_votes := [{ author := 0, block_id := ChainedBFT.BlockId.contentHash 1 (some 0) 50 0, round := 1, height := 1, parent_block_id := ChainedBFT.BlockId.genesisId, parent_round := 0, ledger_info := { consensus_block_id := none, commit_round := 0 } }, { author := 1, block_id := ChainedBFT.BlockId.contentHash 1 (some 0) 50 0, round := 1, height := 1, parent_block_id := ChainedBFT.BlockId.genesisId, parent_round := 0, ledger_info := { consensus_block_id := none, commit_round := 0 } }, { author := 0, block_id := ChainedBFT.BlockId.contentHash 2 (some 0) 50 1, round := 2, height := 2, parent_block_id := ChainedBFT.BlockId.contentHash 1 (some 0) 50 0, parent_round := 1, ledger_info := { consensus_block_id := some (ChainedBFT.BlockId.genesisId), commit_round := 0 } }, { author := 1, block_id := ChainedBFT.BlockId.contentHash 2 (some 0) 50 1, round := 2, height := 2, parent_block_id := ChainedBFT.BlockId.contentHash 1 (some 0) 50 0, parent_round := 1, ledger_info := { consensus_block_id := some (ChainedBFT.BlockId.genesisId), commit_round := 0 } }, { author := 0, block_id := ChainedBFT.BlockId.contentHash 3 (some 0) 50 2, round := 3, height := 3, parent_block_id := ChainedBFT.BlockId.contentHash 2 (some 0) 50 1, parent_round := 2, ledger_info := { consensus_block_id := some (ChainedBFT.BlockId.contentHash 1 (some 0) 50 0), commit_round := 1 } }, { author := 1, block_id := ChainedBFT.BlockId.contentHash 3 (some 0) 50 2, round := 3, height := 3, parent_block_id := ChainedBFT.BlockId.contentHash 2 (some 0) 50 1, parent_round := 2, ledger_info := { consensus_block_id := some (ChainedBFT.BlockId.contentHash 1 (some 0) 50 0), commit_round := 1 } }, { author := 0, block_id := ChainedBFT.BlockId.contentHash 4 (some 0) 50 3, round := 4, height := 4, parent_block_id := ChainedBFT.BlockId.contentHash 3 (some 0) 50 2, parent_round := 3, ledger_info := { consensus_block_id := some (ChainedBFT.BlockId.contentHash 2 (some 0) 50 1), commit_round := 2 } }, { author := 1, block_id := ChainedBFT.BlockId.contentHash 4 (some 0) 50 3, round := 4, height := 4, parent_block_id := ChainedBFT.BlockId.contentHash 3 (some 0) 50 2, parent_round := 3, ledger_info := { consensus_block_id := some (ChainedBFT.BlockId.contentHash 2 (some 0) 50 1), commit_round := 2 } }, { author := 0, block_id := ChainedBFT.BlockId.contentHash 5 (some 0) 50 4, round := 5, height := 5, parent_block_id := ChainedBFT.BlockId.contentHash 4 (some 0) 50 3, parent_round := 4, ledger_info := { consensus_block_id := some (ChainedBFT.BlockId.contentHash 3 (some 0) 50 2), commit_round := 3 } }, { author := 1, block_id := ChainedBFT.BlockId.contentHash 5 (some 0) 50 4, round := 5, height := 5, parent_block_id := ChainedBFT.BlockId.contentHash 4 (some 0) 50 3, parent_round := 4, ledger_info := { consensus_block_id := some (ChainedBFT.BlockId.contentHash 3 (some 0) 50 2), commit_round := 3 } }, { author := 0, block_id := ChainedBFT.BlockId.contentHash 6 (some 0) 50 5, round := 6, height := 6, parent_block_id := ChainedBFT.BlockId.contentHash 5 (some 0) 50 4, parent_round := 5, ledger_info := { consensus_block_id := some (ChainedBFT.BlockId.contentHash 4 (some 0) 50 3), commit_round := 4 } }, { author := 1, block_id := ChainedBFT.BlockId.contentHash 6 (some 0) 50 5, round := 6, height := 6, parent_block_id := ChainedBFT.BlockId.contentHash 5 (some 0) 50 4, parent_round := 5, ledger_info := { consensus_block_id := some (ChainedBFT.BlockId.contentHash 4 (some 0) 50 3), commit_round := 4 } }], pending_timeouts := [], highest_tc_round := 0, pending_secondary := none, pending_fetch := none, commits := [{ ledger_info := { consensus_block_id := some (ChainedBFT.BlockId.contentHash 1 (some 0) 50 0), commit_round := 1 }, signatures := [{ signer := 0, signed_ledger_info := { consensus_block_id := some (ChainedBFT.BlockId.contentHash 1 (some 0) 50 0), commit_round := 1 } }, { signer := 1, signed_ledger_info := { consensus_block_id := some (ChainedBFT.BlockId.contentHash 1 (some 0) 50 0), commit_round := 1 } }] }, { ledger_info := { consensus_block_id := some (ChainedBFT.BlockId.contentHash 2 (some 0) 50 1), commit_round := 2 }, signatures := [{ signer := 0, signed_ledger_info := { consensus_block_id := some (ChainedBFT.BlockId.contentHash 2 (some 0) 50 1), commit_round := 2 } }, { signer := 1, signed_ledger_info := { consensus_block_id := some (ChainedBFT.BlockId.contentHash 2 (some 0) 50 1), commit_round := 2 } }] }, { ledger_info := { consensus_block_id := some (ChainedBFT.BlockId.contentHash 3 (some 0) 50 2), commit_round := 3 }, signatures := [{ signer := 0, signed_ledger_info := { consensus_block_id := some (ChainedBFT.BlockId.contentHash 3 (some 0) 50 2), commit_round := 3 } }, { signer := 1, signed_ledger_info := { consensus_block_id := some (ChainedBFT.BlockId.contentHash 3 (some 0) 50 2), commit_round := 3 } }] }, { ledger_info := { consensus_block_id := some (ChainedBFT.BlockId.contentHash 4 (some 0) 50 3), commit_round := 4 }, signatures := [{ signer := 0, signed_ledger_info := { consensus_block_id := some (ChainedBFT.BlockId.contentHash 4 (some 0) 50 3), commit_round := 4 } }, { signer := 1, signed_ledger_info := { consensus_block_id := some (ChainedBFT.BlockId.contentHash 4 (some 0) 50 3), commit_round := 4 } }] }], committed_txns := 200 }, { author := 1, blocks := [{ id := ChainedBFT.BlockId.contentHash 3 (some 0) 50 2, round := 3, height := 3, parent_id := ChainedBFT.BlockId.contentHash 2 (some 0) 50 1, author := some 0, payload := 50, quorum_cert := { certified_block_id := ChainedBFT.BlockId.contentHash 2 (some 0) 50 1, certified_block_round := 2, certified_block_height := 2, certified_parent_round := 1, ledger_info := { consensus_block_id := some (ChainedBFT.BlockId.genesisId), commit_round := 0 }, signatures := [{ signer := 0, signed_ledger_info := { consensus_block_id := some (ChainedBFT.BlockId.genesisId), commit_round := 0 } }, { signer := 1, signed_ledger_info := { consensus_block_id := some (ChainedBFT.BlockId.genesisId), commit_round := 0 } }] } }, { id := ChainedBFT.BlockId.contentHash 4 (some 0) 50 3, round := 4, height := 4, parent_id := ChainedBFT.BlockId.contentHash 3 (some 0) 50 2, author := some 0, payload := 50, quorum_cert := { certified_block_id := ChainedBFT.BlockId.contentHash 3 (some 0) 50 2, certified_block_round := 3, certified_block_height := 3, certified_parent_round := 2, ledger_info := { consensus_block_id := some (ChainedBFT.BlockId.contentHash 1 (some 0) 50 0), commit_round := 1 }, signatures := [{ signer := 0, signed_ledger_info := { consensus_block_id := some (ChainedBFT.BlockId.contentHash 1 (some 0) 50 0), commit_round := 1 } }, { signer := 1, signed_ledger_info := { consensus_block_id := some (ChainedBFT.BlockId.contentHash 1 (some 0) 50 0), commit_round := 1 } }] } }, { id := ChainedBFT.BlockId.contentHash 5 (some 0) 50 4, round := 5, height := 5, parent_id := ChainedBFT.BlockId.contentHash 4 (some 0) 50 3, author := some 0, payload := 50, quorum_cert := { certified_block_id := ChainedBFT.BlockId.contentHash 4 (some 0) 50 3, certified_block_round := 4, certified_block_height := 4, certified_parent_round := 3, ledger_info := { consensus_block_id := some (ChainedBFT.BlockId.contentHash 2 (some 0) 50 1), commit_round := 2 }, signatures := [{ signer := 0, signed_ledger_info := { consensus_block_id := some (ChainedBFT.BlockId.contentHash 2 (some 0) 50 1), commit_round := 2 } }, { signer := 1, signed_ledger_info := { consensus_block_id := some (ChainedBFT.BlockId.contentHash 2 (some 0) 50 1), commit_round := 2 } }] } }, { id := ChainedBFT.BlockId.contentHash 6 (some 0) 50 5, round := 6, height := 6, parent_id := ChainedBFT.BlockId.contentHash 5 (some 0) 50 4, author := some 0, payload := 50, quorum_cert := { certified_block_id := ChainedBFT.BlockId.contentHash 5 (some 0) 50 4, certified_block_round := 5, certified_block_height := 5, certified_parent_round := 4, ledger_info := { consensus_block_id := some (ChainedBFT.BlockId.contentHash 3 (some 0) 50 2), commit_round := 3 }, signatures := [{ signer := 0, signed_ledger_info := { consensus_block_id := some (ChainedBFT.BlockId.contentHash 3 (some 0) 50 2), commit_round := 3 } }, { signer := 1, signed_ledger_info := { consensus_block_id := some (ChainedBFT.BlockId.contentHash 3 (some 0) 50 2), commit_round := 3 } }] } }], root_id := ChainedBFT.BlockId.contentHash 3 (some 0) 50 2, highest_quorum_cert := { certified_block_id := ChainedBFT.BlockId.contentHash 5 (some 0) 50 4, certified_block_round := 5, certified_block_height := 5, certified_parent_round := 4, ledger_info := { consensus_block_id := some (ChainedBFT.BlockId.contentHash 3 (some 0) 50 2), commit_round := 3 }, signatures := [{ signer := 0, signed_ledger_info := { consensus_block_id := some (ChainedBFT.BlockId.contentHash 3 (some 0) 50 2), commit_round := 3 } }, { signer := 1, signed_ledger_info := { consensus_block_id := some (ChainedBFT.BlockId.contentHash 3 (some 0) 50 2), commit_round := 3 } }] }, highest_commit_cert := { certified_block_id := ChainedBFT.BlockId.contentHash 5 (some 0) 50 4, certified_block_round := 5, certified_block_height := 5, certified_parent_round := 4, ledger_info := { consensus_block_id := some (ChainedBFT.BlockId.contentHash 3 (some 0) 50 2), commit_round := 3 }, signatures := [{ signer := 0, signed_ledger_info := { consensus_block_id := some (ChainedBFT.BlockId.contentHash 3 (some 0) 50 2), commit_round := 3 } }, { signer := 1, signed_ledger_info := { consensus_block_id := some (ChainedBFT.BlockId.contentHash 3 (some 0) 50 2), commit_round := 3 } }] }, current_round := 6, last_voted_round := 6, preferred_round := 4, last_vote := some { author := 1, block_id := ChainedBFT.BlockId.contentHash 6 (some 0) 50 5, round := 6, height := 6, parent_block_id := ChainedBFT.BlockId.contentHash 5 (some 0) 50 4, parent_round := 5, ledger_info := { consensus_block_id := some (ChainedBFT.BlockId.contentHash 4 (some 0) 50 3), commit_round := 4 } }, pending_votes := [], pending_timeouts := [], highest_tc_round := 0, pending_secondary := none, pending_fetch := none, commits := [{ ledger_info := { consensus_block_id := some (ChainedBFT.BlockId.contentHash 1 (some 0) 50 0), commit_round := 1 }, signatures := [{ signer := 0, signed_ledger_info := { consensus_block_id := some (ChainedBFT.BlockId.contentHash 1 (some 0) 50 0), commit_round := 1 } }, { signer := 1, signed_ledger_info := { consensus_block_id := some (ChainedBFT.BlockId.contentHash 1 (some 0) 50 0), commit_round := 1 } }] }, { ledger_info := { consensus_block_id := some (ChainedBFT.BlockId.contentHash 2 (some 0) 50 1), commit_round := 2 }, signatures := [{ signer := 0, signed_ledger_info := { consensus_block_id := some (ChainedBFT.BlockId.contentHash 2 (some 0) 50 1), commit_round := 2 } }, { signer := 1, signed_ledger_info := { consensus_block_id := some (ChainedBFT.BlockId.contentHash 2 (some 0) 50 1), commit_round := 2 } }] }, { ledger_info := { consensus_block_id := some (ChainedBFT.BlockId.contentHash 3 (some 0) 50 2), commit_round := 3 }, signatures := [{ signer := 0, signed_ledger_info := { consensus_block_id := some (ChainedBFT.BlockId.contentHash 3 (some 0) 50 2), commit_round := 3 } }, { signer := 1, signed_ledger_info := { consensus_block_id := some (ChainedBFT.BlockId.contentHash 3 (some 0) 50 2), commit_round := 3 } }] }], committed_txns := 150 }, { author := 2, blocks := [{ id := ChainedBFT.BlockId.genesisId, round := 0, height := 0, parent_id := ChainedBFT.BlockId.genesisId, author := none, payload := 0, quorum_cert := { certified_block_id := ChainedBFT.BlockId.genesisId, certified_block_round := 0, certified_block_height := 0, certified_parent_round := 0, ledger_info := { consensus_block_id := some (ChainedBFT.BlockId.genesisId), commit_round := 0 }, signatures := [] } }], root_id := ChainedBFT.BlockId.genesisId, highest_quorum_cert := { certified_block_id := ChainedBFT.BlockId.genesisId, certified_block_round := 0, certified_block_height := 0, certified_parent_round := 0, ledger_info := { consensus_block_id := some (ChainedBFT.BlockId.genesisId), commit_round := 0 }, signatures := [] }, highest_commit_cert := { certified_block_id := ChainedBFT.BlockId.genesisId, certified_block_round := 0, certified_block_height := 0, certified_parent_round := 0, ledger_info := { consensus_block_id := some (ChainedBFT.BlockId.genesisId), commit_round := 0 }, signatures := [] }, current_round := 1, last_voted_round := 0, preferred_round := 0, last_vote := none, pending_votes := [], pending_timeouts := [], highest_tc_round := 0, pending_secondary := none, pending_fetch := none, commits := [], committed_txns := 0 }], [(0, 0, ChainedBFT.Msg.proposal { id := ChainedBFT.BlockId.contentHash 7 (some 0) 50 6, round := 7, height := 7, parent_id := ChainedBFT.BlockId.contentHash 6 (some 0) 50 5, author := some 0, payload := 50, quorum_cert := { certified_block_id := ChainedBFT.BlockId.contentHash 6 (some 0) 50 5, certified_block_round := 6, certified_block_height := 6, certified_parent_round := 5, ledger_info := { consensus_block_id := some (ChainedBFT.BlockId.contentHash 4 (some 0) 50 3), commit_round := 4 }, signatures := [{ signer := 0, signed_ledger_info := { consensus_block_id := some (ChainedBFT.BlockId.contentHash 4 (some 0) 50 3), commit_round := 4 } }, { signer := 1, signed_ledger_info := { consensus_block_id := some (ChainedBFT.BlockId.contentHash 4 (some 0) 50 3), commit_round := 4 } }] } } { highest_quorum_cert := { certified_block_id := ChainedBFT.BlockId.contentHash 6 (some 0) 50 5, certified_block_round := 6, certified_block_height := 6, certified_parent_round := 5, ledger_info := { consensus_block_id := some (ChainedBFT.BlockId.contentHash 4 (some 0) 50 3), commit_round := 4 }, signatures := [{ signer := 0, signed_ledger_info := { consensus_block_id := some (ChainedBFT.BlockId.contentHash 4 (some 0) 50 3), commit_round := 4 } }, { signer := 1, signed_ledger_info := { consensus_block_id := some (ChainedBFT.BlockId.contentHash 4 (some 0) 50 3), commit_round := 4 } }] }, highest_commit_cert := { certified_block_id := ChainedBFT.BlockId.contentHash 6 (some 0) 50 5, certified_block_round := 6, certified_block_height := 6, certified_parent_round := 5, ledger_info := { consensus_block_id := some (ChainedBFT.BlockId.contentHash 4 (some 0) 50 3), commit_round := 4 }, signatures := [{ signer := 0, signed_ledger_info := { consensus_block_id := some (ChainedBFT.BlockId.contentHash 4 (some 0) 50 3), commit_round := 4 } }, { signer := 1, signed_ledger_info := { consensus_block_id := some (ChainedBFT.BlockId.contentHash 4 (some 0) 50 3), commit_round := 4 } }] } }), (0, 1, ChainedBFT.Msg.proposal { id := ChainedBFT.BlockId.contentHash 7 (some 0) 50 6, round := 7, height := 7, parent_id := ChainedBFT.BlockId.contentHash 6 (some 0) 50 5, author := some 0, payload := 50, quorum_cert := { certified_block_id := ChainedBFT.BlockId.contentHash 6 (some 0) 50 5, certified_block_round := 6, certified_block_height := 6, certified_parent_round := 5, ledger_info := { consensus_block_id := some (ChainedBFT.BlockId.contentHash 4 (some 0) 50 3), commit_round := 4 }, signatures := [{ signer := 0, signed_ledger_info := { consensus_block_id := some (ChainedBFT.BlockId.contentHash 4 (some 0) 50 3), commit_round := 4 } }, { signer := 1, signed_ledger_info := { consensus_block_id := some (ChainedBFT.BlockId.contentHash 4 (some 0) 50 3), commit_round := 4 } }] } } { highest_quorum_cert := { certified_block_id := ChainedBFT.BlockId.contentHash 6 (some 0) 50 5, certified_block_round := 6, certified_block_height := 6, certified_parent_round := 5, ledger_info := { consensus_block_id := some (ChainedBFT.BlockId.contentHash 4 (some 0) 50 3), commit_round := 4 }, signatures := [{ signer := 0, signed_ledger_info := { consensus_block_id := some (ChainedBFT.BlockId.contentHash 4 (some 0) 50 3), commit_round := 4 } }, { signer := 1, signed_ledger_info := { consensus_block_id := some (ChainedBFT.BlockId.contentHash 4 (some 0) 50 3), commit_round := 4 } }] }, highest_commit_cert := { certified_block_id := ChainedBFT.BlockId.contentHash 6 (some 0) 50 5, certified_block_round := 6, certified_block_height := 6, certified_parent_round := 5, ledger_info := { consensus_block_id := some (ChainedBFT.BlockId.contentHash 4 (some 0) 50 3), commit_round := 4 }, signatures := [{ signer := 0, signed_ledger_info := { consensus_block_id := some (ChainedBFT.BlockId.contentHash 4 (some 0) 50 3), commit_round := 4 } }, { signer := 1, signed_ledger_info := { consensus_block_id := some (ChainedBFT.BlockId.contentHash 4 (some 0) 50 3), commit_round := 4 } }] } })], [(0, 2)], [ChainedBFT.MsgDigest.proposalD { round := 1, height := 1, id := ChainedBFT.BlockId.contentHash 1 (some 0) 50 0, parent_id := ChainedBFT.BlockId.genesisId, qc_certified_block_id := ChainedBFT.BlockId.genesisId }, ChainedBFT.MsgDigest.voteD { round := 1, block_id := ChainedBFT.BlockId.contentHash 1 (some 0) 50 0 }, ChainedBFT.MsgDigest.proposalD { round := 2, height := 2, id := ChainedBFT.BlockId.contentHash 2 (some 0) 50 1, parent_id := ChainedBFT.BlockId.contentHash 1 (some 0) 50 0, qc_certified_block_id := ChainedBFT.BlockId.contentHash 1 (some 0) 50 0 }, ChainedBFT.MsgDigest.voteD { round := 2, block_id := ChainedBFT.BlockId.contentHash 2 (some 0) 50 1 }, ChainedBFT.MsgDigest.proposalD { round := 3, height := 3, id := ChainedBFT.BlockId.contentHash 3 (some 0) 50 2, parent_id := ChainedBFT.BlockId.contentHash 2 (some 0) 50 1, qc_certified_block_id := ChainedBFT.BlockId.contentHash 2 (some 0) 50 1 }, ChainedBFT.MsgDigest.voteD { round := 3, block_id := ChainedBFT.BlockId.contentHash 3 (some 0) 50 2 }, ChainedBFT.MsgDigest.proposalD { round := 4, height := 4, id := ChainedBFT.BlockId.contentHash 4 (some 0) 50 3, parent_id := ChainedBFT.BlockId.contentHash 3 (some 0) 50 2, qc_certified_block_id := ChainedBFT.BlockId.contentHash 3 (some 0) 50 2 }, ChainedBFT.MsgDigest.voteD { round := 4, block_id := ChainedBFT.BlockId.contentHash 4 (some 0) 50 3 }, ChainedBFT.MsgDigest.proposalD { round := 5, height := 5, id := ChainedBFT.BlockId.contentHash 5 (some 0) 50 4, parent_id := ChainedBFT.BlockId.contentHash 4 (some 0) 50 3, qc_certified_block_id := ChainedBFT.BlockId.contentHash 4 (some 0) 50 3 }, ChainedBFT.MsgDigest.voteD { round := 5, block_id := ChainedBFT.BlockId.contentHash 5 (some 0) 50 4 }, ChainedBFT.MsgDigest.proposalD { round := 6, height := 6, id := ChainedBFT.BlockId.contentHash 6 (some 0) 50 5, parent_id := ChainedBFT.BlockId.contentHash 5 (some 0) 50 4, qc_certified_block_id := ChainedBFT.BlockId.contentHash 5 (some 0) 50 4 }, ChainedBFT.MsgDigest.voteD { round := 6, block_id := ChainedBFT.BlockId.contentHash 6 (some 0) 50 5 }]⟩

/-- Checkpoint of the simulated cluster (see the scenario schedule definitions). -/
def c7w4 : World :=
⟨{ num_nodes := 3, quorum_size := 2, proposer_type := ChainedBFT.ConsensusProposerType.FixedProposer, contiguous_rounds := 2, max_block_size := 50 }, [{ author := 0, blocks := [{ id := ChainedBFT.BlockId.contentHash 6 (some 0) 50 5, round := 6, height := 6, parent_id := ChainedBFT.BlockId.contentHash 5 (some 0) 50 4, author := some 0, payload := 50, quorum_cert := { certified_block_id := ChainedBFT.BlockId.contentHash 5 (some 0) 50 4, certified_block_round := 5, certified_block_height := 5, certified_parent_round := 4, ledger_info := { consensus_block_id := some (ChainedBFT.BlockId.contentHash 3 (some 0) 50 2), commit_round := 3 }, signatures := [{ signer := 0, signed_ledger_info := { consensus_block_id := some (ChainedBFT.BlockId.contentHash 3 (some 0) 50 2), commit_round := 3 } }, { signer := 1, signed_ledger_info := { consensus_block_id := some (ChainedBFT.BlockId.contentHash 3 (some 0) 50 2), commit_round := 3 } }] } }, { id := ChainedBFT.BlockId.contentHash 7 (some 0) 50 6, round := 7, height := 7, parent_id := ChainedBFT.BlockId.contentHash 6 (some 0) 50 5, author := some 0, payload := 50, quorum_cert := { certified_block_id := ChainedBFT.BlockId.contentHash 6 (some 0) 50 5, certified_block_round := 6, certified_block_height := 6, certified_parent_round := 5, ledger_info := { consensus_block_id := some (ChainedBFT.BlockId.contentHash 4 (some 0) 50 3), commit_round := 4 }, signatures := [{ signer := 0, signed_ledger_info := { consensus_block_id := some (ChainedBFT.BlockId.contentHash 4 (some 0) 50 3), commit_round := 4 } }, { signer := 1, signed_ledger_info := { consensus_block_id := some (ChainedBFT.BlockId.contentHash 4 (some 0) 50 3), commit_round := 4 } }] } }, { id := ChainedBFT.BlockId.contentHash 8 (some 0) 50 7, round := 8, height := 8, parent_id := ChainedBFT.BlockId.contentHash 7 (some 0) 50 6, author := some 0, payload := 50, quorum_cert := { certified_block_id := ChainedBFT.BlockId.contentHash 7 (some 0) 50 6, certified_block_round := 7, certified_block_height := 7, certified_parent_round := 6, ledger_info := { consensus_block_id := some (ChainedBFT.BlockId.contentHash 5 (some 0) 50 4), commit_round := 5 }, signatures := [{ signer := 0, signed_ledger_info := { consensus_block_id := some (ChainedBFT.BlockId.contentHash 5 (some 0) 50 4), commit_round := 5 } }, { signer := 1, signed_ledger_info := { consensus_block_id := some (ChainedBFT.BlockId.contentHash 5 (some 0) 50 4), commit_round := 5 } }] } }], root_id := ChainedBFT.BlockId.contentHash 6 (some 0) 50 5, highest_quorum_cert := { certified_block_id := ChainedBFT.BlockId.contentHash 8 (some 0) 50 7, certified_block_round := 8, certified_block_height := 8, certified_parent_round := 7, ledger_info := { consensus_block_id := some (ChainedBFT.BlockId.contentHash 6 (some 0) 50 5), commit_round := 6 }, signatures := [{ signer := 0, signed_ledger_info := { consensus_block_id := some (ChainedBFT.BlockId.contentHash 6 (some 0) 50 5), commit_round := 6 } }, { signer := 1, signed_ledger_info := { consensus_block_id := some (ChainedBFT.BlockId.contentHash 6 (some 0) 50 5), commit_round := 6 } }] }, highest_commit_cert := { certified_block_id := ChainedBFT.BlockId.contentHash 8 (some 0) 50 7, certified_block_round := 8, certified_block_height := 8, certified_parent_round := 7, ledger_info := { consensus_block_id := some (ChainedBFT.BlockId.contentHash 6 (some 0) 50 5), commit_round := 6 }, signatures := [{ signer := 0, signed_ledger_info := { consensus_block_id := some (ChainedBFT.BlockId.contentHash 6 (some 0) 50 5), commit_round := 6 } }, { signer := 1, signed_ledger_info := { consensus_block_id := some (ChainedBFT.BlockId.contentHash 6 (some 0) 50 5), commit_round := 6 } }] }, current_round := 9, last_voted_round := 8, preferred_round := 6, last_vote := none, pending_votes := [{ author := 0, block_id := ChainedBFT.BlockId.contentHash 1 (some 0) 50 0, round := 1, height := 1, parent_block_id := ChainedBFT.BlockId.genesisId, parent_round := 0, ledger_info := { consensus_block_id := none, commit_round := 0 } }, { author := 1, block_id := ChainedBFT.BlockId.contentHash 1 (some 0) 50 0, round := 1, height := 1, parent_block_id := ChainedBFT.BlockId.genesisId, parent_round := 0, ledger_info := { consensus_block_id := none, commit_round := 0 } }, { author := 0, block_id := ChainedBFT.BlockId.contentHash 2 (some 0) 50 1, round := 2, height := 2, parent_block_id := ChainedBFT.BlockId.contentHash 1 (some 0) 50 0, parent_round := 1, ledger_info := { consensus_block_id := some (ChainedBFT.BlockId.genesisId), commit_round := 0 } }, { author := 1, block_id := ChainedBFT.BlockId.contentHash 2 (some 0) 50 1, round := 2, height := 2, parent_block_id := ChainedBFT.BlockId.contentHash 1 (some 0) 50 0, parent_round := 1, ledger_info := { consensus_block_id := some (ChainedBFT.BlockId.genesisId), commit_round := 0 } }, { author := 0, block_id := ChainedBFT.BlockId.contentHash 3 (some 0) 50 2, round := 3, height := 3, parent_block_id := ChainedBFT.BlockId.contentHash 2 (some 0) 50 1, parent_round := 2, ledger_info := { consensus_block_id := some (ChainedBFT.BlockId.contentHash 1 (some 0) 50 0), commit_round := 1 } }, { author := 1, block_id := ChainedBFT.BlockId.contentHash 3 (some 0) 50 2, round := 3, height := 3, parent_block_id := ChainedBFT.BlockId.contentHash 2 (some 0) 50 1, parent_round := 2, ledger_info := { consensus_block_id := some (ChainedBFT.BlockId.contentHash 1 (some 0) 50 0), commit_round := 1 } }, { author := 0, block_id := ChainedBFT.BlockId.contentHash 4 (some 0) 50 3, round := 4, height := 4, parent_block_id := ChainedBFT.BlockId.contentHash 3 (some 0) 50 2, parent_round := 3, ledger_info := { consensus_block_id := some (ChainedBFT.BlockId.contentHash 2 (some 0) 50 1), commit_round := 2 } }, { author := 1, block_id := ChainedBFT.BlockId.contentHash 4 (some 0) 50 3, round := 4, height := 4, parent_block_id := ChainedBFT.BlockId.contentHash 3 (some 0) 50 2, parent_round := 3, ledger_info := { consensus_block_id := some (ChainedBFT.BlockId.contentHash 2 (some 0) 50 1), commit_round := 2 } }, { author := 0, block_id := ChainedBFT.BlockId.contentHash 5 (some 0) 50 4, round := 5, height := 5, parent_block_id := ChainedBFT.BlockId.contentHash 4 (some 0) 50 3, parent_round := 4, ledger_info := { consensus_block_id := some (ChainedBFT.BlockId.contentHash 3 (some 0) 50 2), commit_round := 3 } }, { author := 1, block_id := ChainedBFT.BlockId.contentHash 5 (some 0) 50 4, round := 5, height := 5, parent_block_id := ChainedBFT.BlockId.contentHash 4 (some 0) 50 3, parent_round := 4, ledger_info := { consensus_block_id := some (ChainedBFT.BlockId.contentHash 3 (some 0) 50 2), commit_round := 3 } }, { author := 0, block_id := ChainedBFT.BlockId.contentHash 6 (some 0) 50 5, round := 6, height := 6, parent_block_id := ChainedBFT.BlockId.contentHash 5 (some 0) 50 4, parent_round := 5, ledger_info := { consensus_block_id := some (ChainedBFT.BlockId.contentHash 4 (some 0) 50 3), commit_round := 4 } }, { author := 1, block_id := ChainedBFT.BlockId.contentHash 6 (some 0) 50 5, round := 6, height := 6, parent_block_id := ChainedBFT.BlockId.contentHash 5 (some 0) 50 4, parent_round := 5, ledger_info := { consensus_block_id := some (ChainedBFT.BlockId.contentHash 4 (some 0) 50 3), commit_round := 4 } }, { author := 0, block_id := ChainedBFT.BlockId.contentHash 7 (some 0) 50 6, round := 7, height := 7, parent_block_id := ChainedBFT.BlockId.contentHash 6 (some 0) 50 5, parent_round := 6, ledger_info := { consensus_block_id := some (ChainedBFT.BlockId.contentHash 5 (some 0) 50 4), commit_round := 5 } }, { author := 1, block_id := ChainedBFT.BlockId.contentHash 7 (some 0) 50 6, round := 7, height := 7, parent_block_id := ChainedBFT.BlockId.contentHash 6 (some 0) 50 5, parent_round := 6, ledger_info := { consensus_block_id := some (ChainedBFT.BlockId.contentHash 5 (some 0) 50 4), commit_round := 5 } }, { author := 0, block_id := ChainedBFT.BlockId.contentHash 8 (some 0) 50 7, round := 8, height := 8, parent_block_id := ChainedBFT.BlockId.contentHash 7 (some 0) 50 6, parent_round := 7, ledger_info := { consensus_block_id := some (ChainedBFT.BlockId.contentHash 6 (some 0) 50 5), commit_round := 6 } }, { author := 1, block_id := ChainedBFT.BlockId.contentHash 8 (some 0) 50 7, round := 8, height := 8, parent_block_id := ChainedBFT.BlockId.contentHash 7 (some 0) 50 6, parent_round := 7, ledger_info := { consensus_block_id := some (ChainedBFT.BlockId.contentHash 6 (some 0) 50 5), commit_round := 6 } }], pending_timeouts := [], highest_tc_round := 0, pending_secondary := none, pending_fetch := none, commits := [{ ledger_info := { consensus_block_id := some (ChainedBFT.BlockId.contentHash 1 (some 0) 50 0), commit_round := 1 }, signatures := [{ signer := 0, signed_ledger_info := { consensus_block_id := some (ChainedBFT.BlockId.contentHash 1 (some 0) 50 0), commit_round := 1 } }, { signer := 1, signed_ledger_info := { consensus_block_id := some (ChainedBFT.BlockId.contentHash 1 (some 0) 50 0), commit_round := 1 } }] }, { ledger_info := { consensus_block_id := some (ChainedBFT.BlockId.contentHash 2 (some 0) 50 1), commit_round := 2 }, signatures := [{ signer := 0, signed_ledger_info := { consensus_block_id := some (ChainedBFT.BlockId.contentHash 2 (some 0) 50 1), commit_round := 2 } }, { signer := 1, signed_ledger_info := { consensus_block_id := some (ChainedBFT.BlockId.contentHash 2 (some 0) 50 1), commit_round := 2 } }] }, { ledger_info := { consensus_block_id := some (ChainedBFT.BlockId.contentHash 3 (some 0) 50 2), commit_round := 3 }, signatures := [{ signer := 0, signed_ledger_info := { consensus_block_id := some (ChainedBFT.BlockId.contentHash 3 (some 0) 50 2), commit_round := 3 } }, { signer := 1, signed_ledger_info := { consensus_block_id := some (ChainedBFT.BlockId.contentHash 3 (some 0) 50 2), commit_round := 3 } }] }, { ledger_info := { consensus_block_id := some (ChainedBFT.BlockId.contentHash 4 (some 0) 50 3), commit_round := 4 }, signatures := [{ signer := 0, signed_ledger_info := { consensus_block_id := some (ChainedBFT.BlockId.contentHash 4 (some 0) 50 3), commit_round := 4 } }, { signer := 1, signed_ledger_info := { consensus_block_id := some (ChainedBFT.BlockId.contentHash 4 (some 0) 50 3), commit_round := 4 } }] }, { ledger_info := { consensus_block_id := some (ChainedBFT.BlockId.contentHash 5 (some 0) 50 4), commit_round := 5 }, signatures := [{ signer := 0, signed_ledger_info := { consensus_block_id := some (ChainedBFT.BlockId.contentHash 5 (some 0) 50 4), commit_round := 5 } }, { signer := 1, signed_ledger_info := { consensus_block_id := some (ChainedBFT.BlockId.contentHash 5 (some 0) 50 4), commit_round := 5 } }] }, { ledger_info := { consensus_block_id := some (ChainedBFT.BlockId.contentHash 6 (some 0) 50 5), commit_round := 6 }, signatures := [{ signer := 0, signed_ledger_info := { consensus_block_id := some (ChainedBFT.BlockId.contentHash 6 (some 0) 50 5), commit_round := 6 } }, { signer := 1, signed_ledger_info := { consensus_block_id := some (ChainedBFT.BlockId.contentHash 6 (some 0) 50 5), commit_round := 6 } }] }], committed_txns := 300 }, { author := 1, blocks := [{ id := ChainedBFT.BlockId.contentHash 5 (some 0) 50 4, round := 5, height := 5, parent_id := ChainedBFT.BlockId.contentHash 4 (some 0) 50 3, author := some 0, payload := 50, quorum_cert := { certified_block_id := ChainedBFT.BlockId.contentHash 4 (some 0) 50 3, certified_block_round := 4, certified_block_height := 4, certified_parent_round := 3, ledger_info := { consensus_block_id := some (ChainedBFT.BlockId.contentHash 2 (some 0) 50 1), commit_round := 2 }, signatures := [{ signer := 0, signed_ledger_info := { consensus_block_id := some (ChainedBFT.BlockId.contentHash 2 (some 0) 50 1), commit_round := 2 } }, { signer := 1, signed_ledger_info := { consensus_block_id := some (ChainedBFT.BlockId.contentHash 2 (some 0) 50 1), commit_round := 2 } }] } }, { id := ChainedBFT.BlockId.contentHash 6 (some 0) 50 5, round := 6, height := 6, parent_id := ChainedBFT.BlockId.contentHash 5 (some 0) 50 4, author := some 0, payload := 50, quorum_cert := { certified_block_id := ChainedBFT.BlockId.contentHash 5 (some 0) 50 4, certified_block_round := 5, certified_block_height := 5, certified_parent_round := 4, ledger_info := { consensus_block_id := some (ChainedBFT.BlockId.contentHash 3 (some 0) 50 2), commit_round := 3 }, signatures := [{ signer := 0, signed_ledger_info := { consensus_block_id := some (ChainedBFT.BlockId.contentHash 3 (some 0) 50 2), commit_round := 3 } }, { signer := 1, signed_ledger_info := { consensus_block_id := some (ChainedBFT.BlockId.contentHash 3 (some 0) 50 2), commit_round := 3 } }] } }, { id := ChainedBFT.BlockId.contentHash 7 (some 0) 50 6, round := 7, height := 7, parent_id := ChainedBFT.BlockId.contentHash 6 (some 0) 50 5, author := some 0, payload := 50, quorum_cert := { certified_block_id := ChainedBFT.BlockId.contentHash 6 (some 0) 50 5, certified_block_round := 6, certified_block_height := 6, certified_parent_round := 5, ledger_info := { consensus_block_id := some (ChainedBFT.BlockId.contentHash 4 (some 0) 50 3), commit_round := 4 }, signatures := [{ signer := 0, signed_ledger_info := { consensus_block_id := some (ChainedBFT.BlockId.contentHash 4 (some 0) 50 3), commit_round := 4 } }, { signer := 1, signed_ledger_info := { consensus_block_id := some (ChainedBFT.BlockId.contentHash 4 (some 0) 50 3), commit_round := 4 } }] } }, { id := ChainedBFT.BlockId.contentHash 8 (some 0) 50 7, round := 8, height := 8, parent_id := ChainedBFT.BlockId.contentHash 7 (some 0) 50 6, author := some 0, payload := 50, quorum_cert := { certified_block_id := ChainedBFT.BlockId.contentHash 7 (some 0) 50 6, certified_block_round := 7, certified_block_height := 7, certified_parent_round := 6, ledger_info := { consensus_block_id := some (ChainedBFT.BlockId.contentHash 5 (some 0) 50 4), commit_round := 5 }, signatures := [{ signer := 0, signed_ledger_info := { consensus_block_id := some (ChainedBFT.BlockId.contentHash 5 (some 0) 50 4), commit_round := 5 } }, { signer := 1, signed_ledger_info := { consensus_block_id := some (ChainedBFT.BlockId.contentHash 5 (some 0) 50 4), commit_round := 5 } }] } }], root_id := ChainedBFT.BlockId.contentHash 5 (some 0) 50 4, highest_quorum_cert := { certified_block_id := ChainedBFT.BlockId.contentHash 7 (some 0) 50 6, certified_block_round := 7, certified_block_height := 7, certified_parent_round := 6, ledger_info := { consensus_block_id := some (ChainedBFT.BlockId.contentHash 5 (some 0) 50 4), commit_round := 5 }, signatures := [{ signer := 0, signed_ledger_info := { consensus_block_id := some (ChainedBFT.BlockId.contentHash 5 (some 0) 50 4), commit_round := 5 } }, { signer := 1, signed_ledger_info := { consensus_block_id := some (ChainedBFT.BlockId.contentHash 5 (some 0) 50 4), commit_round := 5 } }] }, highest_commit_cert := { certified_block_id := ChainedBFT.BlockId.contentHash 7 (some 0) 50 6, certified_block_round := 7, certified_block_height := 7, certified_parent_round := 6, ledger_info := { consensus_block_id := some (ChainedBFT.BlockId.contentHash 5 (some 0) 50 4), commit_round := 5 }, signatures := [{ signer := 0, signed_ledger_info := { consensus_block_id := some (ChainedBFT.BlockId.contentHash 5 (some 0) 50 4), commit_round := 5 } }, { signer := 1, signed_ledger_info := { consensus_block_id := some (ChainedBFT.BlockId.contentHash 5 (some 0) 50 4), commit_round := 5 } }] }, current_round := 8, last_voted_round := 8, preferred_round := 6, last_vote := some { author := 1, block_id := ChainedBFT.BlockId.contentHash 8 (some 0) 50 7, round := 8, height := 8, parent_block_id := ChainedBFT.BlockId.contentHash 7 (some 0) 50 6, parent_round := 7, ledger_info := { consensus_block_id := some (ChainedBFT.BlockId.contentHash 6 (some 0) 50 5), commit_round := 6 } }, pending_votes := [], pending_timeouts := [], highest_tc_round := 0, pending_secondary := none, pending_fetch := none, commits := [{ ledger_info := { consensus_block_id := some (ChainedBFT.BlockId.contentHash 1 (some 0) 50 0), commit_round := 1 }, signatures := [{ signer := 0, signed_ledger_info := { consensus_block_id := some (ChainedBFT.BlockId.contentHash 1 (some 0) 50 0), commit_round := 1 } }, { signer := 1, signed_ledger_info := { consensus_block_id := some (ChainedBFT.BlockId.contentHash 1 (some 0) 50 0), commit_round := 1 } }] }, { ledger_info := { consensus_block_id := some (ChainedBFT.BlockId.contentHash 2 (some 0) 50 1), commit_round := 2 }, signatures := [{ signer := 0, signed_ledger_info := { consensus_block_id := some (ChainedBFT.BlockId.contentHash 2 (some 0) 50 1), commit_round := 2 } }, { signer := 1, signed_ledger_info := { consensus_block_id := some (ChainedBFT.BlockId.contentHash 2 (some 0) 50 1), commit_round := 2 } }] }, { ledger_info := { consensus_block_id := some (ChainedBFT.BlockId.contentHash 3 (some 0) 50 2), commit_round := 3 }, signatures := [{ signer := 0, signed_ledger_info := { consensus_block_id := some (ChainedBFT.BlockId.contentHash 3 (some 0) 50 2), commit_round := 3 } }, { signer := 1, signed_ledger_info := { consensus_block_id := some (ChainedBFT.BlockId.contentHash 3 (some 0) 50 2), commit_round := 3 } }] }, { ledger_info := { consensus_block_id := some (ChainedBFT.BlockId.contentHash 4 (some 0) 50 3), commit_round := 4 }, signatures := [{ signer := 0, signed_ledger_info := { consensus_block_id := some (ChainedBFT.BlockId.contentHash 4 (some 0) 50 3), commit_round := 4 } }, { signer := 1, signed_ledger_info := { consensus_block_id := some (ChainedBFT.BlockId.contentHash 4 (some 0) 50 3), commit_round := 4 } }] }, { ledger_info := { consensus_block_id := some (ChainedBFT.BlockId.contentHash 5 (some 0) 50 4), commit_round := 5 }, signatures := [{ signer := 0, signed_ledger_info := { consensus_block_id := some (ChainedBFT.BlockId.contentHash 5 (some 0) 50 4), commit_round := 5 } }, { signer := 1, signed_ledger_info := { consensus_block_id := some (ChainedBFT.BlockId.contentHash 5 (some 0) 50 4), commit_round := 5 } }] }], committed_txns := 250 }, { author := 2, blocks := [{ id := ChainedBFT.BlockId.genesisId, round := 0, height := 0, parent_id := ChainedBFT.BlockId.genesisId, author := none, payload := 0, quorum_cert := { certified_block_id := ChainedBFT.BlockId.genesisId, certified_block_round := 0, certified_block_height := 0, certified_parent_round := 0, ledger_info := { consensus_block_id := some (ChainedBFT.BlockId.genesisId), commit_round := 0 }, signatures := [] } }], root_id := ChainedBFT.BlockId.genesisId, highest_quorum_cert := { certified_block_id := ChainedBFT.BlockId.genesisId, certified_block_round := 0, certified_block_height := 0, certified_parent_round := 0, ledger_info := { consensus_block_id := some (ChainedBFT.BlockId.genesisId), commit_round := 0 }, signatures := [] }, highest_commit_cert := { certified_block_id := ChainedBFT.BlockId.genesisId, certified_block_round := 0, certified_block_height := 0, certified_parent_round := 0, ledger_info := { consensus_block_id := some (ChainedBFT.BlockId.genesisId), commit_round := 0 }, signatures := [] }, current_round := 1, last_voted_round := 0, preferred_round := 0, last_vote := none, pending_votes := [], pending_timeouts := [], highest_tc_round := 0, pending_secondary := none, pending_fetch := none, commits := [], committed_txns := 0 }], [(0, 0, ChainedBFT.Msg.proposal { id := ChainedBFT.BlockId.contentHash 9 (some 0) 50 8, round := 9, height := 9, parent_id := ChainedBFT.BlockId.contentHash 8 (some 0) 50 7, author := some 0, payload := 50, quorum_cert := { certified_block_id := ChainedBFT.BlockId.contentHash 8 (some 0) 50 7, certified_block_round := 8, certified_block_height := 8, certified_parent_round := 7, ledger_info := { consensus_block_id := some (ChainedBFT.BlockId.contentHash 6 (some 0) 50 5), commit_round := 6 }, signatures := [{ signer := 0, signed_ledger_info := { consensus_block_id := some (ChainedBFT.BlockId.contentHash 6 (some 0) 50 5), commit_round := 6 } }, { signer := 1, signed_ledger_info := { consensus_block_id := some (ChainedBFT.BlockId.contentHash 6 (some 0) 50 5), commit_round := 6 } }] } } { highest_quorum_cert := { certified_block_id := ChainedBFT.BlockId.contentHash 8 (some 0) 50 7, certified_block_round := 8, certified_block_height := 8, certified_parent_round := 7, ledger_info := { consensus_block_id := some (ChainedBFT.BlockId.contentHash 6 (some 0) 50 5), commit_round := 6 }, signatures := [{ signer := 0, signed_ledger_info := { consensus_block_id := some (ChainedBFT.BlockId.contentHash 6 (some 0) 50 5), commit_round := 6 } }, { signer := 1, signed_ledger_info := { consensus_block_id := some (ChainedBFT.BlockId.contentHash 6 (some 0) 50 5), commit_round := 6 } }] }, highest_commit_cert := { certified_block_id := ChainedBFT.BlockId.contentHash 8 (some 0) 50 7, certified_block_round := 8, certified_block_height := 8, certified_parent_round := 7, ledger_info := { consensus_block_id := some (ChainedBFT.BlockId.contentHash 6 (some 0) 50 5), commit_round := 6 }, signatures := [{ signer := 0, signed_ledger_info := { consensus_block_id := some (ChainedBFT.BlockId.contentHash 6 (some 0) 50 5), commit_round := 6 } }, { signer := 1, signed_ledger_info := { consensus_block_id := some (ChainedBFT.BlockId.contentHash 6 (some 0) 50 5), commit_round := 6 } }] } }), (0, 1, ChainedBFT.Msg.proposal { id := ChainedBFT.BlockId.contentHash 9 (some 0) 50 8, round := 9, height := 9, parent_id := ChainedBFT.BlockId.contentHash 8 (some 0) 50 7, author := some 0, payload := 50, quorum_cert := { certified_block_id := ChainedBFT.BlockId.contentHash 8 (some 0) 50 7, certified_block_round := 8, certified_block_height := 8, certified_parent_round := 7, ledger_info := { consensus_block_id := some (ChainedBFT.BlockId.contentHash 6 (some 0) 50 5), commit_round := 6 }, signatures := [{ signer := 0, signed_ledger_info := { consensus_block_id := some (ChainedBFT.BlockId.contentHash 6 (some 0) 50 5), commit_round := 6 } }, { signer := 1, signed_ledger_info := { consensus_block_id := some (ChainedBFT.BlockId.contentHash 6 (some 0) 50 5), commit_round := 6 } }] } } { highest_quorum_cert := { certified_block_id := ChainedBFT.BlockId.contentHash 8 (some 0) 50 7, certified_block_round := 8, certified_block_height := 8, certified_parent_round := 7, ledger_info := { consensus_block_id := some (ChainedBFT.BlockId.contentHash 6 (some 0) 50 5), commit_round := 6 }, signatures := [{ signer := 0, signed_ledger_info := { consensus_block_id := some (ChainedBFT.BlockId.contentHash 6 (some 0) 50 5), commit_round := 6 } }, { signer := 1, signed_ledger_info := { consensus_block_id := some (ChainedBFT.BlockId.contentHash 6 (some 0) 50 5), commit_round := 6 } }] }, highest_commit_cert := { certified_block_id := ChainedBFT.BlockId.contentHash 8 (some 0) 50 7, certified_block_round := 8, certified_block_height := 8, certified_parent_round := 7, ledger_info := { consensus_block_id := some (ChainedBFT.BlockId.contentHash 6 (some 0) 50 5), commit_round := 6 }, signatures := [{ signer := 0, signed_ledger_info := { consensus_block_id := some (ChainedBFT.BlockId.contentHash 6 (some 0) 50 5), commit_round := 6 } }, { signer := 1, signed_ledger_info := { consensus_block_id := some (ChainedBFT.BlockId.contentHash 6 (some 0) 50 5), commit_round := 6 } }] } })], [(0, 2)], [ChainedBFT.MsgDigest.proposalD { round := 1, height := 1, id := ChainedBFT.BlockId.contentHash 1 (some 0) 50 0, parent_id := ChainedBFT.BlockId.genesisId, qc_certified_block_id := ChainedBFT.BlockId.genesisId }, ChainedBFT.MsgDigest.voteD { round := 1, block_id := ChainedBFT.BlockId.contentHash 1 (some 0) 50 0 }, ChainedBFT.MsgDigest.proposalD { round := 2, height := 2, id := ChainedBFT.BlockId.contentHash 2 (some 0) 50 1, parent_id := ChainedBFT.BlockId.contentHash 1 (some 0) 50 0, qc_certified_block_id := ChainedBFT.BlockId.contentHash 1 (some 0) 50 0 }, ChainedBFT.MsgDigest.voteD { round := 2, block_id := ChainedBFT.BlockId.contentHash 2 (some 0) 50 1 }, ChainedBFT.MsgDigest.proposalD { round := 3, height := 3, id := ChainedBFT.BlockId.contentHash 3 (some 0) 50 2, parent_id := ChainedBFT.BlockId.contentHash 2 (some 0) 50 1, qc_certified_block_id := ChainedBFT.BlockId.contentHash 2 (some 0) 50 1 }, ChainedBFT.MsgDigest.voteD { round := 3, block_id := ChainedBFT.BlockId.contentHash 3 (some 0) 50 2 }, ChainedBFT.MsgDigest.proposalD { round := 4, height := 4, id := ChainedBFT.BlockId.contentHash 4 (some 0) 50 3, parent_id := ChainedBFT.BlockId.contentHash 3 (some 0) 50 2, qc_certified_block_id := ChainedBFT.BlockId.contentHash 3 (some 0) 50 2 }, ChainedBFT.MsgDigest.voteD { round := 4, block_id := ChainedBFT.BlockId.contentHash 4 (some 0) 50 3 }, ChainedBFT.MsgDigest.proposalD { round := 5, height := 5, id := ChainedBFT.BlockId.contentHash 5 (some 0) 50 4, parent_id := ChainedBFT.BlockId.contentHash 4 (some 0) 50 3, qc_certified_block_id := ChainedBFT.BlockId.contentHash 4 (some 0) 50 3 }, ChainedBFT.MsgDigest.voteD { round := 5, block_id := ChainedBFT.BlockId.contentHash 5 (some 0) 50 4 }, ChainedBFT.MsgDigest.proposalD { round := 6, height := 6, id := ChainedBFT.BlockId.contentHash 6 (some 0) 50 5, parent_id := ChainedBFT.BlockId.contentHash 5 (some 0) 50 4, qc_certified_block_id := ChainedBFT.BlockId.contentHash 5 (some 0) 50 4 }, ChainedBFT.MsgDigest.voteD { round := 6, block_id := ChainedBFT.BlockId.contentHash 6 (some 0) 50 5 }, ChainedBFT.MsgDigest.proposalD { round := 7, height := 7, id := ChainedBFT.BlockId.contentHash 7 (some 0) 50 6, parent_id := ChainedBFT.BlockId.contentHash 6 (some 0) 50 5, qc_certified_block_id := ChainedBFT.BlockId.contentHash 6 (some 0) 50 5 }, ChainedBFT.MsgDigest.voteD { round := 7, block_id := ChainedBFT.BlockId.contentHash 7 (some 0) 50 6 }, ChainedBFT.MsgDigest.proposalD { round := 8, height := 8, id := ChainedBFT.BlockId.contentHash 8 (some 0) 50 7, parent_id := ChainedBFT.BlockId.contentHash 7 (some 0) 50 6, qc_certified_block_id := ChainedBFT.BlockId.contentHash 7 (some 0) 50 6 }, ChainedBFT.MsgDigest.voteD { round := 8, block_id := ChainedBFT.BlockId.contentHash 8 (some 0) 50 7 }]⟩

/-- Checkpoint of the simulated cluster (see the scenario schedule definitions). -/
def c7w5 : World :=
⟨{ num_nodes := 3, quorum_size := 2, proposer_type := ChainedBFT.ConsensusProposerType.FixedProposer, contiguous_rounds := 2, max_block_size := 50 }, [{ author := 0, blocks := [{ id := ChainedBFT.BlockId.contentHash 8 (some 0) 50 7, round := 8, height := 8, parent_id := ChainedBFT.BlockId.contentHash 7 (some 0) 50 6, author := some 0, payload := 50, quorum_cert := { certified_block_id := ChainedBFT.BlockId.contentHash 7 (some 0) 50 6, certified_block_round := 7, certified_block_height := 7, certified_parent_round := 6, ledger_info := { consensus_block_id := some (ChainedBFT.BlockId.contentHash 5 (some 0) 50 4), commit_round := 5 }, signatures := [{ signer := 0, signed_ledger_info := { consensus_block_id := some (ChainedBFT.BlockId.contentHash 5 (some 0) 50 4), commit_round := 5 } }, { signer := 1, signed_ledger_info := { consensus_block_id := some (ChainedBFT.BlockId.contentHash 5 (some 0) 50 4), commit_round := 5 } }] } }, { id := ChainedBFT.BlockId.contentHash 9 (some 0) 50 8, round := 9, height := 9, parent_id := ChainedBFT.BlockId.contentHash 8 (some 0) 50 7, author := some 0, payload := 50, quorum_cert := { certified_block_id := ChainedBFT.BlockId.contentHash 8 (some 0) 50 7, certified_block_round := 8, certified_block_height := 8, certified_parent_round := 7, ledger_info := { consensus_block_id := some (ChainedBFT.BlockId.contentHash 6 (some 0) 50 5), commit_round := 6 }, signatures := [{ signer := 0, signed_ledger_info := { consensus_block_id := some (ChainedBFT.BlockId.contentHash 6 (some 0) 50 5), commit_round := 6 } }, { signer := 1, signed_ledger_info := { consensus_block_id := some (ChainedBFT.BlockId.contentHash 6 (some 0) 50 5), commit_round := 6 } }] } }, { id := ChainedBFT.BlockId.contentHash 10 (some 0) 50 9, round := 10, height := 10, parent_id := ChainedBFT.BlockId.contentHash 9 (some 0) 50 8, author := some 0, payload := 50, quorum_cert := { certified_block_id := ChainedBFT.BlockId.contentHash 9 (some 0) 50 8, certified_block_round := 9, certified_block_height := 9, certified_parent_round := 8, ledger_info := { consensus_block_id := some (ChainedBFT.BlockId.contentHash 7 (some 0) 50 6), commit_round := 7 }, signatures := [{ signer := 0, signed_ledger_info := { consensus_block_id := some (ChainedBFT.BlockId.contentHash 7 (some 0) 50 6), commit_round := 7 } }, { signer := 1, signed_ledger_info := { consensus_block_id := some (ChainedBFT.BlockId.contentHash 7 (some 0) 50 6), commit_round := 7 } }] } }], root_id := ChainedBFT.BlockId.contentHash 8 (some 0) 50 7, highest_quorum_cert := { certified_block_id := ChainedBFT.BlockId.contentHash 10 (some 0) 50 9, certified_block_round := 10, certified_block_height := 10, certified_parent_round := 9, ledger_info := { consensus_block_id := some (ChainedBFT.BlockId.contentHash 8 (some 0) 50 7), commit_round := 8 }, signatures := [{ signer := 0, signed_ledger_info := { consensus_block_id := some (ChainedBFT.BlockId.contentHash 8 (some 0) 50 7), commit_round := 8 } }, { signer := 1, signed_ledger_info := { consensus_block_id := some (ChainedBFT.BlockId.contentHash 8 (some 0) 50 7), commit_round := 8 } }] }, highest_commit_cert := { certified_block_id := ChainedBFT.BlockId.contentHash 10 (some 0) 50 9, certified_block_round := 10, certified_block_height := 10, certified_parent_round := 9, ledger_info := { consensus_block_id := some (ChainedBFT.BlockId.contentHash 8 (some 0) 50 7), commit_round := 8 }, signatures := [{ signer := 0, signed_ledger_info := { consensus_block_id := some (ChainedBFT.BlockId.contentHash 8 (some 0) 50 7), commit_round := 8 } }, { signer := 1, signed_ledger_info := { consensus_block_id := some (ChainedBFT.BlockId.contentHash 8 (some 0) 50 7), commit_round := 8 } }] }, current_round := 11, last_voted_round := 10, preferred_round := 8, last_vote := none, pending_votes := [{ author := 0, block_id := ChainedBFT.BlockId.contentHash 1 (some 0) 50 0, round := 1, height := 1, parent_block_id := ChainedBFT.BlockId.genesisId, parent_round := 0, ledger_info := { consensus_block_id := none, commit_round := 0 } }, { author := 1, block_id := ChainedBFT.BlockId.contentHash 1 (some 0) 50 0, round := 1, height := 1, parent_block_id := ChainedBFT.BlockId.genesisId, parent_round := 0, ledger_info := { consensus_block_id := none, commit_round := 0 } }, { author := 0, block_id := ChainedBFT.BlockId.contentHash 2 (some 0) 50 1, round := 2, height := 2, parent_block_id := ChainedBFT.BlockId.contentHash 1 (some 0) 50 0, parent_round := 1, ledger_info := { consensus_block_id := some (ChainedBFT.BlockId.genesisId), commit_round := 0 } }, { author := 1, block_id := ChainedBFT.BlockId.contentHash 2 (some 0) 50 1, round := 2, height := 2, parent_block_id := ChainedBFT.BlockId.contentHash 1 (some 0) 50 0, parent_round := 1, ledger_info := { consensus_block_id := some (ChainedBFT.BlockId.genesisId), commit_round := 0 } }, { author := 0, block_id := ChainedBFT.BlockId.contentHash 3 (some 0) 50 2, round := 3, height := 3, parent_block_id := ChainedBFT.BlockId.contentHash 2 (some 0) 50 1, parent_round := 2, ledger_info := { consensus_block_id := some (ChainedBFT.BlockId.contentHash 1 (some 0) 50 0), commit_round := 1 } }, { author := 1, block_id := ChainedBFT.BlockId.contentHash 3 (some 0) 50 2, round := 3, height := 3, parent_block_id := ChainedBFT.BlockId.contentHash 2 (some 0) 50 1, parent_round := 2, ledger_info := { consensus_block_id := some (ChainedBFT.BlockId.contentHash 1 (some 0) 50 0), commit_round := 1 } }, { author := 0, block_id := ChainedBFT.BlockId.contentHash 4 (some 0) 50 3, round := 4, height := 4, parent_block_id := ChainedBFT.BlockId.contentHash 3 (some 0) 50 2, parent_round := 3, ledger_info := { consensus_block_id := some (ChainedBFT.BlockId.contentHash 2 (some 0) 50 1), commit_round := 2 } }, { author := 1, block_id := ChainedBFT.BlockId.contentHash 4 (some 0) 50 3, round := 4, height := 4, parent_block_id := ChainedBFT.BlockId.contentHash 3 (some 0) 50 2, parent_round := 3, ledger_info := { consensus_block_id := some (ChainedBFT.BlockId.contentHash 2 (some 0) 50 1), commit_round := 2 } }, { author := 0, block_id := ChainedBFT.BlockId.contentHash 5 (some 0) 50 4, round := 5, height := 5, parent_block_id := ChainedBFT.BlockId.contentHash 4 (some 0) 50 3, parent_round := 4, ledger_info := { consensus_block_id := some (ChainedBFT.BlockId.contentHash 3 (some 0) 50 2), commit_round := 3 } }, { author := 1, block_id := ChainedBFT.BlockId.contentHash 5 (some 0) 50 4, round := 5, height := 5, parent_block_id := ChainedBFT.BlockId.contentHash 4 (some 0) 50 3, parent_round := 4, ledger_info := { consensus_block_id := some (ChainedBFT.BlockId.contentHash 3 (some 0) 50 2), commit_round := 3 } }, { author := 0, block_id := ChainedBFT.BlockId.contentHash 6 (some 0) 50 5, round := 6, height := 6, parent_block_id := ChainedBFT.BlockId.contentHash 5 (some 0) 50 4, parent_round := 5, ledger_info := { consensus_block_id := some (ChainedBFT.BlockId.contentHash 4 (some 0) 50 3), commit_round := 4 } }, { author := 1, block_id := ChainedBFT.BlockId.contentHash 6 (some 0) 50 5, round := 6, height := 6, parent_block_id := ChainedBFT.BlockId.contentHash 5 (some 0) 50 4, parent_round := 5, ledger_info := { consensus_block_id := some (ChainedBFT.BlockId.contentHash 4 (some 0) 50 3), commit_round := 4 } }, { author := 0, block_id := ChainedBFT.BlockId.contentHash 7 (some 0) 50 6, round := 7, height := 7, parent_block_id := ChainedBFT.BlockId.contentHash 6 (some 0) 50 5, parent_round := 6, ledger_info := { consensus_block_id := some (ChainedBFT.BlockId.contentHash 5 (some 0) 50 4), commit_round := 5 } }, { author := 1, block_id := ChainedBFT.BlockId.contentHash 7 (some 0) 50 6, round := 7, height := 7, parent_block_id := ChainedBFT.BlockId.contentHash 6 (some 0) 50 5, parent_round := 6, ledger_info := { consensus_block_id := some (ChainedBFT.BlockId.contentHash 5 (some 0) 50 4), commit_round := 5 } }, { author := 0, block_id := ChainedBFT.BlockId.contentHash 8 (some 0) 50 7, round := 8, height := 8, parent_block_id := ChainedBFT.BlockId.contentHash 7 (some 0) 50 6, parent_round := 7, ledger_info := { consensus_block_id := some (ChainedBFT.BlockId.contentHash 6 (some 0) 50 5), commit_round := 6 } }, { author := 1, block_id := ChainedBFT.BlockId.contentHash 8 (some 0) 50 7, round := 8, height := 8, parent_block_id := ChainedBFT.BlockId.contentHash 7 (some 0) 50 6, parent_round := 7, ledger_info := { consensus_block_id := some (ChainedBFT.BlockId.contentHash 6 (some 0) 50 5), commit_round := 6 } }, { author := 0, block_id := ChainedBFT.BlockId.contentHash 9 (some 0) 50 8, round := 9, height := 9, parent_block_id := ChainedBFT.BlockId.contentHash 8 (some 0) 50 7, parent_round := 8, ledger_info := { consensus_block_id := some (ChainedBFT.BlockId.contentHash 7 (some 0) 50 6), commit_round := 7 } }, { author := 1, block_id := ChainedBFT.BlockId.contentHash 9 (some 0) 50 8, round := 9, height := 9, parent_block_id := ChainedBFT.BlockId.contentHash 8 (some 0) 50 7, parent_round := 8, ledger_info := { consensus_block_id := some (ChainedBFT.BlockId.contentHash 7 (some 0) 50 6), commit_round := 7 } }, { author := 0, block_id := ChainedBFT.BlockId.contentHash 10 (some 0) 50 9, round := 10, height := 10, parent_block_id := ChainedBFT.BlockId.contentHash 9 (some 0) 50 8, parent_round := 9, ledger_info := { consensus_block_id := some (ChainedBFT.BlockId.contentHash 8 (some 0) 50 7), commit_round := 8 } }, { author := 1, block_id := ChainedBFT.BlockId.contentHash 10 (some 0) 50 9, round := 10, height := 10, parent_block_id := ChainedBFT.BlockId.contentHash 9 (some 0) 50 8, parent_round := 9, ledger_info := { consensus_block_id := some (ChainedBFT.BlockId.contentHash 8 (some 0) 50 7), commit_round := 8 } }], pending_timeouts := [], highest_tc_round := 0, pending_secondary := none, pending_fetch := none, commits := [{ ledger_info := { consensus_block_id := some (ChainedBFT.BlockId.contentHash 1 (some 0) 50 0), commit_round := 1 }, signatures := [{ signer := 0, signed_ledger_info := { consensus_block_id := some (ChainedBFT.BlockId.contentHash 1 (some 0) 50 0), commit_round := 1 } }, { signer := 1, signed_ledger_info := { consensus_block_id := some (ChainedBFT.BlockId.contentHash 1 (some 0) 50 0), commit_round := 1 } }] }, { ledger_info := { consensus_block_id := some (ChainedBFT.BlockId.contentHash 2 (some 0) 50 1), commit_round := 2 }, signatures := [{ signer := 0, signed_ledger_info := { consensus_block_id := some (ChainedBFT.BlockId.contentHash 2 (some 0) 50 1), commit_round := 2 } }, { signer := 1, signed_ledger_info := { consensus_block_id := some (ChainedBFT.BlockId.contentHash 2 (some 0) 50 1), commit_round := 2 } }] }, { ledger_info := { consensus_block_id := some (ChainedBFT.BlockId.contentHash 3 (some 0) 50 2), commit_round := 3 }, signatures := [{ signer := 0, signed_ledger_info := { consensus_block_id := some (ChainedBFT.BlockId.contentHash 3 (some 0) 50 2), commit_round := 3 } }, { signer := 1, signed_ledger_info := { consensus_block_id := some (ChainedBFT.BlockId.contentHash 3 (some 0) 50 2), commit_round := 3 } }] }, { ledger_info := { consensus_block_id := some (ChainedBFT.BlockId.contentHash 4 (some 0) 50 3), commit_round := 4 }, signatures := [{ signer := 0, signed_ledger_info := { consensus_block_id := some (ChainedBFT.BlockId.contentHash 4 (some 0) 50 3), commit_round := 4 } }, { signer := 1, signed_ledger_info := { consensus_block_id := some (ChainedBFT.BlockId.contentHash 4 (some 0) 50 3), commit_round := 4 } }] }, { ledger_info := { consensus_block_id := some (ChainedBFT.BlockId.contentHash 5 (some 0) 50 4), commit_round := 5 }, signatures := [{ signer := 0, signed_ledger_info := { consensus_block_id := some (ChainedBFT.BlockId.contentHash 5 (some 0) 50 4), commit_round := 5 } }, { signer := 1, signed_ledger_info := { consensus_block_id := some (ChainedBFT.BlockId.contentHash 5 (some 0) 50 4), commit_round := 5 } }] }, { ledger_info := { consensus_block_id := some (ChainedBFT.BlockId.contentHash 6 (some 0) 50 5), commit_round := 6 }, signatures := [{ signer := 0, signed_ledger_info := { consensus_block_id := some (ChainedBFT.BlockId.contentHash 6 (some 0) 50 5), commit_round := 6 } }, { signer := 1, signed_ledger_info := { consensus_block_id := some (ChainedBFT.BlockId.contentHash 6 (some 0) 50 5), commit_round := 6 } }] }, { ledger_info := { consensus_block_id := some (ChainedBFT.BlockId.contentHash 7 (some 0) 50 6), commit_round := 7 }, signatures := [{ signer := 0, signed_ledger_info := { consensus_block_id := some (ChainedBFT.BlockId.contentHash 7 (some 0) 50 6), commit_round := 7 } }, { signer := 1, signed_ledger_info := { consensus_block_id := some (ChainedBFT.BlockId.contentHash 7 (some 0) 50 6), commit_round := 7 } }] }, { ledger_info := { consensus_block_id := some (ChainedBFT.BlockId.contentHash 8 (some 0) 50 7), commit_round := 8 }, signatures := [{ signer := 0, signed_ledger_info := { consensus_block_id := some (ChainedBFT.BlockId.contentHash 8 (some 0) 50 7), commit_round := 8 } }, { signer := 1, signed_ledger_info := { consensus_block_id := some (ChainedBFT.BlockId.contentHash 8 (some 0) 50 7), commit_round := 8 } }] }], committed_txns := 400 }, { author := 1, blocks := [{ id := ChainedBFT.BlockId.contentHash 7 (some 0) 50 6, round := 7, height := 7, parent_id := ChainedBFT.BlockId.contentHash 6 (some 0) 50 5, author := some 0, payload := 50, quorum_cert := { certified_block_id := ChainedBFT.BlockId.contentHash 6 (some 0) 50 5, certified_block_round := 6, certified_block_height := 6, certified_parent_round := 5, ledger_info := { consensus_block_id := some (ChainedBFT.BlockId.contentHash 4 (some 0) 50 3), commit_round := 4 }, signatures := [{ signer := 0, signed_ledger_info := { consensus_block_id := some (ChainedBFT.BlockId.contentHash 4 (some 0) 50 3), commit_round := 4 } }, { signer := 1, signed_ledger_info := { consensus_block_id := some (ChainedBFT.BlockId.contentHash 4 (some 0) 50 3), commit_round := 4 } }] } }, { id := ChainedBFT.BlockId.contentHash 8 (some 0) 50 7, round := 8, height := 8, parent_id := ChainedBFT.BlockId.contentHash 7 (some 0) 50 6, author := some 0, payload := 50, quorum_cert := { certified_block_id := ChainedBFT.BlockId.contentHash 7 (some 0) 50 6, certified_block_round := 7, certified_block_height := 7, certified_parent_round := 6, ledger_info := { consensus_block_id := some (ChainedBFT.BlockId.contentHash 5 (some 0) 50 4), commit_round := 5 }, signatures := [{ signer := 0, signed_ledger_info := { consensus_block_id := some (ChainedBFT.BlockId.contentHash 5 (some 0) 50 4), commit_round := 5 } }, { signer := 1, signed_ledger_info := { consensus_block_id := some (ChainedBFT.BlockId.contentHash 5 (some 0) 50 4), commit_round := 5 } }] } }, { id := ChainedBFT.BlockId.contentHash 9 (some 0) 50 8, round := 9, height := 9, parent_id := ChainedBFT.BlockId.contentHash 8 (some 0) 50 7, author := some 0, payload := 50, quorum_cert := { certified_block_id := ChainedBFT.BlockId.contentHash 8 (some 0) 50 7, certified_block_round := 8, certified_block_height := 8, certified_parent_round := 7, ledger_info := { consensus_block_id := some (ChainedBFT.BlockId.contentHash 6 (some 0) 50 5), commit_round := 6 }, signatures := [{ signer := 0, signed_ledger_info := { consensus_block_id := some (ChainedBFT.BlockId.contentHash 6 (some 0) 50 5), commit_round := 6 } }, { signer := 1, signed_ledger_info := { consensus_block_id := some (ChainedBFT.BlockId.contentHash 6 (some 0) 50 5), commit_round := 6 } }] } }, { id := ChainedBFT.BlockId.contentHash 10 (some 0) 50 9, round := 10, height := 10, parent_id := ChainedBFT.BlockId.contentHash 9 (some 0) 50 8, author := some 0, payload := 50, quorum_cert := { certified_block_id := ChainedBFT.BlockId.contentHash 9 (some 0) 50 8, certified_block_round := 9, certified_block_height := 9, certified_parent_round := 8, ledger_info := { consensus_block_id := some (ChainedBFT.BlockId.contentHash 7 (some 0) 50 6), commit_round := 7 }, signatures := [{ signer := 0, signed_ledger_info := { consensus_block_id := some (ChainedBFT.BlockId.contentHash 7 (some 0) 50 6), commit_round := 7 } }, { signer := 1, signed_ledger_info := { consensus_block_id := some (ChainedBFT.BlockId.contentHash 7 (some 0) 50 6), commit_round := 7 } }] } }], root_id := ChainedBFT.BlockId.contentHash 7 (some 0) 50 6, highest_quorum_cert := { certified_block_id := ChainedBFT.BlockId.contentHash 9 (some 0) 50 8, certified_block_round := 9, certified_block_height := 9, certified_parent_round := 8, ledger_info := { consensus_block_id := some (ChainedBFT.BlockId.contentHash 7 (some 0) 50 6), commit_round := 7 }, signatures := [{ signer := 0, signed_ledger_info := { consensus_block_id := some (ChainedBFT.BlockId.contentHash 7 (some 0) 50 6), commit_round := 7 } }, { signer := 1, signed_ledger_info := { consensus_block_id := some (ChainedBFT.BlockId.contentHash 7 (some 0) 50 6), commit_round := 7 } }] }, highest_commit_cert := { certified_block_id := ChainedBFT.BlockId.contentHash 9 (some 0) 50 8, certified_block_round := 9, certified_block_height := 9, certified_parent_round := 8, ledger_info := { consensus_block_id := some (ChainedBFT.BlockId.contentHash 7 (some 0) 50 6), commit_round := 7 }, signatures := [{ signer := 0, signed_ledger_info := { consensus_block_id := some (ChainedBFT.BlockId.contentHash 7 (some 0) 50 6), commit_round := 7 } }, { signer := 1, signed_ledger_info := { consensus_block_id := some (ChainedBFT.BlockId.contentHash 7 (some 0) 50 6), commit_round := 7 } }] }, current_round := 10, last_voted_round := 10, preferred_round := 8, last_vote := some { author := 1, block_id := ChainedBFT.BlockId.contentHash 10 (some 0) 50 9, round := 10, height := 10, parent_block_id := ChainedBFT.BlockId.contentHash 9 (some 0) 50 8, parent_round := 9, ledger_info := { consensus_block_id := some (ChainedBFT.BlockId.contentHash 8 (some 0) 50 7), commit_round := 8 } }, pending_votes := [], pending_timeouts := [], highest_tc_round := 0, pending_secondary := none, pending_fetch := none, commits := [{ ledger_info := { consensus_block_id := some (ChainedBFT.BlockId.contentHash 1 (some 0) 50 0), commit_round := 1 }, signatures := [{ signer := 0, signed_ledger_info := { consensus_block_id := some (ChainedBFT.BlockId.contentHash 1 (some 0) 50 0), commit_round := 1 } }, { signer := 1, signed_ledger_info := { consensus_block_id := some (ChainedBFT.BlockId.contentHash 1 (some 0) 50 0), commit_round := 1 } }] }, { ledger_info := { consensus_block_id := some (ChainedBFT.BlockId.contentHash 2 (some 0) 50 1), commit_round := 2 }, signatures := [{ signer := 0, signed_ledger_info := { consensus_block_id := some (ChainedBFT.BlockId.contentHash 2 (some 0) 50 1), commit_round := 2 } }, { signer := 1, signed_ledger_info := { consensus_block_id := some (ChainedBFT.BlockId.contentHash 2 (some 0) 50 1), commit_round := 2 } }] }, { ledger_info := { consensus_block_id := some (ChainedBFT.BlockId.contentHash 3 (some 0) 50 2), commit_round := 3 }, signatures := [{ signer := 0, signed_ledger_info := { consensus_block_id := some (ChainedBFT.BlockId.contentHash 3 (some 0) 50 2), commit_round := 3 } }, { signer := 1, signed_ledger_info := { consensus_block_id := some (ChainedBFT.BlockId.contentHash 3 (some 0) 50 2), commit_round := 3 } }] }, { ledger_info := { consensus_block_id := some (ChainedBFT.BlockId.contentHash 4 (some 0) 50 3), commit_round := 4 }, signatures := [{ signer := 0, signed_ledger_info := { consensus_block_id := some (ChainedBFT.BlockId.contentHash 4 (some 0) 50 3), commit_round := 4 } }, { signer := 1, signed_ledger_info := { consensus_block_id := some (ChainedBFT.BlockId.contentHash 4 (some 0) 50 3), commit_round := 4 } }] }, { ledger_info := { consensus_block_id := some (ChainedBFT.BlockId.contentHash 5 (some 0) 50 4), commit_round := 5 }, signatures := [{ signer := 0, signed_ledger_info := { consensus_block_id := some (ChainedBFT.BlockId.contentHash 5 (some 0) 50 4), commit_round := 5 } }, { signer := 1, signed_ledger_info := { consensus_block_id := some (ChainedBFT.BlockId.contentHash 5 (some 0) 50 4), commit_round := 5 } }] }, { ledger_info := { consensus_block_id := some (ChainedBFT.BlockId.contentHash 6 (some 0) 50 5), commit_round := 6 }, signatures := [{ signer := 0, signed_ledger_info := { consensus_block_id := some (ChainedBFT.BlockId.contentHash 6 (some 0) 50 5), commit_round := 6 } }, { signer := 1, signed_ledger_info := { consensus_block_id := some (ChainedBFT.BlockId.contentHash 6 (some 0) 50 5), commit_round := 6 } }] }, { ledger_info := { consensus_block_id := some (ChainedBFT.BlockId.contentHash 7 (some 0) 50 6), commit_round := 7 }, signatures := [{ signer := 0, signed_ledger_info := { consensus_block_id := some (ChainedBFT.BlockId.contentHash 7 (some 0) 50 6), commit_round := 7 } }, { signer := 1, signed_ledger_info := { consensus_block_id := some (ChainedBFT.BlockId.contentHash 7 (some 0) 50 6), commit_round := 7 } }] }], committed_txns := 350 }, { author := 2, blocks := [{ id := ChainedBFT.BlockId.genesisId, round := 0, height := 0, parent_id := ChainedBFT.BlockId.genesisId, author := none, payload := 0, quorum_cert := { certified_block_id := ChainedBFT.BlockId.genesisId, certified_block_round := 0, certified_block_height := 0, certified_parent_round := 0, ledger_info := { consensus_block_id := some (ChainedBFT.BlockId.genesisId), commit_round := 0 }, signatures := [] } }], root_id := ChainedBFT.BlockId.genesisId, highest_quorum_cert := { certified_block_id := ChainedBFT.BlockId.genesisId, certified_block_round := 0, certified_block_height := 0, certified_parent_round := 0, ledger_info := { consensus_block_id := some (ChainedBFT.BlockId.genesisId), commit_round := 0 }, signatures := [] }, highest_commit_cert := { certified_block_id := ChainedBFT.BlockId.genesisId, certified_block_round := 0, certified_block_height := 0, certified_parent_round := 0, ledger_info := { consensus_block_id := some (ChainedBFT.BlockId.genesisId), commit_round := 0 }, signatures := [] }, current_round := 1, last_voted_round := 0, preferred_round := 0, last_vote := none, pending_votes := [], pending_timeouts := [], highest_tc_round := 0, pending_secondary := none, pending_fetch := none, commits := [], committed_txns := 0 }], [(0, 0, ChainedBFT.Msg.proposal { id := ChainedBFT.BlockId.contentHash 11 (some 0) 50 10, round := 11, height := 11, parent_id := ChainedBFT.BlockId.contentHash 10 (some 0) 50 9, author := some 0, payload := 50, quorum_cert := { certified_block_id := ChainedBFT.BlockId.contentHash 10 (some 0) 50 9, certified_block_round := 10, certified_block_height := 10, certified_parent_round := 9, ledger_info := { consensus_block_id := some (ChainedBFT.BlockId.contentHash 8 (some 0) 50 7), commit_round := 8 }, signatures := [{ signer := 0, signed_ledger_info := { consensus_block_id := some (ChainedBFT.BlockId.contentHash 8 (some 0) 50 7), commit_round := 8 } }, { signer := 1, signed_ledger_info := { consensus_block_id := some (ChainedBFT.BlockId.contentHash 8 (some 0) 50 7), commit_round := 8 } }] } } { highest_quorum_cert := { certified_block_id := ChainedBFT.BlockId.contentHash 10 (some 0) 50 9, certified_block_round := 10, certified_block_height := 10, certified_parent_round := 9, ledger_info := { consensus_block_id := some (ChainedBFT.BlockId.contentHash 8 (some 0) 50 7), commit_round := 8 }, signatures := [{ signer := 0, signed_ledger_info := { consensus_block_id := some (ChainedBFT.BlockId.contentHash 8 (some 0) 50 7), commit_round := 8 } }, { signer := 1, signed_ledger_info := { consensus_block_id := some (ChainedBFT.BlockId.contentHash 8 (some 0) 50 7), commit_round := 8 } }] }, highest_commit_cert := { certified_block_id := ChainedBFT.BlockId.contentHash 10 (some 0) 50 9, certified_block_round := 10, certified_block_height := 10, certified_parent_round := 9, ledger_info := { consensus_block_id := some (ChainedBFT.BlockId.contentHash 8 (some 0) 50 7), commit_round := 8 }, signatures := [{ signer := 0, signed_ledger_info := { consensus_block_id := some (ChainedBFT.BlockId.contentHash 8 (some 0) 50 7), commit_round := 8 } }, { signer := 1, signed_ledger_info := { consensus_block_id := some (ChainedBFT.BlockId.contentHash 8 (some 0) 50 7), commit_round := 8 } }] } }), (0, 1, ChainedBFT.Msg.proposal { id := ChainedBFT.BlockId.contentHash 11 (some 0) 50 10, round := 11, height := 11, parent_id := ChainedBFT.BlockId.contentHash 10 (some 0) 50 9, author := some 0, payload := 50, quorum_cert := { certified_block_id := ChainedBFT.BlockId.contentHash 10 (some 0) 50 9, certified_block_round := 10, certified_block_height := 10, certified_parent_round := 9, ledger_info := { consensus_block_id := some (ChainedBFT.BlockId.contentHash 8 (some 0) 50 7), commit_round := 8 }, signatures := [{ signer := 0, signed_ledger_info := { consensus_block_id := some (ChainedBFT.BlockId.contentHash 8 (some 0) 50 7), commit_round := 8 } }, { signer := 1, signed_ledger_info := { consensus_block_id := some (ChainedBFT.BlockId.contentHash 8 (some 0) 50 7), commit_round := 8 } }] } } { highest_quorum_cert := { certified_block_id := ChainedBFT.BlockId.contentHash 10 (some 0) 50 9, certified_block_round := 10, certified_block_height := 10, certified_parent_round := 9, ledger_info := { consensus_block_id := some (ChainedBFT.BlockId.contentHash 8 (some 0) 50 7), commit_round := 8 }, signatures := [{ signer := 0, signed_ledger_info := { consensus_block_id := some (ChainedBFT.BlockId.contentHash 8 (some 0) 50 7), commit_round := 8 } }, { signer := 1, signed_ledger_info := { consensus_block_id := some (ChainedBFT.BlockId.contentHash 8 (some 0) 50 7), commit_round := 8 } }] }, highest_commit_cert := { certified_block_id := ChainedBFT.BlockId.contentHash 10 (some 0) 50 9, certified_block_round := 10, certified_block_height := 10, certified_parent_round := 9, ledger_info := { consensus_block_id := some (ChainedBFT.BlockId.contentHash 8 (some 0) 50 7), commit_round := 8 }, signatures := [{ signer := 0, signed_ledger_info := { consensus_block_id := some (ChainedBFT.BlockId.contentHash 8 (some 0) 50 7), commit_round := 8 } }, { signer := 1, signed_ledger_info := { consensus_block_id := some (ChainedBFT.BlockId.contentHash 8 (some 0) 50 7), commit_round := 8 } }] } }), (0, 2, ChainedBFT.Msg.proposal { id := ChainedBFT.BlockId.contentHash 11 (some 0) 50 10, round := 11, height := 11, parent_id := ChainedBFT.BlockId.contentHash 10 (some 0) 50 9, author := some 0, payload := 50, quorum_cert := { certified_block_id := ChainedBFT.BlockId.contentHash 10 (some 0) 50 9, certified_block_round := 10, certified_block_height := 10, certified_parent_round := 9, ledger_info := { consensus_block_id := some (ChainedBFT.BlockId.contentHash 8 (some 0) 50 7), commit_round := 8 }, signatures := [{ signer := 0, signed_ledger_info := { consensus_block_id := some (ChainedBFT.BlockId.contentHash 8 (some 0) 50 7), commit_round := 8 } }, { signer := 1, signed_ledger_info := { consensus_block_id := some (ChainedBFT.BlockId.contentHash 8 (some 0) 50 7), commit_round := 8 } }] } } { highest_quorum_cert := { certified_block_id := ChainedBFT.BlockId.contentHash 10 (some 0) 50 9, certified_block_round := 10, certified_block_height := 10, certified_parent_round := 9, ledger_info := { consensus_block_id := some (ChainedBFT.BlockId.contentHash 8 (some 0) 50 7), commit_round := 8 }, signatures := [{ signer := 0, signed_ledger_info := { consensus_block_id := some (ChainedBFT.BlockId.contentHash 8 (some 0) 50 7), commit_round := 8 } }, { signer := 1, signed_ledger_info := { consensus_block_id := some (ChainedBFT.BlockId.contentHash 8 (some 0) 50 7), commit_round := 8 } }] }, highest_commit_cert := { certified_block_id := ChainedBFT.BlockId.contentHash 10 (some 0) 50 9, certified_block_round := 10, certified_block_height := 10, certified_parent_round := 9, ledger_info := { consensus_block_id := some (ChainedBFT.BlockId.contentHash 8 (some 0) 50 7), commit_round := 8 }, signatures := [{ signer := 0, signed_ledger_info := { consensus_block_id := some (ChainedBFT.BlockId.contentHash 8 (some 0) 50 7), commit_round := 8 } }, { signer := 1, signed_ledger_info := { consensus_block_id := some (ChainedBFT.BlockId.contentHash 8 (some 0) 50 7), commit_round := 8 } }] } })], [], [ChainedBFT.MsgDigest.proposalD { round := 1, height := 1, id := ChainedBFT.BlockId.contentHash 1 (some 0) 50 0, parent_id := ChainedBFT.BlockId.genesisId, qc_certified_block_id := ChainedBFT.BlockId.genesisId }, ChainedBFT.MsgDigest.voteD { round := 1, block_id := ChainedBFT.BlockId.contentHash 1 (some 0) 50 0 }, ChainedBFT.MsgDigest.proposalD { round := 2, height := 2, id := ChainedBFT.BlockId.contentHash 2 (some 0) 50 1, parent_id := ChainedBFT.BlockId.contentHash 1 (some 0) 50 0, qc_certified_block_id := ChainedBFT.BlockId.contentHash 1 (some 0) 50 0 }, ChainedBFT.MsgDigest.voteD { round := 2, block_id := ChainedBFT.BlockId.contentHash 2 (some 0) 50 1 }, ChainedBFT.MsgDigest.proposalD { round := 3, height := 3, id := ChainedBFT.BlockId.contentHash 3 (some 0) 50 2, parent_id := ChainedBFT.BlockId.contentHash 2 (some 0) 50 1, qc_certified_block_id := ChainedBFT.BlockId.contentHash 2 (some 0) 50 1 }, ChainedBFT.MsgDigest.voteD { round := 3, block_id := ChainedBFT.BlockId.contentHash 3 (some 0) 50 2 }, ChainedBFT.MsgDigest.proposalD { round := 4, height := 4, id := ChainedBFT.BlockId.contentHash 4 (some 0) 50 3, parent_id := ChainedBFT.BlockId.contentHash 3 (some 0) 50 2, qc_certified_block_id := ChainedBFT.BlockId.contentHash 3 (some 0) 50 2 }, ChainedBFT.MsgDigest.voteD { round := 4, block_id := ChainedBFT.BlockId.contentHash 4 (some 0) 50 3 }, ChainedBFT.MsgDigest.proposalD { round := 5, height := 5, id := ChainedBFT.BlockId.contentHash 5 (some 0) 50 4, parent_id := ChainedBFT.BlockId.contentHash 4 (some 0) 50 3, qc_certified_block_id := ChainedBFT.BlockId.contentHash 4 (some 0) 50 3 }, ChainedBFT.MsgDigest.voteD { round := 5, block_id := ChainedBFT.BlockId.contentHash 5 (some 0) 50 4 }, ChainedBFT.MsgDigest.proposalD { round := 6, height := 6, id := ChainedBFT.BlockId.contentHash 6 (some 0) 50 5, parent_id := ChainedBFT.BlockId.contentHash 5 (some 0) 50 4, qc_certified_block_id := ChainedBFT.BlockId.contentHash 5 (some 0) 50 4 }, ChainedBFT.MsgDigest.voteD { round := 6, block_id := ChainedBFT.BlockId.contentHash 6 (some 0) 50 5 }, ChainedBFT.MsgDigest.proposalD { round := 7, height := 7, id := ChainedBFT.BlockId.contentHash 7 (some 0) 50 6, parent_id := ChainedBFT.BlockId.contentHash 6 (some 0) 50 5, qc_certified_block_id := ChainedBFT.BlockId.contentHash 6 (some 0) 50 5 }, ChainedBFT.MsgDigest.voteD { round := 7, block_id := ChainedBFT.BlockId.contentHash 7 (some 0) 50 6 }, ChainedBFT.MsgDigest.proposalD { round := 8, height := 8, id := ChainedBFT.BlockId.contentHash 8 (some 0) 50 7, parent_id := ChainedBFT.BlockId.contentHash 7 (some 0) 50 6, qc_certified_block_id := ChainedBFT.BlockId.contentHash 7 (some 0) 50 6 }, ChainedBFT.MsgDigest.voteD { round := 8, block_id := ChainedBFT.BlockId.contentHash 8 (some 0) 50 7 }, ChainedBFT.MsgDigest.proposalD { round := 9, height := 9, id := ChainedBFT.BlockId.contentHash 9 (some 0) 50 8, parent_id := ChainedBFT.BlockId.contentHash 8 (some 0) 50 7, qc_certified_block_id := ChainedBFT.BlockId.contentHash 8 (some 0) 50 7 }, ChainedBFT.MsgDigest.voteD { round := 9, block_id := ChainedBFT.BlockId.contentHash 9 (some 0) 50 8 }, ChainedBFT.MsgDigest.proposalD { round := 10, height := 10, id := ChainedBFT.BlockId.contentHash 10 (some 0) 50 9, parent_id := ChainedBFT.BlockId.contentHash 9 (some 0) 50 8, qc_certified_block_id := ChainedBFT.BlockId.contentHash 9 (some 0) 50 8 }, ChainedBFT.MsgDigest.voteD { round := 10, block_id := ChainedBFT.BlockId.contentHash 10 (some 0) 50 9 }]⟩

/-- Checkpoint of the simulated cluster (see the scenario schedule definitions). -/
def c7w6 : World :=
⟨{ num_nodes := 3, quorum_size := 2, proposer_type := ChainedBFT.ConsensusProposerType.FixedProposer, contiguous_rounds := 2, max_block_size := 50 }, [{ author := 0, blocks := [{ id := ChainedBFT.BlockId.contentHash 8 (some 0) 50 7, round := 8, height := 8, parent_id := ChainedBFT.BlockId.contentHash 7 (some 0) 50 6, author := some 0, payload := 50, quorum_cert := { certified_block_id := ChainedBFT.BlockId.contentHash 7 (some 0) 50 6, certified_block_round := 7, certified_block_height := 7, certified_parent_round := 6, ledger_info := { consensus_block_id := some (ChainedBFT.BlockId.contentHash 5 (some 0) 50 4), commit_round := 5 }, signatures := [{ signer := 0, signed_ledger_info := { consensus_block_id := some (ChainedBFT.BlockId.contentHash 5 (some 0) 50 4), commit_round := 5 } }, { signer := 1, signed_ledger_info := { consensus_block_id := some (ChainedBFT.BlockId.contentHash 5 (some 0) 50 4), commit_round := 5 } }] } }, { id := ChainedBFT.BlockId.contentHash 9 (some 0) 50 8, round := 9, height := 9, parent_id := ChainedBFT.BlockId.contentHash 8 (some 0) 50 7, author := some 0, payload := 50, quorum_cert := { certified_block_id := ChainedBFT.BlockId.contentHash 8 (some 0) 50 7, certified_block_round := 8, certified_block_height := 8, certified_parent_round := 7, ledger_info := { consensus_block_id := some (ChainedBFT.BlockId.contentHash 6 (some 0) 50 5), commit_round := 6 }, signatures := [{ signer := 0, signed_ledger_info := { consensus_block_id := some (ChainedBFT.BlockId.contentHash 6 (some 0) 50 5), commit_round := 6 } }, { signer := 1, signed_ledger_info := { consensus_block_id := some (ChainedBFT.BlockId.contentHash 6 (some 0) 50 5), commit_round := 6 } }] } }, { id := ChainedBFT.BlockId.contentHash 10 (some 0) 50 9, round := 10, height := 10, parent_id := ChainedBFT.BlockId.contentHash 9 (some 0) 50 8, author := some 0, payload := 50, quorum_cert := { certified_block_id := ChainedBFT.BlockId.contentHash 9 (some 0) 50 8, certified_block_round := 9, certified_block_height := 9, certified_parent_round := 8, ledger_info := { consensus_block_id := some (ChainedBFT.BlockId.contentHash 7 (some 0) 50 6), commit_round := 7 }, signatures := [{ signer := 0, signed_ledger_info := { consensus_block_id := some (ChainedBFT.BlockId.contentHash 7 (some 0) 50 6), commit_round := 7 } }, { signer := 1, signed_ledger_info := { consensus_block_id := some (ChainedBFT.BlockId.contentHash 7 (some 0) 50 6), commit_round := 7 } }] } }], root_id := ChainedBFT.BlockId.contentHash 8 (some 0) 50 7, highest_quorum_cert := { certified_block_id := ChainedBFT.BlockId.contentHash 10 (some 0) 50 9, certified_block_round := 10, certified_block_height := 10, certified_parent_round := 9, ledger_info := { consensus_block_id := some (ChainedBFT.BlockId.contentHash 8 (some 0) 50 7), commit_round := 8 }, signatures := [{ signer := 0, signed_ledger_info := { consensus_block_id := some (ChainedBFT.BlockId.contentHash 8 (some 0) 50 7), commit_round := 8 } }, { signer := 1, signed_ledger_info := { consensus_block_id := some (ChainedBFT.BlockId.contentHash 8 (some 0) 50 7), commit_round := 8 } }] }, highest_commit_cert := { certified_block_id := ChainedBFT.BlockId.contentHash 10 (some 0) 50 9, certified_block_round := 10, certified_block_height := 10, certified_parent_round := 9, ledger_info := { consensus_block_id := some (ChainedBFT.BlockId.contentHash 8 (some 0) 50 7), commit_round := 8 }, signatures := [{ signer := 0, signed_ledger_info := { consensus_block_id := some (ChainedBFT.BlockId.contentHash 8 (some 0) 50 7), commit_round := 8 } }, { signer := 1, signed_ledger_info := { consensus_block_id := some (ChainedBFT.BlockId.contentHash 8 (some 0) 50 7), commit_round := 8 } }] }, current_round := 11, last_voted_round := 10, preferred_round := 8, last_vote := none, pending_votes := [{ author := 0, block_id := ChainedBFT.BlockId.contentHash 1 (some 0) 50 0, round := 1, height := 1, parent_block_id := ChainedBFT.BlockId.genesisId, parent_round := 0, ledger_info := { consensus_block_id := none, commit_round := 0 } }, { author := 1, block_id := ChainedBFT.BlockId.contentHash 1 (some 0) 50 0, round := 1, height := 1, parent_block_id := ChainedBFT.BlockId.genesisId, parent_round := 0, ledger_info := { consensus_block_id := none, commit_round := 0 } }, { author := 0, block_id := ChainedBFT.BlockId.contentHash 2 (some 0) 50 1, round := 2, height := 2, parent_block_id := ChainedBFT.BlockId.contentHash 1 (some 0) 50 0, parent_round := 1, ledger_info := { consensus_block_id := some (ChainedBFT.BlockId.genesisId), commit_round := 0 } }, { author := 1, block_id := ChainedBFT.BlockId.contentHash 2 (some 0) 50 1, round := 2, height := 2, parent_block_id := ChainedBFT.BlockId.contentHash 1 (some 0) 50 0, parent_round := 1, ledger_info := { consensus_block_id := some (ChainedBFT.BlockId.genesisId), commit_round := 0 } }, { author := 0, block_id := ChainedBFT.BlockId.contentHash 3 (some 0) 50 2, round := 3, height := 3, parent_block_id := ChainedBFT.BlockId.contentHash 2 (some 0) 50 1, parent_round := 2, ledger_info := { consensus_block_id := some (ChainedBFT.BlockId.contentHash 1 (some 0) 50 0), commit_round := 1 } }, { author := 1, block_id := ChainedBFT.BlockId.contentHash 3 (some 0) 50 2, round := 3, height := 3, parent_block_id := ChainedBFT.BlockId.contentHash 2 (some 0) 50 1, parent_round := 2, ledger_info := { consensus_block_id := some (ChainedBFT.BlockId.contentHash 1 (some 0) 50 0), commit_round := 1 } }, { author := 0, block_id := ChainedBFT.BlockId.contentHash 4 (some 0) 50 3, round := 4, height := 4, parent_block_id := ChainedBFT.BlockId.contentHash 3 (some 0) 50 2, parent_round := 3, ledger_info := { consensus_block_id := some (ChainedBFT.BlockId.contentHash 2 (some 0) 50 1), commit_round := 2 } }, { author := 1, block_id := ChainedBFT.BlockId.contentHash 4 (some 0) 50 3, round := 4, height := 4, parent_block_id := ChainedBFT.BlockId.contentHash 3 (some 0) 50 2, parent_round := 3, ledger_info := { consensus_block_id := some (ChainedBFT.BlockId.contentHash 2 (some 0) 50 1), commit_round := 2 } }, { author := 0, block_id := ChainedBFT.BlockId.contentHash 5 (some 0) 50 4, round := 5, height := 5, parent_block_id := ChainedBFT.BlockId.contentHash 4 (some 0) 50 3, parent_round := 4, ledger_info := { consensus_block_id := some (ChainedBFT.BlockId.contentHash 3 (some 0) 50 2), commit_round := 3 } }, { author := 1, block_id := ChainedBFT.BlockId.contentHash 5 (some 0) 50 4, round := 5, height := 5, parent_block_id := ChainedBFT.BlockId.contentHash 4 (some 0) 50 3, parent_round := 4, ledger_info := { consensus_block_id := some (ChainedBFT.BlockId.contentHash 3 (some 0) 50 2), commit_round := 3 } }, { author := 0, block_id := ChainedBFT.BlockId.contentHash 6 (some 0) 50 5, round := 6, height := 6, parent_block_id := ChainedBFT.BlockId.contentHash 5 (some 0) 50 4, parent_round := 5, ledger_info := { consensus_block_id := some (ChainedBFT.BlockId.contentHash 4 (some 0) 50 3), commit_round := 4 } }, { author := 1, block_id := ChainedBFT.BlockId.contentHash 6 (some 0) 50 5, round := 6, height := 6, parent_block_id := ChainedBFT.BlockId.contentHash 5 (some 0) 50 4, parent_round := 5, ledger_info := { consensus_block_id := some (ChainedBFT.BlockId.contentHash 4 (some 0) 50 3), commit_round := 4 } }, { author := 0, block_id := ChainedBFT.BlockId.contentHash 7 (some 0) 50 6, round := 7, height := 7, parent_block_id := ChainedBFT.BlockId.contentHash 6 (some 0) 50 5, parent_round := 6, ledger_info := { consensus_block_id := some (ChainedBFT.BlockId.contentHash 5 (some 0) 50 4), commit_round := 5 } }, { author := 1, block_id := ChainedBFT.BlockId.contentHash 7 (some 0) 50 6, round := 7, height := 7, parent_block_id := ChainedBFT.BlockId.contentHash 6 (some 0) 50 5, parent_round := 6, ledger_info := { consensus_block_id := some (ChainedBFT.BlockId.contentHash 5 (some 0) 50 4), commit_round := 5 } }, { author := 0, block_id := ChainedBFT.BlockId.contentHash 8 (some 0) 50 7, round := 8, height := 8, parent_block_id := ChainedBFT.BlockId.contentHash 7 (some 0) 50 6, parent_round := 7, ledger_info := { consensus_block_id := some (ChainedBFT.BlockId.contentHash 6 (some 0) 50 5), commit_round := 6 } }, { author := 1, block_id := ChainedBFT.BlockId.contentHash 8 (some 0) 50 7, round := 8, height := 8, parent_block_id := ChainedBFT.BlockId.contentHash 7 (some 0) 50 6, parent_round := 7, ledger_info := { consensus_block_id := some (ChainedBFT.BlockId.contentHash 6 (some 0) 50 5), commit_round := 6 } }, { author := 0, block_id := ChainedBFT.BlockId.contentHash 9 (some 0) 50 8, round := 9, height := 9, parent_block_id := ChainedBFT.BlockId.contentHash 8 (some 0) 50 7, parent_round := 8, ledger_info := { consensus_block_id := some (ChainedBFT.BlockId.contentHash 7 (some 0) 50 6), commit_round := 7 } }, { author := 1, block_id := ChainedBFT.BlockId.contentHash 9 (some 0) 50 8, round := 9, height := 9, parent_block_id := ChainedBFT.BlockId.contentHash 8 (some 0) 50 7, parent_round := 8, ledger_info := { consensus_block_id := some (ChainedBFT.BlockId.contentHash 7 (some 0) 50 6), commit_round := 7 } }, { author := 0, block_id := ChainedBFT.BlockId.contentHash 10 (some 0) 50 9, round := 10, height := 10, parent_block_id := ChainedBFT.BlockId.contentHash 9 (some 0) 50 8, parent_round := 9, ledger_info := { consensus_block_id := some (ChainedBFT.BlockId.contentHash 8 (some 0) 50 7), commit_round := 8 } }, { author := 1, block_id := ChainedBFT.BlockId.contentHash 10 (some 0) 50 9, round := 10, height := 10, parent_block_id := ChainedBFT.BlockId.contentHash 9 (some 0) 50 8, parent_round := 9, ledger_info := { consensus_block_id := some (ChainedBFT.BlockId.contentHash 8 (some 0) 50 7), commit_round := 8 } }], pending_timeouts := [], highest_tc_round := 0, pending_secondary := none, pending_fetch := none, commits := [{ ledger_info := { consensus_block_id := some (ChainedBFT.BlockId.contentHash 1 (some 0) 50 0), commit_round := 1 }, signatures := [{ signer := 0, signed_ledger_info := { consensus_block_id := some (ChainedBFT.BlockId.contentHash 1 (some 0) 50 0), commit_round := 1 } }, { signer := 1, signed_ledger_info := { consensus_block_id := some (ChainedBFT.BlockId.contentHash 1 (some 0) 50 0), commit_round := 1 } }] }, { ledger_info := { consensus_block_id := some (ChainedBFT.BlockId.contentHash 2 (some 0) 50 1), commit_round := 2 }, signatures := [{ signer := 0, signed_ledger_info := { consensus_block_id := some (ChainedBFT.BlockId.contentHash 2 (some 0) 50 1), commit_round := 2 } }, { signer := 1, signed_ledger_info := { consensus_block_id := some (ChainedBFT.BlockId.contentHash 2 (some 0) 50 1), commit_round := 2 } }] }, { ledger_info := { consensus_block_id := some (ChainedBFT.BlockId.contentHash 3 (some 0) 50 2), commit_round := 3 }, signatures := [{ signer := 0, signed_ledger_info := { consensus_block_id := some (ChainedBFT.BlockId.contentHash 3 (some 0) 50 2), commit_round := 3 } }, { signer := 1, signed_ledger_info := { consensus_block_id := some (ChainedBFT.BlockId.contentHash 3 (some 0) 50 2), commit_round := 3 } }] }, { ledger_info := { consensus_block_id := some (ChainedBFT.BlockId.contentHash 4 (some 0) 50 3), commit_round := 4 }, signatures := [{ signer := 0, signed_ledger_info := { consensus_block_id := some (ChainedBFT.BlockId.contentHash 4 (some 0) 50 3), commit_round := 4 } }, { signer := 1, signed_ledger_info := { consensus_block_id := some (ChainedBFT.BlockId.contentHash 4 (some 0) 50 3), commit_round := 4 } }] }, { ledger_info := { consensus_block_id := some (ChainedBFT.BlockId.contentHash 5 (some 0) 50 4), commit_round := 5 }, signatures := [{ signer := 0, signed_ledger_info := { consensus_block_id := some (ChainedBFT.BlockId.contentHash 5 (some 0) 50 4), commit_round := 5 } }, { signer := 1, signed_ledger_info := { consensus_block_id := some (ChainedBFT.BlockId.contentHash 5 (some 0) 50 4), commit_round := 5 } }] }, { ledger_info := { consensus_block_id := some (ChainedBFT.BlockId.contentHash 6 (some 0) 50 5), commit_round := 6 }, signatures := [{ signer := 0, signed_ledger_info := { consensus_block_id := some (ChainedBFT.BlockId.contentHash 6 (some 0) 50 5), commit_round := 6 } }, { signer := 1, signed_ledger_info := { consensus_block_id := some (ChainedBFT.BlockId.contentHash 6 (some 0) 50 5), commit_round := 6 } }] }, { ledger_info := { consensus_block_id := some (ChainedBFT.BlockId.contentHash 7 (some 0) 50 6), commit_round := 7 }, signatures := [{ signer := 0, signed_ledger_info := { consensus_block_id := some (ChainedBFT.BlockId.contentHash 7 (some 0) 50 6), commit_round := 7 } }, { signer := 1, signed_ledger_info := { consensus_block_id := some (ChainedBFT.BlockId.contentHash 7 (some 0) 50 6), commit_round := 7 } }] }, { ledger_info := { consensus_block_id := some (ChainedBFT.BlockId.contentHash 8 (some 0) 50 7), commit_round := 8 }, signatures := [{ signer := 0, signed_ledger_info := { consensus_block_id := some (ChainedBFT.BlockId.contentHash 8 (some 0) 50 7), commit_round := 8 } }, { signer := 1, signed_ledger_info := { consensus_block_id := some (ChainedBFT.BlockId.contentHash 8 (some 0) 50 7), commit_round := 8 } }] }], committed_txns := 400 }, { author := 1, blocks := [{ id := ChainedBFT.BlockId.contentHash 7 (some 0) 50 6, round := 7, height := 7, parent_id := ChainedBFT.BlockId.contentHash 6 (some 0) 50 5, author := some 0, payload := 50, quorum_cert := { certified_block_id := ChainedBFT.BlockId.contentHash 6 (some 0) 50 5, certified_block_round := 6, certified_block_height := 6, certified_parent_round := 5, ledger_info := { consensus_block_id := some (ChainedBFT.BlockId.contentHash 4 (some 0) 50 3), commit_round := 4 }, signatures := [{ signer := 0, signed_ledger_info := { consensus_block_id := some (ChainedBFT.BlockId.contentHash 4 (some 0) 50 3), commit_round := 4 } }, { signer := 1, signed_ledger_info := { consensus_block_id := some (ChainedBFT.BlockId.contentHash 4 (some 0) 50 3), commit_round := 4 } }] } }, { id := ChainedBFT.BlockId.contentHash 8 (some 0) 50 7, round := 8, height := 8, parent_id := ChainedBFT.BlockId.contentHash 7 (some 0) 50 6, author := some 0, payload := 50, quorum_cert := { certified_block_id := ChainedBFT.BlockId.contentHash 7 (some 0) 50 6, certified_block_round := 7, certified_block_height := 7, certified_parent_round := 6, ledger_info := { consensus_block_id := some (ChainedBFT.BlockId.contentHash 5 (some 0) 50 4), commit_round := 5 }, signatures := [{ signer := 0, signed_ledger_info := { consensus_block_id := some (ChainedBFT.BlockId.contentHash 5 (some 0) 50 4), commit_round := 5 } }, { signer := 1, signed_ledger_info := { consensus_block_id := some (ChainedBFT.BlockId.contentHash 5 (some 0) 50 4), commit_round := 5 } }] } }, { id := ChainedBFT.BlockId.contentHash 9 (some 0) 50 8, round := 9, height := 9, parent_id := ChainedBFT.BlockId.contentHash 8 (some 0) 50 7, author := some 0, payload := 50, quorum_cert := { certified_block_id := ChainedBFT.BlockId.contentHash 8 (some 0) 50 7, certified_block_round := 8, certified_block_height := 8, certified_parent_round := 7, ledger_info := { consensus_block_id := some (ChainedBFT.BlockId.contentHash 6 (some 0) 50 5), commit_round := 6 }, signatures := [{ signer := 0, signed_ledger_info := { consensus_block_id := some (ChainedBFT.BlockId.contentHash 6 (some 0) 50 5), commit_round := 6 } }, { signer := 1, signed_ledger_info := { consensus_block_id := some (ChainedBFT.BlockId.contentHash 6 (some 0) 50 5), commit_round := 6 } }] } }, { id := ChainedBFT.BlockId.contentHash 10 (some 0) 50 9, round := 10, height := 10, parent_id := ChainedBFT.BlockId.contentHash 9 (some 0) 50 8, author := some 0, payload := 50, quorum_cert := { certified_block_id := ChainedBFT.BlockId.contentHash 9 (some 0) 50 8, certified_block_round := 9, certified_block_height := 9, certified_parent_round := 8, ledger_info := { consensus_block_id := some (ChainedBFT.BlockId.contentHash 7 (some 0) 50 6), commit_round := 7 }, signatures := [{ signer := 0, signed_ledger_info := { consensus_block_id := some (ChainedBFT.BlockId.contentHash 7 (some 0) 50 6), commit_round := 7 } }, { signer := 1, signed_ledger_info := { consensus_block_id := some (ChainedBFT.BlockId.contentHash 7 (some 0) 50 6), commit_round := 7 } }] } }], root_id := ChainedBFT.BlockId.contentHash 7 (some 0) 50 6, highest_quorum_cert := { certified_block_id := ChainedBFT.BlockId.contentHash 9 (some 0) 50 8, certified_block_round := 9, certified_block_height := 9, certified_parent_round := 8, ledger_info := { consensus_block_id := some (ChainedBFT.BlockId.contentHash 7 (some 0) 50 6), commit_round := 7 }, signatures := [{ signer := 0, signed_ledger_info := { consensus_block_id := some (ChainedBFT.BlockId.contentHash 7 (some 0) 50 6), commit_round := 7 } }, { signer := 1, signed_ledger_info := { consensus_block_id := some (ChainedBFT.BlockId.contentHash 7 (some 0) 50 6), commit_round := 7 } }] }, highest_commit_cert := { certified_block_id := ChainedBFT.BlockId.contentHash 9 (some 0) 50 8, certified_block_round := 9, certified_block_height := 9, certified_parent_round := 8, ledger_info := { consensus_block_id := some (ChainedBFT.BlockId.contentHash 7 (some 0) 50 6), commit_round := 7 }, signatures := [{ signer := 0, signed_ledger_info := { consensus_block_id := some (ChainedBFT.BlockId.contentHash 7 (some 0) 50 6), commit_round := 7 } }, { signer := 1, signed_ledger_info := { consensus_block_id := some (ChainedBFT.BlockId.contentHash 7 (some 0) 50 6), commit_round := 7 } }] }, current_round := 10, last_voted_round := 10, preferred_round := 8, last_vote := some { author := 1, block_id := ChainedBFT.BlockId.contentHash 10 (some 0) 50 9, round := 10, height := 10, parent_block_id := ChainedBFT.BlockId.contentHash 9 (some 0) 50 8, parent_round := 9, ledger_info := { consensus_block_id := some (ChainedBFT.BlockId.contentHash 8 (some 0) 50 7), commit_round := 8 } }, pending_votes := [], pending_timeouts := [], highest_tc_round := 0, pending_secondary := none, pending_fetch := none, commits := [{ ledger_info := { consensus_block_id := some (ChainedBFT.BlockId.contentHash 1 (some 0) 50 0), commit_round := 1 }, signatures := [{ signer := 0, signed_ledger_info := { consensus_block_id := some (ChainedBFT.BlockId.contentHash 1 (some 0) 50 0), commit_round := 1 } }, { signer := 1, signed_ledger_info := { consensus_block_id := some (ChainedBFT.BlockId.contentHash 1 (some 0) 50 0), commit_round := 1 } }] }, { ledger_info := { consensus_block_id := some (ChainedBFT.BlockId.contentHash 2 (some 0) 50 1), commit_round := 2 }, signatures := [{ signer := 0, signed_ledger_info := { consensus_block_id := some (ChainedBFT.BlockId.contentHash 2 (some 0) 50 1), commit_round := 2 } }, { signer := 1, signed_ledger_info := { consensus_block_id := some (ChainedBFT.BlockId.contentHash 2 (some 0) 50 1), commit_round := 2 } }] }, { ledger_info := { consensus_block_id := some (ChainedBFT.BlockId.contentHash 3 (some 0) 50 2), commit_round := 3 }, signatures := [{ signer := 0, signed_ledger_info := { consensus_block_id := some (ChainedBFT.BlockId.contentHash 3 (some 0) 50 2), commit_round := 3 } }, { signer := 1, signed_ledger_info := { consensus_block_id := some (ChainedBFT.BlockId.contentHash 3 (some 0) 50 2), commit_round := 3 } }] }, { ledger_info := { consensus_block_id := some (ChainedBFT.BlockId.contentHash 4 (some 0) 50 3), commit_round := 4 }, signatures := [{ signer := 0, signed_ledger_info := { consensus_block_id := some (ChainedBFT.BlockId.contentHash 4 (some 0) 50 3), commit_round := 4 } }, { signer := 1, signed_ledger_info := { consensus_block_id := some (ChainedBFT.BlockId.contentHash 4 (some 0) 50 3), commit_round := 4 } }] }, { ledger_info := { consensus_block_id := some (ChainedBFT.BlockId.contentHash 5 (some 0) 50 4), commit_round := 5 }, signatures := [{ signer := 0, signed_ledger_info := { consensus_block_id := some (ChainedBFT.BlockId.contentHash 5 (some 0) 50 4), commit_round := 5 } }, { signer := 1, signed_ledger_info := { consensus_block_id := some (ChainedBFT.BlockId.contentHash 5 (some 0) 50 4), commit_round := 5 } }] }, { ledger_info := { consensus_block_id := some (ChainedBFT.BlockId.contentHash 6 (some 0) 50 5), commit_round := 6 }, signatures := [{ signer := 0, signed_ledger_info := { consensus_block_id := some (ChainedBFT.BlockId.contentHash 6 (some 0) 50 5), commit_round := 6 } }, { signer := 1, signed_ledger_info := { consensus_block_id := some (ChainedBFT.BlockId.contentHash 6 (some 0) 50 5), commit_round := 6 } }] }, { ledger_info := { consensus_block_id := some (ChainedBFT.BlockId.contentHash 7 (some 0) 50 6), commit_round := 7 }, signatures := [{ signer := 0, signed_ledger_info := { consensus_block_id := some (ChainedBFT.BlockId.contentHash 7 (some 0) 50 6), commit_round := 7 } }, { signer := 1, signed_ledger_info := { consensus_block_id := some (ChainedBFT.BlockId.contentHash 7 (some 0) 50 6), commit_round := 7 } }] }], committed_txns := 350 }, { author := 2, blocks := [{ id := ChainedBFT.BlockId.contentHash 10 (some 0) 50 9, round := 10, height := 10, parent_id := ChainedBFT.BlockId.contentHash 9 (some 0) 50 8, author := some 0, payload := 50, quorum_cert := { certified_block_id := ChainedBFT.BlockId.contentHash 9 (some 0) 50 8, certified_block_round := 9, certified_block_height := 9, certified_parent_round := 8, ledger_info := { consensus_block_id := some (ChainedBFT.BlockId.contentHash 7 (some 0) 50 6), commit_round := 7 }, signatures := [{ signer := 0, signed_ledger_info := { consensus_block_id := some (ChainedBFT.BlockId.contentHash 7 (some 0) 50 6), commit_round := 7 } }, { signer := 1, signed_ledger_info := { consensus_block_id := some (ChainedBFT.BlockId.contentHash 7 (some 0) 50 6), commit_round := 7 } }] } }, { id := ChainedBFT.BlockId.contentHash 9 (some 0) 50 8, round := 9, height := 9, parent_id := ChainedBFT.BlockId.contentHash 8 (some 0) 50 7, author := some 0, payload := 50, quorum_cert := { certified_block_id := ChainedBFT.BlockId.contentHash 8 (some 0) 50 7, certified_block_round := 8, certified_block_height := 8, certified_parent_round := 7, ledger_info := { consensus_block_id := some (ChainedBFT.BlockId.contentHash 6 (some 0) 50 5), commit_round := 6 }, signatures := [{ signer := 0, signed_ledger_info := { consensus_block_id := some (ChainedBFT.BlockId.contentHash 6 (some 0) 50 5), commit_round := 6 } }, { signer := 1, signed_ledger_info := { consensus_block_id := some (ChainedBFT.BlockId.contentHash 6 (some 0) 50 5), commit_round := 6 } }] } }, { id := ChainedBFT.BlockId.contentHash 8 (some 0) 50 7, round := 8, height := 8, parent_id := ChainedBFT.BlockId.contentHash 7 (some 0) 50 6, author := some 0, payload := 50, quorum_cert := { certified_block_id := ChainedBFT.BlockId.contentHash 7 (some 0) 50 6, certified_block_round := 7, certified_block_height := 7, certified_parent_round := 6, ledger_info := { consensus_block_id := some (ChainedBFT.BlockId.contentHash 5 (some 0) 50 4), commit_round := 5 }, signatures := [{ signer := 0, signed_ledger_info := { consensus_block_id := some (ChainedBFT.BlockId.contentHash 5 (some 0) 50 4), commit_round := 5 } }, { signer := 1, signed_ledger_info := { consensus_block_id := some (ChainedBFT.BlockId.contentHash 5 (some 0) 50 4), commit_round := 5 } }] } }, { id := ChainedBFT.BlockId.contentHash 11 (some 0) 50 10, round := 11, height := 11, parent_id := ChainedBFT.BlockId.contentHash 10 (some 0) 50 9, author := some 0, payload := 50, quorum_cert := { certified_block_id := ChainedBFT.BlockId.contentHash 10 (some 0) 50 9, certified_block_round := 10, certified_block_height := 10, certified_parent_round := 9, ledger_info := { consensus_block_id := some (ChainedBFT.BlockId.contentHash 8 (some 0) 50 7), commit_round := 8 }, signatures := [{ signer := 0, signed_ledger_info := { consensus_block_id := some (ChainedBFT.BlockId.contentHash 8 (some 0) 50 7), commit_round := 8 } }, { signer := 1, signed_ledger_info := { consensus_block_id := some (ChainedBFT.BlockId.contentHash 8 (some 0) 50 7), commit_round := 8 } }] } }], root_id := ChainedBFT.BlockId.contentHash 8 (some 0) 50 7, highest_quorum_cert := { certified_block_id := ChainedBFT.BlockId.contentHash 10 (some 0) 50 9, certified_block_round := 10, certified_block_height := 10, certified_parent_round := 9, ledger_info := { consensus_block_id := some (ChainedBFT.BlockId.contentHash 8 (some 0) 50 7), commit_round := 8 }, signatures := [{ signer := 0, signed_ledger_info := { consensus_block_id := some (ChainedBFT.BlockId.contentHash 8 (some 0) 50 7), commit_round := 8 } }, { signer := 1, signed_ledger_info := { consensus_block_id := some (ChainedBFT.BlockId.contentHash 8 (some 0) 50 7), commit_round := 8 } }] }, highest_commit_cert := { certified_block_id := ChainedBFT.BlockId.contentHash 10 (some 0) 50 9, certified_block_round := 10, certified_block_height := 10, certified_parent_round := 9, ledger_info := { consensus_block_id := some (ChainedBFT.BlockId.contentHash 8 (some 0) 50 7), commit_round := 8 }, signatures := [{ signer := 0, signed_ledger_info := { consensus_block_id := some (ChainedBFT.BlockId.contentHash 8 (some 0) 50 7), commit_round := 8 } }, { signer := 1, signed_ledger_info := { consensus_block_id := some (ChainedBFT.BlockId.contentHash 8 (some 0) 50 7), commit_round := 8 } }] }, current_round := 11, last_voted_round := 11, preferred_round := 9, last_vote := some { author := 2, block_id := ChainedBFT.BlockId.contentHash 11 (some 0) 50 10, round := 11, height := 11, parent_block_id := ChainedBFT.BlockId.contentHash 10 (some 0) 50 9, parent_round := 10, ledger_info := { consensus_block_id := some (ChainedBFT.BlockId.contentHash 9 (some 0) 50 8), commit_round := 9 } }, pending_votes := [], pending_timeouts := [], highest_tc_round := 0, pending_secondary := none, pending_fetch := none, commits := [{ ledger_info := { consensus_block_id := some (ChainedBFT.BlockId.contentHash 8 (some 0) 50 7), commit_round := 8 }, signatures := [{ signer := 0, signed_ledger_info := { consensus_block_id := some (ChainedBFT.BlockId.contentHash 8 (some 0) 50 7), commit_round := 8 } }, { signer := 1, signed_ledger_info := { consensus_block_id := some (ChainedBFT.BlockId.contentHash 8 (some 0) 50 7), commit_round := 8 } }] }], committed_txns := 0 }], [(0, 0, ChainedBFT.Msg.proposal { id := ChainedBFT.BlockId.contentHash 11 (some 0) 50 10, round := 11, height := 11, parent_id := ChainedBFT.BlockId.contentHash 10 (some 0) 50 9, author := some 0, payload := 50, quorum_cert := { certified_block_id := ChainedBFT.BlockId.contentHash 10 (some 0) 50 9, certified_block_round := 10, certified_block_height := 10, certified_parent_round := 9, ledger_info := { consensus_block_id := some (ChainedBFT.BlockId.contentHash 8 (some 0) 50 7), commit_round := 8 }, signatures := [{ signer := 0, signed_ledger_info := { consensus_block_id := some (ChainedBFT.BlockId.contentHash 8 (some 0) 50 7), commit_round := 8 } }, { signer := 1, signed_ledger_info := { consensus_block_id := some (ChainedBFT.BlockId.contentHash 8 (some 0) 50 7), commit_round := 8 } }] } } { highest_quorum_cert := { certified_block_id := ChainedBFT.BlockId.contentHash 10 (some 0) 50 9, certified_block_round := 10, certified_block_height := 10, certified_parent_round := 9, ledger_info := { consensus_block_id := some (ChainedBFT.BlockId.contentHash 8 (some 0) 50 7), commit_round := 8 }, signatures := [{ signer := 0, signed_ledger_info := { consensus_block_id := some (ChainedBFT.BlockId.contentHash 8 (some 0) 50 7), commit_round := 8 } }, { signer := 1, signed_ledger_info := { consensus_block_id := some (ChainedBFT.BlockId.contentHash 8 (some 0) 50 7), commit_round := 8 } }] }, highest_commit_cert := { certified_block_id := ChainedBFT.BlockId.contentHash 10 (some 0) 50 9, certified_block_round := 10, certified_block_height := 10, certified_parent_round := 9, ledger_info := { consensus_block_id := some (ChainedBFT.BlockId.contentHash 8 (some 0) 50 7), commit_round := 8 }, signatures := [{ signer := 0, signed_ledger_info := { consensus_block_id := some (ChainedBFT.BlockId.contentHash 8 (some 0) 50 7), commit_round := 8 } }, { signer := 1, signed_ledger_info := { consensus_block_id := some (ChainedBFT.BlockId.contentHash 8 (some 0) 50 7), commit_round := 8 } }] } }), (0, 1, ChainedBFT.Msg.proposal { id := ChainedBFT.BlockId.contentHash 11 (some 0) 50 10, round := 11, height := 11, parent_id := ChainedBFT.BlockId.contentHash 10 (some 0) 50 9, author := some 0, payload := 50, quorum_cert := { certified_block_id := ChainedBFT.BlockId.contentHash 10 (some 0) 50 9, certified_block_round := 10, certified_block_height := 10, certified_parent_round := 9, ledger_info := { consensus_block_id := some (ChainedBFT.BlockId.contentHash 8 (some 0) 50 7), commit_round := 8 }, signatures := [{ signer := 0, signed_ledger_info := { consensus_block_id := some (ChainedBFT.BlockId.contentHash 8 (some 0) 50 7), commit_round := 8 } }, { signer := 1, signed_ledger_info := { consensus_block_id := some (ChainedBFT.BlockId.contentHash 8 (some 0) 50 7), commit_round := 8 } }] } } { highest_quorum_cert := { certified_block_id := ChainedBFT.BlockId.contentHash 10 (some 0) 50 9, certified_block_round := 10, certified_block_height := 10, certified_parent_round := 9, ledger_info := { consensus_block_id := some (ChainedBFT.BlockId.contentHash 8 (some 0) 50 7), commit_round := 8 }, signatures := [{ signer := 0, signed_ledger_info := { consensus_block_id := some (ChainedBFT.BlockId.contentHash 8 (some 0) 50 7), commit_round := 8 } }, { signer := 1, signed_ledger_info := { consensus_block_id := some (ChainedBFT.BlockId.contentHash 8 (some 0) 50 7), commit_round := 8 } }] }, highest_commit_cert := { certified_block_id := ChainedBFT.BlockId.contentHash 10 (some 0) 50 9, certified_block_round := 10, certified_block_height := 10, certified_parent_round := 9, ledger_info := { consensus_block_id := some (ChainedBFT.BlockId.contentHash 8 (some 0) 50 7), commit_round := 8 }, signatures := [{ signer := 0, signed_ledger_info := { consensus_block_id := some (ChainedBFT.BlockId.contentHash 8 (some 0) 50 7), commit_round := 8 } }, { signer := 1, signed_ledger_info := { consensus_block_id := some (ChainedBFT.BlockId.contentHash 8 (some 0) 50 7), commit_round := 8 } }] } }), (2, 0, ChainedBFT.Msg.vote { author := 2, block_id := ChainedBFT.BlockId.contentHash 11 (some 0) 50 10, round := 11, height := 11, parent_block_id := ChainedBFT.BlockId.contentHash 10 (some 0) 50 9, parent_round := 10, ledger_info := { consensus_block_id := some (ChainedBFT.BlockId.contentHash 9 (some 0) 50 8), commit_round := 9 } })], [], [ChainedBFT.MsgDigest.proposalD { round := 1, height := 1, id := ChainedBFT.BlockId.contentHash 1 (some 0) 50 0, parent_id := ChainedBFT.BlockId.genesisId, qc_certified_block_id := ChainedBFT.BlockId.genesisId }, ChainedBFT.MsgDigest.voteD { round := 1, block_id := ChainedBFT.BlockId.contentHash 1 (some 0) 50 0 }, ChainedBFT.MsgDigest.proposalD { round := 2, height := 2, id := ChainedBFT.BlockId.contentHash 2 (some 0) 50 1, parent_id := ChainedBFT.BlockId.contentHash 1 (some 0) 50 0, qc_certified_block_id := ChainedBFT.BlockId.contentHash 1 (some 0) 50 0 }, ChainedBFT.MsgDigest.voteD { round := 2, block_id := ChainedBFT.BlockId.contentHash 2 (some 0) 50 1 }, ChainedBFT.MsgDigest.proposalD { round := 3, height := 3, id := ChainedBFT.BlockId.contentHash 3 (some 0) 50 2, parent_id := ChainedBFT.BlockId.contentHash 2 (some 0) 50 1, qc_certified_block_id := ChainedBFT.BlockId.contentHash 2 (some 0) 50 1 }, ChainedBFT.MsgDigest.voteD { round := 3, block_id := ChainedBFT.BlockId.contentHash 3 (some 0) 50 2 }, ChainedBFT.MsgDigest.proposalD { round := 4, height := 4, id := ChainedBFT.BlockId.contentHash 4 (some 0) 50 3, parent_id := ChainedBFT.BlockId.contentHash 3 (some 0) 50 2, qc_certified_block_id := ChainedBFT.BlockId.contentHash 3 (some 0) 50 2 }, ChainedBFT.MsgDigest.voteD { round := 4, block_id := ChainedBFT.BlockId.contentHash 4 (some 0) 50 3 }, ChainedBFT.MsgDigest.proposalD { round := 5, height := 5, id := ChainedBFT.BlockId.contentHash 5 (some 0) 50 4, parent_id := ChainedBFT.BlockId.contentHash 4 (some 0) 50 3, qc_certified_block_id := ChainedBFT.BlockId.contentHash 4 (some 0) 50 3 }, ChainedBFT.MsgDigest.voteD { round := 5, block_id := ChainedBFT.BlockId.contentHash 5 (some 0) 50 4 }, ChainedBFT.MsgDigest.proposalD { round := 6, height := 6, id := ChainedBFT.BlockId.contentHash 6 (some 0) 50 5, parent_id := ChainedBFT.BlockId.contentHash 5 (some 0) 50 4, qc_certified_block_id := ChainedBFT.BlockId.contentHash 5 (some 0) 50 4 }, ChainedBFT.MsgDigest.voteD { round := 6, block_id := ChainedBFT.BlockId.contentHash 6 (some 0) 50 5 }, ChainedBFT.MsgDigest.proposalD { round := 7, height := 7, id := ChainedBFT.BlockId.contentHash 7 (some 0) 50 6, parent_id := ChainedBFT.BlockId.contentHash 6 (some 0) 50 5, qc_certified_block_id := ChainedBFT.BlockId.contentHash 6 (some 0) 50 5 }, ChainedBFT.MsgDigest.voteD { round := 7, block_id := ChainedBFT.BlockId.contentHash 7 (some 0) 50 6 }, ChainedBFT.MsgDigest.proposalD { round := 8, height := 8, id := ChainedBFT.BlockId.contentHash 8 (some 0) 50 7, parent_id := ChainedBFT.BlockId.contentHash 7 (some 0) 50 6, qc_certified_block_id := ChainedBFT.BlockId.contentHash 7 (some 0) 50 6 }, ChainedBFT.MsgDigest.voteD { round := 8, block_id := ChainedBFT.BlockId.contentHash 8 (some 0) 50 7 }, ChainedBFT.MsgDigest.proposalD { round := 9, height := 9, id := ChainedBFT.BlockId.contentHash 9 (some 0) 50 8, parent_id := ChainedBFT.BlockId.contentHash 8 (some 0) 50 7, qc_certified_block_id := ChainedBFT.BlockId.contentHash 8 (some 0) 50 7 }, ChainedBFT.MsgDigest.voteD { round := 9, block_id := ChainedBFT.BlockId.contentHash 9 (some 0) 50 8 }, ChainedBFT.MsgDigest.proposalD { round := 10, height := 10, id := ChainedBFT.BlockId.contentHash 10 (some 0) 50 9, parent_id := ChainedBFT.BlockId.contentHash 9 (some 0) 50 8, qc_certified_block_id := ChainedBFT.BlockId.contentHash 9 (some 0) 50 8 }, ChainedBFT.MsgDigest.voteD { round := 10, block_id := ChainedBFT.BlockId.contentHash 10 (some 0) 50 9 }, ChainedBFT.MsgDigest.proposalD { round := 11, height := 11, id := ChainedBFT.BlockId.contentHash 11 (some 0) 50 10, parent_id := ChainedBFT.BlockId.contentHash 10 (some 0) 50 9, qc_certified_block_id := ChainedBFT.BlockId.contentHash 10 (some 0) 50 9 }, ChainedBFT.MsgDigest.otherD, ChainedBFT.MsgDigest.otherD]⟩

/-- Checkpoint of the simulated cluster (see the scenario schedule definitions). -/
def c8w1 : World :=
⟨{ num_nodes := 3, quorum_size := 2, proposer_type := ChainedBFT.ConsensusProposerType.MultipleOrderedProposers, contiguous_rounds := 2, max_block_size := 50 }, [{ author := 0, blocks := [{ id := ChainedBFT.BlockId.genesisId, round := 0, height := 0, parent_id := ChainedBFT.BlockId.genesisId, author := none, payload := 0, quorum_cert := { certified_block_id := ChainedBFT.BlockId.genesisId, certified_block_round := 0, certified_block_height := 0, certified_parent_round := 0, ledger_info := { consensus_block_id := some (ChainedBFT.BlockId.genesisId), commit_round := 0 }, signatures := [] } }, { id := ChainedBFT.BlockId.contentHash 1 (some 1) 50 0, round := 1, height := 1, parent_id := ChainedBFT.BlockId.genesisId, author := some 1, payload := 50, quorum_cert := { certified_block_id := ChainedBFT.BlockId.genesisId, certified_block_round := 0, certified_block_height := 0, certified_parent_round := 0, ledger_info := { consensus_block_id := some (ChainedBFT.BlockId.genesisId), commit_round := 0 }, signatures := [] } }], root_id := ChainedBFT.BlockId.genesisId, highest_quorum_cert := { certified_block_id := ChainedBFT.BlockId.genesisId, certified_block_round := 0, certified_block_height := 0, certified_parent_round := 0, ledger_info := { consensus_block_id := some (ChainedBFT.BlockId.genesisId), commit_round := 0 }, signatures := [] }, highest_commit_cert := { certified_block_id := ChainedBFT.BlockId.genesisId, certified_block_round := 0, certified_block_height := 0, certified_parent_round := 0, ledger_info := { consensus_block_id := some (ChainedBFT.BlockId.genesisId), commit_round := 0 }, signatures := [] }, current_round := 1, last_voted_round := 1, preferred_round := 0, last_vote := some { author := 0, block_id := ChainedBFT.BlockId.contentHash 1 (some 1) 50 0, round := 1, height := 1, parent_block_id := ChainedBFT.BlockId.genesisId, parent_round := 0, ledger_info := { consensus_block_id := none, commit_round := 0 } }, pending_votes := [], pending_timeouts := [], highest_tc_round := 0, pending_secondary := some ({ id := ChainedBFT.BlockId.contentHash 1 (some 2) 50 0, round := 1, height := 1, parent_id := ChainedBFT.BlockId.genesisId, author := some 2, payload := 50, quorum_cert := { certified_block_id := ChainedBFT.BlockId.genesisId, certified_block_round := 0, certified_block_height := 0, certified_parent_round := 0, ledger_info := { consensus_block_id := some (ChainedBFT.BlockId.genesisId), commit_round := 0 }, signatures := [] } }, { highest_quorum_cert := { certified_block_id := ChainedBFT.BlockId.genesisId, certified_block_round := 0, certified_block_height := 0, certified_parent_round := 0, ledger_info := { consensus_block_id := some (ChainedBFT.BlockId.genesisId), commit_round := 0 }, signatures := [] }, highest_commit_cert := { certified_block_id := ChainedBFT.BlockId.genesisId, certified_block_round := 0, certified_block_height := 0, certified_parent_round := 0, ledger_info := { consensus_block_id := some (ChainedBFT.BlockId.genesisId), commit_round := 0 }, signatures := [] } }), pending_fetch := none, commits := [], committed_txns := 0 }, { author := 1, blocks := [{ id := ChainedBFT.BlockId.genesisId, round := 0, height := 0, parent_id := ChainedBFT.BlockId.genesisId, author := none, payload := 0, quorum_cert := { certified_block_id := ChainedBFT.BlockId.genesisId, certified_block_round := 0, certified_block_height := 0, certified_parent_round := 0, ledger_info := { consensus_block_id := some (ChainedBFT.BlockId.genesisId), commit_round := 0 }, signatures := [] } }, { id := ChainedBFT.BlockId.contentHash 1 (some 1) 50 0, round := 1, height := 1, parent_id := ChainedBFT.BlockId.genesisId, author := some 1, payload := 50, quorum_cert := { certified_block_id := ChainedBFT.BlockId.genesisId, certified_block_round := 0, certified_block_height := 0, certified_parent_round := 0, ledger_info := { consensus_block_id := some (ChainedBFT.BlockId.genesisId), commit_round := 0 }, signatures := [] } }], root_id := ChainedBFT.BlockId.genesisId, highest_quorum_cert := { certified_block_id := ChainedBFT.BlockId.genesisId, certified_block_round := 0, certified_block_height := 0, certified_parent_round := 0, ledger_info := { consensus_block_id := some (ChainedBFT.BlockId.genesisId), commit_round := 0 }, signatures := [] }, highest_commit_cert := { certified_block_id := ChainedBFT.BlockId.genesisId, certified_block_round := 0, certified_block_height := 0, certified_parent_round := 0, ledger_info := { consensus_block_id := some (ChainedBFT.BlockId.genesisId), commit_round := 0 }, signatures := [] }, current_round := 1, last_voted_round := 1, preferred_round := 0, last_vote := some { author := 1, block_id := ChainedBFT.BlockId.contentHash 1 (some 1) 50 0, round := 1, height := 1, parent_block_id := ChainedBFT.BlockId.genesisId, parent_round := 0, ledger_info := { consensus_block_id := none, commit_round := 0 } }, pending_votes := [], pending_timeouts := [], highest_tc_round := 0, pending_secondary := some ({ id := ChainedBFT.BlockId.contentHash 1 (some 2) 50 0, round := 1, height := 1, parent_id := ChainedBFT.BlockId.genesisId, author := some 2, payload := 50, quorum_cert := { certified_block_id := ChainedBFT.BlockId.genesisId, certified_block_round := 0, certified_block_height := 0, certified_parent_round := 0, ledger_info := { consensus_block_id := some (ChainedBFT.BlockId.genesisId), commit_round := 0 }, signatures := [] } }, { highest_quorum_cert := { certified_block_id := ChainedBFT.BlockId.genesisId, certified_block_round := 0, certified_block_height := 0, certified_parent_round := 0, ledger_info := { consensus_block_id := some (ChainedBFT.BlockId.genesisId), commit_round := 0 }, signatures := [] }, highest_commit_cert := { certified_block_id := ChainedBFT.BlockId.genesisId, certified_block_round := 0, certified_block_height := 0, certified_parent_round := 0, ledger_info := { consensus_block_id := some (ChainedBFT.BlockId.genesisId), commit_round := 0 }, signatures := [] } }), pending_fetch := none, commits := [], committed_txns := 0 }, { author := 2, blocks := [{ id := ChainedBFT.BlockId.genesisId, round := 0, height := 0, parent_id := ChainedBFT.BlockId.genesisId, author := none, payload := 0, quorum_cert := { certified_block_id := ChainedBFT.BlockId.genesisId, certified_block_round := 0, certified_block_height := 0, certified_parent_round := 0, ledger_info := { consensus_block_id := some (ChainedBFT.BlockId.genesisId), commit_round := 0 }, signatures := [] } }, { id := ChainedBFT.BlockId.contentHash 1 (some 1) 50 0, round := 1, height := 1, parent_id := ChainedBFT.BlockId.genesisId, author := some 1, payload := 50, quorum_cert := { certified_block_id := ChainedBFT.BlockId.genesisId, certified_block_round := 0, certified_block_height := 0, certified_parent_round := 0, ledger_info := { consensus_block_id := some (ChainedBFT.BlockId.genesisId), commit_round := 0 }, signatures := [] } }], root_id := ChainedBFT.BlockId.genesisId, highest_quorum_cert := { certified_block_id := ChainedBFT.BlockId.genesisId, certified_block_round := 0, certified_block_height := 0, certified_parent_round := 0, ledger_info := { consensus_block_id := some (ChainedBFT.BlockId.genesisId), commit_round := 0 }, signatures := [] }, highest_commit_cert := { certified_block_id := ChainedBFT.BlockId.genesisId, certified_block_round := 0, certified_block_height := 0, certified_parent_round := 0, ledger_info := { consensus_block_id := some (ChainedBFT.BlockId.genesisId), commit_round := 0 }, signatures := [] }, current_round := 1, last_voted_round := 1, preferred_round := 0, last_vote := some { author := 2, block_id := ChainedBFT.BlockId.contentHash 1 (some 1) 50 0, round := 1, height := 1, parent_block_id := ChainedBFT.BlockId.genesisId, parent_round := 0, ledger_info := { consensus_block_id := none, commit_round := 0 } }, pending_votes := [], pending_timeouts := [], highest_tc_round := 0, pending_secondary := some ({ id := ChainedBFT.BlockId.contentHash 1 (some 2) 50 0, round := 1, height := 1, parent_id := ChainedBFT.BlockId.genesisId, author := some 2, payload := 50, quorum_cert := { certified_block_id := ChainedBFT.BlockId.genesisId, certified_block_round := 0, certified_block_height := 0, certified_parent_round := 0, ledger_info := { consensus_block_id := some (ChainedBFT.BlockId.genesisId), commit_round := 0 }, signatures := [] } }, { highest_quorum_cert := { certified_block_id := ChainedBFT.BlockId.genesisId, certified_block_round := 0, certified_block_height := 0, certified_parent_round := 0, ledger_info := { consensus_block_id := some (ChainedBFT.BlockId.genesisId), commit_round := 0 }, signatures := [] }, highest_commit_cert := { certified_block_id := ChainedBFT.BlockId.genesisId, certified_block_round := 0, certified_block_height := 0, certified_parent_round := 0, ledger_info := { consensus_block_id := some (ChainedBFT.BlockId.genesisId), commit_round := 0 }, signatures := [] } }), pending_fetch := none, commits := [], committed_txns := 0 }], [(1, 2, ChainedBFT.Msg.vote { author := 1, block_id := ChainedBFT.BlockId.contentHash 1 (some 1) 50 0, round := 1, height := 1, parent_block_id := ChainedBFT.BlockId.genesisId, parent_round := 0, ledger_info := { consensus_block_id := none, commit_round := 0 } }), (1, 0, ChainedBFT.Msg.vote { author := 1, block_id := ChainedBFT.BlockId.contentHash 1 (some 1) 50 0, round := 1, height := 1, parent_block_id := ChainedBFT.BlockId.genesisId, parent_round := 0, ledger_info := { consensus_block_id := none, commit_round := 0 } }), (2, 2, ChainedBFT.Msg.vote { author := 2, block_id := ChainedBFT.BlockId.contentHash 1 (some 1) 50 0, round := 1, height := 1, parent_block_id := ChainedBFT.BlockId.genesisId, parent_round := 0, ledger_info := { consensus_block_id := none, commit_round := 0 } }), (2, 0, ChainedBFT.Msg.vote { author := 2, block_id := ChainedBFT.BlockId.contentHash 1 (some 1) 50 0, round := 1, height := 1, parent_block_id := ChainedBFT.BlockId.genesisId, parent_round := 0, ledger_info := { consensus_block_id := none, commit_round := 0 } }), (0, 0, ChainedBFT.Msg.vote { author := 0, block_id := ChainedBFT.BlockId.contentHash 1 (some 1) 50 0, round := 1, height := 1, parent_block_id := ChainedBFT.BlockId.genesisId, parent_round := 0, ledger_info := { consensus_block_id := none, commit_round := 0 } })], [(0, 2), (0, 1)], [ChainedBFT.MsgDigest.proposalD { round := 1, height := 1, id := ChainedBFT.BlockId.contentHash 1 (some 1) 50 0, parent_id := ChainedBFT.BlockId.genesisId, qc_certified_block_id := ChainedBFT.BlockId.genesisId }, ChainedBFT.MsgDigest.proposalD { round := 1, height := 1, id := ChainedBFT.BlockId.contentHash 1 (some 1) 50 0, parent_id := ChainedBFT.BlockId.genesisId, qc_certified_block_id := ChainedBFT.BlockId.genesisId }, ChainedBFT.MsgDigest.proposalD { round := 1, height := 1, id := ChainedBFT.BlockId.contentHash 1 (some 2) 50 0, parent_id := ChainedBFT.BlockId.genesisId, qc_certified_block_id := ChainedBFT.BlockId.genesisId }, ChainedBFT.MsgDigest.proposalD { round := 1, height := 1, id := ChainedBFT.BlockId.contentHash 1 (some 2) 50 0, parent_id := ChainedBFT.BlockId.genesisId, qc_certified_block_id := ChainedBFT.BlockId.genesisId }]⟩

/-- Checkpoint of the simulated cluster (see the scenario schedule definitions). -/
def c8w2 : World :=
⟨{ num_nodes := 3, quorum_size := 2, proposer_type := ChainedBFT.ConsensusProposerType.MultipleOrderedProposers, contiguous_rounds := 2, max_block_size := 50 }, [{ author := 0, blocks := [{ id := ChainedBFT.BlockId.genesisId, round := 0, height := 0, parent_id := ChainedBFT.BlockId.genesisId, author := none, payload := 0, quorum_cert := { certified_block_id := ChainedBFT.BlockId.genesisId, certified_block_round := 0, certified_block_height := 0, certified_parent_round := 0, ledger_info := { consensus_block_id := some (ChainedBFT.BlockId.genesisId), commit_round := 0 }, signatures := [] } }, { id := ChainedBFT.BlockId.contentHash 1 (some 1) 50 0, round := 1, height := 1, parent_id := ChainedBFT.BlockId.genesisId, author := some 1, payload := 50, quorum_cert := { certified_block_id := ChainedBFT.BlockId.genesisId, certified_block_round := 0, certified_block_height := 0, certified_parent_round := 0, ledger_info := { consensus_block_id := some (ChainedBFT.BlockId.genesisId), commit_round := 0 }, signatures := [] } }], root_id := ChainedBFT.BlockId.genesisId, highest_quorum_cert := { certified_block_id := ChainedBFT.BlockId.contentHash 1 (some 1) 50 0, certified_block_round := 1, certified_block_height := 1, certified_parent_round := 0, ledger_info := { consensus_block_id := none, commit_round := 0 }, signatures := [{ signer := 1, signed_ledger_info := { consensus_block_id := none, commit_round := 0 } }, { signer := 0, signed_ledger_info := { consensus_block_id := none, commit_round := 0 } }] }, highest_commit_cert := { certified_block_id := ChainedBFT.BlockId.genesisId, certified_block_round := 0, certified_block_height := 0, certified_parent_round := 0, ledger_info := { consensus_block_id := some (ChainedBFT.BlockId.genesisId), commit_round := 0 }, signatures := [] }, current_round := 2, last_voted_round := 1, preferred_round := 0, last_vote := none, pending_votes := [{ author := 1, block_id := ChainedBFT.BlockId.contentHash 1 (some 1) 50 0, round := 1, height := 1, parent_block_id := ChainedBFT.BlockId.genesisId, parent_round := 0, ledger_info := { consensus_block_id := none, commit_round := 0 } }, { author := 0, block_id := ChainedBFT.BlockId.contentHash 1 (some 1) 50 0, round := 1, height := 1, parent_block_id := ChainedBFT.BlockId.genesisId, parent_round := 0, ledger_info := { consensus_block_id := none, commit_round := 0 } }], pending_timeouts := [], highest_tc_round := 0, pending_secondary := none, pending_fetch := none, commits := [], committed_txns := 0 }, { author := 1, blocks := [{ id := ChainedBFT.BlockId.genesisId, round := 0, height := 0, parent_id := ChainedBFT.BlockId.genesisId, author := none, payload := 0, quorum_cert := { certified_block_id := ChainedBFT.BlockId.genesisId, certified_block_round := 0, certified_block_height := 0, certified_parent_round := 0, ledger_info := { consensus_block_id := some (ChainedBFT.BlockId.genesisId), commit_round := 0 }, signatures := [] } }, { id := ChainedBFT.BlockId.contentHash 1 (some 1) 50 0, round := 1, height := 1, parent_id := ChainedBFT.BlockId.genesisId, author := some 1, payload := 50, quorum_cert := { certified_block_id := ChainedBFT.BlockId.genesisId, certified_block_round := 0, certified_block_height := 0, certified_parent_round := 0, ledger_info := { consensus_block_id := some (ChainedBFT.BlockId.genesisId), commit_round := 0 }, signatures := [] } }], root_id := ChainedBFT.BlockId.genesisId, highest_quorum_cert := { certified_block_id := ChainedBFT.BlockId.genesisId, certified_block_round := 0, certified_block_height := 0, certified_parent_round := 0, ledger_info := { consensus_block_id := some (ChainedBFT.BlockId.genesisId), commit_round := 0 }, signatures := [] }, highest_commit_cert := { certified_block_id := ChainedBFT.BlockId.genesisId, certified_block_round := 0, certified_block_height := 0, certified_parent_round := 0, ledger_info := { consensus_block_id := some (ChainedBFT.BlockId.genesisId), commit_round := 0 }, signatures := [] }, current_round := 1, last_voted_round := 1, preferred_round := 0, last_vote := some { author := 1, block_id := ChainedBFT.BlockId.contentHash 1 (some 1) 50 0, round := 1, height := 1, parent_block_id := ChainedBFT.BlockId.genesisId, parent_round := 0, ledger_info := { consensus_block_id := none, commit_round := 0 } }, pending_votes := [], pending_timeouts := [], highest_tc_round := 0, pending_secondary := some ({ id := ChainedBFT.BlockId.contentHash 1 (some 2) 50 0, round := 1, height := 1, parent_id := ChainedBFT.BlockId.genesisId, author := some 2, payload := 50, quorum_cert := { certified_block_id := ChainedBFT.BlockId.genesisId, certified_block_round := 0, certified_block_height := 0, certified_parent_round := 0, ledger_info := { consensus_block_id := some (ChainedBFT.BlockId.genesisId), commit_round := 0 }, signatures := [] } }, { highest_quorum_cert := { certified_block_id := ChainedBFT.BlockId.genesisId, certified_block_round := 0, certified_block_height := 0, certified_parent_round := 0, ledger_info := { consensus_block_id := some (ChainedBFT.BlockId.genesisId), commit_round := 0 }, signatures := [] }, highest_commit_cert := { certified_block_id := ChainedBFT.BlockId.genesisId, certified_block_round := 0, certified_block_height := 0, certified_parent_round := 0, ledger_info := { consensus_block_id := some (ChainedBFT.BlockId.genesisId), commit_round := 0 }, signatures := [] } }), pending_fetch := none, commits := [], committed_txns := 0 }, { author := 2, blocks := [{ id := ChainedBFT.BlockId.genesisId, round := 0, height := 0, parent_id := ChainedBFT.BlockId.genesisId, author := none, payload := 0, quorum_cert := { certified_block_id := ChainedBFT.BlockId.genesisId, certified_block_round := 0, certified_block_height := 0, certified_parent_round := 0, ledger_info := { consensus_block_id := some (ChainedBFT.BlockId.genesisId), commit_round := 0 }, signatures := [] } }, { id := ChainedBFT.BlockId.contentHash 1 (some 1) 50 0, round := 1, height := 1, parent_id := ChainedBFT.BlockId.genesisId, author := some 1, payload := 50, quorum_cert := { certified_block_id := ChainedBFT.BlockId.genesisId, certified_block_round := 0, certified_block_height := 0, certified_parent_round := 0, ledger_info := { consensus_block_id := some (ChainedBFT.BlockId.genesisId), commit_round := 0 }, signatures := [] } }], root_id := ChainedBFT.BlockId.genesisId, highest_quorum_cert := { certified_block_id := ChainedBFT.BlockId.contentHash 1 (some 1) 50 0, certified_block_round := 1, certified_block_height := 1, certified_parent_round := 0, ledger_info := { consensus_block_id := none, commit_round := 0 }, signatures := [{ signer := 1, signed_ledger_info := { consensus_block_id := none, commit_round := 0 } }, { signer := 2, signed_ledger_info := { consensus_block_id := none, commit_round := 0 } }] }, highest_commit_cert := { certified_block_id := ChainedBFT.BlockId.genesisId, certified_block_round := 0, certified_block_height := 0, certified_parent_round := 0, ledger_info := { consensus_block_id := some (ChainedBFT.BlockId.genesisId), commit_round := 0 }, signatures := [] }, current_round := 2, last_voted_round := 1, preferred_round := 0, last_vote := none, pending_votes := [{ author := 1, block_id := ChainedBFT.BlockId.contentHash 1 (some 1) 50 0, round := 1, height := 1, parent_block_id := ChainedBFT.BlockId.genesisId, parent_round := 0, ledger_info := { consensus_block_id := none, commit_round := 0 } }, { author := 2, block_id := ChainedBFT.BlockId.contentHash 1 (some 1) 50 0, round := 1, height := 1, parent_block_id := ChainedBFT.BlockId.genesisId, parent_round := 0, ledger_info := { consensus_block_id := none, commit_round := 0 } }], pending_timeouts := [], highest_tc_round := 0, pending_secondary := none, pending_fetch := none, commits := [], committed_txns := 0 }], [(2, 0, ChainedBFT.Msg.vote { author := 2, block_id := ChainedBFT.BlockId.contentHash 1 (some 1) 50 0, round := 1, height := 1, parent_block_id := ChainedBFT.BlockId.genesisId, parent_round := 0, ledger_info := { consensus_block_id := none, commit_round := 0 } }), (2, 0, ChainedBFT.Msg.proposal { id := ChainedBFT.BlockId.contentHash 2 (some 2) 50 1, round := 2, height := 2, parent_id := ChainedBFT.BlockId.contentHash 1 (some 1) 50 0, author := some 2, payload := 50, quorum_cert := { certified_block_id := ChainedBFT.BlockId.contentHash 1 (some 1) 50 0, certified_block_round := 1, certified_block_height := 1, certified_parent_round := 0, ledger_info := { consensus_block_id := none, commit_round := 0 }, signatures := [{ signer := 1, signed_ledger_info := { consensus_block_id := none, commit_round := 0 } }, { signer := 2, signed_ledger_info := { consensus_block_id := none, commit_round := 0 } }] } } { highest_quorum_cert := { certified_block_id := ChainedBFT.BlockId.contentHash 1 (some 1) 50 0, certified_block_round := 1, certified_block_height := 1, certified_parent_round := 0, ledger_info := { consensus_block_id := none, commit_round := 0 }, signatures := [{ signer := 1, signed_ledger_info := { consensus_block_id := none, commit_round := 0 } }, { signer := 2, signed_ledger_info := { consensus_block_id := none, commit_round := 0 } }] }, highest_commit_cert := { certified_block_id := ChainedBFT.BlockId.genesisId, certified_block_round := 0, certified_block_height := 0, certified_parent_round := 0, ledger_info := { consensus_block_id := some (ChainedBFT.BlockId.genesisId), commit_round := 0 }, signatures := [] } }), (2, 1, ChainedBFT.Msg.proposal { id := ChainedBFT.BlockId.contentHash 2 (some 2) 50 1, round := 2, height := 2, parent_id := ChainedBFT.BlockId.contentHash 1 (some 1) 50 0, author := some 2, payload := 50, quorum_cert := { certified_block_id := ChainedBFT.BlockId.contentHash 1 (some 1) 50 0, certified_block_round := 1, certified_block_height := 1, certified_parent_round := 0, ledger_info := { consensus_block_id := none, commit_round := 0 }, signatures := [{ signer := 1, signed_ledger_info := { consensus_block_id := none, commit_round := 0 } }, { signer := 2, signed_ledger_info := { consensus_block_id := none, commit_round := 0 } }] } } { highest_quorum_cert := { certified_block_id := ChainedBFT.BlockId.contentHash 1 (some 1) 50 0, certified_block_round := 1, certified_block_height := 1, certified_parent_round := 0, ledger_info := { consensus_block_id := none, commit_round := 0 }, signatures := [{ signer := 1, signed_ledger_info := { consensus_block_id := none, commit_round := 0 } }, { signer := 2, signed_ledger_info := { consensus_block_id := none, commit_round := 0 } }] }, highest_commit_cert := { certified_block_id := ChainedBFT.BlockId.genesisId, certified_block_round := 0, certified_block_height := 0, certified_parent_round := 0, ledger_info := { consensus_block_id := some (ChainedBFT.BlockId.genesisId), commit_round := 0 }, signatures := [] } }), (2, 2, ChainedBFT.Msg.proposal { id := ChainedBFT.BlockId.contentHash 2 (some 2) 50 1, round := 2, height := 2, parent_id := ChainedBFT.BlockId.contentHash 1 (some 1) 50 0, author := some 2, payload := 50, quorum_cert := { certified_block_id := ChainedBFT.BlockId.contentHash 1 (some 1) 50 0, certified_block_round := 1, certified_block_height := 1, certified_parent_round := 0, ledger_info := { consensus_block_id := none, commit_round := 0 }, signatures := [{ signer := 1, signed_ledger_info := { consensus_block_id := none, commit_round := 0 } }, { signer := 2, signed_ledger_info := { consensus_block_id := none, commit_round := 0 } }] } } { highest_quorum_cert := { certified_block_id := ChainedBFT.BlockId.contentHash 1 (some 1) 50 0, certified_block_round := 1, certified_block_height := 1, certified_parent_round := 0, ledger_info := { consensus_block_id := none, commit_round := 0 }, signatures := [{ signer := 1, signed_ledger_info := { consensus_block_id := none, commit_round := 0 } }, { signer := 2, signed_ledger_info := { consensus_block_id := none, commit_round := 0 } }] }, highest_commit_cert := { certified_block_id := ChainedBFT.BlockId.genesisId, certified_block_round := 0, certified_block_height := 0, certified_parent_round := 0, ledger_info := { consensus_block_id := some (ChainedBFT.BlockId.genesisId), commit_round := 0 }, signatures := [] } }), (0, 0, ChainedBFT.Msg.proposal { id := ChainedBFT.BlockId.contentHash 2 (some 0) 50 1, round := 2, height := 2, parent_id := ChainedBFT.BlockId.contentHash 1 (some 1) 50 0, author := some 0, payload := 50, quorum_cert := { certified_block_id := ChainedBFT.BlockId.contentHash 1 (some 1) 50 0, certified_block_round := 1, certified_block_height := 1, certified_parent_round := 0, ledger_info := { consensus_block_id := none, commit_round := 0 }, signatures := [{ signer := 1, signed_ledger_info := { consensus_block_id := none, commit_round := 0 } }, { signer := 0, signed_ledger_info := { consensus_block_id := none, commit_round := 0 } }] } } { highest_quorum_cert := { certified_block_id := ChainedBFT.BlockId.contentHash 1 (some 1) 50 0, certified_block_round := 1, certified_block_height := 1, certified_parent_round := 0, ledger_info := { consensus_block_id := none, commit_round := 0 }, signatures := [{ signer := 1, signed_ledger_info := { consensus_block_id := none, commit_round := 0 } }, { signer := 0, signed_ledger_info := { consensus_block_id := none, commit_round := 0 } }] }, highest_commit_cert := { certified_block_id := ChainedBFT.BlockId.genesisId, certified_block_round := 0, certified_block_height := 0, certified_parent_round := 0, ledger_info := { consensus_block_id := some (ChainedBFT.BlockId.genesisId), commit_round := 0 }, signatures := [] } })], [(0, 2), (0, 1)], [ChainedBFT.MsgDigest.proposalD { round := 1, height := 1, id := ChainedBFT.BlockId.contentHash 1 (some 1) 50 0, parent_id := ChainedBFT.BlockId.genesisId, qc_certified_block_id := ChainedBFT.BlockId.genesisId }, ChainedBFT.MsgDigest.proposalD { round := 1, height := 1, id := ChainedBFT.BlockId.contentHash 1 (some 1) 50 0, parent_id := ChainedBFT.BlockId.genesisId, qc_certified_block_id := ChainedBFT.BlockId.genesisId }, ChainedBFT.MsgDigest.proposalD { round := 1, height := 1, id := ChainedBFT.BlockId.contentHash 1 (some 2) 50 0, parent_id := ChainedBFT.BlockId.genesisId, qc_certified_block_id := ChainedBFT.BlockId.genesisId }, ChainedBFT.MsgDigest.proposalD { round := 1, height := 1, id := ChainedBFT.BlockId.contentHash 1 (some 2) 50 0, parent_id := ChainedBFT.BlockId.genesisId, qc_certified_block_id := ChainedBFT.BlockId.genesisId }, ChainedBFT.MsgDigest.voteD { round := 1, block_id := ChainedBFT.BlockId.contentHash 1 (some 1) 50 0 }, ChainedBFT.MsgDigest.voteD { round := 1, block_id := ChainedBFT.BlockId.contentHash 1 (some 1) 50 0 }]⟩

/-- Checkpoint of the simulated cluster (see the scenario schedule definitions). -/
def c8w3 : World :=
⟨{ num_nodes := 3, quorum_size := 2, proposer_type := ChainedBFT.ConsensusProposerType.MultipleOrderedProposers, contiguous_rounds := 2, max_block_size := 50 }, [{ author := 0, blocks := [{ id := ChainedBFT.BlockId.genesisId, round := 0, height := 0, parent_id := ChainedBFT.BlockId.genesisId, author := none, payload := 0, quorum_cert := { certified_block_id := ChainedBFT.BlockId.genesisId, certified_block_round := 0, certified_block_height := 0, certified_parent_round := 0, ledger_info := { consensus_block_id := some (ChainedBFT.BlockId.genesisId), commit_round := 0 }, signatures := [] } }, { id := ChainedBFT.BlockId.contentHash 1 (some 1) 50 0, round := 1, height := 1, parent_id := ChainedBFT.BlockId.genesisId, author := some 1, payload := 50, quorum_cert := { certified_block_id := ChainedBFT.BlockId.genesisId, certified_block_round := 0, certified_block_height := 0, certified_parent_round := 0, ledger_info := { consensus_block_id := some (ChainedBFT.BlockId.genesisId), commit_round := 0 }, signatures := [] } }, { id := ChainedBFT.BlockId.contentHash 2 (some 2) 50 1, round := 2, height := 2, parent_id := ChainedBFT.BlockId.contentHash 1 (some 1) 50 0, author := some 2, payload := 50, quorum_cert := { certified_block_id := ChainedBFT.BlockId.contentHash 1 (some 1) 50 0, certified_block_round := 1, certified_block_height := 1, certified_parent_round := 0, ledger_info := { consensus_block_id := none, commit_round := 0 }, signatures := [{ signer := 1, signed_ledger_info := { consensus_block_id := none, commit_round := 0 } }, { signer := 2, signed_ledger_info := { consensus_block_id := none, commit_round := 0 } }] } }], root_id := ChainedBFT.BlockId.genesisId, highest_quorum_cert := { certified_block_id := ChainedBFT.BlockId.contentHash 1 (some 1) 50 0, certified_block_round := 1, certified_block_height := 1, certified_parent_round := 0, ledger_info := { consensus_block_id := none, commit_round := 0 }, signatures := [{ signer := 1, signed_ledger_info := { consensus_block_id := none, commit_round := 0 } }, { signer := 0, signed_ledger_info := { consensus_block_id := none, commit_round := 0 } }] }, highest_commit_cert := { certified_block_id := ChainedBFT.BlockId.genesisId, certified_block_round := 0, certified_block_height := 0, certified_parent_round := 0, ledger_info := { consensus_block_id := some (ChainedBFT.BlockId.genesisId), commit_round := 0 }, signatures := [] }, current_round := 2, last_voted_round := 2, preferred_round := 0, last_vote := some { author := 0, block_id := ChainedBFT.BlockId.contentHash 2 (some 2) 50 1, round := 2, height := 2, parent_block_id := ChainedBFT.BlockId.contentHash 1 (some 1) 50 0, parent_round := 1, ledger_info := { consensus_block_id := some (ChainedBFT.BlockId.genesisId), commit_round := 0 } }, pending_votes := [{ author := 1, block_id := ChainedBFT.BlockId.contentHash 1 (some 1) 50 0, round := 1, height := 1, parent_block_id := ChainedBFT.BlockId.genesisId, parent_round := 0, ledger_info := { consensus_block_id := none, commit_round := 0 } }, { author := 0, block_id := ChainedBFT.BlockId.contentHash 1 (some 1) 50 0, round := 1, height := 1, parent_block_id := ChainedBFT.BlockId.genesisId, parent_round := 0, ledger_info := { consensus_block_id := none, commit_round := 0 } }, { author := 2, block_id := ChainedBFT.BlockId.contentHash 1 (some 1) 50 0, round := 1, height := 1, parent_block_id := ChainedBFT.BlockId.genesisId, parent_round := 0, ledger_info := { consensus_block_id := none, commit_round := 0 } }], pending_timeouts := [], highest_tc_round := 0, pending_secondary := none, pending_fetch := none, commits := [], committed_txns := 0 }, { author := 1, blocks := [{ id := ChainedBFT.BlockId.genesisId, round := 0, height := 0, parent_id := ChainedBFT.BlockId.genesisId, author := none, payload := 0, quorum_cert := { certified_block_id := ChainedBFT.BlockId.genesisId, certified_block_round := 0, certified_block_height := 0, certified_parent_round := 0, ledger_info := { consensus_block_id := some (ChainedBFT.BlockId.genesisId), commit_round := 0 }, signatures := [] } }, { id := ChainedBFT.BlockId.contentHash 1 (some 1) 50 0, round := 1, height := 1, parent_id := ChainedBFT.BlockId.genesisId, author := some 1, payload := 50, quorum_cert := { certified_block_id := ChainedBFT.BlockId.genesisId, certified_block_round := 0, certified_block_height := 0, certified_parent_round := 0, ledger_info := { consensus_block_id := some (ChainedBFT.BlockId.genesisId), commit_round := 0 }, signatures := [] } }, { id := ChainedBFT.BlockId.contentHash 2 (some 2) 50 1, round := 2, height := 2, parent_id := ChainedBFT.BlockId.contentHash 1 (some 1) 50 0, author := some 2, payload := 50, quorum_cert := { certified_block_id := ChainedBFT.BlockId.contentHash 1 (some 1) 50 0, certified_block_round := 1, certified_block_height := 1, certified_parent_round := 0, ledger_info := { consensus_block_id := none, commit_round := 0 }, signatures := [{ signer := 1, signed_ledger_info := { consensus_block_id := none, commit_round := 0 } }, { signer := 2, signed_ledger_info := { consensus_block_id := none, commit_round := 0 } }] } }], root_id := ChainedBFT.BlockId.genesisId, highest_quorum_cert := { certified_block_id := ChainedBFT.BlockId.contentHash 2 (some 2) 50 1, certified_block_round := 2, certified_block_height := 2, certified_parent_round := 1, ledger_info := { consensus_block_id := some (ChainedBFT.BlockId.genesisId), commit_round := 0 }, signatures := [{ signer := 1, signed_ledger_info := { consensus_block_id := some (ChainedBFT.BlockId.genesisId), commit_round := 0 } }, { signer := 2, signed_ledger_info := { consensus_block_id := some (ChainedBFT.BlockId.genesisId), commit_round := 0 } }] }, highest_commit_cert := { certified_block_id := ChainedBFT.BlockId.genesisId, certified_block_round := 0, certified_block_height := 0, certified_parent_round := 0, ledger_info := { consensus_block_id := some (ChainedBFT.BlockId.genesisId), commit_round := 0 }, signatures := [] }, current_round := 3, last_voted_round := 2, preferred_round := 0, last_vote := none, pending_votes := [{ author := 1, block_id := ChainedBFT.BlockId.contentHash 2 (some 2) 50 1, round := 2, height := 2, parent_block_id := ChainedBFT.BlockId.contentHash 1 (some 1) 50 0, parent_round := 1, ledger_info := { consensus_block_id := some (ChainedBFT.BlockId.genesisId), commit_round := 0 } }, { author := 2, block_id := ChainedBFT.BlockId.contentHash 2 (some 2) 50 1, round := 2, height := 2, parent_block_id := ChainedBFT.BlockId.contentHash 1 (some 1) 50 0, parent_round := 1, ledger_info := { consensus_block_id := some (ChainedBFT.BlockId.genesisId), commit_round := 0 } }], pending_timeouts := [], highest_tc_round := 0, pending_secondary := none, pending_fetch := none, commits := [], committed_txns := 0 }, { author := 2, blocks := [{ id := ChainedBFT.BlockId.genesisId, round := 0, height := 0, parent_id := ChainedBFT.BlockId.genesisId, author := none, payload := 0, quorum_cert := { certified_block_id := ChainedBFT.BlockId.genesisId, certified_block_round := 0, certified_block_height := 0, certified_parent_round := 0, ledger_info := { consensus_block_id := some (ChainedBFT.BlockId.genesisId), commit_round := 0 }, signatures := [] } }, { id := ChainedBFT.BlockId.contentHash 1 (some 1) 50 0, round := 1, height := 1, parent_id := ChainedBFT.BlockId.genesisId, author := some 1, payload := 50, quorum_cert := { certified_block_id := ChainedBFT.BlockId.genesisId, certified_block_round := 0, certified_block_height := 0, certified_parent_round := 0, ledger_info := { consensus_block_id := some (ChainedBFT.BlockId.genesisId), commit_round := 0 }, signatures := [] } }, { id := ChainedBFT.BlockId.contentHash 2 (some 2) 50 1, round := 2, height := 2, parent_id := ChainedBFT.BlockId.contentHash 1 (some 1) 50 0, author := some 2, payload := 50, quorum_cert := { certified_block_id := ChainedBFT.BlockId.contentHash 1 (some 1) 50 0, certified_block_round := 1, certified_block_height := 1, certified_parent_round := 0, ledger_info := { consensus_block_id := none, commit_round := 0 }, signatures := [{ signer := 1, signed_ledger_info := { consensus_block_id := none, commit_round := 0 } }, { signer := 2, signed_ledger_info := { consensus_block_id := none, commit_round := 0 } }] } }], root_id := ChainedBFT.BlockId.genesisId, highest_quorum_cert := { certified_block_id := ChainedBFT.BlockId.contentHash 1 (some 1) 50 0, certified_block_round := 1, certified_block_height := 1, certified_parent_round := 0, ledger_info := { consensus_block_id := none, commit_round := 0 }, signatures := [{ signer := 1, signed_ledger_info := { consensus_block_id := none, commit_round := 0 } }, { signer := 2, signed_ledger_info := { consensus_block_id := none, commit_round := 0 } }] }, highest_commit_cert := { certified_block_id := ChainedBFT.BlockId.genesisId, certified_block_round := 0, certified_block_height := 0, certified_parent_round := 0, ledger_info := { consensus_block_id := some (ChainedBFT.BlockId.genesisId), commit_round := 0 }, signatures := [] }, current_round := 2, last_voted_round := 2, preferred_round := 0, last_vote := some { author := 2, block_id := ChainedBFT.BlockId.contentHash 2 (some 2) 50 1, round := 2, height := 2, parent_block_id := ChainedBFT.BlockId.contentHash 1 (some 1) 50 0, parent_round := 1, ledger_info := { consensus_block_id := some (ChainedBFT.BlockId.genesisId), commit_round := 0 } }, pending_votes := [{ author := 1, block_id := ChainedBFT.BlockId.contentHash 1 (some 1) 50 0, round := 1, height := 1, parent_block_id := ChainedBFT.BlockId.genesisId, parent_round := 0, ledger_info := { consensus_block_id := none, commit_round := 0 } }, { author := 2, block_id := ChainedBFT.BlockId.contentHash 1 (some 1) 50 0, round := 1, height := 1, parent_block_id := ChainedBFT.BlockId.genesisId, parent_round := 0, ledger_info := { consensus_block_id := none, commit_round := 0 } }], pending_timeouts := [], highest_tc_round := 0, pending_secondary := none, pending_fetch := none, commits := [], committed_txns := 0 }], [(0, 0, ChainedBFT.Msg.proposal { id := ChainedBFT.BlockId.contentHash 2 (some 0) 50 1, round := 2, height := 2, parent_id := ChainedBFT.BlockId.contentHash 1 (some 1) 50 0, author := some 0, payload := 50, quorum_cert := { certified_block_id := ChainedBFT.BlockId.contentHash 1 (some 1) 50 0, certified_block_round := 1, certified_block_height := 1, certified_parent_round := 0, ledger_info := { consensus_block_id := none, commit_round := 0 }, signatures := [{ signer := 1, signed_ledger_info := { consensus_block_id := none, commit_round := 0 } }, { signer := 0, signed_ledger_info := { consensus_block_id := none, commit_round := 0 } }] } } { highest_quorum_cert := { certified_block_id := ChainedBFT.BlockId.contentHash 1 (some 1) 50 0, certified_block_round := 1, certified_block_height := 1, certified_parent_round := 0, ledger_info := { consensus_block_id := none, commit_round := 0 }, signatures := [{ signer := 1, signed_ledger_info := { consensus_block_id := none, commit_round := 0 } }, { signer := 0, signed_ledger_info := { consensus_block_id := none, commit_round := 0 } }] }, highest_commit_cert := { certified_block_id := ChainedBFT.BlockId.genesisId, certified_block_round := 0, certified_block_height := 0, certified_parent_round := 0, ledger_info := { consensus_block_id := some (ChainedBFT.BlockId.genesisId), commit_round := 0 }, signatures := [] } }), (0, 0, ChainedBFT.Msg.vote { author := 0, block_id := ChainedBFT.BlockId.contentHash 2 (some 2) 50 1, round := 2, height := 2, parent_block_id := ChainedBFT.BlockId.contentHash 1 (some 1) 50 0, parent_round := 1, ledger_info := { consensus_block_id := some (ChainedBFT.BlockId.genesisId), commit_round := 0 } }), (1, 0, ChainedBFT.Msg.vote { author := 1, block_id := ChainedBFT.BlockId.contentHash 2 (some 2) 50 1, round := 2, height := 2, parent_block_id := ChainedBFT.BlockId.contentHash 1 (some 1) 50 0, parent_round := 1, ledger_info := { consensus_block_id := some (ChainedBFT.BlockId.genesisId), commit_round := 0 } }), (2, 0, ChainedBFT.Msg.vote { author := 2, block_id := ChainedBFT.BlockId.contentHash 2 (some 2) 50 1, round := 2, height := 2, parent_block_id := ChainedBFT.BlockId.contentHash 1 (some 1) 50 0, parent_round := 1, ledger_info := { consensus_block_id := some (ChainedBFT.BlockId.genesisId), commit_round := 0 } }), (1, 0, ChainedBFT.Msg.proposal { id := ChainedBFT.BlockId.contentHash 3 (some 1) 50 2, round := 3, height := 3, parent_id := ChainedBFT.BlockId.contentHash 2 (some 2) 50 1, author := some 1, payload := 50, quorum_cert := { certified_block_id := ChainedBFT.BlockId.contentHash 2 (some 2) 50 1, certified_block_round := 2, certified_block_height := 2, certified_parent_round := 1, ledger_info := { consensus_block_id := some (ChainedBFT.BlockId.genesisId), commit_round := 0 }, signatures := [{ signer := 1, signed_ledger_info := { consensus_block_id := some (ChainedBFT.BlockId.genesisId), commit_round := 0 } }, { signer := 2, signed_ledger_info := { consensus_block_id := some (ChainedBFT.BlockId.genesisId), commit_round := 0 } }] } } { highest_quorum_cert := { certified_block_id := ChainedBFT.BlockId.contentHash 2 (some 2) 50 1, certified_block_round := 2, certified_block_height := 2, certified_parent_round := 1, ledger_info := { consensus_block_id := some (ChainedBFT.BlockId.genesisId), commit_round := 0 }, signatures := [{ signer := 1, signed_ledger_info := { consensus_block_id := some (ChainedBFT.BlockId.genesisId), commit_round := 0 } }, { signer := 2, signed_ledger_info := { consensus_block_id := some (ChainedBFT.BlockId.genesisId), commit_round := 0 } }] }, highest_commit_cert := { certified_block_id := ChainedBFT.BlockId.genesisId, certified_block_round := 0, certified_block_height := 0, certified_parent_round := 0, ledger_info := { consensus_block_id := some (ChainedBFT.BlockId.genesisId), commit_round := 0 }, signatures := [] } }), (1, 1, ChainedBFT.Msg.proposal { id := ChainedBFT.BlockId.contentHash 3 (some 1) 50 2, round := 3, height := 3, parent_id := ChainedBFT.BlockId.contentHash 2 (some 2) 50 1, author := some 1, payload := 50, quorum_cert := { certified_block_id := ChainedBFT.BlockId.contentHash 2 (some 2) 50 1, certified_block_round := 2, certified_block_height := 2, certified_parent_round := 1, ledger_info := { consensus_block_id := some (ChainedBFT.BlockId.genesisId), commit_round := 0 }, signatures := [{ signer := 1, signed_ledger_info := { consensus_block_id := some (ChainedBFT.BlockId.genesisId), commit_round := 0 } }, { signer := 2, signed_ledger_info := { consensus_block_id := some (ChainedBFT.BlockId.genesisId), commit_round := 0 } }] } } { highest_quorum_cert := { certified_block_id := ChainedBFT.BlockId.contentHash 2 (some 2) 50 1, certified_block_round := 2, certified_block_height := 2, certified_parent_round := 1, ledger_info := { consensus_block_id := some (ChainedBFT.BlockId.genesisId), commit_round := 0 }, signatures := [{ signer := 1, signed_ledger_info := { consensus_block_id := some (ChainedBFT.BlockId.genesisId), commit_round := 0 } }, { signer := 2, signed_ledger_info := { consensus_block_id := some (ChainedBFT.BlockId.genesisId), commit_round := 0 } }] }, highest_commit_cert := { certified_block_id := ChainedBFT.BlockId.genesisId, certified_block_round := 0, certified_block_height := 0, certified_parent_round := 0, ledger_info := { consensus_block_id := some (ChainedBFT.BlockId.genesisId), commit_round := 0 }, signatures := [] } }), (1, 2, ChainedBFT.Msg.proposal { id := ChainedBFT.BlockId.contentHash 3 (some 1) 50 2, round := 3, height := 3, parent_id := ChainedBFT.BlockId.contentHash 2 (some 2) 50 1, author := some 1, payload := 50, quorum_cert := { certified_block_id := ChainedBFT.BlockId.contentHash 2 (some 2) 50 1, certified_block_round := 2, certified_block_height := 2, certified_parent_round := 1, ledger_info := { consensus_block_id := some (ChainedBFT.BlockId.genesisId), commit_round := 0 }, signatures := [{ signer := 1, signed_ledger_info := { consensus_block_id := some (ChainedBFT.BlockId.genesisId), commit_round := 0 } }, { signer := 2, signed_ledger_info := { consensus_block_id := some (ChainedBFT.BlockId.genesisId), commit_round := 0 } }] } } { highest_quorum_cert := { certified_block_id := ChainedBFT.BlockId.contentHash 2 (some 2) 50 1, certified_block_round := 2, certified_block_height := 2, certified_parent_round := 1, ledger_info := { consensus_block_id := some (ChainedBFT.BlockId.genesisId), commit_round := 0 }, signatures := [{ signer := 1, signed_ledger_info := { consensus_block_id := some (ChainedBFT.BlockId.genesisId), commit_round := 0 } }, { signer := 2, signed_ledger_info := { consensus_block_id := some (ChainedBFT.BlockId.genesisId), commit_round := 0 } }] }, highest_commit_cert := { certified_block_id := ChainedBFT.BlockId.genesisId, certified_block_round := 0, certified_block_height := 0, certified_parent_round := 0, ledger_info := { consensus_block_id := some (ChainedBFT.BlockId.genesisId), commit_round := 0 }, signatures := [] } })], [(0, 2), (0, 1)], [ChainedBFT.MsgDigest.proposalD { round := 1, height := 1, id := ChainedBFT.BlockId.contentHash 1 (some 1) 50 0, parent_id := ChainedBFT.BlockId.genesisId, qc_certified_block_id := ChainedBFT.BlockId.genesisId }, ChainedBFT.MsgDigest.proposalD { round := 1, height := 1, id := ChainedBFT.BlockId.contentHash 1 (some 1) 50 0, parent_id := ChainedBFT.BlockId.genesisId, qc_certified_block_id := ChainedBFT.BlockId.genesisId }, ChainedBFT.MsgDigest.proposalD { round := 1, height := 1, id := ChainedBFT.BlockId.contentHash 1 (some 2) 50 0, parent_id := ChainedBFT.BlockId.genesisId, qc_certified_block_id := ChainedBFT.BlockId.genesisId }, ChainedBFT.MsgDigest.proposalD { round := 1, height := 1, id := ChainedBFT.BlockId.contentHash 1 (some 2) 50 0, parent_id := ChainedBFT.BlockId.genesisId, qc_certified_block_id := ChainedBFT.BlockId.genesisId }, ChainedBFT.MsgDigest.voteD { round := 1, block_id := ChainedBFT.BlockId.contentHash 1 (some 1) 50 0 }, ChainedBFT.MsgDigest.voteD { round := 1, block_id := ChainedBFT.BlockId.contentHash 1 (some 1) 50 0 }, ChainedBFT.MsgDigest.voteD { round := 1, block_id := ChainedBFT.BlockId.contentHash 1 (some 1) 50 0 }, ChainedBFT.MsgDigest.proposalD { round := 2, height := 2, id := ChainedBFT.BlockId.contentHash 2 (some 2) 50 1, parent_id := ChainedBFT.BlockId.contentHash 1 (some 1) 50 0, qc_certified_block_id := ChainedBFT.BlockId.contentHash 1 (some 1) 50 0 }, ChainedBFT.MsgDigest.proposalD { round := 2, height := 2, id := ChainedBFT.BlockId.contentHash 2 (some 2) 50 1, parent_id := ChainedBFT.BlockId.contentHash 1 (some 1) 50 0, qc_certified_block_id := ChainedBFT.BlockId.contentHash 1 (some 1) 50 0 }, ChainedBFT.MsgDigest.voteD { round := 2, block_id := ChainedBFT.BlockId.contentHash 2 (some 2) 50 1 }]⟩

/-- Checkpoint of the simulated cluster (see the scenario schedule definitions). -/
def c8w4 : World :=
⟨{ num_nodes := 3, quorum_size := 2, proposer_type := ChainedBFT.ConsensusProposerType.MultipleOrderedProposers, contiguous_rounds := 2, max_block_size := 50 }, [{ author := 0, blocks := [{ id := ChainedBFT.BlockId.genesisId, round := 0, height := 0, parent_id := ChainedBFT.BlockId.genesisId, author := none, payload := 0, quorum_cert := { certified_block_id := ChainedBFT.BlockId.genesisId, certified_block_round := 0, certified_block_height := 0, certified_parent_round := 0, ledger_info := { consensus_block_id := some (ChainedBFT.BlockId.genesisId), commit_round := 0 }, signatures := [] } }, { id := ChainedBFT.BlockId.contentHash 1 (some 1) 50 0, round := 1, height := 1, parent_id := ChainedBFT.BlockId.genesisId, author := some 1, payload := 50, quorum_cert := { certified_block_id := ChainedBFT.BlockId.genesisId, certified_block_round := 0, certified_block_height := 0, certified_parent_round := 0, ledger_info := { consensus_block_id := some (ChainedBFT.BlockId.genesisId), commit_round := 0 }, signatures := [] } }, { id := ChainedBFT.BlockId.contentHash 2 (some 2) 50 1, round := 2, height := 2, parent_id := ChainedBFT.BlockId.contentHash 1 (some 1) 50 0, author := some 2, payload := 50, quorum_cert := { certified_block_id := ChainedBFT.BlockId.contentHash 1 (some 1) 50 0, certified_block_round := 1, certified_block_height := 1, certified_parent_round := 0, ledger_info := { consensus_block_id := none, commit_round := 0 }, signatures := [{ signer := 1, signed_ledger_info := { consensus_block_id := none, commit_round := 0 } }, { signer := 2, signed_ledger_info := { consensus_block_id := none, commit_round := 0 } }] } }], root_id := ChainedBFT.BlockId.genesisId, highest_quorum_cert := { certified_block_id := ChainedBFT.BlockId.contentHash 2 (some 2) 50 1, certified_block_round := 2, certified_block_height := 2, certified_parent_round := 1, ledger_info := { consensus_block_id := some (ChainedBFT.BlockId.genesisId), commit_round := 0 }, signatures := [{ signer := 0, signed_ledger_info := { consensus_block_id := some (ChainedBFT.BlockId.genesisId), commit_round := 0 } }, { signer := 1, signed_ledger_info := { consensus_block_id := some (ChainedBFT.BlockId.genesisId), commit_round := 0 } }] }, highest_commit_cert := { certified_block_id := ChainedBFT.BlockId.genesisId, certified_block_round := 0, certified_block_height := 0, certified_parent_round := 0, ledger_info := { consensus_block_id := some (ChainedBFT.BlockId.genesisId), commit_round := 0 }, signatures := [] }, current_round := 3, last_voted_round := 2, preferred_round := 0, last_vote := none, pending_votes := [{ author := 1, block_id := ChainedBFT.BlockId.contentHash 1 (some 1) 50 0, round := 1, height := 1, parent_block_id := ChainedBFT.BlockId.genesisId, parent_round := 0, ledger_info := { consensus_block_id := none, commit_round := 0 } }, { author := 0, block_id := ChainedBFT.BlockId.contentHash 1 (some 1) 50 0, round := 1, height := 1, parent_block_id := ChainedBFT.BlockId.genesisId, parent_round := 0, ledger_info := { consensus_block_id := none, commit_round := 0 } }, { author := 2, block_id := ChainedBFT.BlockId.contentHash 1 (some 1) 50 0, round := 1, height := 1, parent_block_id := ChainedBFT.BlockId.genesisId, parent_round := 0, ledger_info := { consensus_block_id := none, commit_round := 0 } }, { author := 0, block_id := ChainedBFT.BlockId.contentHash 2 (some 2) 50 1, round := 2, height := 2, parent_block_id := ChainedBFT.BlockId.contentHash 1 (some 1) 50 0, parent_round := 1, ledger_info := { consensus_block_id := some (ChainedBFT.BlockId.genesisId), commit_round := 0 } }, { author := 1, block_id := ChainedBFT.BlockId.contentHash 2 (some 2) 50 1, round := 2, height := 2, parent_block_id := ChainedBFT.BlockId.contentHash 1 (some 1) 50 0, parent_round := 1, ledger_info := { consensus_block_id := some (ChainedBFT.BlockId.genesisId), commit_round := 0 } }], pending_timeouts := [], highest_tc_round := 0, pending_secondary := some ({ id := ChainedBFT.BlockId.contentHash 3 (some 1) 50 2, round := 3, height := 3, parent_id := ChainedBFT.BlockId.contentHash 2 (some 2) 50 1, author := some 1, payload := 50, quorum_cert := { certified_block_id := ChainedBFT.BlockId.contentHash 2 (some 2) 50 1, certified_block_round := 2, certified_block_height := 2, certified_parent_round := 1, ledger_info := { consensus_block_id := some (ChainedBFT.BlockId.genesisId), commit_round := 0 }, signatures := [{ signer := 1, signed_ledger_info := { consensus_block_id := some (ChainedBFT.BlockId.genesisId), commit_round := 0 } }, { signer := 2, signed_ledger_info := { consensus_block_id := some (ChainedBFT.BlockId.genesisId), commit_round := 0 } }] } }, { highest_quorum_cert := { certified_block_id := ChainedBFT.BlockId.contentHash 2 (some 2) 50 1, certified_block_round := 2, certified_block_height := 2, certified_parent_round := 1, ledger_info := { consensus_block_id := some (ChainedBFT.BlockId.genesisId), commit_round := 0 }, signatures := [{ signer := 1, signed_ledger_info := { consensus_block_id := some (ChainedBFT.BlockId.genesisId), commit_round := 0 } }, { signer := 2, signed_ledger_info := { consensus_block_id := some (ChainedBFT.BlockId.genesisId), commit_round := 0 } }] }, highest_commit_cert := { certified_block_id := ChainedBFT.BlockId.genesisId, certified_block_round := 0, certified_block_height := 0, certified_parent_round := 0, ledger_info := { consensus_block_id := some (ChainedBFT.BlockId.genesisId), commit_round := 0 }, signatures := [] } }), pending_fetch := none, commits := [], committed_txns := 0 }, { author := 1, blocks := [{ id := ChainedBFT.BlockId.genesisId, round := 0, height := 0, parent_id := ChainedBFT.BlockId.genesisId, author := none, payload := 0, quorum_cert := { certified_block_id := ChainedBFT.BlockId.genesisId, certified_block_round := 0, certified_block_height := 0, certified_parent_round := 0, ledger_info := { consensus_block_id := some (ChainedBFT.BlockId.genesisId), commit_round := 0 }, signatures := [] } }, { id := ChainedBFT.BlockId.contentHash 1 (some 1) 50 0, round := 1, height := 1, parent_id := ChainedBFT.BlockId.genesisId, author := some 1, payload := 50, quorum_cert := { certified_block_id := ChainedBFT.BlockId.genesisId, certified_block_round := 0, certified_block_height := 0, certified_parent_round := 0, ledger_info := { consensus_block_id := some (ChainedBFT.BlockId.genesisId), commit_round := 0 }, signatures := [] } }, { id := ChainedBFT.BlockId.contentHash 2 (some 2) 50 1, round := 2, height := 2, parent_id := ChainedBFT.BlockId.contentHash 1 (some 1) 50 0, author := some 2, payload := 50, quorum_cert := { certified_block_id := ChainedBFT.BlockId.contentHash 1 (some 1) 50 0, certified_block_round := 1, certified_block_height := 1, certified_parent_round := 0, ledger_info := { consensus_block_id := none, commit_round := 0 }, signatures := [{ signer := 1, signed_ledger_info := { consensus_block_id := none, commit_round := 0 } }, { signer := 2, signed_ledger_info := { consensus_block_id := none, commit_round := 0 } }] } }], root_id := ChainedBFT.BlockId.genesisId, highest_quorum_cert := { certified_block_id := ChainedBFT.BlockId.contentHash 2 (some 2) 50 1, certified_block_round := 2, certified_block_height := 2, certified_parent_round := 1, ledger_info := { consensus_block_id := some (ChainedBFT.BlockId.genesisId), commit_round := 0 }, signatures := [{ signer := 1, signed_ledger_info := { consensus_block_id := some (ChainedBFT.BlockId.genesisId), commit_round := 0 } }, { signer := 2, signed_ledger_info := { consensus_block_id := some (ChainedBFT.BlockId.genesisId), commit_round := 0 } }] }, highest_commit_cert := { certified_block_id := ChainedBFT.BlockId.genesisId, certified_block_round := 0, certified_block_height := 0, certified_parent_round := 0, ledger_info := { consensus_block_id := some (ChainedBFT.BlockId.genesisId), commit_round := 0 }, signatures := [] }, current_round := 3, last_voted_round := 2, preferred_round := 0, last_vote := none, pending_votes := [{ author := 1, block_id := ChainedBFT.BlockId.contentHash 2 (some 2) 50 1, round := 2, height := 2, parent_block_id := ChainedBFT.BlockId.contentHash 1 (some 1) 50 0, parent_round := 1, ledger_info := { consensus_block_id := some (ChainedBFT.BlockId.genesisId), commit_round := 0 } }, { author := 2, block_id := ChainedBFT.BlockId.contentHash 2 (some 2) 50 1, round := 2, height := 2, parent_block_id := ChainedBFT.BlockId.contentHash 1 (some 1) 50 0, parent_round := 1, ledger_info := { consensus_block_id := some (ChainedBFT.BlockId.genesisId), commit_round := 0 } }], pending_timeouts := [], highest_tc_round := 0, pending_secondary := some ({ id := ChainedBFT.BlockId.contentHash 3 (some 1) 50 2, round := 3, height := 3, parent_id := ChainedBFT.BlockId.contentHash 2 (some 2) 50 1, author := some 1, payload := 50, quorum_cert := { certified_block_id := ChainedBFT.BlockId.contentHash 2 (some 2) 50 1, certified_block_round := 2, certified_block_height := 2, certified_parent_round := 1, ledger_info := { consensus_block_id := some (ChainedBFT.BlockId.genesisId), commit_round := 0 }, signatures := [{ signer := 1, signed_ledger_info := { consensus_block_id := some (ChainedBFT.BlockId.genesisId), commit_round := 0 } }, { signer := 2, signed_ledger_info := { consensus_block_id := some (ChainedBFT.BlockId.genesisId), commit_round := 0 } }] } }, { highest_quorum_cert := { certified_block_id := ChainedBFT.BlockId.contentHash 2 (some 2) 50 1, certified_block_round := 2, certified_block_height := 2, certified_parent_round := 1, ledger_info := { consensus_block_id := some (ChainedBFT.BlockId.genesisId), commit_round := 0 }, signatures := [{ signer := 1, signed_ledger_info := { consensus_block_id := some (ChainedBFT.BlockId.genesisId), commit_round := 0 } }, { signer := 2, signed_ledger_info := { consensus_block_id := some (ChainedBFT.BlockId.genesisId), commit_round := 0 } }] }, highest_commit_cert := { certified_block_id := ChainedBFT.BlockId.genesisId, certified_block_round := 0, certified_block_height := 0, certified_parent_round := 0, ledger_info := { consensus_block_id := some (ChainedBFT.BlockId.genesisId), commit_round := 0 }, signatures := [] } }), pending_fetch := none, commits := [], committed_txns := 0 }, { author := 2, blocks := [{ id := ChainedBFT.BlockId.genesisId, round := 0, height := 0, parent_id := ChainedBFT.BlockId.genesisId, author := none, payload := 0, quorum_cert := { certified_block_id := ChainedBFT.BlockId.genesisId, certified_block_round := 0, certified_block_height := 0, certified_parent_round := 0, ledger_info := { consensus_block_id := some (ChainedBFT.BlockId.genesisId), commit_round := 0 }, signatures := [] } }, { id := ChainedBFT.BlockId.contentHash 1 (some 1) 50 0, round := 1, height := 1, parent_id := ChainedBFT.BlockId.genesisId, author := some 1, payload := 50, quorum_cert := { certified_block_id := ChainedBFT.BlockId.genesisId, certified_block_round := 0, certified_block_height := 0, certified_parent_round := 0, ledger_info := { consensus_block_id := some (ChainedBFT.BlockId.genesisId), commit_round := 0 }, signatures := [] } }, { id := ChainedBFT.BlockId.contentHash 2 (some 2) 50 1, round := 2, height := 2, parent_id := ChainedBFT.BlockId.contentHash 1 (some 1) 50 0, author := some 2, payload := 50, quorum_cert := { certified_block_id := ChainedBFT.BlockId.contentHash 1 (some 1) 50 0, certified_block_round := 1, certified_block_height := 1, certified_parent_round := 0, ledger_info := { consensus_block_id := none, commit_round := 0 }, signatures := [{ signer := 1, signed_ledger_info := { consensus_block_id := none, commit_round := 0 } }, { signer := 2, signed_ledger_info := { consensus_block_id := none, commit_round := 0 } }] } }], root_id := ChainedBFT.BlockId.genesisId, highest_quorum_cert := { certified_block_id := ChainedBFT.BlockId.contentHash 2 (some 2) 50 1, certified_block_round := 2, certified_block_height := 2, certified_parent_round := 1, ledger_info := { consensus_block_id := some (ChainedBFT.BlockId.genesisId), commit_round := 0 }, signatures := [{ signer := 1, signed_ledger_info := { consensus_block_id := some (ChainedBFT.BlockId.genesisId), commit_round := 0 } }, { signer := 2, signed_ledger_info := { consensus_block_id := some (ChainedBFT.BlockId.genesisId), commit_round := 0 } }] }, highest_commit_cert := { certified_block_id := ChainedBFT.BlockId.genesisId, certified_block_round := 0, certified_block_height := 0, certified_parent_round := 0, ledger_info := { consensus_block_id := some (ChainedBFT.BlockId.genesisId), commit_round := 0 }, signatures := [] }, current_round := 3, last_voted_round := 2, preferred_round := 0, last_vote := none, pending_votes := [{ author := 1, block_id := ChainedBFT.BlockId.contentHash 1 (some 1) 50 0, round := 1, height := 1, parent_block_id := ChainedBFT.BlockId.genesisId, parent_round := 0, ledger_info := { consensus_block_id := none, commit_round := 0 } }, { author := 2, block_id := ChainedBFT.BlockId.contentHash 1 (some 1) 50 0, round := 1, height := 1, parent_block_id := ChainedBFT.BlockId.genesisId, parent_round := 0, ledger_info := { consensus_block_id := none, commit_round := 0 } }], pending_timeouts := [], highest_tc_round := 0, pending_secondary := some ({ id := ChainedBFT.BlockId.contentHash 3 (some 1) 50 2, round := 3, height := 3, parent_id := ChainedBFT.BlockId.contentHash 2 (some 2) 50 1, author := some 1, payload := 50, quorum_cert := { certified_block_id := ChainedBFT.BlockId.contentHash 2 (some 2) 50 1, certified_block_round := 2, certified_block_height := 2, certified_parent_round := 1, ledger_info := { consensus_block_id := some (ChainedBFT.BlockId.genesisId), commit_round := 0 }, signatures := [{ signer := 1, signed_ledger_info := { consensus_block_id := some (ChainedBFT.BlockId.genesisId), commit_round := 0 } }, { signer := 2, signed_ledger_info := { consensus_block_id := some (ChainedBFT.BlockId.genesisId), commit_round := 0 } }] } }, { highest_quorum_cert := { certified_block_id := ChainedBFT.BlockId.contentHash 2 (some 2) 50 1, certified_block_round := 2, certified_block_height := 2, certified_parent_round := 1, ledger_info := { consensus_block_id := some (ChainedBFT.BlockId.genesisId), commit_round := 0 }, signatures := [{ signer := 1, signed_ledger_info := { consensus_block_id := some (ChainedBFT.BlockId.genesisId), commit_round := 0 } }, { signer := 2, signed_ledger_info := { consensus_block_id := some (ChainedBFT.BlockId.genesisId), commit_round := 0 } }] }, highest_commit_cert := { certified_block_id := ChainedBFT.BlockId.genesisId, certified_block_round := 0, certified_block_height := 0, certified_parent_round := 0, ledger_info := { consensus_block_id := some (ChainedBFT.BlockId.genesisId), commit_round := 0 }, signatures := [] } }), pending_fetch := none, commits := [], committed_txns := 0 }], [(2, 0, ChainedBFT.Msg.vote { author := 2, block_id := ChainedBFT.BlockId.contentHash 2 (some 2) 50 1, round := 2, height := 2, parent_block_id := ChainedBFT.BlockId.contentHash 1 (some 1) 50 0, parent_round := 1, ledger_info := { consensus_block_id := some (ChainedBFT.BlockId.genesisId), commit_round := 0 } }), (0, 0, ChainedBFT.Msg.proposal { id := ChainedBFT.BlockId.contentHash 3 (some 0) 50 2, round := 3, height := 3, parent_id := ChainedBFT.BlockId.contentHash 2 (some 2) 50 1, author := some 0, payload := 50, quorum_cert := { certified_block_id := ChainedBFT.BlockId.contentHash 2 (some 2) 50 1, certified_block_round := 2, certified_block_height := 2, certified_parent_round := 1, ledger_info := { consensus_block_id := some (ChainedBFT.BlockId.genesisId), commit_round := 0 }, signatures := [{ signer := 0, signed_ledger_info := { consensus_block_id := some (ChainedBFT.BlockId.genesisId), commit_round := 0 } }, { signer := 1, signed_ledger_info := { consensus_block_id := some (ChainedBFT.BlockId.genesisId), commit_round := 0 } }] } } { highest_quorum_cert := { certified_block_id := ChainedBFT.BlockId.contentHash 2 (some 2) 50 1, certified_block_round := 2, certified_block_height := 2, certified_parent_round := 1, ledger_info := { consensus_block_id := some (ChainedBFT.BlockId.genesisId), commit_round := 0 }, signatures := [{ signer := 0, signed_ledger_info := { consensus_block_id := some (ChainedBFT.BlockId.genesisId), commit_round := 0 } }, { signer := 1, signed_ledger_info := { consensus_block_id := some (ChainedBFT.BlockId.genesisId), commit_round := 0 } }] }, highest_commit_cert := { certified_block_id := ChainedBFT.BlockId.genesisId, certified_block_round := 0, certified_block_height := 0, certified_parent_round := 0, ledger_info := { consensus_block_id := some (ChainedBFT.BlockId.genesisId), commit_round := 0 }, signatures := [] } })], [(0, 2), (0, 1)], [ChainedBFT.MsgDigest.proposalD { round := 1, height := 1, id := ChainedBFT.BlockId.contentHash 1 (some 1) 50 0, parent_id := ChainedBFT.BlockId.genesisId, qc_certified_block_id := ChainedBFT.BlockId.genesisId }, ChainedBFT.MsgDigest.proposalD { round := 1, height := 1, id := ChainedBFT.BlockId.contentHash 1 (some 1) 50 0, parent_id := ChainedBFT.BlockId.genesisId, qc_certified_block_id := ChainedBFT.BlockId.genesisId }, ChainedBFT.MsgDigest.proposalD { round := 1, height := 1, id := ChainedBFT.BlockId.contentHash 1 (some 2) 50 0, parent_id := ChainedBFT.BlockId.genesisId, qc_certified_block_id := ChainedBFT.BlockId.genesisId }, ChainedBFT.MsgDigest.proposalD { round := 1, height := 1, id := ChainedBFT.BlockId.contentHash 1 (some 2) 50 0, parent_id := ChainedBFT.BlockId.genesisId, qc_certified_block_id := ChainedBFT.BlockId.genesisId }, ChainedBFT.MsgDigest.voteD { round := 1, block_id := ChainedBFT.BlockId.contentHash 1 (some 1) 50 0 }, ChainedBFT.MsgDigest.voteD { round := 1, block_id := ChainedBFT.BlockId.contentHash 1 (some 1) 50 0 }, ChainedBFT.MsgDigest.voteD { round := 1, block_id := ChainedBFT.BlockId.contentHash 1 (some 1) 50 0 }, ChainedBFT.MsgDigest.proposalD { round := 2, height := 2, id := ChainedBFT.BlockId.contentHash 2 (some 2) 50 1, parent_id := ChainedBFT.BlockId.contentHash 1 (some 1) 50 0, qc_certified_block_id := ChainedBFT.BlockId.contentHash 1 (some 1) 50 0 }, ChainedBFT.MsgDigest.proposalD { round := 2, height := 2, id := ChainedBFT.BlockId.contentHash 2 (some 2) 50 1, parent_id := ChainedBFT.BlockId.contentHash 1 (some 1) 50 0, qc_certified_block_id := ChainedBFT.BlockId.contentHash 1 (some 1) 50 0 }, ChainedBFT.MsgDigest.voteD { round := 2, block_id := ChainedBFT.BlockId.contentHash 2 (some 2) 50 1 }, ChainedBFT.MsgDigest.voteD { round := 2, block_id := ChainedBFT.BlockId.contentHash 2 (some 2) 50 1 }, ChainedBFT.MsgDigest.proposalD { round := 3, height := 3, id := ChainedBFT.BlockId.contentHash 3 (some 1) 50 2, parent_id := ChainedBFT.BlockId.contentHash 2 (some 2) 50 1, qc_certified_block_id := ChainedBFT.BlockId.contentHash 2 (some 2) 50 1 }, ChainedBFT.MsgDigest.proposalD { round := 3, height := 3, id := ChainedBFT.BlockId.contentHash 3 (some 1) 50 2, parent_id := ChainedBFT.BlockId.contentHash 2 (some 2) 50 1, qc_certified_block_id := ChainedBFT.BlockId.contentHash 2 (some 2) 50 1 }]⟩

/-- Checkpoint of the simulated cluster (see the scenario schedule definitions). -/
def c8w5 : World :=
⟨{ num_nodes := 3, quorum_size := 2, proposer_type := ChainedBFT.ConsensusProposerType.MultipleOrderedProposers, contiguous_rounds := 2, max_block_size := 50 }, [{ author := 0, blocks := [{ id := ChainedBFT.BlockId.genesisId, round := 0, height := 0, parent_id := ChainedBFT.BlockId.genesisId, author := none, payload := 0, quorum_cert := { certified_block_id := ChainedBFT.BlockId.genesisId, certified_block_round := 0, certified_block_height := 0, certified_parent_round := 0, ledger_info := { consensus_block_id := some (ChainedBFT.BlockId.genesisId), commit_round := 0 }, signatures := [] } }, { id := ChainedBFT.BlockId.contentHash 1 (some 1) 50 0, round := 1, height := 1, parent_id := ChainedBFT.BlockId.genesisId, author := some 1, payload := 50, quorum_cert := { certified_block_id := ChainedBFT.BlockId.genesisId, certified_block_round := 0, certified_block_height := 0, certified_parent_round := 0, ledger_info := { consensus_block_id := some (ChainedBFT.BlockId.genesisId), commit_round := 0 }, signatures := [] } }, { id := ChainedBFT.BlockId.contentHash 2 (some 2) 50 1, round := 2, height := 2, parent_id := ChainedBFT.BlockId.contentHash 1 (some 1) 50 0, author := some 2, payload := 50, quorum_cert := { certified_block_id := ChainedBFT.BlockId.contentHash 1 (some 1) 50 0, certified_block_round := 1, certified_block_height := 1, certified_parent_round := 0, ledger_info := { consensus_block_id := none, commit_round := 0 }, signatures := [{ signer := 1, signed_ledger_info := { consensus_block_id := none, commit_round := 0 } }, { signer := 2, signed_ledger_info := { consensus_block_id := none, commit_round := 0 } }] } }], root_id := ChainedBFT.BlockId.genesisId, highest_quorum_cert := { certified_block_id := ChainedBFT.BlockId.contentHash 2 (some 2) 50 1, certified_block_round := 2, certified_block_height := 2, certified_parent_round := 1, ledger_info := { consensus_block_id := some (ChainedBFT.BlockId.genesisId), commit_round := 0 }, signatures := [{ signer := 0, signed_ledger_info := { consensus_block_id := some (ChainedBFT.BlockId.genesisId), commit_round := 0 } }, { signer := 1, signed_ledger_info := { consensus_block_id := some (ChainedBFT.BlockId.genesisId), commit_round := 0 } }] }, highest_commit_cert := { certified_block_id := ChainedBFT.BlockId.genesisId, certified_block_round := 0, certified_block_height := 0, certified_parent_round := 0, ledger_info := { consensus_block_id := some (ChainedBFT.BlockId.genesisId), commit_round := 0 }, signatures := [] }, current_round := 4, last_voted_round := 2, preferred_round := 0, last_vote := none, pending_votes := [{ author := 1, block_id := ChainedBFT.BlockId.contentHash 1 (some 1) 50 0, round := 1, height := 1, parent_block_id := ChainedBFT.BlockId.genesisId, parent_round := 0, ledger_info := { consensus_block_id := none, commit_round := 0 } }, { author := 0, block_id := ChainedBFT.BlockId.contentHash 1 (some 1) 50 0, round := 1, height := 1, parent_block_id := ChainedBFT.BlockId.genesisId, parent_round := 0, ledger_info := { consensus_block_id := none, commit_round := 0 } }, { author := 2, block_id := ChainedBFT.BlockId.contentHash 1 (some 1) 50 0, round := 1, height := 1, parent_block_id := ChainedBFT.BlockId.genesisId, parent_round := 0, ledger_info := { consensus_block_id := none, commit_round := 0 } }, { author := 0, block_id := ChainedBFT.BlockId.contentHash 2 (some 2) 50 1, round := 2, height := 2, parent_block_id := ChainedBFT.BlockId.contentHash 1 (some 1) 50 0, parent_round := 1, ledger_info := { consensus_block_id := some (ChainedBFT.BlockId.genesisId), commit_round := 0 } }, { author := 1, block_id := ChainedBFT.BlockId.contentHash 2 (some 2) 50 1, round := 2, height := 2, parent_block_id := ChainedBFT.BlockId.contentHash 1 (some 1) 50 0, parent_round := 1, ledger_info := { consensus_block_id := some (ChainedBFT.BlockId.genesisId), commit_round := 0 } }, { author := 1, block_id := ChainedBFT.BlockId.contentHash 3 (some 1) 50 2, round := 3, height := 3, parent_block_id := ChainedBFT.BlockId.contentHash 2 (some 2) 50 1, parent_round := 2, ledger_info := { consensus_block_id := some (ChainedBFT.BlockId.contentHash 1 (some 1) 50 0), commit_round := 1 } }, { author := 2, block_id := ChainedBFT.BlockId.contentHash 2 (some 2) 50 1, round := 2, height := 2, parent_block_id := ChainedBFT.BlockId.contentHash 1 (some 1) 50 0, parent_round := 1, ledger_info := { consensus_block_id := some (ChainedBFT.BlockId.genesisId), commit_round := 0 } }, { author := 2, block_id := ChainedBFT.BlockId.contentHash 3 (some 1) 50 2, round := 3, height := 3, parent_block_id := ChainedBFT.BlockId.contentHash 2 (some 2) 50 1, parent_round := 2, ledger_info := { consensus_block_id := some (ChainedBFT.BlockId.contentHash 1 (some 1) 50 0), commit_round := 1 } }], pending_timeouts := [(3, 1), (3, 2)], highest_tc_round := 3, pending_secondary := none, pending_fetch := none, commits := [], committed_txns := 0 }, { author := 1, blocks := [{ id := ChainedBFT.BlockId.contentHash 1 (some 1) 50 0, round := 1, height := 1, parent_id := ChainedBFT.BlockId.genesisId, author := some 1, payload := 50, quorum_cert := { certified_block_id := ChainedBFT.BlockId.genesisId, certified_block_round := 0, certified_block_height := 0, certified_parent_round := 0, ledger_info := { consensus_block_id := some (ChainedBFT.BlockId.genesisId), commit_round := 0 }, signatures := [] } }, { id := ChainedBFT.BlockId.contentHash 2 (some 2) 50 1, round := 2, height := 2, parent_id := ChainedBFT.BlockId.contentHash 1 (some 1) 50 0, author := some 2, payload := 50, quorum_cert := { certified_block_id := ChainedBFT.BlockId.contentHash 1 (some 1) 50 0, certified_block_round := 1, certified_block_height := 1, certified_parent_round := 0, ledger_info := { consensus_block_id := none, commit_round := 0 }, signatures := [{ signer := 1, signed_ledger_info := { consensus_block_id := none, commit_round := 0 } }, { signer := 2, signed_ledger_info := { consensus_block_id := none, commit_round := 0 } }] } }, { id := ChainedBFT.BlockId.contentHash 3 (some 1) 50 2, round := 3, height := 3, parent_id := ChainedBFT.BlockId.contentHash 2 (some 2) 50 1, author := some 1, payload := 50, quorum_cert := { certified_block_id := ChainedBFT.BlockId.contentHash 2 (some 2) 50 1, certified_block_round := 2, certified_block_height := 2, certified_parent_round := 1, ledger_info := { consensus_block_id := some (ChainedBFT.BlockId.genesisId), commit_round := 0 }, signatures := [{ signer := 1, signed_ledger_info := { consensus_block_id := some (ChainedBFT.BlockId.genesisId), commit_round := 0 } }, { signer := 2, signed_ledger_info := { consensus_block_id := some (ChainedBFT.BlockId.genesisId), commit_round := 0 } }] } }], root_id := ChainedBFT.BlockId.contentHash 1 (some 1) 50 0, highest_quorum_cert := { certified_block_id := ChainedBFT.BlockId.contentHash 3 (some 1) 50 2, certified_block_round := 3, certified_block_height := 3, certified_parent_round := 2, ledger_info := { consensus_block_id := some (ChainedBFT.BlockId.contentHash 1 (some 1) 50 0), commit_round := 1 }, signatures := [{ signer := 1, signed_ledger_info := { consensus_block_id := some (ChainedBFT.BlockId.contentHash 1 (some 1) 50 0), commit_round := 1 } }, { signer := 2, signed_ledger_info := { consensus_block_id := some (ChainedBFT.BlockId.contentHash 1 (some 1) 50 0), commit_round := 1 } }] }, highest_commit_cert := { certified_block_id := ChainedBFT.BlockId.contentHash 3 (some 1) 50 2, certified_block_round := 3, certified_block_height := 3, certified_parent_round := 2, ledger_info := { consensus_block_id := some (ChainedBFT.BlockId.contentHash 1 (some 1) 50 0), commit_round := 1 }, signatures := [{ signer := 1, signed_ledger_info := { consensus_block_id := some (ChainedBFT.BlockId.contentHash 1 (some 1) 50 0), commit_round := 1 } }, { signer := 2, signed_ledger_info := { consensus_block_id := some (ChainedBFT.BlockId.contentHash 1 (some 1) 50 0), commit_round := 1 } }] }, current_round := 4, last_voted_round := 3, preferred_round := 1, last_vote := none, pending_votes := [{ author := 1, block_id := ChainedBFT.BlockId.contentHash 2 (some 2) 50 1, round := 2, height := 2, parent_block_id := ChainedBFT.BlockId.contentHash 1 (some 1) 50 0, parent_round := 1, ledger_info := { consensus_block_id := some (ChainedBFT.BlockId.genesisId), commit_round := 0 } }, { author := 2, block_id := ChainedBFT.BlockId.contentHash 2 (some 2) 50 1, round := 2, height := 2, parent_block_id := ChainedBFT.BlockId.contentHash 1 (some 1) 50 0, parent_round := 1, ledger_info := { consensus_block_id := some (ChainedBFT.BlockId.genesisId), commit_round := 0 } }, { author := 1, block_id := ChainedBFT.BlockId.contentHash 3 (some 1) 50 2, round := 3, height := 3, parent_block_id := ChainedBFT.BlockId.contentHash 2 (some 2) 50 1, parent_round := 2, ledger_info := { consensus_block_id := some (ChainedBFT.BlockId.contentHash 1 (some 1) 50 0), commit_round := 1 } }, { author := 2, block_id := ChainedBFT.BlockId.contentHash 3 (some 1) 50 2, round := 3, height := 3, parent_block_id := ChainedBFT.BlockId.contentHash 2 (some 2) 50 1, parent_round := 2, ledger_info := { consensus_block_id := some (ChainedBFT.BlockId.contentHash 1 (some 1) 50 0), commit_round := 1 } }], pending_timeouts := [(3, 1), (3, 2)], highest_tc_round := 3, pending_secondary := none, pending_fetch := none, commits := [{ ledger_info := { consensus_block_id := some (ChainedBFT.BlockId.contentHash 1 (some 1) 50 0), commit_round := 1 }, signatures := [{ signer := 1, signed_ledger_info := { consensus_block_id := some (ChainedBFT.BlockId.contentHash 1 (some 1) 50 0), commit_round := 1 } }, { signer := 2, signed_ledger_info := { consensus_block_id := some (ChainedBFT.BlockId.contentHash 1 (some 1) 50 0), commit_round := 1 } }] }], committed_txns := 50 }, { author := 2, blocks := [{ id := ChainedBFT.BlockId.contentHash 1 (some 1) 50 0, round := 1, height := 1, parent_id := ChainedBFT.BlockId.genesisId, author := some 1, payload := 50, quorum_cert := { certified_block_id := ChainedBFT.BlockId.genesisId, certified_block_round := 0, certified_block_height := 0, certified_parent_round := 0, ledger_info := { consensus_block_id := some (ChainedBFT.BlockId.genesisId), commit_round := 0 }, signatures := [] } }, { id := ChainedBFT.BlockId.contentHash 2 (some 2) 50 1, round := 2, height := 2, parent_id := ChainedBFT.BlockId.contentHash 1 (some 1) 50 0, author := some 2, payload := 50, quorum_cert := { certified_block_id := ChainedBFT.BlockId.contentHash 1 (some 1) 50 0, certified_block_round := 1, certified_block_height := 1, certified_parent_round := 0, ledger_info := { consensus_block_id := none, commit_round := 0 }, signatures := [{ signer := 1, signed_ledger_info := { consensus_block_id := none, commit_round := 0 } }, { signer := 2, signed_ledger_info := { consensus_block_id := none, commit_round := 0 } }] } }, { id := ChainedBFT.BlockId.contentHash 3 (some 1) 50 2, round := 3, height := 3, parent_id := ChainedBFT.BlockId.contentHash 2 (some 2) 50 1, author := some 1, payload := 50, quorum_cert := { certified_block_id := ChainedBFT.BlockId.contentHash 2 (some 2) 50 1, certified_block_round := 2, certified_block_height := 2, certified_parent_round := 1, ledger_info := { consensus_block_id := some (ChainedBFT.BlockId.genesisId), commit_round := 0 }, signatures := [{ signer := 1, signed_ledger_info := { consensus_block_id := some (ChainedBFT.BlockId.genesisId), commit_round := 0 } }, { signer := 2, signed_ledger_info := { consensus_block_id := some (ChainedBFT.BlockId.genesisId), commit_round := 0 } }] } }], root_id := ChainedBFT.BlockId.contentHash 1 (some 1) 50 0, highest_quorum_cert := { certified_block_id := ChainedBFT.BlockId.contentHash 3 (some 1) 50 2, certified_block_round := 3, certified_block_height := 3, certified_parent_round := 2, ledger_info := { consensus_block_id := some (ChainedBFT.BlockId.contentHash 1 (some 1) 50 0), commit_round := 1 }, signatures := [{ signer := 2, signed_ledger_info := { consensus_block_id := some (ChainedBFT.BlockId.contentHash 1 (some 1) 50 0), commit_round := 1 } }, { signer := 1, signed_ledger_info := { consensus_block_id := some (ChainedBFT.BlockId.contentHash 1 (some 1) 50 0), commit_round := 1 } }] }, highest_commit_cert := { certified_block_id := ChainedBFT.BlockId.contentHash 3 (some 1) 50 2, certified_block_round := 3, certified_block_height := 3, certified_parent_round := 2, ledger_info := { consensus_block_id := some (ChainedBFT.BlockId.contentHash 1 (some 1) 50 0), commit_round := 1 }, signatures := [{ signer := 2, signed_ledger_info := { consensus_block_id := some (ChainedBFT.BlockId.contentHash 1 (some 1) 50 0), commit_round := 1 } }, { signer := 1, signed_ledger_info := { consensus_block_id := some (ChainedBFT.BlockId.contentHash 1 (some 1) 50 0), commit_round := 1 } }] }, current_round := 4, last_voted_round := 3, preferred_round := 1, last_vote := none, pending_votes := [{ author := 1, block_id := ChainedBFT.BlockId.contentHash 1 (some 1) 50 0, round := 1, height := 1, parent_block_id := ChainedBFT.BlockId.genesisId, parent_round := 0, ledger_info := { consensus_block_id := none, commit_round := 0 } }, { author := 2, block_id := ChainedBFT.BlockId.contentHash 1 (some 1) 50 0, round := 1, height := 1, parent_block_id := ChainedBFT.BlockId.genesisId, parent_round := 0, ledger_info := { consensus_block_id := none, commit_round := 0 } }, { author := 2, block_id := ChainedBFT.BlockId.contentHash 3 (some 1) 50 2, round := 3, height := 3, parent_block_id := ChainedBFT.BlockId.contentHash 2 (some 2) 50 1, parent_round := 2, ledger_info := { consensus_block_id := some (ChainedBFT.BlockId.contentHash 1 (some 1) 50 0), commit_round := 1 } }, { author := 1, block_id := ChainedBFT.BlockId.contentHash 3 (some 1) 50 2, round := 3, height := 3, parent_block_id := ChainedBFT.BlockId.contentHash 2 (some 2) 50 1, parent_round := 2, ledger_info := { consensus_block_id := some (ChainedBFT.BlockId.contentHash 1 (some 1) 50 0), commit_round := 1 } }], pending_timeouts := [(3, 2), (3, 1)], highest_tc_round := 3, pending_secondary := none, pending_fetch := none, commits := [{ ledger_info := { consensus_block_id := some (ChainedBFT.BlockId.contentHash 1 (some 1) 50 0), commit_round := 1 }, signatures := [{ signer := 2, signed_ledger_info := { consensus_block_id := some (ChainedBFT.BlockId.contentHash 1 (some 1) 50 0), commit_round := 1 } }, { signer := 1, signed_ledger_info := { consensus_block_id := some (ChainedBFT.BlockId.contentHash 1 (some 1) 50 0), commit_round := 1 } }] }], committed_txns := 50 }], [(0, 0, ChainedBFT.Msg.proposal { id := ChainedBFT.BlockId.contentHash 3 (some 0) 50 2, round := 3, height := 3, parent_id := ChainedBFT.BlockId.contentHash 2 (some 2) 50 1, author := some 0, payload := 50, quorum_cert := { certified_block_id := ChainedBFT.BlockId.contentHash 2 (some 2) 50 1, certified_block_round := 2, certified_block_height := 2, certified_parent_round := 1, ledger_info := { consensus_block_id := some (ChainedBFT.BlockId.genesisId), commit_round := 0 }, signatures := [{ signer := 0, signed_ledger_info := { consensus_block_id := some (ChainedBFT.BlockId.genesisId), commit_round := 0 } }, { signer := 1, signed_ledger_info := { consensus_block_id := some (ChainedBFT.BlockId.genesisId), commit_round := 0 } }] } } { highest_quorum_cert := { certified_block_id := ChainedBFT.BlockId.contentHash 2 (some 2) 50 1, certified_block_round := 2, certified_block_height := 2, certified_parent_round := 1, ledger_info := { consensus_block_id := some (ChainedBFT.BlockId.genesisId), commit_round := 0 }, signatures := [{ signer := 0, signed_ledger_info := { consensus_block_id := some (ChainedBFT.BlockId.genesisId), commit_round := 0 } }, { signer := 1, signed_ledger_info := { consensus_block_id := some (ChainedBFT.BlockId.genesisId), commit_round := 0 } }] }, highest_commit_cert := { certified_block_id := ChainedBFT.BlockId.genesisId, certified_block_round := 0, certified_block_height := 0, certified_parent_round := 0, ledger_info := { consensus_block_id := some (ChainedBFT.BlockId.genesisId), commit_round := 0 }, signatures := [] } }), (1, 0, ChainedBFT.Msg.proposal { id := ChainedBFT.BlockId.contentHash 4 (some 1) 50 3, round := 4, height := 4, parent_id := ChainedBFT.BlockId.contentHash 3 (some 1) 50 2, author := some 1, payload := 50, quorum_cert := { certified_block_id := ChainedBFT.BlockId.contentHash 3 (some 1) 50 2, certified_block_round := 3, certified_block_height := 3, certified_parent_round := 2, ledger_info := { consensus_block_id := some (ChainedBFT.BlockId.contentHash 1 (some 1) 50 0), commit_round := 1 }, signatures := [{ signer := 1, signed_ledger_info := { consensus_block_id := some (ChainedBFT.BlockId.contentHash 1 (some 1) 50 0), commit_round := 1 } }, { signer := 2, signed_ledger_info := { consensus_block_id := some (ChainedBFT.BlockId.contentHash 1 (some 1) 50 0), commit_round := 1 } }] } } { highest_quorum_cert := { certified_block_id := ChainedBFT.BlockId.contentHash 3 (some 1) 50 2, certified_block_round := 3, certified_block_height := 3, certified_parent_round := 2, ledger_info := { consensus_block_id := some (ChainedBFT.BlockId.contentHash 1 (some 1) 50 0), commit_round := 1 }, signatures := [{ signer := 1, signed_ledger_info := { consensus_block_id := some (ChainedBFT.BlockId.contentHash 1 (some 1) 50 0), commit_round := 1 } }, { signer := 2, signed_ledger_info := { consensus_block_id := some (ChainedBFT.BlockId.contentHash 1 (some 1) 50 0), commit_round := 1 } }] }, highest_commit_cert := { certified_block_id := ChainedBFT.BlockId.contentHash 3 (some 1) 50 2, certified_block_round := 3, certified_block_height := 3, certified_parent_round := 2, ledger_info := { consensus_block_id := some (ChainedBFT.BlockId.contentHash 1 (some 1) 50 0), commit_round := 1 }, signatures := [{ signer := 1, signed_ledger_info := { consensus_block_id := some (ChainedBFT.BlockId.contentHash 1 (some 1) 50 0), commit_round := 1 } }, { signer := 2, signed_ledger_info := { consensus_block_id := some (ChainedBFT.BlockId.contentHash 1 (some 1) 50 0), commit_round := 1 } }] } }), (1, 1, ChainedBFT.Msg.proposal { id := ChainedBFT.BlockId.contentHash 4 (some 1) 50 3, round := 4, height := 4, parent_id := ChainedBFT.BlockId.contentHash 3 (some 1) 50 2, author := some 1, payload := 50, quorum_cert := { certified_block_id := ChainedBFT.BlockId.contentHash 3 (some 1) 50 2, certified_block_round := 3, certified_block_height := 3, certified_parent_round := 2, ledger_info := { consensus_block_id := some (ChainedBFT.BlockId.contentHash 1 (some 1) 50 0), commit_round := 1 }, signatures := [{ signer := 1, signed_ledger_info := { consensus_block_id := some (ChainedBFT.BlockId.contentHash 1 (some 1) 50 0), commit_round := 1 } }, { signer := 2, signed_ledger_info := { consensus_block_id := some (ChainedBFT.BlockId.contentHash 1 (some 1) 50 0), commit_round := 1 } }] } } { highest_quorum_cert := { certified_block_id := ChainedBFT.BlockId.contentHash 3 (some 1) 50 2, certified_block_round := 3, certified_block_height := 3, certified_parent_round := 2, ledger_info := { consensus_block_id := some (ChainedBFT.BlockId.contentHash 1 (some 1) 50 0), commit_round := 1 }, signatures := [{ signer := 1, signed_ledger_info := { consensus_block_id := some (ChainedBFT.BlockId.contentHash 1 (some 1) 50 0), commit_round := 1 } }, { signer := 2, signed_ledger_info := { consensus_block_id := some (ChainedBFT.BlockId.contentHash 1 (some 1) 50 0), commit_round := 1 } }] }, highest_commit_cert := { certified_block_id := ChainedBFT.BlockId.contentHash 3 (some 1) 50 2, certified_block_round := 3, certified_block_height := 3, certified_parent_round := 2, ledger_info := { consensus_block_id := some (ChainedBFT.BlockId.contentHash 1 (some 1) 50 0), commit_round := 1 }, signatures := [{ signer := 1, signed_ledger_info := { consensus_block_id := some (ChainedBFT.BlockId.contentHash 1 (some 1) 50 0), commit_round := 1 } }, { signer := 2, signed_ledger_info := { consensus_block_id := some (ChainedBFT.BlockId.contentHash 1 (some 1) 50 0), commit_round := 1 } }] } }), (1, 2, ChainedBFT.Msg.proposal { id := ChainedBFT.BlockId.contentHash 4 (some 1) 50 3, round := 4, height := 4, parent_id := ChainedBFT.BlockId.contentHash 3 (some 1) 50 2, author := some 1, payload := 50, quorum_cert := { certified_block_id := ChainedBFT.BlockId.contentHash 3 (some 1) 50 2, certified_block_round := 3, certified_block_height := 3, certified_parent_round := 2, ledger_info := { consensus_block_id := some (ChainedBFT.BlockId.contentHash 1 (some 1) 50 0), commit_round := 1 }, signatures := [{ signer := 1, signed_ledger_info := { consensus_block_id := some (ChainedBFT.BlockId.contentHash 1 (some 1) 50 0), commit_round := 1 } }, { signer := 2, signed_ledger_info := { consensus_block_id := some (ChainedBFT.BlockId.contentHash 1 (some 1) 50 0), commit_round := 1 } }] } } { highest_quorum_cert := { certified_block_id := ChainedBFT.BlockId.contentHash 3 (some 1) 50 2, certified_block_round := 3, certified_block_height := 3, certified_parent_round := 2, ledger_info := { consensus_block_id := some (ChainedBFT.BlockId.contentHash 1 (some 1) 50 0), commit_round := 1 }, signatures := [{ signer := 1, signed_ledger_info := { consensus_block_id := some (ChainedBFT.BlockId.contentHash 1 (some 1) 50 0), commit_round := 1 } }, { signer := 2, signed_ledger_info := { consensus_block_id := some (ChainedBFT.BlockId.contentHash 1 (some 1) 50 0), commit_round := 1 } }] }, highest_commit_cert := { certified_block_id := ChainedBFT.BlockId.contentHash 3 (some 1) 50 2, certified_block_round := 3, certified_block_height := 3, certified_parent_round := 2, ledger_info := { consensus_block_id := some (ChainedBFT.BlockId.contentHash 1 (some 1) 50 0), commit_round := 1 }, signatures := [{ signer := 1, signed_ledger_info := { consensus_block_id := some (ChainedBFT.BlockId.contentHash 1 (some 1) 50 0), commit_round := 1 } }, { signer := 2, signed_ledger_info := { consensus_block_id := some (ChainedBFT.BlockId.contentHash 1 (some 1) 50 0), commit_round := 1 } }] } }), (2, 0, ChainedBFT.Msg.proposal { id := ChainedBFT.BlockId.contentHash 4 (some 2) 50 3, round := 4, height := 4, parent_id := ChainedBFT.BlockId.contentHash 3 (some 1) 50 2, author := some 2, payload := 50, quorum_cert := { certified_block_id := ChainedBFT.BlockId.contentHash 3 (some 1) 50 2, certified_block_round := 3, certified_block_height := 3, certified_parent_round := 2, ledger_info := { consensus_block_id := some (ChainedBFT.BlockId.contentHash 1 (some 1) 50 0), commit_round := 1 }, signatures := [{ signer := 2, signed_ledger_info := { consensus_block_id := some (ChainedBFT.BlockId.contentHash 1 (some 1) 50 0), commit_round := 1 } }, { signer := 1, signed_ledger_info := { consensus_block_id := some (ChainedBFT.BlockId.contentHash 1 (some 1) 50 0), commit_round := 1 } }] } } { highest_quorum_cert := { certified_block_id := ChainedBFT.BlockId.contentHash 3 (some 1) 50 2, certified_block_round := 3, certified_block_height := 3, certified_parent_round := 2, ledger_info := { consensus_block_id := some (ChainedBFT.BlockId.contentHash 1 (some 1) 50 0), commit_round := 1 }, signatures := [{ signer := 2, signed_ledger_info := { consensus_block_id := some (ChainedBFT.BlockId.contentHash 1 (some 1) 50 0), commit_round := 1 } }, { signer := 1, signed_ledger_info := { consensus_block_id := some (ChainedBFT.BlockId.contentHash 1 (some 1) 50 0), commit_round := 1 } }] }, highest_commit_cert := { certified_block_id := ChainedBFT.BlockId.contentHash 3 (some 1) 50 2, certified_block_round := 3, certified_block_height := 3, certified_parent_round := 2, ledger_info := { consensus_block_id := some (ChainedBFT.BlockId.contentHash 1 (some 1) 50 0), commit_round := 1 }, signatures := [{ signer := 2, signed_ledger_info := { consensus_block_id := some (ChainedBFT.BlockId.contentHash 1 (some 1) 50 0), commit_round := 1 } }, { signer := 1, signed_ledger_info := { consensus_block_id := some (ChainedBFT.BlockId.contentHash 1 (some 1) 50 0), commit_round := 1 } }] } }), (2, 1, ChainedBFT.Msg.proposal { id := ChainedBFT.BlockId.contentHash 4 (some 2) 50 3, round := 4, height := 4, parent_id := ChainedBFT.BlockId.contentHash 3 (some 1) 50 2, author := some 2, payload := 50, quorum_cert := { certified_block_id := ChainedBFT.BlockId.contentHash 3 (some 1) 50 2, certified_block_round := 3, certified_block_height := 3, certified_parent_round := 2, ledger_info := { consensus_block_id := some (ChainedBFT.BlockId.contentHash 1 (some 1) 50 0), commit_round := 1 }, signatures := [{ signer := 2, signed_ledger_info := { consensus_block_id := some (ChainedBFT.BlockId.contentHash 1 (some 1) 50 0), commit_round := 1 } }, { signer := 1, signed_ledger_info := { consensus_block_id := some (ChainedBFT.BlockId.contentHash 1 (some 1) 50 0), commit_round := 1 } }] } } { highest_quorum_cert := { certified_block_id := ChainedBFT.BlockId.contentHash 3 (some 1) 50 2, certified_block_round := 3, certified_block_height := 3, certified_parent_round := 2, ledger_info := { consensus_block_id := some (ChainedBFT.BlockId.contentHash 1 (some 1) 50 0), commit_round := 1 }, signatures := [{ signer := 2, signed_ledger_info := { consensus_block_id := some (ChainedBFT.BlockId.contentHash 1 (some 1) 50 0), commit_round := 1 } }, { signer := 1, signed_ledger_info := { consensus_block_id := some (ChainedBFT.BlockId.contentHash 1 (some 1) 50 0), commit_round := 1 } }] }, highest_commit_cert := { certified_block_id := ChainedBFT.BlockId.contentHash 3 (some 1) 50 2, certified_block_round := 3, certified_block_height := 3, certified_parent_round := 2, ledger_info := { consensus_block_id := some (ChainedBFT.BlockId.contentHash 1 (some 1) 50 0), commit_round := 1 }, signatures := [{ signer := 2, signed_ledger_info := { consensus_block_id := some (ChainedBFT.BlockId.contentHash 1 (some 1) 50 0), commit_round := 1 } }, { signer := 1, signed_ledger_info := { consensus_block_id := some (ChainedBFT.BlockId.contentHash 1 (some 1) 50 0), commit_round := 1 } }] } }), (2, 2, ChainedBFT.Msg.proposal { id := ChainedBFT.BlockId.contentHash 4 (some 2) 50 3, round := 4, height := 4, parent_id := ChainedBFT.BlockId.contentHash 3 (some 1) 50 2, author := some 2, payload := 50, quorum_cert := { certified_block_id := ChainedBFT.BlockId.contentHash 3 (some 1) 50 2, certified_block_round := 3, certified_block_height := 3, certified_parent_round := 2, ledger_info := { consensus_block_id := some (ChainedBFT.BlockId.contentHash 1 (some 1) 50 0), commit_round := 1 }, signatures := [{ signer := 2, signed_ledger_info := { consensus_block_id := some (ChainedBFT.BlockId.contentHash 1 (some 1) 50 0), commit_round := 1 } }, { signer := 1, signed_ledger_info := { consensus_block_id := some (ChainedBFT.BlockId.contentHash 1 (some 1) 50 0), commit_round := 1 } }] } } { highest_quorum_cert := { certified_block_id := ChainedBFT.BlockId.contentHash 3 (some 1) 50 2, certified_block_round := 3, certified_block_height := 3, certified_parent_round := 2, ledger_info := { consensus_block_id := some (ChainedBFT.BlockId.contentHash 1 (some 1) 50 0), commit_round := 1 }, signatures := [{ signer := 2, signed_ledger_info := { consensus_block_id := some (ChainedBFT.BlockId.contentHash 1 (some 1) 50 0), commit_round := 1 } }, { signer := 1, signed_ledger_info := { consensus_block_id := some (ChainedBFT.BlockId.contentHash 1 (some 1) 50 0), commit_round := 1 } }] }, highest_commit_cert := { certified_block_id := ChainedBFT.BlockId.contentHash 3 (some 1) 50 2, certified_block_round := 3, certified_block_height := 3, certified_parent_round := 2, ledger_info := { consensus_block_id := some (ChainedBFT.BlockId.contentHash 1 (some 1) 50 0), commit_round := 1 }, signatures := [{ signer := 2, signed_ledger_info := { consensus_block_id := some (ChainedBFT.BlockId.contentHash 1 (some 1) 50 0), commit_round := 1 } }, { signer := 1, signed_ledger_info := { consensus_block_id := some (ChainedBFT.BlockId.contentHash 1 (some 1) 50 0), commit_round := 1 } }] } })], [(0, 2), (0, 1)], [ChainedBFT.MsgDigest.proposalD { round := 1, height := 1, id := ChainedBFT.BlockId.contentHash 1 (some 1) 50 0, parent_id := ChainedBFT.BlockId.genesisId, qc_certified_block_id := ChainedBFT.BlockId.genesisId }, ChainedBFT.MsgDigest.proposalD { round := 1, height := 1, id := ChainedBFT.BlockId.contentHash 1 (some 1) 50 0, parent_id := ChainedBFT.BlockId.genesisId, qc_certified_block_id := ChainedBFT.BlockId.genesisId }, ChainedBFT.MsgDigest.proposalD { round := 1, height := 1, id := ChainedBFT.BlockId.contentHash 1 (some 2) 50 0, parent_id := ChainedBFT.BlockId.genesisId, qc_certified_block_id := ChainedBFT.BlockId.genesisId }, ChainedBFT.MsgDigest.proposalD { round := 1, height := 1, id := ChainedBFT.BlockId.contentHash 1 (some 2) 50 0, parent_id := ChainedBFT.BlockId.genesisId, qc_certified_block_id := ChainedBFT.BlockId.genesisId }, ChainedBFT.MsgDigest.voteD { round := 1, block_id := ChainedBFT.BlockId.contentHash 1 (some 1) 50 0 }, ChainedBFT.MsgDigest.voteD { round := 1, block_id := ChainedBFT.BlockId.contentHash 1 (some 1) 50 0 }, ChainedBFT.MsgDigest.voteD { round := 1, block_id := ChainedBFT.BlockId.contentHash 1 (some 1) 50 0 }, ChainedBFT.MsgDigest.proposalD { round := 2, height := 2, id := ChainedBFT.BlockId.contentHash 2 (some 2) 50 1, parent_id := ChainedBFT.BlockId.contentHash 1 (some 1) 50 0, qc_certified_block_id := ChainedBFT.BlockId.contentHash 1 (some 1) 50 0 }, ChainedBFT.MsgDigest.proposalD { round := 2, height := 2, id := ChainedBFT.BlockId.contentHash 2 (some 2) 50 1, parent_id := ChainedBFT.BlockId.contentHash 1 (some 1) 50 0, qc_certified_block_id := ChainedBFT.BlockId.contentHash 1 (some 1) 50 0 }, ChainedBFT.MsgDigest.voteD { round := 2, block_id := ChainedBFT.BlockId.contentHash 2 (some 2) 50 1 }, ChainedBFT.MsgDigest.voteD { round := 2, block_id := ChainedBFT.BlockId.contentHash 2 (some 2) 50 1 }, ChainedBFT.MsgDigest.proposalD { round := 3, height := 3, id := ChainedBFT.BlockId.contentHash 3 (some 1) 50 2, parent_id := ChainedBFT.BlockId.contentHash 2 (some 2) 50 1, qc_certified_block_id := ChainedBFT.BlockId.contentHash 2 (some 2) 50 1 }, ChainedBFT.MsgDigest.proposalD { round := 3, height := 3, id := ChainedBFT.BlockId.contentHash 3 (some 1) 50 2, parent_id := ChainedBFT.BlockId.contentHash 2 (some 2) 50 1, qc_certified_block_id := ChainedBFT.BlockId.contentHash 2 (some 2) 50 1 }, ChainedBFT.MsgDigest.timeoutD { round := 3, piggyback_block_id := some (ChainedBFT.BlockId.contentHash 3 (some 1) 50 2) }, ChainedBFT.MsgDigest.timeoutD { round := 3, piggyback_block_id := some (ChainedBFT.BlockId.contentHash 3 (some 1) 50 2) }, ChainedBFT.MsgDigest.timeoutD { round := 3, piggyback_block_id := some (ChainedBFT.BlockId.contentHash 3 (some 1) 50 2) }, ChainedBFT.MsgDigest.voteD { round := 2, block_id := ChainedBFT.BlockId.contentHash 2 (some 2) 50 1 }, ChainedBFT.MsgDigest.timeoutD { round := 3, piggyback_block_id := some (ChainedBFT.BlockId.contentHash 3 (some 1) 50 2) }]⟩

/-- A well-formed signature set for a ledger info: every signature binds
that ledger info and its signer belongs to the epoch's validator set. -/
def WFsigs (cfg : Config) (li : LedgerInfo) (sigs : List Signature) : Prop :=
  ∀ s ∈ sigs, s.signed_ledger_info = li ∧ s.signer ∈ validators cfg

/-- A well-formed quorum certificate: its signature set is well-formed for
its embedded ledger info. -/
def WFqc (cfg : Config) (qc : QuorumCert) : Prop :=
  WFsigs cfg qc.ledger_info qc.signatures

/-- A well-formed vote: its author is a validator. -/
def WFvote (cfg : Config) (v : VoteMsg) : Prop :=
  v.author ∈ validators cfg

/-- A well-formed commit event: its signature set is well-formed for its
ledger info. -/
def WFliws (cfg : Config) (l : LedgerInfoWithSignatures) : Prop :=
  WFsigs cfg l.ledger_info l.signatures

/-- A well-formed block: its quorum certificate is well-formed. -/
def WFblock (cfg : Config) (b : Block) : Prop :=
  WFqc cfg b.quorum_cert

/-- A well-formed sync info: both certificates are well-formed. -/
def WFsync (cfg : Config) (si : SyncInfo) : Prop :=
  WFqc cfg si.highest_quorum_cert ∧ WFqc cfg si.highest_commit_cert

/-- A well-formed network message: every embedded block, certificate and
vote is well-formed. -/
def WFmsg (cfg : Config) : Msg → Prop
  | Msg.proposal b si => WFblock cfg b ∧ WFsync cfg si
  | Msg.vote v => WFvote cfg v
  | Msg.timeout t =>
      (∀ v ∈ t.piggyback_vote, WFvote cfg v) ∧ WFsync cfg t.sync_info
  | Msg.retrievalReq _ _ => True
  | Msg.retrievalResp bs => ∀ b ∈ bs, WFblock cfg b

/-- A well-formed pending retrieval: its sync certificate and suspended
proposal are well-formed. -/
def WFpf (cfg : Config) (pf : PendingFetch) : Prop :=
  (∀ qc ∈ pf.sync_cert, WFqc cfg qc) ∧
    (∀ p ∈ pf.suspended, WFblock cfg p.1 ∧ WFsync cfg p.2)

/-- A well-formed replica state: every block, certificate, vote, suspended
proposal and emitted commit event it holds is well-formed, and its author
is a validator. -/
def WFnode (cfg : Config) (st : NodeState) : Prop :=
  st.author ∈ validators cfg ∧
  (∀ b ∈ st.blocks, WFblock cfg b) ∧
  WFqc cfg st.highest_quorum_cert ∧
  WFqc cfg st.highest_commit_cert ∧
  (∀ v ∈ st.pending_votes, WFvote cfg v) ∧
  (∀ v ∈ st.last_vote, WFvote cfg v) ∧
  (∀ p ∈ st.pending_secondary, WFblock cfg p.1 ∧ WFsync cfg p.2) ∧
  (∀ pf ∈ st.pending_fetch, WFpf cfg pf) ∧
  (∀ c ∈ st.commits, WFliws cfg c)

/-- A well-formed cluster: every replica state and every in-flight message
is well-formed. -/
def WFworld (w : World) : Prop :=
  (∀ st ∈ w.nodes, WFnode w.cfg st) ∧ (∀ e ∈ w.inflight, WFmsg w.cfg e.2.2)

/-- A twelve-step fixed-proposer schedule on two replicas driving three
voting rounds, so the proposer commits the first proposal. -/
def c9cmds : List Cmd :=
  [Cmd.deliver 0 0, Cmd.deliver 0 1, Cmd.deliver 0 0, Cmd.deliver 1 0,
   Cmd.deliver 0 0, Cmd.deliver 0 1, Cmd.deliver 0 0, Cmd.deliver 1 0,
   Cmd.deliver 0 0, Cmd.deliver 0 1, Cmd.deliver 0 0, Cmd.deliver 1 0]

end ChainedBFT

namespace LibraSwarm

/-- Embedded from `src/libra_swarm/src/swarm.rs`: the launch-failure error
type; `wait_for_connectivity` can only fail with `ConnectivityTimeout`. -/
inductive SwarmLaunchFailure where
  | LaunchTimeout
  | NodeCrash
  | ConnectivityTimeout
deriving DecidableEq, Repr

/-- Embedded from `LibraNode::check_connectivity`
(`src/libra_swarm/src/swarm.rs` lines 131-144): reads the
`connected_peers` metric; if present, the check passes exactly when the
reported count equals `expected_peers`; if the metric is absent the check
fails. -/
def check_connectivity (metric : Option Int) (expected_peers : Int) : Bool :=
  match metric with
  | some num_connected_peers =>
    if num_connected_peers ≠ expected_peers then false else true
  | none => false

/-- One attempt of the `wait_for_connectivity` loop body
(`src/libra_swarm/src/swarm.rs` line 341): every validator node must pass
`check_connectivity` against `validator_nodes.len() as i64 - 1`.  The
metric reading of each node at this attempt is supplied by `metric`. -/
def connectivityAttempt {α : Type} (nodes : List α) (metric : α → Option Int) :
    Bool :=
  nodes.all (fun node => check_connectivity (metric node) ((nodes.length : Int) - 1))

/-- Embedded from the `for i in 0..num_attempts` loop of
`LibraSwarm::wait_for_connectivity`: attempt `i` with `fuel` attempts
remaining; return `Ok(())` on the first attempt where all nodes report
full connectivity, and `Err(ConnectivityTimeout)` when the attempts are
exhausted.  `get_metric i node` is the metric the node reports at attempt
`i` (the metric endpoint is external input, so it is an oracle
parameter). -/
def connectivity_attempts {α : Type} (nodes : List α)
    (get_metric : Nat → α → Option Int) (i : Nat) :
    Nat → Except SwarmLaunchFailure Unit
  | 0 => .error .ConnectivityTimeout
  | fuel + 1 =>
    if connectivityAttempt nodes (get_metric i) then .ok ()
    else connectivity_attempts nodes get_metric (i + 1) fuel

/-- Embedded from `LibraSwarm::wait_for_connectivity`
(`src/libra_swarm/src/swarm.rs` lines 327-351): early `Ok(())` when the
swarm has a single validator, otherwise up to `num_attempts = 60` polling
attempts. -/
def wait_for_connectivity {α : Type} (nodes : List α)
    (get_metric : Nat → α → Option Int) : Except SwarmLaunchFailure Unit :=
  if nodes.length = 1 then .ok ()
  else connectivity_attempts nodes get_metric 0 60

end LibraSwarm

namespace ChainedBFT

/-- Running a schedule in two pieces. -/
theorem runFrom_append (w : World) (xs ys : List Cmd) :
    runFrom w (xs ++ ys) = runFrom (runFrom w xs) ys :=
  List.foldl_append step w xs ys

/-! Checkpoints of the replayed scenario schedules.  Each `..._eval`
theorem verifies one schedule chunk by evaluation; the chunks compose via
`runFrom_append` into the full scenario runs used by the claim theorems. -/

set_option maxRecDepth 1000000 in
set_option maxHeartbeats 4000000 in
theorem c3w1_eval : runFrom (startup cfg2Rot) c3chunkA = c3w1 := by decide

set_option maxRecDepth 1000000 in
set_option maxHeartbeats 4000000 in
theorem c3w2_eval : runFrom c3w1 c3chunkB = c3w2 := by decide

set_option maxRecDepth 1000000 in
set_option maxHeartbeats 4000000 in
theorem c3w3_eval : runFrom c3w2 c3chunkC = c3w3 := by decide

set_option maxRecDepth 1000000 in
set_option maxHeartbeats 4000000 in
theorem c3w4_eval : runFrom c3w3 c3chunkD = c3w4 := by decide

set_option maxRecDepth 1000000 in
set_option maxHeartbeats 4000000 in
theorem c3w5_eval : runFrom c3w4 c3chunkE = c3w5 := by decide

/-- The first phase of scenario S3 evaluates to checkpoint `c3w5`. -/
theorem c3mid_eval : run cfg2Rot c3phase1 = c3w5 := by
  simp only [run, c3phase1, runFrom_append, c3w1_eval, c3w2_eval, c3w3_eval,
    c3w4_eval, c3w5_eval]

set_option maxRecDepth 1000000 in
set_option maxHeartbeats 4000000 in
theorem c3w6_eval : runFrom c3w5 c3chunkF = c3w6 := by decide

set_option maxRecDepth 1000000 in
set_option maxHeartbeats 4000000 in
theorem c3w7_eval : runFrom c3w6 c3chunkG = c3w7 := by decide

set_option maxRecDepth 1000000 in
set_option maxHeartbeats 4000000 in
theorem c3w8_eval : runFrom c3w7 c3chunkH = c3w8 := by decide

set_option maxRecDepth 1000000 in
set_option maxHeartbeats 4000000 in
theorem c3w9_eval : runFrom c3w8 c3chunkI = c3w9 := by decide

set_option maxRecDepth 1000000 in
set_option maxHeartbeats 4000000 in
theorem c4w1_eval : run cfg3Fix c4cmds = c4w1 := by decide

set_option maxRecDepth 1000000 in
set_option maxHeartbeats 4000000 in
theorem c5w1_eval : runFrom (startup cfg3Fix) c5chunkA = c5w1 := by decide

set_option maxRecDepth 1000000 in
set_option maxHeartbeats 4000000 in
theorem c5w2_eval : runFrom c5w1 c5chunkB = c5w2 := by decide

set_option maxRecDepth 1000000 in
set_option maxHeartbeats 4000000 in
theorem c6w1_eval : runFrom (startup cfg3Fix) c6chunkA = c6w1 := by decide

set_option maxRecDepth 1000000 in
set_option maxHeartbeats 4000000 in
theorem c7w1_eval : runFrom (startup cfg3Fix) c7chunkA = c7w1 := by decide

set_option maxRecDepth 1000000 in
set_option maxHeartbeats 4000000 in
theorem c7w2_eval : runFrom c7w1 c7chunkB = c7w2 := by decide

set_option maxRecDepth 1000000 in
set_option maxHeartbeats 4000000 in
theorem c7w3_eval : runFrom c7w2 c7chunkC = c7w3 := by decide

set_option maxRecDepth 1000000 in
set_option maxHeartbeats 4000000 in
theorem c7w4_eval : runFrom c7w3 c7chunkD = c7w4 := by decide

set_option maxRecDepth 1000000 in
set_option maxHeartbeats 4000000 in
theorem c7w5_eval : runFrom c7w4 c7chunkE = c7w5 := by decide

set_option maxRecDepth 1000000 in
set_option maxHeartbeats 4000000 in
theorem c7w6_eval : runFrom c7w5 c7chunkF = c7w6 := by decide

/-- The first phase of scenario S5 evaluates to checkpoint `c7w6`. -/
theorem c7mid_eval : run cfg3Fix c7phase1 = c7w6 := by
  simp only [run, c7phase1, runFrom_append, c7w1_eval, c7w2_eval, c7w3_eval,
    c7w4_eval, c7w5_eval, c7w6_eval]

set_option maxRecDepth 1000000 in
set_option maxHeartbeats 4000000 in
theorem c8w1_eval : runFrom (startup cfg3Multi) c8chunkA = c8w1 := by decide

set_option maxRecDepth 1000000 in
set_option maxHeartbeats 4000000 in
theorem c8w2_eval : runFrom c8w1 c8chunkB = c8w2 := by decide

set_option maxRecDepth 1000000 in
set_option maxHeartbeats 4000000 in
theorem c8w3_eval : runFrom c8w2 c8chunkC = c8w3 := by decide

set_option maxRecDepth 1000000 in
set_option maxHeartbeats 4000000 in
theorem c8w4_eval : runFrom c8w3 c8chunkD = c8w4 := by decide

set_option maxRecDepth 1000000 in
set_option maxHeartbeats 4000000 in
theorem c8w5_eval : runFrom c8w4 c8chunkE = c8w5 := by decide

/-- The first phase of the secondary-proposer scenario evaluates to
checkpoint `c8w5`. -/
theorem c8mid_eval : run cfg3Multi c8phase1 = c8w5 := by
  simp only [run, c8phase1, runFrom_append, c8w1_eval, c8w2_eval, c8w3_eval,
    c8w4_eval, c8w5_eval]

/-! Claim theorems for the end-to-end scenarios. -/

set_option maxRecDepth 1000000 in
set_option maxHeartbeats 16000000 in
/-- C1: in a system of 2 validators with quorum 2 and a rotating proposer,
the first proposal message observed after startup has height 1, parent id
equal to the genesis block's id, and carries a quorum certificate whose
certified block id is the genesis block's id. -/
theorem basic_start_first_proposal :
    (observedProposals (run cfg2Rot s1cmds)).length = 1 ∧
    ((observedProposals (run cfg2Rot s1cmds)).all (fun p =>
      decide (p.height = 1) && decide (p.parent_id = genesisBlock.id) &&
        decide (p.qc_certified_block_id = genesisBlock.id))) = true := by
  decide

set_option maxRecDepth 1000000 in
set_option maxHeartbeats 16000000 in
/-- C2: in a system of 2 validators with quorum 2 and a fixed proposer,
after the first proposal is delivered and the votes are exchanged, the next
proposal observed on the network has round at least 2 and height at
least 2. -/
theorem full_round_next_proposal :
    2 ≤ (observedProposals (run cfg2Fix s2cmds)).length ∧
    (((observedProposals (run cfg2Fix s2cmds)).drop 1).all (fun p =>
      decide (2 ≤ p.round) && decide (2 ≤ p.height))) = true := by
  decide

set_option maxRecDepth 1000000 in
set_option maxHeartbeats 16000000 in
/-- C3: with 2 validators and a rotating proposer, after driving ten rounds
both block-store roots have height at least 6 and, for the first seven
committed rounds, both nodes emit commit callbacks whose ledger infos point
at the blocks voted three rounds earlier, in order; after restarting both
nodes from persistent storage and driving ten more rounds, both roots have
height at least 16. -/
theorem commit_and_restart_progress :
    ((run cfg2Rot c3phase1).nodes.all (fun st =>
      decide (6 ≤ (rootBlock st).height) &&
      ((List.range 7).all (fun k =>
        decide ((st.commits.get? k).map (fun c => c.ledger_info.consensus_block_id) =
          some (((observedVotes (run cfg2Rot c3phase1)).get? k).map
            VoteDigest.block_id)))))) = true ∧
    ((runFrom (run cfg2Rot c3phase1) c3phase2).nodes.all (fun st =>
      decide (16 ≤ (rootBlock st).height))) = true := by
  simp only [c3mid_eval, c3phase2, runFrom_append, c3w6_eval, c3w7_eval,
    c3w8_eval, c3w9_eval]
  decide

set_option maxRecDepth 1000000 in
set_option maxHeartbeats 16000000 in
/-- C4: with 3 validators, quorum 2 and a fixed proposer, when all
responses to the leader are dropped so that only timeout messages flow
between replicas 1 and 2, both observed timeout messages carry piggybacked
votes for the first proposal, replicas 1 and 2 assemble a quorum
certificate for the first proposal from them (their highest QC certifies
its block id), while the leader's highest QC still certifies round 0. -/
theorem aggregate_timeout_votes_qc :
    (observedTimeouts (run cfg3Fix c4cmds)).length = 2 ∧
    ((observedTimeouts (run cfg3Fix c4cmds)).all (fun t =>
      decide (t.piggyback_block_id =
        some ((observedProposals (run cfg3Fix c4cmds)).headD
          ⟨0, 0, BlockId.genesisId, BlockId.genesisId, BlockId.genesisId⟩).id))) = true ∧
    ((run cfg3Fix c4cmds).nodes.all (fun st =>
      if st.author = 0 then decide (st.highest_quorum_cert.certified_block_round = 0)
      else decide (st.highest_quorum_cert.certified_block_id =
        ((observedProposals (run cfg3Fix c4cmds)).headD
          ⟨0, 0, BlockId.genesisId, BlockId.genesisId, BlockId.genesisId⟩).id))) = true := by
  simp only [c4w1_eval]
  decide

set_option maxRecDepth 1000000 in
set_option maxHeartbeats 16000000 in
/-- C5: with 3 validators, quorum 2 and a fixed proposer, after three
successful proposals the leader is disconnected; within three timeout waves
the remaining replicas extend the chain with NIL blocks: their highest QC
certifies a NIL block at round at least 4, and their block-store roots
advance to round at least 1 (a commit chain forms through the NIL
blocks). -/
theorem nil_chain_progress :
    ((run cfg3Fix c5cmds).nodes.all (fun st =>
      if st.author = 0 then true
      else
        decide (4 ≤ st.highest_quorum_cert.certified_block_round) &&
        decide (1 ≤ (rootBlock st).round) &&
        (highest_certified_block st).author.isNone)) = true := by
  simp only [run, c5cmds, runFrom_append, c5w1_eval, c5w2_eval]
  decide

set_option maxRecDepth 1000000 in
set_option maxHeartbeats 16000000 in
/-- C6: with 3 validators, quorum 2 and a fixed proposer, when messages
from the leader to replica 2 are dropped for two rounds and then restored,
replica 2 fetches the two missing blocks by block retrieval (both become
present in its block store) and subsequently commits the first proposal;
the same holds when the retrieval RPC is itself blocked until a round
timeout and then retried. -/
theorem block_retrieval_catches_up :
    ((run cfg3Fix c6acmds).nodes.all (fun st =>
      if st.author = 2 then
        (((observedVotes (run cfg3Fix c6acmds)).take 2).all (fun v =>
          (get_block st v.block_id).isSome)) &&
        decide ((st.commits.map (fun c => c.ledger_info.consensus_block_id)).head? =
          some (some ((observedVotes (run cfg3Fix c6acmds)).headD
            ⟨0, BlockId.genesisId⟩).block_id))
      else true)) = true ∧
    ((run cfg3Fix c6bcmds).nodes.all (fun st =>
      if st.author = 2 then
        (((observedVotes (run cfg3Fix c6bcmds)).take 2).all (fun v =>
          (get_block st v.block_id).isSome)) &&
        decide ((st.commits.map (fun c => c.ledger_info.consensus_block_id)).head? =
          some (some ((observedVotes (run cfg3Fix c6bcmds)).headD
            ⟨0, BlockId.genesisId⟩).block_id))
      else true)) = true := by
  simp only [c6acmds, c6bcmds, run, runFrom_append, c6w1_eval]
  decide

set_option maxRecDepth 1000000 in
set_option maxHeartbeats 16000000 in
/-- C7: with 3 validators, quorum 2 and a fixed proposer, after replica 2
is isolated for ten rounds while the others commit the first eight
proposals, replica 2's first and only commit notification on reconnection
is for the eighth proposal (it state-syncs past the intervening blocks
without replaying them, so its mempool sees no committed transactions yet),
and for the next committed block its mempool is notified of exactly
`max_block_size = 50` committed transactions. -/
theorem state_sync_lagging_replica :
    ((run cfg3Fix c7phase1).nodes.all (fun st =>
      if st.author = 2 then
        decide (st.commits.map (fun c => c.ledger_info.consensus_block_id) =
          [some ((observedVotes (run cfg3Fix c7phase1)).getD 7
            ⟨0, BlockId.genesisId⟩).block_id]) &&
        decide (st.committed_txns = 0)
      else true)) = true ∧
    ((runFrom (run cfg3Fix c7phase1) c7phase2).nodes.all (fun st =>
      if st.author = 2 then
        decide (st.committed_txns = cfg3Fix.max_block_size) &&
        decide (st.commits.length = 2)
      else true)) = true := by
  simp only [c7mid_eval]
  decide

set_option maxRecDepth 1000000 in
set_option maxHeartbeats 16000000 in
/-- C8: with 3 validators, quorum 2 and multiple ordered proposers, on the
round whose primary proposer is disconnected every timeout message sent by
the remaining replicas carries a piggybacked vote, all these votes
reference one block id, that block is a secondary proposal (authored by a
non-primary leader of its round), and it is eventually committed at
replica 1. -/
theorem secondary_proposer_voted_and_committed :
    (observedTimeouts (run cfg3Multi c8phase1)).length = 4 ∧
    ((observedTimeouts (run cfg3Multi c8phase1)).all (fun t =>
      t.piggyback_block_id.isSome &&
      decide (t.piggyback_block_id =
        ((observedTimeouts (run cfg3Multi c8phase1)).headD
          ⟨0, none⟩).piggyback_block_id))) = true ∧
    ((run cfg3Multi c8phase1).nodes.all (fun st =>
      if st.author = 1 then
        decide ((st.blocks.filter (fun b =>
          some b.id = ((observedTimeouts (run cfg3Multi c8phase1)).headD
            ⟨0, none⟩).piggyback_block_id)).length = 1) &&
        ((st.blocks.filter (fun b =>
          some b.id = ((observedTimeouts (run cfg3Multi c8phase1)).headD
            ⟨0, none⟩).piggyback_block_id)).all (fun b =>
          decide (b.author = some 1) && decide (1 ∈ leaders cfg3Multi b.round) &&
          decide (primary cfg3Multi b.round ≠ 1)))
      else true)) = true ∧
    ((runFrom (run cfg3Multi c8phase1) c8phase2).nodes.all (fun st =>
      if st.author = 1 then
        decide (((observedTimeouts (run cfg3Multi c8phase1)).headD
          ⟨0, none⟩).piggyback_block_id ∈
            st.commits.map (fun c => c.ledger_info.consensus_block_id))
      else true)) = true := by
  simp only [c8mid_eval]
  decide

theorem wf_genesisQC (cfg : Config) : WFqc cfg genesisQC := by
  intro s hs
  simp [genesisQC] at hs

theorem wf_mkSyncInfo (cfg : Config) (st : NodeState) (h : WFnode cfg st) :
    WFsync cfg (mkSyncInfo st) :=
  ⟨h.2.2.1, h.2.2.2.1⟩

theorem wf_mkBlock (cfg : Config) (parent : Block) (r : Nat) (a : Option Author)
    (pl : Nat) (qc : QuorumCert) (h : WFqc cfg qc) :
    WFblock cfg (mkBlock parent r a pl qc) := h

theorem wf_mkProposalBlock (cfg : Config) (st : NodeState) (h : WFnode cfg st) :
    WFblock cfg (mkProposalBlock cfg st) := h.2.2.1

theorem wf_mkNilBlock (cfg : Config) (st : NodeState) (h : WFnode cfg st) :
    WFblock cfg (mkNilBlock st) := h.2.2.1

theorem wf_mkVote (cfg : Config) (st : NodeState) (b : Block)
    (h : WFnode cfg st) : WFvote cfg (mkVote st b) := h.1

theorem chainDown_subset (blocks : List Block) (fuel : Nat) (id : BlockId) :
    ∀ b ∈ chainDown blocks fuel id, b ∈ blocks := by
  induction fuel generalizing id with
  | zero => intro b hb; simp [chainDown] at hb
  | succ n ih =>
    intro b hb
    simp only [chainDown] at hb
    cases hfind : blocks.find? (fun c => c.id = id) with
    | none => rw [hfind] at hb; simp at hb
    | some c =>
      rw [hfind] at hb
      have hc : c ∈ blocks := List.mem_of_find?_eq_some hfind
      by_cases hp : c.parent_id = c.id
      · simp only [hp, if_pos rfl] at hb
        simp at hb; subst hb; exact hc
      · simp only [if_neg hp] at hb
        rcases List.mem_cons.mp hb with h1 | h2
        · subst h1; exact hc
        · exact ih c.parent_id b h2

theorem wf_insert_block (cfg : Config) (st : NodeState) (b : Block)
    (st1 : NodeState) (h : WFnode cfg st) (hb : WFblock cfg b)
    (he : insert_block st b = Except.ok st1) : WFnode cfg st1 := by
  unfold insert_block at he
  split at he
  · simp at he
  · split at he
    · simp at he
    · split at he
      · simp at he
      · split at he
        · simp at he
        · obtain ⟨h1, h2, h3, h4, h5, h6, h7, h8, h9⟩ := h
          obtain rfl : _ = st1 := by simpa using he
          refine ⟨h1, ?_, h3, h4, h5, h6, h7, h8, h9⟩
          intro c hc
          rcases List.mem_append.mp hc with hm | hm
          · exact h2 c hm
          · simp at hm; subst hm; exact hb

theorem wf_insertBlockIfOk (cfg : Config) (st : NodeState) (b : Block)
    (h : WFnode cfg st) (hb : WFblock cfg b) :
    WFnode cfg (insertBlockIfOk st b) := by
  unfold insertBlockIfOk
  split
  · next st1 he => exact wf_insert_block cfg st b st1 h hb he
  · exact h

theorem wf_commitIfNeeded (cfg : Config) (st : NodeState) (qc : QuorumCert)
    (h : WFnode cfg st) (hq : WFqc cfg qc) :
    WFnode cfg (commitIfNeeded st qc) := by
  unfold commitIfNeeded
  split
  · exact h
  · split
    · exact h
    · split
      · exact h
      · obtain ⟨h1, h2, h3, h4, h5, h6, h7, h8, h9⟩ := h
        refine ⟨h1, ?_, h3, hq, h5, h6, h7, h8, ?_⟩
        · intro c hc
          exact h2 c (List.mem_of_mem_filter hc)
        · intro c hc
          rcases List.mem_append.mp hc with hm | hm
          · exact h9 c hm
          · simp at hm; subst hm; exact hq

theorem wf_insert_qc (cfg : Config) (st : NodeState) (qc : QuorumCert)
    (h : WFnode cfg st) (hq : WFqc cfg qc) :
    WFnode cfg (insert_qc st qc) := by
  unfold insert_qc
  split
  · exact h
  · split
    · exact wf_commitIfNeeded cfg _ qc
        ⟨h.1, h.2.1, hq, h.2.2.2.1, h.2.2.2.2.1, h.2.2.2.2.2.1,
         h.2.2.2.2.2.2.1, h.2.2.2.2.2.2.2.1, h.2.2.2.2.2.2.2.2⟩ hq
    · exact wf_commitIfNeeded cfg st qc h hq

theorem wf_roundEntryState (cfg : Config) (st : NodeState) (r : Nat)
    (h : WFnode cfg st) :
    WFnode cfg { st with current_round := r, last_vote := none,
                         pending_secondary := none } := by
  obtain ⟨h1, h2, h3, h4, h5, h6, h7, h8, h9⟩ := h
  exact ⟨h1, h2, h3, h4, h5, by intro v hv; simp at hv,
         by intro p hp; simp at hp, h8, h9⟩

theorem wf_broadcastAll (cfg : Config) (m : Msg) (hm : WFmsg cfg m) :
    ∀ o ∈ broadcastAll cfg m, WFmsg cfg o.2 := by
  intro o ho
  unfold broadcastAll at ho
  obtain ⟨a, _, rfl⟩ := List.mem_map.mp ho
  exact hm

theorem wf_enterRound (cfg : Config) (st : NodeState) (r : Nat)
    (h : WFnode cfg st) :
    WFnode cfg (enterRound cfg st r).1 ∧
      ∀ o ∈ (enterRound cfg st r).2, WFmsg cfg o.2 := by
  unfold enterRound
  have h1 := wf_roundEntryState cfg st r h
  simp only []
  split
  · refine ⟨h1, wf_broadcastAll cfg _ ?_⟩
    exact ⟨wf_mkProposalBlock cfg _ h1, wf_mkSyncInfo cfg _ h1⟩
  · exact ⟨h1, by intro o ho; simp at ho⟩

theorem wf_maybeAdvance (cfg : Config) (st : NodeState) (h : WFnode cfg st) :
    WFnode cfg (maybeAdvance cfg st).1 ∧
      ∀ o ∈ (maybeAdvance cfg st).2, WFmsg cfg o.2 := by
  unfold maybeAdvance
  simp only []
  split
  · exact wf_enterRound cfg st _ h
  · exact ⟨h, by intro o ho; simp at ho⟩

theorem wf_processNewCertificates (cfg : Config) (st : NodeState)
    (qc : QuorumCert) (h : WFnode cfg st) (hq : WFqc cfg qc) :
    WFnode cfg (processNewCertificates cfg st qc).1 ∧
      ∀ o ∈ (processNewCertificates cfg st qc).2, WFmsg cfg o.2 := by
  unfold processNewCertificates
  split
  · exact wf_maybeAdvance cfg _ (wf_insert_qc cfg st qc h hq)
  · exact ⟨h, by intro o ho; simp at ho⟩

theorem wf_formQC (cfg : Config) (votes : List VoteMsg) (v : VoteMsg)
    (hv : ∀ w ∈ votes, WFvote cfg w)
    (hk : ∀ w ∈ votes, sameVoteKey v w = true) :
    WFqc cfg (formQC votes v) := by
  intro s hs
  unfold formQC at hs
  simp only at hs
  obtain ⟨w, hw, rfl⟩ := List.mem_map.mp hs
  have hkey := hk w hw
  unfold sameVoteKey at hkey
  simp only [Bool.and_eq_true, decide_eq_true_eq] at hkey
  exact ⟨hkey.2, hv w hw⟩

theorem wf_addVote (cfg : Config) (st : NodeState) (v : VoteMsg)
    (direct : Bool) (h : WFnode cfg st) (hv : WFvote cfg v) :
    WFnode cfg (addVote cfg st v direct).1 ∧
      ∀ o ∈ (addVote cfg st v direct).2, WFmsg cfg o.2 := by
  unfold addVote
  split
  · exact ⟨h, by intro o ho; simp at ho⟩
  · split
    · exact ⟨h, by intro o ho; simp at ho⟩
    · obtain ⟨h1, h2, h3, h4, h5, h6, h7, h8, h9⟩ := h
      have hpv : ∀ w ∈ st.pending_votes ++ [v], WFvote cfg w := by
        intro w hw
        rcases List.mem_append.mp hw with hm | hm
        · exact h5 w hm
        · simp at hm; subst hm; exact hv
      have h1n : WFnode cfg { st with pending_votes := st.pending_votes ++ [v] } :=
        ⟨h1, h2, h3, h4, hpv, h6, h7, h8, h9⟩
      simp only []
      split
      · refine wf_processNewCertificates cfg _ _ h1n (wf_formQC cfg _ v ?_ ?_)
        · intro w hw
          exact hpv w (List.mem_of_mem_filter hw)
        · intro w hw
          exact List.of_mem_filter hw
      · exact ⟨h1n, by intro o ho; simp at ho⟩

theorem wf_tryVoteBlock (cfg : Config) (st : NodeState) (b : Block)
    (h : WFnode cfg st) (hb : WFblock cfg b) :
    WFnode cfg (tryVoteBlock cfg st b).1 ∧
      ∀ v ∈ (tryVoteBlock cfg st b).2, WFvote cfg v := by
  unfold tryVoteBlock
  split
  · split
    · exact ⟨h, by intro v hv; simp at hv⟩
    · next st1 he =>
      have h1 := wf_insert_block cfg st b st1 h hb he
      obtain ⟨g1, g2, g3, g4, g5, g6, g7, g8, g9⟩ := h1
      refine ⟨⟨g1, g2, g3, g4, g5, ?_, g7, g8, g9⟩, ?_⟩
      · intro w hw
        simp only [recordVote, Option.mem_def, Option.some.injEq] at hw
        subst hw
        exact g1
      · intro w hw
        simp only [Option.mem_def, Option.some.injEq] at hw
        subst hw
        exact g1
  · exact ⟨h, by intro v hv; simp at hv⟩

theorem wf_processProposalReady (cfg : Config) (st : NodeState) (b : Block)
    (si : SyncInfo) (h : WFnode cfg st) (hb : WFblock cfg b)
    (hsi : WFsync cfg si) :
    WFnode cfg (processProposalReady cfg st b si).1 ∧
      ∀ o ∈ (processProposalReady cfg st b si).2, WFmsg cfg o.2 := by
  unfold processProposalReady
  split
  · exact ⟨h, by intro o ho; simp at ho⟩
  · split
    · exact ⟨h, by intro o ho; simp at ho⟩
    · next a =>
      split
      · exact ⟨h, by intro o ho; simp at ho⟩
      · split
        · simp only []
          have ht := wf_tryVoteBlock cfg st b h hb
          split
          · next v hveq =>
            refine ⟨ht.1, ?_⟩
            intro o ho
            obtain ⟨l, _, rfl⟩ := List.mem_map.mp ho
            exact ht.2 v (by rw [hveq]; rfl)
          · exact ⟨ht.1, by intro o ho; simp at ho⟩
        · obtain ⟨h1, h2, h3, h4, h5, h6, h7, h8, h9⟩ := h
          refine ⟨⟨h1, h2, h3, h4, h5, h6, ?_, h8, h9⟩, by intro o ho; simp at ho⟩
          intro p hp
          simp only [Option.mem_def, Option.some.injEq] at hp
          subst hp
          exact ⟨hb, hsi⟩

theorem wf_startFetch (cfg : Config) (st : NodeState) (sender : Author)
    (b : Block) (si : SyncInfo) (h : WFnode cfg st) (hb : WFblock cfg b)
    (hsi : WFsync cfg si) :
    WFnode cfg (startFetch cfg st sender b si).1 ∧
      ∀ o ∈ (startFetch cfg st sender b si).2, WFmsg cfg o.2 := by
  unfold startFetch
  simp only []
  obtain ⟨h1, h2, h3, h4, h5, h6, h7, h8, h9⟩ := h
  constructor
  · refine ⟨h1, h2, h3, h4, h5, h6, h7, ?_, h9⟩
    intro pf hpf
    simp only [Option.mem_def, Option.some.injEq] at hpf
    subst hpf
    constructor
    · intro qc hqc
      split at hqc
      · simp only [Option.mem_def, Option.some.injEq] at hqc
        subst hqc
        exact hsi.2
      · simp at hqc
    · intro p hp
      simp only [Option.mem_def, Option.some.injEq] at hp
      subst hp
      exact ⟨hb, hsi⟩
  · intro o ho
    simp only [List.mem_singleton] at ho
    subst ho
    trivial

theorem wf_processProposal (cfg : Config) (st : NodeState) (sender : Author)
    (b : Block) (si : SyncInfo) (h : WFnode cfg st) (hb : WFblock cfg b)
    (hsi : WFsync cfg si) :
    WFnode cfg (processProposal cfg st sender b si).1 ∧
      ∀ o ∈ (processProposal cfg st sender b si).2, WFmsg cfg o.2 := by
  unfold processProposal
  split
  · simp only []
    have hc := wf_processNewCertificates cfg st si.highest_quorum_cert h hsi.1
    have hr := wf_processProposalReady cfg
      (processNewCertificates cfg st si.highest_quorum_cert).1 b si hc.1 hb hsi
    refine ⟨hr.1, ?_⟩
    intro o ho
    rcases List.mem_append.mp ho with hm | hm
    · exact hc.2 o hm
    · exact hr.2 o hm
  · exact wf_startFetch cfg st sender b si h hb hsi

theorem wf_foldl_insertBlockIfOk (cfg : Config) (l : List Block) :
    ∀ st : NodeState, WFnode cfg st → (∀ b ∈ l, WFblock cfg b) →
      WFnode cfg (l.foldl insertBlockIfOk st) := by
  induction l with
  | nil => intro st h _; exact h
  | cons hd tl ih =>
    intro st h hl
    simp only [List.foldl_cons]
    exact ih (insertBlockIfOk st hd)
      (wf_insertBlockIfOk cfg st hd h (hl hd (by simp)))
      (fun b hb => hl b (by simp [hb]))

theorem wf_applySync (cfg : Config) (st : NodeState) (cert : QuorumCert)
    (fetched : List Block) (h : WFnode cfg st) (hc : WFqc cfg cert)
    (hf : ∀ b ∈ fetched, WFblock cfg b) :
    WFnode cfg (applySync st cert fetched) := by
  unfold applySync
  split
  · exact h
  · split
    · exact h
    · next newRoot hfind =>
      obtain ⟨h1, h2, h3, h4, h5, h6, h7, h8, h9⟩ := h
      refine ⟨h1, hf, ?_, hc, h5, h6, h7, h8, ?_⟩
      · cases fetched with
        | nil => simpa using h3
        | cons hd tl =>
          simpa using hf hd (by simp)
      · intro c hcm
        rcases List.mem_append.mp hcm with hm | hm
        · exact h9 c hm
        · simp at hm; subst hm; exact hc

theorem wf_processRetrievalResp (cfg : Config) (st : NodeState)
    (sender : Author) (fetched : List Block) (h : WFnode cfg st)
    (hf : ∀ b ∈ fetched, WFblock cfg b) :
    WFnode cfg (processRetrievalResp cfg st sender fetched).1 ∧
      ∀ o ∈ (processRetrievalResp cfg st sender fetched).2, WFmsg cfg o.2 := by
  unfold processRetrievalResp
  split
  · exact ⟨h, by intro o ho; simp at ho⟩
  · next pf hpf =>
    have hpfw : WFpf cfg pf := h.2.2.2.2.2.2.2.1 pf (by rw [hpf]; rfl)
    obtain ⟨h1, h2, h3, h4, h5, h6, h7, h8, h9⟩ := h
    have h0 : WFnode cfg { st with pending_fetch := none } :=
      ⟨h1, h2, h3, h4, h5, h6, h7, by intro p hp; simp at hp, h9⟩
    simp only []
    have hst1 : WFnode cfg
        (match pf.sync_cert with
         | some cert => applySync { st with pending_fetch := none } cert fetched
         | none => fetched.reverse.foldl insertBlockIfOk { st with pending_fetch := none }) := by
      split
      · next cert hcert =>
        exact wf_applySync cfg _ cert fetched h0
          (hpfw.1 cert (by rw [hcert]; rfl)) hf
      · exact wf_foldl_insertBlockIfOk cfg fetched.reverse _ h0
          (fun b hb => hf b (List.mem_reverse.mp hb))
    split
    · next b si hsus =>
      have hbs := hpfw.2 (b, si) (by rw [hsus]; rfl)
      exact wf_processProposal cfg _ sender b si hst1 hbs.1 hbs.2
    · exact ⟨hst1, by intro o ho; simp at ho⟩

theorem wf_processRetrievalReq (cfg : Config) (st : NodeState)
    (sender : Author) (id : BlockId) (num : Nat) (h : WFnode cfg st) :
    WFnode cfg (processRetrievalReq st sender id num).1 ∧
      ∀ o ∈ (processRetrievalReq st sender id num).2, WFmsg cfg o.2 := by
  unfold processRetrievalReq
  refine ⟨h, ?_⟩
  intro o ho
  simp only [List.mem_singleton] at ho
  subst ho
  intro b hb
  exact h.2.1 b (chainDown_subset st.blocks st.blocks.length id b
    (List.mem_of_mem_take hb))

theorem wf_retryFetch (cfg : Config) (st : NodeState) (h : WFnode cfg st) :
    WFnode cfg (retryFetch st).1 ∧ ∀ o ∈ (retryFetch st).2, WFmsg cfg o.2 := by
  unfold retryFetch
  split
  · exact ⟨h, by intro o ho; simp at ho⟩
  · next pf hpf =>
    split
    · exact ⟨h, by intro o ho; simp at ho⟩
    · next p rest hpeers =>
      have hpfw : WFpf cfg pf := h.2.2.2.2.2.2.2.1 pf (by rw [hpf]; rfl)
      obtain ⟨h1, h2, h3, h4, h5, h6, h7, h8, h9⟩ := h
      constructor
      · refine ⟨h1, h2, h3, h4, h5, h6, h7, ?_, h9⟩
        intro pf1 hpf1
        simp only [Option.mem_def, Option.some.injEq] at hpf1
        subst hpf1
        exact ⟨hpfw.1, hpfw.2⟩
      · intro o ho
        simp only [List.mem_singleton] at ho
        subst ho
        trivial

theorem wf_pendingTimeoutsUpdate (cfg : Config) (st : NodeState)
    (l : List (Nat × Author)) (h : WFnode cfg st) :
    WFnode cfg { st with pending_timeouts := l } := by
  obtain ⟨h1, h2, h3, h4, h5, h6, h7, h8, h9⟩ := h
  exact ⟨h1, h2, h3, h4, h5, h6, h7, h8, h9⟩

theorem wf_tcRoundUpdate (cfg : Config) (st : NodeState) (r : Nat)
    (h : WFnode cfg st) :
    WFnode cfg { st with highest_tc_round := r } := by
  obtain ⟨h1, h2, h3, h4, h5, h6, h7, h8, h9⟩ := h
  exact ⟨h1, h2, h3, h4, h5, h6, h7, h8, h9⟩

theorem wf_processTimeoutAggregate (cfg : Config) (st : NodeState)
    (t : TimeoutMsg) (h : WFnode cfg st) :
    WFnode cfg (processTimeoutAggregate cfg st t).1 ∧
      ∀ o ∈ (processTimeoutAggregate cfg st t).2, WFmsg cfg o.2 := by
  unfold processTimeoutAggregate
  simp only []
  by_cases hmem : (t.round, t.author) ∈ st.pending_timeouts
  · simp only [if_pos hmem]
    split
    · exact wf_maybeAdvance cfg _ (wf_tcRoundUpdate cfg st t.round h)
    · exact ⟨h, by intro o ho; simp at ho⟩
  · simp only [if_neg hmem]
    have h3 := wf_pendingTimeoutsUpdate cfg st
      (st.pending_timeouts ++ [(t.round, t.author)]) h
    split
    · exact wf_maybeAdvance cfg _ (wf_tcRoundUpdate cfg _ t.round h3)
    · exact ⟨h3, by intro o ho; simp at ho⟩

theorem wf_processTimeoutMsg (cfg : Config) (st : NodeState) (t : TimeoutMsg)
    (h : WFnode cfg st) (hpv : ∀ v ∈ t.piggyback_vote, WFvote cfg v)
    (hsi : WFsync cfg t.sync_info) :
    WFnode cfg (processTimeoutMsg cfg st t).1 ∧
      ∀ o ∈ (processTimeoutMsg cfg st t).2, WFmsg cfg o.2 := by
  unfold processTimeoutMsg
  simp only []
  have hc := wf_processNewCertificates cfg st t.sync_info.highest_quorum_cert h hsi.1
  cases hv : t.piggyback_vote with
  | some v =>
    simp only [hv]
    have ha := wf_addVote cfg _ v false hc.1 (hpv v (by rw [hv]; rfl))
    have hg := wf_processTimeoutAggregate cfg _ t ha.1
    refine ⟨hg.1, ?_⟩
    intro o ho
    rcases List.mem_append.mp ho with hm | hm
    · rcases List.mem_append.mp hm with hm1 | hm2
      · exact hc.2 o hm1
      · exact ha.2 o hm2
    · exact hg.2 o hm
  | none =>
    simp only [hv]
    have hg := wf_processTimeoutAggregate cfg _ t hc.1
    refine ⟨hg.1, ?_⟩
    intro o ho
    rcases List.mem_append.mp ho with hm | hm
    · rcases List.mem_append.mp hm with hm1 | hm2
      · exact hc.2 o hm1
      · simp at hm2
    · exact hg.2 o hm

theorem wf_timeoutBroadcast (cfg : Config) (st1 : NodeState)
    (piggy : Option VoteMsg) (h : WFnode cfg st1)
    (hp : ∀ v ∈ piggy, WFvote cfg v) :
    WFnode cfg (timeoutBroadcast cfg st1 piggy).1 ∧
      ∀ o ∈ (timeoutBroadcast cfg st1 piggy).2, WFmsg cfg o.2 := by
  unfold timeoutBroadcast
  simp only []
  have h2 : WFnode cfg { st1 with
      last_voted_round := max st1.last_voted_round st1.current_round } := by
    obtain ⟨g1, g2, g3, g4, g5, g6, g7, g8, g9⟩ := h
    exact ⟨g1, g2, g3, g4, g5, g6, g7, g8, g9⟩
  have hr := wf_retryFetch cfg _ h2
  refine ⟨hr.1, ?_⟩
  intro o ho
  rcases List.mem_append.mp ho with hm | hm
  · exact hr.2 o hm
  · refine wf_broadcastAll cfg _ ?_ o hm
    exact ⟨hp, wf_mkSyncInfo cfg _ hr.1⟩

theorem wf_processLocalTimeout (cfg : Config) (st : NodeState)
    (h : WFnode cfg st) :
    WFnode cfg (processLocalTimeout cfg st).1 ∧
      ∀ o ∈ (processLocalTimeout cfg st).2, WFmsg cfg o.2 := by
  unfold processLocalTimeout
  simp only []
  cases hlv : st.last_vote with
  | some v =>
    simp only [hlv]
    exact wf_timeoutBroadcast cfg st (some v) h (by
      intro w hw
      simp only [Option.mem_def, Option.some.injEq] at hw
      subst hw
      exact h.2.2.2.2.2.1 v (by rw [hlv]; rfl))
  | none =>
    simp only [hlv]
    cases hps : st.pending_secondary with
    | some p =>
      obtain ⟨b, si⟩ := p
      simp only [hps]
      have hbs := h.2.2.2.2.2.2.1 (b, si) (by rw [hps]; rfl)
      have ht := wf_tryVoteBlock cfg st b h hbs.1
      exact wf_timeoutBroadcast cfg _ _ ht.1 ht.2
    | none =>
      simp only [hps]
      have ht := wf_tryVoteBlock cfg st (mkNilBlock st) h (wf_mkNilBlock cfg st h)
      exact wf_timeoutBroadcast cfg _ _ ht.1 ht.2

theorem wf_processMsg (cfg : Config) (st : NodeState) (sender : Author)
    (m : Msg) (h : WFnode cfg st) (hm : WFmsg cfg m) :
    WFnode cfg (processMsg cfg st sender m).1 ∧
      ∀ o ∈ (processMsg cfg st sender m).2, WFmsg cfg o.2 := by
  cases m with
  | proposal b si => exact wf_processProposal cfg st sender b si h hm.1 hm.2
  | vote v => exact wf_addVote cfg st v true h hm
  | timeout t => exact wf_processTimeoutMsg cfg st t h hm.1 hm.2
  | retrievalReq id num => exact wf_processRetrievalReq cfg st sender id num h
  | retrievalResp bs => exact wf_processRetrievalResp cfg st sender bs h hm

theorem takeFirstWire_spec (l : List Wire) (s r : Author) :
    ∀ m rest, takeFirstWire l s r = some (m, rest) →
      (s, r, m) ∈ l ∧ ∀ e ∈ rest, e ∈ l := by
  induction l with
  | nil => intro m rest h; simp [takeFirstWire] at h
  | cons e tl ih =>
    intro m rest h
    unfold takeFirstWire at h
    split at h
    · next hcond =>
      simp only [Option.some.injEq, Prod.mk.injEq] at h
      obtain ⟨rfl, rfl⟩ := h
      obtain ⟨e1, e2, e3⟩ := e
      obtain ⟨hc1, hc2⟩ := hcond
      simp only at hc1 hc2
      subst hc1
      subst hc2
      exact ⟨List.mem_cons_self _ _, fun x hx => List.mem_cons_of_mem _ hx⟩
    · split at h
      · simp at h
      · next m1 rest1 hrec =>
        simp only [Option.some.injEq, Prod.mk.injEq] at h
        obtain ⟨rfl, rfl⟩ := h
        obtain ⟨hmem, hsub⟩ := ih m1 rest1 hrec
        refine ⟨List.mem_cons_of_mem e hmem, ?_⟩
        intro x hx
        rcases List.mem_cons.mp hx with rfl | hx2
        · exact List.mem_cons_self _ _
        · exact List.mem_cons_of_mem e (hsub x hx2)

theorem setNode_nodes (w : World) (st : NodeState) (x : NodeState)
    (h : x ∈ (setNode w st).nodes) : x = st ∨ x ∈ w.nodes := by
  unfold setNode at h
  simp only at h
  obtain ⟨st0, h0, heq⟩ := List.mem_map.mp h
  split at heq
  · exact Or.inl heq.symm
  · exact Or.inr (heq ▸ h0)

theorem wf_sendOuts (w : World) (s : Author) (outs : List Out)
    (h : WFworld w) (ho : ∀ o ∈ outs, WFmsg w.cfg o.2) :
    WFworld (sendOuts w s outs) := by
  refine ⟨h.1, ?_⟩
  intro e he
  rcases List.mem_append.mp he with hm | hm
  · exact h.2 e hm
  · obtain ⟨o, hoo, heq⟩ := List.mem_filterMap.mp hm
    split at heq
    · simp at heq
    · simp only [Option.some.injEq] at heq
      subst heq
      exact ho o hoo

theorem wf_recoverNode (cfg : Config) (st : NodeState) (h : WFnode cfg st) :
    WFnode cfg (recoverNode cfg st).1 ∧
      ∀ o ∈ (recoverNode cfg st).2, WFmsg cfg o.2 := by
  unfold recoverNode
  simp only []
  apply wf_enterRound
  obtain ⟨h1, h2, h3, h4, h5, h6, h7, h8, h9⟩ := h
  exact ⟨h1, h2, h3, h4, by intro v hv; simp at hv, by intro v hv; simp at hv,
    by intro p hp; simp at hp, by intro p hp; simp at hp,
    by intro c hc; simp at hc⟩

theorem wf_step (w : World) (c : Cmd) (h : WFworld w) : WFworld (step w c) := by
  obtain ⟨hn, hi⟩ := h
  cases c with
  | deliver s r =>
    simp only [step]
    cases htk : takeFirstWire w.inflight s r with
    | none => exact ⟨hn, hi⟩
    | some p =>
      obtain ⟨m, rest⟩ := p
      have hwire := takeFirstWire_spec w.inflight s r m rest htk
      cases hg : getNode w r with
      | none => exact ⟨hn, fun e he => hi e (hwire.2 e he)⟩
      | some st =>
        have hst := hn st (List.mem_of_find?_eq_some hg)
        have hmsg : WFmsg w.cfg m := hi (s, r, m) hwire.1
        have hp := wf_processMsg w.cfg st s m hst hmsg
        simp only []
        apply wf_sendOuts
        · constructor
          · intro x hx
            rcases setNode_nodes _ _ x hx with rfl | hx2
            · exact hp.1
            · exact hn x hx2
          · intro e he
            exact hi e (hwire.2 e he)
        · exact hp.2
  | timeout a =>
    simp only [step]
    cases hg : getNode w a with
    | none => exact ⟨hn, hi⟩
    | some st =>
      have hst := hn st (List.mem_of_find?_eq_some hg)
      have hp := wf_processLocalTimeout w.cfg st hst
      simp only []
      apply wf_sendOuts
      · constructor
        · intro x hx
          rcases setNode_nodes _ _ x hx with rfl | hx2
          · exact hp.1
          · exact hn x hx2
        · exact hi
      · exact hp.2
  | drop s r =>
    exact ⟨hn, fun e he => hi e (List.mem_of_mem_filter he)⟩
  | stopDrop s r => exact ⟨hn, hi⟩
  | restart a =>
    simp only [step]
    cases hg : getNode w a with
    | none => exact ⟨hn, hi⟩
    | some st =>
      have hst := hn st (List.mem_of_find?_eq_some hg)
      have hp := wf_recoverNode w.cfg st hst
      simp only []
      apply wf_sendOuts
      · constructor
        · intro x hx
          rcases setNode_nodes _ _ x hx with rfl | hx2
          · exact hp.1
          · exact hn x hx2
        · exact hi
      · exact hp.2
  | clearNetwork => exact ⟨hn, by intro e he; simp [step] at he⟩

theorem wf_initNode (cfg : Config) (a : Author) (ha : a ∈ validators cfg) :
    WFnode cfg (initNode a) := by
  refine ⟨ha, ?_, wf_genesisQC cfg, wf_genesisQC cfg,
    by intro v hv; simp [initNode] at hv,
    by intro v hv; simp [initNode] at hv,
    by intro p hp; simp [initNode] at hp,
    by intro p hp; simp [initNode] at hp,
    by intro c hc; simp [initNode] at hc⟩
  intro b hb
  simp only [initNode, List.mem_singleton] at hb
  subst hb
  exact wf_genesisQC cfg

theorem startupStep_cfg (cfg : Config) (w : World) (a : Author) :
    (startupStep cfg w a).cfg = w.cfg := by
  unfold startupStep
  cases getNode w a with
  | none => rfl
  | some st => rfl

theorem wf_startupStep (cfg : Config) (w : World) (a : Author)
    (h : WFworld w) (hc : w.cfg = cfg) : WFworld (startupStep cfg w a) := by
  unfold startupStep
  cases hg : getNode w a with
  | none => exact h
  | some st =>
    have hst := h.1 st (List.mem_of_find?_eq_some hg)
    subst hc
    have hp := wf_enterRound w.cfg st 1 hst
    simp only []
    apply wf_sendOuts
    · constructor
      · intro x hx
        rcases setNode_nodes _ _ x hx with rfl | hx2
        · exact hp.1
        · exact h.1 x hx2
      · exact h.2
    · exact hp.2

theorem wf_startupFold (cfg : Config) (l : List Author) :
    ∀ w : World, WFworld w → w.cfg = cfg →
      WFworld (l.foldl (startupStep cfg) w) ∧
        (l.foldl (startupStep cfg) w).cfg = cfg := by
  induction l with
  | nil => intro w h hc; exact ⟨h, hc⟩
  | cons a tl ih =>
    intro w h hc
    simp only [List.foldl_cons]
    exact ih (startupStep cfg w a) (wf_startupStep cfg w a h hc)
      ((startupStep_cfg cfg w a).trans hc)

theorem wf_startup (cfg : Config) :
    WFworld (startup cfg) ∧ (startup cfg).cfg = cfg := by
  unfold startup
  apply wf_startupFold
  · constructor
    · intro st hst
      obtain ⟨a, ha, rfl⟩ := List.mem_map.mp hst
      exact wf_initNode cfg a ha
    · intro e he
      simp at he
  · rfl

theorem step_cfg (w : World) (c : Cmd) : (step w c).cfg = w.cfg := by
  cases c with
  | deliver s r =>
    simp only [step]
    cases takeFirstWire w.inflight s r with
    | none => rfl
    | some p =>
      obtain ⟨m, rest⟩ := p
      cases getNode w r with
      | none => rfl
      | some st => rfl
  | timeout a =>
    simp only [step]
    cases getNode w a with
    | none => rfl
    | some st => rfl
  | drop s r => rfl
  | stopDrop s r => rfl
  | restart a =>
    simp only [step]
    cases getNode w a with
    | none => rfl
    | some st => rfl
  | clearNetwork => rfl

theorem wf_runFromFold (l : List Cmd) :
    ∀ w : World, WFworld w → WFworld (runFrom w l) ∧ (runFrom w l).cfg = w.cfg := by
  induction l with
  | nil => intro w h; exact ⟨h, rfl⟩
  | cons c tl ih =>
    intro w h
    have hs := wf_step w c h
    have := ih (step w c) hs
    exact ⟨this.1, this.2.trans (step_cfg w c)⟩

theorem wf_run (cfg : Config) (cmds : List Cmd) :
    WFworld (run cfg cmds) ∧ (run cfg cmds).cfg = cfg := by
  unfold run
  have hs := wf_startup cfg
  have := wf_runFromFold cmds (startup cfg) hs.1
  exact ⟨this.1, this.2.trans hs.2⟩

set_option maxRecDepth 1000000 in
set_option maxHeartbeats 16000000 in
/-- C9: on every run of the modelled cluster, under any configuration and
any command schedule, every `LedgerInfoWithSignatures` handed to a commit
callback passes `verify_finality_proof`: each of its signatures is by a
validator of the epoch and signs exactly the committed ledger info. -/
theorem commit_finality_proofs_verify (cfg : Config) (cmds : List Cmd) :
    ∀ st ∈ (run cfg cmds).nodes, ∀ c ∈ st.commits,
      verify_finality_proof cfg c = true := by
  intro st hst c hc
  have hw := wf_run cfg cmds
  have hn := hw.1.1 st hst
  rw [hw.2] at hn
  have hliws := hn.2.2.2.2.2.2.2.2 c hc
  unfold verify_finality_proof
  rw [List.all_eq_true]
  intro sig hsig
  have hs := hliws sig hsig
  unfold verify_signature
  simp [hs.1, hs.2]

set_option maxRecDepth 1000000 in
set_option maxHeartbeats 16000000 in
/-- Witness for C9 at a concrete run: the twelve-step schedule `c9cmds` on
the two-node fixed-proposer cluster produces a commit at the proposer, and
its finality proof verifies. -/
theorem commit_finality_proofs_verify_witness :
    verify_finality_proof cfg2Fix
        (((run cfg2Fix c9cmds).nodes.headD (initNode 0)).commits.headD
          { ledger_info := genesisLedgerInfo, signatures := [] }) = true :=
  commit_finality_proofs_verify cfg2Fix c9cmds
    ((run cfg2Fix c9cmds).nodes.headD (initNode 0)) (by decide)
    (((run cfg2Fix c9cmds).nodes.headD (initNode 0)).commits.headD
      { ledger_info := genesisLedgerInfo, signatures := [] }) (by decide)

end ChainedBFT

namespace LibraSwarm

theorem check_connectivity_true_iff (metric : Option Int) (expected : Int) :
    check_connectivity metric expected = true ↔ metric = some expected := by
  cases metric with
  | none => simp [check_connectivity]
  | some n =>
    simp only [check_connectivity, Option.some.injEq]
    by_cases h : n = expected
    · simp [h]
    · simp [h]

theorem connectivityAttempt_true_iff {α : Type} (nodes : List α)
    (metric : α → Option Int) :
    connectivityAttempt nodes metric = true ↔
      ∀ node ∈ nodes, metric node = some ((nodes.length : Int) - 1) := by
  unfold connectivityAttempt
  rw [List.all_eq_true]
  constructor
  · intro h node hn
    exact (check_connectivity_true_iff _ _).mp (h node hn)
  · intro h node hn
    exact (check_connectivity_true_iff _ _).mpr (h node hn)

theorem connectivity_attempts_ok_iff {α : Type} (nodes : List α)
    (get_metric : Nat → α → Option Int) :
    ∀ fuel i,
      (connectivity_attempts nodes get_metric i fuel = .ok () ↔
        ∃ j, j < fuel ∧ connectivityAttempt nodes (get_metric (i + j)) = true) := by
  intro fuel
  induction fuel with
  | zero =>
    intro i
    simp [connectivity_attempts]
  | succ f ih =>
    intro i
    unfold connectivity_attempts
    by_cases h : connectivityAttempt nodes (get_metric i) = true
    · rw [if_pos h]
      constructor
      · intro _
        exact ⟨0, Nat.succ_pos f, by simpa using h⟩
      · intro _
        rfl
    · rw [if_neg h, ih (i + 1)]
      constructor
      · rintro ⟨j, hj, hcon⟩
        refine ⟨j + 1, by omega, ?_⟩
        rwa [show i + (j + 1) = i + 1 + j by omega]
      · rintro ⟨j, hj, hcon⟩
        cases j with
        | zero => exact absurd (by simpa using hcon) h
        | succ k =>
          refine ⟨k, by omega, ?_⟩
          rwa [show i + 1 + k = i + (k + 1) by omega]

theorem connectivity_attempts_ok_or_timeout {α : Type} (nodes : List α)
    (get_metric : Nat → α → Option Int) :
    ∀ fuel i, connectivity_attempts nodes get_metric i fuel = .ok () ∨
      connectivity_attempts nodes get_metric i fuel =
        .error .ConnectivityTimeout := by
  intro fuel
  induction fuel with
  | zero =>
    intro i
    right
    rfl
  | succ f ih =>
    intro i
    unfold connectivity_attempts
    by_cases h : connectivityAttempt nodes (get_metric i) = true
    · rw [if_pos h]
      left
      rfl
    · rw [if_neg h]
      exact ih (i + 1)

/-- C10: a swarm with exactly one validator waits for connectivity
successfully without consulting any metric (the result is `Ok(())` for
every metric oracle); with two or more validators, `wait_for_connectivity`
returns `Ok(())` exactly when within the 60 attempts some attempt has every
validator reporting `validator_nodes.len() - 1` connected peers, and
returns `Err(ConnectivityTimeout)` otherwise. -/
theorem wait_for_connectivity_spec {α : Type} (nodes : List α)
    (get_metric : Nat → α → Option Int) :
    (nodes.length = 1 →
      ∀ g : Nat → α → Option Int,
        wait_for_connectivity nodes g = .ok ()) ∧
    (2 ≤ nodes.length →
      ((wait_for_connectivity nodes get_metric = .ok ()) ↔
        ∃ i, i < 60 ∧ ∀ node ∈ nodes,
          get_metric i node = some ((nodes.length : Int) - 1)) ∧
      ((¬ ∃ i, i < 60 ∧ ∀ node ∈ nodes,
          get_metric i node = some ((nodes.length : Int) - 1)) →
        wait_for_connectivity nodes get_metric =
          .error .ConnectivityTimeout)) := by
  constructor
  · intro h1 g
    unfold wait_for_connectivity
    rw [if_pos h1]
  · intro h2
    have hne : ¬ nodes.length = 1 := by omega
    constructor
    · unfold wait_for_connectivity
      rw [if_neg hne, connectivity_attempts_ok_iff nodes get_metric 60 0]
      constructor
      · rintro ⟨j, hj, hcon⟩
        exact ⟨j, hj,
          (connectivityAttempt_true_iff _ _).mp (by simpa using hcon)⟩
      · rintro ⟨i, hi, hall⟩
        exact ⟨i, hi,
          by simpa using (connectivityAttempt_true_iff _ _).mpr hall⟩
    · intro hno
      unfold wait_for_connectivity
      rw [if_neg hne]
      rcases connectivity_attempts_ok_or_timeout nodes get_metric 60 0 with
        hok | herr
      · exfalso
        apply hno
        obtain ⟨j, hj, hcon⟩ :=
          (connectivity_attempts_ok_iff nodes get_metric 60 0).mp hok
        exact ⟨j, hj,
          (connectivityAttempt_true_iff _ _).mp (by simpa using hcon)⟩
      · exact herr

/-- Witness for C10: a two-node swarm whose oracle reports one connected
peer at every attempt succeeds, and a one-node swarm succeeds even when the
oracle never answers. -/
theorem wait_for_connectivity_spec_witness :
    wait_for_connectivity [0, 1] (fun _ _ => some 1) = Except.ok () ∧
    wait_for_connectivity [(0 : Nat)] (fun _ _ => none) = Except.ok () :=
  ⟨((wait_for_connectivity_spec [0, 1] (fun _ _ => some 1)).2
      (by decide)).1.mpr ⟨0, by decide, by decide⟩,
   (wait_for_connectivity_spec [(0 : Nat)] (fun _ _ => some 1)).1
      (by decide) (fun _ _ => none)⟩

end LibraSwarm
